import Mathlib

/-!
# Hardware composer: composition decision engine and buffer lifecycle

A shallow embedding of `libhwcomposer/badger/hwcomposer.cpp` (with the helpers of
`liboverlay/badger/src/overlayUtils.cpp` it calls) and theorems about it.

Conventions of the embedding.

* The build is the one with `COMPOSITION_BYPASS` defined; `HDMI_DUAL_DISPLAY` and
  `HDMI_AS_PRIMARY` are fields of `Hdr` and are branched on where the source has `#if`.
* Constants, macros and inline helpers that come from platform headers which are not
  part of the sources at hand (`hardware/hwcomposer.h`, `qcom_ui.h`, `gralloc_priv.h`,
  `overlayUtils.h`, ...) are the fields of `Hdr`; every definition takes them as a parameter.
* C `int` values are `Int`, `size_t` / `uint32_t` values and flag words are `Nat`.
  `word & MASK` used as a condition is `hasBits`, `word &= ~MASK` is `clearBits`,
  `word |= MASK` is `|||`.
* A buffer handle (`native_handle_t*`, `private_handle_t*`) is its address, a `Nat`,
  with `0` for `NULL`; the buffers live in `World.heap`.
* Calls into external collaborators (overlay pipes, genlock, EGL, property store, sysfs)
  return what the environment `Env` answers for the running call number `World.tick`;
  every such call advances the tick, so that any sequence of outcomes can be expressed.
  The calls that matter for the lifecycle are appended to `World.trace`.
* `ctx` and `ctx->mOverlayLibObject` are the non-null objects `hwc_device_open` builds.
* Where the source dereferences `hwcModule->copybitEngine` or `hwcModule->fbDevice` without
  a test of the pointer and the pointer is `NULL`, the program stops there. The embedding
  appends `Event.nullDereference` to the trace at that point, and the function that
  dereferences makes none of the calls it would go on to make. The functions stay total
  and their callers carry on: what the trace holds after such an event, and the status and
  the device given back, describe no run of the program, and the theorems about the calls
  of a run leave such runs aside.
-/

namespace Hwc

/-! ## Machine words -/

/-- The C truth value of `word & mask`. -/
def hasBits (word mask : Nat) : Bool := (word &&& mask) != 0

/-- The C expression `word & ~mask`: every bit of `mask` is removed from `word`. -/
def clearBits (word mask : Nat) : Nat := word ^^^ (word &&& mask)

/-- Conversion of a C `int` to `uint32_t`. -/
def toU32 (x : Int) : Nat := (x % 4294967296).toNat

/-! ## Enumerations -/

inductive BypassState where
  | BYPASS_ON
  | BYPASS_OFF
  | BYPASS_OFF_PENDING
deriving DecidableEq, Repr

inductive BypassBufferLockState where
  | BYPASS_BUFFER_UNLOCKED
  | BYPASS_BUFFER_LOCKED
deriving DecidableEq, Repr

inductive eHWCOverlayStatus where
  | HWC_OVERLAY_OPEN
  | HWC_OVERLAY_PREPARE_TO_CLOSE
  | HWC_OVERLAY_CLOSED
deriving DecidableEq, Repr

/-- Type of external display (`qcom_ui.h`); `EXT_TYPE_NONE` is the zero value. -/
inductive external_display_type where
  | EXT_TYPE_NONE
  | EXT_TYPE_HDMI
  | EXT_TYPE_WIFI
deriving DecidableEq, Repr

/-- The overlay states named by `hwcomposer.cpp` (`ovutils::eOverlayState`). -/
inductive eOverlayState where
  | OV_CLOSED
  | OV_2D_VIDEO_ON_PANEL
  | OV_2D_VIDEO_ON_PANEL_TV
  | OV_3D_VIDEO_ON_2D_PANEL
  | OV_3D_VIDEO_ON_3D_PANEL
  | OV_3D_VIDEO_ON_3D_TV
  | OV_3D_VIDEO_ON_2D_PANEL_2D_TV
  | OV_UI_MIRROR
  | OV_2D_TRUE_UI_MIRROR
  | OV_BYPASS_1_LAYER
  | OV_BYPASS_2_LAYER
  | OV_BYPASS_3_LAYER
deriving DecidableEq, Repr

/-- Pipe destinations used by `hwcomposer.cpp` (`ovutils::eDest`);
`OV_PIPE0_PIPE1` stands for `OV_PIPE0 | OV_PIPE1`. -/
inductive eDest where
  | OV_PIPE0
  | OV_PIPE1
  | OV_PIPE2
  | OV_PIPE0_PIPE1
  | OV_PIPE_ALL
deriving DecidableEq, Repr

/-- Result of a genlock call (`genlock.h`): the code compares it both against
`GENLOCK_NO_ERROR` and against `GENLOCK_FAILURE`. -/
inductive genlock_status_t where
  | GENLOCK_NO_ERROR
  | GENLOCK_TIMEOUT
  | GENLOCK_FAILURE
deriving DecidableEq, Repr

/-! ## Header constants and build switches -/

/-- Constants, macros and inline helpers of the platform headers, and the build switches. -/
structure Hdr where
  HDMI_DUAL_DISPLAY : Bool
  HDMI_AS_PRIMARY : Bool
  HWC_SKIP_LAYER : Nat
  HWC_LAYER_NOT_UPDATING : Nat
  HWC_LAYER_ASYNCHRONOUS : Nat
  HWC_USE_ORIGINAL_RESOLUTION : Nat
  HWC_DO_NOT_USE_OVERLAY : Nat
  HWC_COMP_BYPASS : Nat
  HWC_BYPASS_INDEX_MASK : Nat
  HWC_SKIP_COMPOSITION : Nat
  HWC_HINT_CLEAR_FB : Nat
  HWC_HINT_DRAW_S3D_SIDE_BY_SIDE : Nat
  HWC_HINT_DRAW_S3D_TOP_BOTTOM : Nat
  HWC_FRAMEBUFFER : Int
  HWC_USE_OVERLAY : Int
  HWC_USE_COPYBIT : Int
  FINAL_TRANSFORM_MASK : Nat
  HWC_TRANSFORM_ROT_90 : Nat
  HWC_TRANSFORM_ROT_270 : Nat
  COMPOSITION_TYPE_CPU : Nat
  COMPOSITION_TYPE_C2D : Nat
  COMPOSITION_TYPE_MDP : Nat
  COMPOSITION_TYPE_DYN : Nat
  PRIV_FLAGS_HWC_LOCK : Nat
  PRIV_FLAGS_NONCONTIGUOUS_MEM : Nat
  PRIV_FLAGS_SECURE_BUFFER : Nat
  BUFFER_TYPE_VIDEO : Int
  HAL_3D_IN_SIDE_BY_SIDE_L_R : Nat
  HAL_3D_IN_SIDE_BY_SIDE_R_L : Nat
  HAL_3D_IN_TOP_BOTTOM : Nat
  SHIFT_TOT_3D : Nat
  format3D : Nat → Nat
  format3DInput : Nat → Nat
  format3DOutput : Nat → Nat
  isRgb : Int → Bool
  HAL_PIXEL_FORMAT_RGBA_8888 : Int
  HAL_PIXEL_FORMAT_BGRA_8888 : Int
  HAL_PIXEL_FORMAT_RGB_565 : Int
  HAL_PIXEL_FORMAT_RGBX_8888 : Int
  HAL_PIXEL_FORMAT_YCbCr_422_SP : Int
  HAL_PIXEL_FORMAT_YCrCb_422_SP : Int
  HAL_PIXEL_FORMAT_YCbCr_420_SP : Int
  HAL_PIXEL_FORMAT_YCrCb_420_SP : Int
  HAL_PIXEL_FORMAT_YCbCr_420_SP_TILED : Int
  HAL_PIXEL_FORMAT_YV12 : Int
  MDP_RGBA_8888 : Int
  MDP_BGRA_8888 : Int
  MDP_RGB_565 : Int
  MDP_RGBX_8888 : Int
  MDP_Y_CBCR_H2V1 : Int
  MDP_Y_CRCB_H2V1 : Int
  MDP_Y_CBCR_H2V2 : Int
  MDP_Y_CRCB_H2V2 : Int
  MDP_Y_CBCR_H2V2_TILE : Int
  MDP_Y_CR_CB_H2V2 : Int
  VIDEO_OVERLAY_ENDED : Int
  VIDEO_2D_OVERLAY_STARTED : Int
  VIDEO_3D_OVERLAY_STARTED : Int
  HWC_EGL_ERROR : Int
  genlockCode : genlock_status_t → Int

/-! ## Data model -/

/-- The fields of a gralloc buffer handle the composer reads or writes. -/
structure private_handle_t where
  flags : Nat
  bufferType : Int
  format : Int
  width : Int
  height : Int
  size : Int
  fd : Int
  offset : Nat
deriving DecidableEq, Repr

structure hwc_rect_t where
  left : Int
  top : Int
  right : Int
  bottom : Int
deriving DecidableEq, Repr

/-- One layer of the frame; `handle` is the address of its buffer (`0` is `NULL`). -/
structure hwc_layer_t where
  compositionType : Int
  hints : Nat
  flags : Nat
  handle : Nat
  transform : Nat
  blending : Int
  alpha : Int
  sourceCrop : hwc_rect_t
  displayFrame : hwc_rect_t
deriving DecidableEq, Repr

/-- The layer list; `numHwLayers` is the length of `hwLayers`. -/
structure hwc_layer_list_t where
  flags : Nat
  hwLayers : List hwc_layer_t
deriving DecidableEq, Repr

def hwc_layer_list_t.numHwLayers (list : hwc_layer_list_t) : Nat := list.hwLayers.length

/-- An array of `MAX_BYPASS_LAYERS` (3) entries. -/
structure Slots (α : Type) where
  s0 : α
  s1 : α
  s2 : α
deriving DecidableEq, Repr

def MAX_BYPASS_LAYERS : Nat := 3

def BYPASS_INDEX_OFFSET : Nat := 4

/-- Array read `a[i]`; the code only indexes with `0 ≤ i < MAX_BYPASS_LAYERS`. -/
def Slots.get {α : Type} (a : Slots α) (i : Nat) : α :=
  match i with
  | 0 => a.s0
  | 1 => a.s1
  | _ => a.s2

/-- Array write `a[i] = v`. -/
def Slots.set {α : Type} (a : Slots α) (i : Nat) (v : α) : Slots α :=
  match i with
  | 0 => { a with s0 := v }
  | 1 => { a with s1 := v }
  | 2 => { a with s2 := v }
  | _ => a

structure framebuffer_device_t where
  width : Int
  height : Int
deriving DecidableEq, Repr

/-- The module: `copybitEngine` records whether the engine pointer is non-null. -/
structure private_hwc_module_t where
  copybitEngine : Bool
  fbDevice : Option framebuffer_device_t
  compositionType : Nat
  isBypassEnabled : Bool
deriving DecidableEq, Repr

/-- The private state of `hwc_context_t`. `idleInvalidator` and `procs` record whether the
pointer (`ctx->idleInvalidator`, `ctx->device.reserved_proc[0]`) is non-null. -/
structure hwc_context_t where
  previousOverlayHandle : Nat
  currentOverlayHandle : Nat
  yuvBufferCount : Int
  numLayersNotUpdating : Int
  s3dLayerFormat : Nat
  numHwLayers : Int
  skipComposition : Bool
  previousBypassHandle : Slots Nat
  bypassBufferLockState : Slots BypassBufferLockState
  layerindex : Slots Int
  nPipesUsed : Nat
  bypassState : BypassState
  idleInvalidator : Bool
  mHDMIEnabled : external_display_type
  pendingHDMI : Bool
  forceComposition : Bool
  previousLayerCount : Int
  hwcOverlayStatus : eHWCOverlayStatus
  swapInterval : Int
  procs : Bool
deriving DecidableEq, Repr

/-! ## The crop clamp (`calculate_crop_rects`) -/

/-- The floating-point expressions of `calculate_crop_rects`, as functions of the integers
they are computed from. With `scale = extent * 1.0f / dstExtent` and
`diff_factor = scale * amount`: `truncScaled extent dstExtent amount` is `(int)diff_factor`,
`addScaled edge extent dstExtent amount` is `edge + diff_factor` converted to `int`, and
`subScaled edge extent dstExtent amount` is `edge - diff_factor` converted to `int`. -/
structure CropArith where
  truncScaled : Int → Int → Int → Int
  addScaled : Int → Int → Int → Int → Int
  subScaled : Int → Int → Int → Int → Int

/-- The references and locals of `calculate_crop_rects`. -/
structure CropState where
  crop : hwc_rect_t
  dst : hwc_rect_t
  crop_w : Int
  crop_h : Int
  dst_w : Int
  dst_h : Int
deriving DecidableEq, Repr

/-- The block `if(dst_x < 0)` of `calculate_crop_rects`. -/
def clampLeft (F : CropArith) (s : CropState) : CropState :=
  if s.dst.left < 0 then
    { s with
      crop := { s.crop with
        left := s.crop.left + F.truncScaled s.crop_w s.dst_w (s.dst.left.natAbs : Int) },
      crop_w := s.crop.right
        - (s.crop.left + F.truncScaled s.crop_w s.dst_w (s.dst.left.natAbs : Int)),
      dst := { s.dst with left := 0 },
      dst_w := s.dst.right - 0 }
  else s

/-- The block `if(dst_r > hw_w)` of `calculate_crop_rects`. -/
def clampRight (F : CropArith) (hw_w : Int) (s : CropState) : CropState :=
  if s.dst.right > hw_w then
    { s with
      crop := { s.crop with
        right := F.subScaled s.crop.right s.crop_w s.dst_w (s.dst.right - hw_w) },
      crop_w := F.subScaled s.crop.right s.crop_w s.dst_w (s.dst.right - hw_w) - s.crop.left,
      dst := { s.dst with right := hw_w },
      dst_w := hw_w - s.dst.left }
  else s

/-- The block `if(dst_y < 0)` of `calculate_crop_rects`. -/
def clampTop (F : CropArith) (s : CropState) : CropState :=
  if s.dst.top < 0 then
    { s with
      crop := { s.crop with
        top := F.addScaled s.crop.top s.crop_h s.dst_h (s.dst.top.natAbs : Int) },
      crop_h := s.crop.bottom
        - F.addScaled s.crop.top s.crop_h s.dst_h (s.dst.top.natAbs : Int),
      dst := { s.dst with top := 0 },
      dst_h := s.dst.bottom - 0 }
  else s

/-- The block `if(dst_b > hw_h)` of `calculate_crop_rects`. -/
def clampBottom (F : CropArith) (hw_h : Int) (s : CropState) : CropState :=
  if s.dst.bottom > hw_h then
    { s with
      crop := { s.crop with
        bottom := F.subScaled s.crop.bottom s.crop_h s.dst_h (s.dst.bottom - hw_h) },
      crop_h := F.subScaled s.crop.bottom s.crop_h s.dst_h (s.dst.bottom - hw_h) - s.crop.top,
      dst := { s.dst with bottom := hw_h },
      dst_h := hw_h - s.dst.top }
  else s

/-- Crops source buffer against destination and FB boundaries; returns the crop and the
destination rectangles as the caller finds them. -/
def calculate_crop_rects (F : CropArith) (crop dst : hwc_rect_t) (hw_w hw_h : Int) :
    hwc_rect_t × hwc_rect_t :=
  let s : CropState :=
    { crop := crop, dst := dst,
      crop_w := crop.right - crop.left, crop_h := crop.bottom - crop.top,
      dst_w := dst.right - dst.left, dst_h := dst.bottom - dst.top }
  let s := clampBottom F hw_h (clampTop F (clampRight F hw_w (clampLeft F s)))
  (s.crop, s.dst)

/-- A stand-in for the floating-point expressions: exact rational scaling, rounded down. -/
def refCropArith : CropArith :=
  { truncScaled := fun extent dstExtent amount => extent * amount / dstExtent
    addScaled := fun edge extent dstExtent amount => edge + extent * amount / dstExtent
    subScaled := fun edge extent dstExtent amount => edge - extent * amount / dstExtent }

/-! ## Calls, collaborators and the device -/

/-- Calls into the collaborators that the lifecycle properties speak about, the calls of
`calculate_crop_rects` with the rectangles they are given and the rectangles they leave,
and the events `fbDev->perform(fbDev, EVENT_RESET_POSTBUFFER, NULL)` and
`fbDev->perform(fbDev, EVENT_WAIT_POSTBUFFER, NULL)`. `nullDereference` is not a call: it
marks the point at which the program dereferences a `NULL` pointer and stops. -/
inductive Event where
  | genlock_lock (hnd : Nat) (result : genlock_status_t)
  | genlock_unlock (hnd : Nat) (result : genlock_status_t)
  | setState (state : eOverlayState)
  | setSource (dest : eDest) (wait : Bool) (isFg : Bool) (result : Bool)
  | queueBuffer (dest : eDest) (offset : Nat) (result : Bool)
  | closeChannel (pipe : Nat)
  | videoOverlay (value : Int)
  | externalDisplay (value : external_display_type)
  | markForSleep
  | eglSwapBuffers (result : Bool)
  | invalidate
  | resetPostBuffer
  | waitPostBuffer
  | calculate_crop_rects (crop dst : hwc_rect_t) (hw_w hw_h : Int) (newCrop newDst : hwc_rect_t)
  | nullDereference
deriving DecidableEq, Repr

/-- Answers of the external collaborators, by call number. `validate n` is true when
`private_handle_t::validate` returns 0 (a valid handle); `renderBuffer n` is the handle of
the buffer `eglGetRenderBufferANDROID` returns (`none` for a `NULL` buffer);
`copybitOutOfLimits` and `copybitScaleTwice` are the two floating-point scale tests of
`drawLayerUsingCopybit`; `stray i` is what an array read `list->hwLayers[i]` outside the
list finds in memory; `cropArith` is the floating-point arithmetic of
`calculate_crop_rects`. -/
structure Env where
  ovResult : Nat → Bool
  validate : Nat → Bool
  genlock_lock_buffer : Nat → genlock_status_t
  genlock_unlock_buffer : Nat → genlock_status_t
  eglSwapBuffers : Nat → Bool
  swapintervalProperty : Nat → Option Int
  is3DTV : Nat → Bool
  usePanel3D : Nat → Bool
  supportTrueMirroring : Nat → Bool
  renderBuffer : Nat → Option Nat
  copybitOutOfLimits : Nat → Bool
  copybitScaleTwice : Nat → Bool
  alloc_buffer : Nat → Bool
  stretch : Nat → Int
  stray : Int → hwc_layer_t
  cropArith : CropArith

/-- The device: context, module (`ctx->device.common.module`, `none` for `NULL`),
buffers, state of the overlay object, call log and call counter. -/
structure World where
  ctx : hwc_context_t
  module : Option private_hwc_module_t
  heap : Nat → private_handle_t
  ovState : eOverlayState
  trace : List Event
  tick : Nat

/-- One more external call has been made. -/
def World.next (w : World) : World := { w with tick := w.tick + 1 }

def World.log (w : World) (e : Event) : World := { w with trace := w.trace ++ [e] }

/-- An update of fields of the context. -/
def World.modCtx (w : World) (f : hwc_context_t → hwc_context_t) : World :=
  { w with ctx := f w.ctx }

/-- The update `hnd->flags = f (hnd->flags)`. -/
def World.modHandleFlags (w : World) (hnd : Nat) (f : Nat → Nat) : World :=
  { w with heap := fun a =>
      if a = hnd then { w.heap hnd with flags := f (w.heap hnd).flags } else w.heap a }

/-! ## Overlay state (`getOverlayState`, `setOverlayState`) -/

/-- The `getMdpFormat` of `overlayUtils.cpp`. -/
def getMdpFormat (K : Hdr) (format : Int) : Int :=
  if format = K.HAL_PIXEL_FORMAT_RGBA_8888 then K.MDP_RGBA_8888
  else if format = K.HAL_PIXEL_FORMAT_BGRA_8888 then K.MDP_BGRA_8888
  else if format = K.HAL_PIXEL_FORMAT_RGB_565 then K.MDP_RGB_565
  else if format = K.HAL_PIXEL_FORMAT_RGBX_8888 then K.MDP_RGBX_8888
  else if format = K.HAL_PIXEL_FORMAT_YCbCr_422_SP then K.MDP_Y_CBCR_H2V1
  else if format = K.HAL_PIXEL_FORMAT_YCrCb_422_SP then K.MDP_Y_CRCB_H2V1
  else if format = K.HAL_PIXEL_FORMAT_YCbCr_420_SP then K.MDP_Y_CBCR_H2V2
  else if format = K.HAL_PIXEL_FORMAT_YCrCb_420_SP then K.MDP_Y_CRCB_H2V2
  else if format = K.HAL_PIXEL_FORMAT_YCbCr_420_SP_TILED then K.MDP_Y_CBCR_H2V2_TILE
  else if format = K.HAL_PIXEL_FORMAT_YV12 then K.MDP_Y_CR_CB_H2V2
  else -1

/-- The `getS3DFormat` of `overlayUtils.cpp`, on `uint32_t` words. -/
def getS3DFormat (K : Hdr) (fmt : Nat) : Nat :=
  if fmt = toU32 K.HAL_PIXEL_FORMAT_YV12 then 0
  else
    let fmt3D := K.format3D fmt
    let fIn3D := K.format3DInput fmt3D
    let fOut3D := K.format3DOutput fmt3D
    let fmt3D := fIn3D ||| fOut3D
    let fmt3D := if fIn3D = 0 then (fmt3D ||| (fOut3D <<< K.SHIFT_TOT_3D)) % 4294967296 else fmt3D
    if fOut3D = 0 then
      if fIn3D = K.HAL_3D_IN_SIDE_BY_SIDE_L_R ∨ fIn3D = K.HAL_3D_IN_SIDE_BY_SIDE_R_L then
        fmt3D ||| (K.HAL_3D_IN_SIDE_BY_SIDE_L_R >>> K.SHIFT_TOT_3D)
      else fmt3D ||| (fIn3D >>> K.SHIFT_TOT_3D)
    else fmt3D

/-- Determine overlay state based on decoded video info. The sysfs and property reads
(`is3DTV`, `supportTrueMirroring`, `usePanel3D`) are external calls. -/
def getOverlayState (K : Hdr) (E : Env) (w : World) (bypassLayer : Nat) (format : Int) :
    eOverlayState × World :=
  let state := w.ovState
  if bypassLayer > 0 ∧ w.ctx.mHDMIEnabled = external_display_type.EXT_TYPE_NONE then
    if bypassLayer = 1 then (eOverlayState.OV_BYPASS_1_LAYER, w)
    else if bypassLayer = 2 then (eOverlayState.OV_BYPASS_2_LAYER, w)
    else if bypassLayer = 3 then (eOverlayState.OV_BYPASS_3_LAYER, w)
    else (state, w)
  else if K.isRgb (getMdpFormat K format) then (state, w)
  else
    let fmt3D := getS3DFormat K (toU32 format)
    match w.ctx.mHDMIEnabled with
    | external_display_type.EXT_TYPE_HDMI =>
      if fmt3D ≠ 0 then
        if E.is3DTV w.tick then (eOverlayState.OV_3D_VIDEO_ON_3D_TV, w.next)
        else (eOverlayState.OV_3D_VIDEO_ON_2D_PANEL_2D_TV, w.next)
      else
        if E.supportTrueMirroring w.tick then (eOverlayState.OV_2D_TRUE_UI_MIRROR, w.next)
        else (eOverlayState.OV_2D_VIDEO_ON_PANEL_TV, w.next)
    | external_display_type.EXT_TYPE_WIFI => (state, w)
    | external_display_type.EXT_TYPE_NONE =>
      if fmt3D ≠ 0 then
        if E.usePanel3D w.tick then (eOverlayState.OV_3D_VIDEO_ON_3D_PANEL, w.next)
        else (eOverlayState.OV_3D_VIDEO_ON_2D_PANEL, w.next)
      else (eOverlayState.OV_2D_VIDEO_ON_PANEL, w)

/-- Modelled from the spec: `OverlayMgr::setState` of liboverlay, whose source is not at
hand. The overlay state machine has one entry point that mutates the state (spec 3 and 4.3):
the target state becomes the state `ov.getState()` returns. -/
def ovMgr_setState (w : World) (state : eOverlayState) : World :=
  { w with ovState := state, trace := w.trace ++ [Event.setState state] }

/-- Set overlay state: nothing happens without a module or a framebuffer device. -/
def setOverlayState (w : World) (state : eOverlayState) : World :=
  match w.module with
  | none => w
  | some hwcModule =>
    match hwcModule.fbDevice with
    | none => w
    | some _ => ovMgr_setState w state

/-! ## Buffer locks -/

/-- A call of `genlock_unlock_buffer(hnd)`. -/
def genlock_unlock_buffer (E : Env) (w : World) (hnd : Nat) : genlock_status_t × World :=
  (E.genlock_unlock_buffer w.tick,
    (w.log (Event.genlock_unlock hnd (E.genlock_unlock_buffer w.tick))).next)

/-- A call of `genlock_lock_buffer(hnd, GENLOCK_READ_LOCK, GENLOCK_MAX_TIMEOUT)`. -/
def genlock_lock_buffer (E : Env) (w : World) (hnd : Nat) : genlock_status_t × World :=
  (E.genlock_lock_buffer w.tick,
    (w.log (Event.genlock_lock hnd (E.genlock_lock_buffer w.tick))).next)

/-- A call of `private_handle_t::validate(hnd)`; `true` when it returns 0. -/
def validate (E : Env) (w : World) : Bool × World := (E.validate w.tick, w.next)

/-- Return true if buffer is marked locked. -/
def isBufferLocked (K : Hdr) (w : World) (hnd : Nat) : Bool :=
  hnd != 0 && hasBits (w.heap hnd).flags K.PRIV_FLAGS_HWC_LOCK

/-- One iteration, for slot `i`, of the loop of `unlockPreviousBypassBuffers`. -/
def unlockPreviousBypassBuffer (K : Hdr) (E : Env) (w : World) (i : Nat) : World :=
  let hnd := w.ctx.previousBypassHandle.get i
  if hnd = 0 then w
  else
    let (valid, w) := validate E w
    if !valid then
      w.modCtx (fun c => { c with previousBypassHandle := c.previousBypassHandle.set i 0 })
    else if hasBits (w.heap hnd).flags K.PRIV_FLAGS_HWC_LOCK then
      let (r, w) := genlock_unlock_buffer E w hnd
      if r = genlock_status_t.GENLOCK_FAILURE then w
      else
        let w := w.modCtx (fun c => { c with previousBypassHandle := c.previousBypassHandle.set i 0 })
        w.modHandleFlags hnd (fun flags => clearBits flags K.PRIV_FLAGS_HWC_LOCK)
    else w

def unlockPreviousBypassBuffers (K : Hdr) (E : Env) (w : World) : World :=
  (List.range MAX_BYPASS_LAYERS).foldl (unlockPreviousBypassBuffer K E) w

def unsetBypassBufferLockState (w : World) : World :=
  w.modCtx (fun c => { c with bypassBufferLockState :=
    { s0 := BypassBufferLockState.BYPASS_BUFFER_UNLOCKED,
      s1 := BypassBufferLockState.BYPASS_BUFFER_UNLOCKED,
      s2 := BypassBufferLockState.BYPASS_BUFFER_UNLOCKED } })

/-- One iteration, for slot `i`, of the loop of `closeExtraPipes`. -/
def closeExtraPipe (K : Hdr) (E : Env) (w : World) (i : Nat) : World :=
  let hnd := w.ctx.previousBypassHandle.get i
  let w :=
    if hnd ≠ 0 then
      let (valid, w) := validate E w
      if valid then
        let (r, w) := genlock_unlock_buffer E w hnd
        if r = genlock_status_t.GENLOCK_FAILURE then w
        else
          let w := w.modCtx (fun c => { c with
            previousBypassHandle := c.previousBypassHandle.set i 0,
            bypassBufferLockState :=
              c.bypassBufferLockState.set i BypassBufferLockState.BYPASS_BUFFER_UNLOCKED })
          w.modHandleFlags hnd (fun flags => clearBits flags K.PRIV_FLAGS_HWC_LOCK)
      else
        w.modCtx (fun c => { c with previousBypassHandle := c.previousBypassHandle.set i 0 })
    else w
  let w := w.log (Event.closeChannel i)
  w.modCtx (fun c => { c with layerindex := c.layerindex.set i (-1) })

/-- The loop `for (i = pipes_used; i < MAX_BYPASS_LAYERS; i++)`. -/
def closeExtraPipes (K : Hdr) (E : Env) (w : World) : World :=
  ((List.range MAX_BYPASS_LAYERS).filter (fun i => decide (w.ctx.nPipesUsed ≤ i))).foldl
    (closeExtraPipe K E) w

/-- The two assignments `ctx->previousOverlayHandle = ctx->currentOverlayHandle;
ctx->currentOverlayHandle = NULL;` that end `unlockPreviousOverlayBuffer`. -/
def rotateOverlayHandles (c : hwc_context_t) : hwc_context_t :=
  { c with previousOverlayHandle := c.currentOverlayHandle, currentOverlayHandle := 0 }

def unlockPreviousOverlayBuffer (K : Hdr) (E : Env) (w : World) : World :=
  let hnd := w.ctx.previousOverlayHandle
  let w :=
    if hnd ≠ 0 then
      let (valid, w) := validate E w
      if valid && isBufferLocked K w hnd then
        let (r, w) := genlock_unlock_buffer E w hnd
        if r = genlock_status_t.GENLOCK_NO_ERROR then
          if hnd ≠ w.ctx.currentOverlayHandle then
            w.modHandleFlags hnd (fun flags => clearBits flags K.PRIV_FLAGS_HWC_LOCK)
          else w
        else w
      else w
    else w
  w.modCtx rotateOverlayHandles

/-! ## Layer predicates and frame statistics -/

/-- Returns true if we have a skip layer. -/
def isSkipLayer (K : Hdr) (layer : hwc_layer_t) : Bool := hasBits layer.flags K.HWC_SKIP_LAYER

/-- Returns true if the buffer is yuv. -/
def isYuvBuffer (K : Hdr) (w : World) (hnd : Nat) : Bool :=
  hnd != 0 && decide ((w.heap hnd).bufferType = K.BUFFER_TYPE_VIDEO)

def getLayerS3DFormat (K : Hdr) (w : World) (layer : hwc_layer_t) : Nat :=
  if layer.handle ≠ 0 then K.format3DInput (toU32 (w.heap layer.handle).format) else 0

/-- Mark layers for GPU composition but not if it is a 3D layer: the layers with index
below `limit` are rewritten, the others are kept. -/
def markForGPUComp (K : Hdr) (w : World) (list : hwc_layer_list_t) (limit : Nat) :
    hwc_layer_list_t :=
  { list with hwLayers :=
      (list.hwLayers.take limit).map (fun layer =>
        if getLayerS3DFormat K w layer ≠ 0 then layer
        else { layer with compositionType := K.HWC_FRAMEBUFFER,
                          hints := clearBits layer.hints K.HWC_HINT_CLEAR_FB })
      ++ list.hwLayers.drop limit }

/-- Inform the gralloc about the video overlay (only in the `HDMI_DUAL_DISPLAY` build). -/
def setVideoOverlayStatusInGralloc (K : Hdr) (w : World) (value : Int) : World :=
  if K.HDMI_DUAL_DISPLAY then
    match w.module with
    | none => w
    | some hwcModule =>
      match hwcModule.fbDevice with
      | none => w
      | some _ => w.log (Event.videoOverlay value)
  else w

def hwc_closeOverlayChannels (K : Hdr) (w : World) : World :=
  if w.ctx.hwcOverlayStatus = eHWCOverlayStatus.HWC_OVERLAY_PREPARE_TO_CLOSE then
    let w :=
      if w.ctx.mHDMIEnabled = external_display_type.EXT_TYPE_NONE then
        setOverlayState w eOverlayState.OV_CLOSED
      else setOverlayState w eOverlayState.OV_UI_MIRROR
    let w := setVideoOverlayStatusInGralloc K w K.VIDEO_OVERLAY_ENDED
    w.modCtx (fun c => { c with hwcOverlayStatus := eHWCOverlayStatus.HWC_OVERLAY_CLOSED })
  else w

/-- One call of a pipe programming primitive of the overlay object (`setParameter`,
`setCrop`, `setPosition`, `commit`, `waitForVsync`); its arguments do not flow back. -/
def ovCall (E : Env) (w : World) : Bool × World := (E.ovResult w.tick, w.next)

/-- The call `ov.setSource(pargs, dest)`; the wait and foreground fields of the pipe
arguments are logged. -/
def ov_setSource (E : Env) (w : World) (dest : eDest) (wait isFg : Bool) : Bool × World :=
  (E.ovResult w.tick, (w.log (Event.setSource dest wait isFg (E.ovResult w.tick))).next)

/-- The call `ov.queueBuffer(offset, dest)`. -/
def ov_queueBuffer (E : Env) (w : World) (offset : Nat) (dest : eDest) : Bool × World :=
  (E.ovResult w.tick, (w.log (Event.queueBuffer dest offset (E.ovResult w.tick))).next)

/-- The programming sequence shared by `prepareOverlay` and `prepareBypass`:
`setSource`, `setParameter`, `setCrop`, `setPosition`, `commit` on `dest`, in this order;
-1 at the first step that fails, 0 when all succeed. -/
def programPipes (E : Env) (w : World) (dest : eDest) (wait isFg : Bool) : Int × World :=
  let (ret, w) := ov_setSource E w dest wait isFg
  if !ret then (-1, w)
  else
    let (ret, w) := ovCall E w
    if !ret then (-1, w)
    else
      let (ret, w) := ovCall E w
      if !ret then (-1, w)
      else
        let (ret, w) := ovCall E w
        if !ret then (-1, w)
        else
          let (ret, w) := ovCall E w
          if !ret then (-1, w)
          else (0, w)

/-- The head of `prepareOverlay`: when bypass is not off, its pipes are closed
(`nPipesUsed = 0`, `closeExtraPipes`) and the bypass state becomes `BYPASS_OFF`. -/
def prepareOverlayCloseBypass (K : Hdr) (E : Env) (w : World) : World :=
  if w.ctx.bypassState ≠ BypassState.BYPASS_OFF then
    let w := w.modCtx (fun c => { c with nPipesUsed := 0 })
    let w := closeExtraPipes K E w
    w.modCtx (fun c => { c with bypassState := BypassState.BYPASS_OFF })
  else w

/-- The body of `prepareOverlay` after the bypass teardown: overlay state, then the
programming of the pipes. The pipe arguments wait for vsync when the frame skips
composition and set the foreground flag when the frame has one layer. -/
def prepareOverlayPipes (K : Hdr) (E : Env) (w : World) (layer : hwc_layer_t) : Int × World :=
  match w.module with
  | none => (-1, w)
  | some _ =>
    let hnd := layer.handle
    let (state, w) := getOverlayState K E w 0 (w.heap hnd).format
    let w := setOverlayState w state
    -- `ov.reconfigure(ReconfArgs())` is called here; its result is discarded
    let dest := if state = eOverlayState.OV_2D_TRUE_UI_MIRROR then eDest.OV_PIPE0_PIPE1
                else eDest.OV_PIPE_ALL
    programPipes E w dest w.ctx.skipComposition (decide (w.ctx.numHwLayers = 1))

/-- Configures mdp pipes. Returns 0 on success and -1 when a programming step fails. -/
def prepareOverlay (K : Hdr) (E : Env) (w : World) (layer : hwc_layer_t) : Int × World :=
  prepareOverlayPipes K E (prepareOverlayCloseBypass K E w) layer

/-- The frame-skip decision. As in the source, the video count that is tested is the one
cached in the context (`ctx->yuvBufferCount`), not the argument `yuvBufferCount`. -/
def canSkipComposition (K : Hdr) (w : World) (hwcModule : private_hwc_module_t)
    (yuvBufferCount currentLayerCount numLayersNotUpdating : Int) : Bool × World :=
  let _ := yuvBufferCount
  if w.ctx.forceComposition then (false, w)
  else if hwcModule.compositionType = K.COMPOSITION_TYPE_CPU then (false, w)
  else if w.ctx.yuvBufferCount = 1 then
    if currentLayerCount ≠ w.ctx.previousLayerCount then
      (false, w.modCtx (fun c => { c with previousLayerCount := currentLayerCount }))
    else if currentLayerCount = 1 ∨ currentLayerCount - 1 = numLayersNotUpdating then (true, w)
    else (false, w)
  else (false, w.modCtx (fun c => { c with previousLayerCount := -1 }))

def getLayerResolution (layer : hwc_layer_t) : Int × Int :=
  (layer.displayFrame.right - layer.displayFrame.left,
   layer.displayFrame.bottom - layer.displayFrame.top)

/-- Use copybit only when we need to blit max 2 full screen sized regions;
`renderArea` is an `unsigned int`. -/
def canUseCopybit (fbDev : Option framebuffer_device_t) (list : hwc_layer_list_t) : Bool :=
  match fbDev with
  | none => false
  | some fb =>
    let renderArea := list.hwLayers.foldl
      (fun acc layer => (acc + toU32 ((getLayerResolution layer).1 * (getLayerResolution layer).2))
                          % 4294967296) 0
    decide (renderArea ≤ toU32 (2 * fb.width * fb.height))

def isValidDestination (fbDev : Option framebuffer_device_t) (rect : hwc_rect_t) : Bool :=
  match fbDev with
  | none => false
  | some fb =>
    let dest_width := rect.right - rect.left
    let dest_height := rect.bottom - rect.top
    if rect.left < 0 ∨ rect.right < 0 ∨ rect.top < 0 ∨ rect.bottom < 0
        ∨ dest_width ≤ 0 ∨ dest_height ≤ 0 then false
    else if rect.left + dest_width > fb.width ∨ rect.top + dest_height > fb.height then false
    else true

/-- Reads `is3DTV()` in the `HDMI_AS_PRIMARY` build, false otherwise. -/
def isS3DCompositionRequired (K : Hdr) (E : Env) (w : World) : Bool × World :=
  if K.HDMI_AS_PRIMARY then (E.is3DTV w.tick, w.next) else (false, w)

def markUILayerForS3DComposition (K : Hdr) (layer : hwc_layer_t) (s3dVideoFormat : Nat) :
    hwc_layer_t :=
  if K.HDMI_AS_PRIMARY then
    let layer := { layer with compositionType := K.HWC_FRAMEBUFFER }
    if s3dVideoFormat = K.HAL_3D_IN_SIDE_BY_SIDE_L_R
        ∨ s3dVideoFormat = K.HAL_3D_IN_SIDE_BY_SIDE_R_L then
      { layer with hints := layer.hints ||| K.HWC_HINT_DRAW_S3D_SIDE_BY_SIDE }
    else if s3dVideoFormat = K.HAL_3D_IN_TOP_BOTTOM then
      { layer with hints := layer.hints ||| K.HWC_HINT_DRAW_S3D_TOP_BOTTOM }
    else layer
  else layer

/-- The three counters `statCount` accumulates over the layers, in the order
(yuvBufCount, layersNotUpdatingCount, s3dLayerFormat). -/
def statCountLayer (K : Hdr) (w : World) (acc : Int × Int × Nat) (layer : hwc_layer_t) :
    Int × Int × Nat :=
  let hnd := layer.handle
  if hnd ≠ 0 then
    let yuv :=
      if (w.heap hnd).bufferType = K.BUFFER_TYPE_VIDEO then
        if !hasBits layer.flags K.HWC_DO_NOT_USE_OVERLAY then acc.1 + 1 else acc.1
      else acc.1
    let notUpdating :=
      if (w.heap hnd).bufferType = K.BUFFER_TYPE_VIDEO then acc.2.1
      else if hasBits layer.flags K.HWC_LAYER_NOT_UPDATING then acc.2.1 + 1 else acc.2.1
    let s3d := if acc.2.2 ≠ 0 then acc.2.2 else K.format3DInput (toU32 (w.heap hnd).format)
    (yuv, notUpdating, s3d)
  else acc

/-- Loops through the list of hwc layers and caches the layer details. -/
def statCount (K : Hdr) (w : World) (list : hwc_layer_list_t) : World :=
  let counts := list.hwLayers.foldl (statCountLayer K w) (0, 0, 0)
  w.modCtx (fun c =>
    { c with yuvBufferCount := counts.1,
             s3dLayerFormat := counts.2.2,
             numLayersNotUpdating := counts.2.1,
             numHwLayers := (list.numHwLayers : Int) })

/-! ## The layer classifier (`hwc_prepare`) -/

/-- The local variables of `hwc_prepare` that the classification loop updates, with the
device and the list. -/
structure Frame where
  w : World
  list : hwc_layer_list_t
  isSkipLayerPresent : Bool
  layerType : Nat

/-- The locals of `hwc_prepare` as initialised before the per-layer loop. -/
def Frame.init (w : World) (list : hwc_layer_list_t) : Frame :=
  { w := w, list := list, isSkipLayerPresent := false, layerType := 0 }

/-- The assignment `list->hwLayers[i] = layer`. -/
def hwc_layer_list_t.setLayer (list : hwc_layer_list_t) (i : Nat) (layer : hwc_layer_t) :
    hwc_layer_list_t :=
  { list with hwLayers := list.hwLayers.set i layer }

def HWC_ORIG_RESOLUTION : Nat := 2

/-- The branch of the classification loop for a layer flagged `HWC_SKIP_LAYER`. -/
def classifySkipLayer (K : Hdr) (isS3DCompositionNeeded : Bool) (f : Frame) (i : Nat)
    (layer : hwc_layer_t) : Frame :=
  let w := f.w
  let w := w.modCtx (fun c => { c with skipComposition := false, previousLayerCount := -1 })
  let w :=
    if isYuvBuffer K w layer.handle then
      if w.ctx.hwcOverlayStatus = eHWCOverlayStatus.HWC_OVERLAY_OPEN then
        w.modCtx (fun c => { c with
          hwcOverlayStatus := eHWCOverlayStatus.HWC_OVERLAY_PREPARE_TO_CLOSE })
      else w
    else w
  let layer :=
    if isS3DCompositionNeeded then markUILayerForS3DComposition K layer w.ctx.s3dLayerFormat
    else layer
  let layer := { layer with compositionType := K.HWC_FRAMEBUFFER,
                            hints := clearBits layer.hints K.HWC_HINT_CLEAR_FB }
  { f with w := w, list := markForGPUComp K w (f.list.setLayer i layer) i,
           isSkipLayerPresent := true }

/-- The `if` / `else if` chain of the video branch: an invalid destination sends the layer
to the framebuffer, a configured pipe makes it an overlay layer, a failed configuration
falls back to copybit (C2D or MDP composition) or to the framebuffer. -/
def classifyVideoChoice (K : Hdr) (E : Env) (hwcModule : private_hwc_module_t) (w : World)
    (layer : hwc_layer_t) : hwc_layer_t × World :=
  if !isValidDestination hwcModule.fbDevice layer.displayFrame then
    let w := w.modCtx (fun c => { c with previousLayerCount := -1, skipComposition := false })
    ({ layer with compositionType := K.HWC_FRAMEBUFFER,
                  hints := clearBits layer.hints K.HWC_HINT_CLEAR_FB },
     if w.ctx.hwcOverlayStatus = eHWCOverlayStatus.HWC_OVERLAY_OPEN then
       w.modCtx (fun c => { c with
         hwcOverlayStatus := eHWCOverlayStatus.HWC_OVERLAY_PREPARE_TO_CLOSE })
     else w)
  else
    let r := prepareOverlay K E w layer
    if r.1 = 0 then
      ({ layer with compositionType := K.HWC_USE_OVERLAY,
                    hints := layer.hints ||| K.HWC_HINT_CLEAR_FB },
       r.2.modCtx (fun c => { c with hwcOverlayStatus := eHWCOverlayStatus.HWC_OVERLAY_OPEN }))
    else if hasBits hwcModule.compositionType
        (K.COMPOSITION_TYPE_C2D ||| K.COMPOSITION_TYPE_MDP) then
      ({ layer with compositionType := K.HWC_USE_COPYBIT }, r.2)
    else ({ layer with compositionType := K.HWC_FRAMEBUFFER }, r.2)

/-- The branch of the classification loop for the single video buffer of the frame. -/
def classifyVideoLayer (K : Hdr) (E : Env) (hwcModule : private_hwc_module_t) (f : Frame)
    (i : Nat) (layer : hwc_layer_t) : Frame :=
  let w := f.w
  let videoStarted :=
    if w.ctx.s3dLayerFormat ≠ 0 ∧ E.is3DTV w.tick = true then K.VIDEO_3D_OVERLAY_STARTED
    else K.VIDEO_2D_OVERLAY_STARTED
  let w := if w.ctx.s3dLayerFormat ≠ 0 then w.next else w
  let w := setVideoOverlayStatusInGralloc K w videoStarted
  let r := classifyVideoChoice K E hwcModule w layer
  let w :=
    if K.HWC_USE_OVERLAY ≠ r.1.compositionType then
      r.2.modCtx (fun c => { c with skipComposition := false })
    else r.2
  { f with w := w, list := f.list.setLayer i r.1 }

/-- The branch of the classification loop for a layer that carries a stereo input format
and is not the single video buffer. -/
def classifyS3DLayer (K : Hdr) (E : Env) (f : Frame) (i : Nat) (layer : hwc_layer_t) : Frame :=
  let w := f.w
  let videoStarted :=
    if E.is3DTV w.tick then K.VIDEO_3D_OVERLAY_STARTED else K.VIDEO_2D_OVERLAY_STARTED
  let w := setVideoOverlayStatusInGralloc K w.next videoStarted
  let r := prepareOverlay K E w layer
  if r.1 = 0 then
    { f with
      w := r.2.modCtx (fun c => { c with
        hwcOverlayStatus := eHWCOverlayStatus.HWC_OVERLAY_OPEN }),
      list := f.list.setLayer i
        { layer with compositionType := K.HWC_USE_OVERLAY,
                     hints := layer.hints ||| K.HWC_HINT_CLEAR_FB } }
  else { f with w := r.2 }

/-- The body of the loop `for (size_t i=0 ; i<list->numHwLayers ; i++)` of `hwc_prepare`:
the chain of `if` / `else if` that picks the composition path of layer `i`. -/
def classifyLayer (K : Hdr) (E : Env) (hwcModule : private_hwc_module_t)
    (useCopybit isS3DCompositionNeeded : Bool) (f : Frame) (i : Nat) : Frame :=
  match f.list.hwLayers[i]? with
  | none => f
  | some layer =>
    let hnd := layer.handle
    if isSkipLayer K layer then classifySkipLayer K isS3DCompositionNeeded f i layer
    else if hnd ≠ 0 ∧ (f.w.heap hnd).bufferType = K.BUFFER_TYPE_VIDEO
        ∧ f.w.ctx.yuvBufferCount = 1 then
      classifyVideoLayer K E hwcModule f i layer
    else if getLayerS3DFormat K f.w layer ≠ 0 then classifyS3DLayer K E f i layer
    else if isS3DCompositionNeeded then
      { f with list :=
          f.list.setLayer i (markUILayerForS3DComposition K layer f.w.ctx.s3dLayerFormat) }
    else if hasBits layer.flags K.HWC_USE_ORIGINAL_RESOLUTION then
      { f with
        list := f.list.setLayer i
          { layer with compositionType := K.HWC_USE_OVERLAY,
                       hints := layer.hints ||| K.HWC_HINT_CLEAR_FB },
        layerType := f.layerType ||| HWC_ORIG_RESOLUTION }
    else if hnd ≠ 0 ∧ hasBits hwcModule.compositionType
        (K.COMPOSITION_TYPE_C2D ||| K.COMPOSITION_TYPE_MDP) then
      { f with list := f.list.setLayer i { layer with compositionType := K.HWC_USE_COPYBIT } }
    else if hasBits hwcModule.compositionType K.COMPOSITION_TYPE_DYN ∧ useCopybit then
      { f with list := f.list.setLayer i { layer with compositionType := K.HWC_USE_COPYBIT } }
    else
      { f with list := f.list.setLayer i { layer with compositionType := K.HWC_FRAMEBUFFER } }

/-- The head of `hwc_prepare` on a non-null list, before the per-layer loop: `statCount`,
`canSkipComposition` and the end-of-video check. -/
def prepareStats (K : Hdr) (hwcModule : private_hwc_module_t) (w : World)
    (list : hwc_layer_list_t) : World :=
  let w := statCount K w list
  let r := canSkipComposition K w hwcModule w.ctx.yuvBufferCount
    (list.numHwLayers : Int) w.ctx.numLayersNotUpdating
  let w := r.2.modCtx (fun c => { c with skipComposition := r.1 })
  if w.ctx.yuvBufferCount = 0 then
    if w.ctx.hwcOverlayStatus = eHWCOverlayStatus.HWC_OVERLAY_OPEN then
      w.modCtx (fun c => { c with
        hwcOverlayStatus := eHWCOverlayStatus.HWC_OVERLAY_PREPARE_TO_CLOSE })
    else w
  else w

/-- The statement `if (ctx->s3dLayerFormat) isS3DCompositionNeeded =
isS3DCompositionRequired();` of `hwc_prepare`. -/
def s3dCheck (K : Hdr) (E : Env) (w : World) : Bool × World :=
  if w.ctx.s3dLayerFormat ≠ 0 then isS3DCompositionRequired K E w else (false, w)

/-- The per-layer loop of `hwc_prepare` over a list of `n` layers. -/
def classifyLoop (K : Hdr) (E : Env) (hwcModule : private_hwc_module_t)
    (useCopybit isS3DCompositionNeeded : Bool) (n : Nat) (f : Frame) : Frame :=
  (List.range n).foldl (classifyLayer K E hwcModule useCopybit isS3DCompositionNeeded) f

/-- The part of `hwc_prepare` on a non-null list up to the end of the per-layer loop:
`canUseCopybit`, `statCount`, `canSkipComposition`, the end-of-video check, the S3D check
and the classification of every layer in order. -/
def classifyLayers (K : Hdr) (E : Env) (hwcModule : private_hwc_module_t) (w : World)
    (list : hwc_layer_list_t) : Frame :=
  let useCopybit := canUseCopybit hwcModule.fbDevice list
  let r := s3dCheck K E (prepareStats K hwcModule w list)
  classifyLoop K E hwcModule useCopybit r.1 list.numHwLayers (Frame.init r.2 list)

/-! ## The pipe allocator (composition bypass) -/

def setLayerbypassIndex (K : Hdr) (layer : hwc_layer_t) (bypass_index : Nat) : hwc_layer_t :=
  { layer with flags :=
      clearBits layer.flags K.HWC_BYPASS_INDEX_MASK ||| (bypass_index <<< BYPASS_INDEX_OFFSET) }

def getLayerbypassIndex (K : Hdr) (layer : hwc_layer_t) : Int :=
  if hasBits layer.flags K.HWC_COMP_BYPASS then
    let byp_index := (layer.flags &&& K.HWC_BYPASS_INDEX_MASK) >>> BYPASS_INDEX_OFFSET
    if byp_index < MAX_BYPASS_LAYERS then (byp_index : Int) else -1
  else -1

/-- Configures pipe(s) for composition bypass. The size of the framebuffer is read through
`hwcModule->fbDevice` without a test of the pointer. When the destination leaves the
framebuffer, `calculate_crop_rects` clamps the crop and the destination; the rectangles are
arguments of `setCrop` and `setPosition` only. The pipe arguments are built with `NO_WAIT`
and `IS_FG_OFF`, whatever `vsync_wait` and `isFG` are. -/
def prepareBypass (K : Hdr) (E : Env) (w : World) (layer : hwc_layer_t)
    (nPipeIndex : Nat) (vsync_wait isFG : Bool) : Int × World :=
  let _ := (vsync_wait, isFG)
  match w.module with
  | none => (-1, w)
  | some hwcModule =>
    let hnd := layer.handle
    if hnd = 0 then (-1, w)
    else
      match hwcModule.fbDevice with
      | none => (-1, w.log Event.nullDereference)
      | some fbDev =>
        let hw_w := fbDev.width
        let hw_h := fbDev.height
        let crop := layer.sourceCrop
        let dst := layer.displayFrame
        if hasBits (w.heap hnd).flags K.PRIV_FLAGS_NONCONTIGUOUS_MEM then (-1, w)
        else
          let w :=
            if dst.left < 0 ∨ dst.top < 0 ∨ dst.right > hw_w ∨ dst.bottom > hw_h then
              w.log (Event.calculate_crop_rects crop dst hw_w hw_h
                (calculate_crop_rects E.cropArith crop dst hw_w hw_h).1
                (calculate_crop_rects E.cropArith crop dst hw_w hw_h).2)
            else w
          let dest :=
            if nPipeIndex = 0 then eDest.OV_PIPE0
            else if nPipeIndex = 1 then eDest.OV_PIPE1
            else if nPipeIndex = 2 then eDest.OV_PIPE2
            else eDest.OV_PIPE_ALL
          programPipes E w dest false false

/-- Checks if doing comp. bypass is possible; reads the swap interval property on the way. -/
def isBypassDoable (K : Hdr) (E : Env) (w : World) (hwcModule : private_hwc_module_t)
    (yuvCount : Int) (list : hwc_layer_list_t) : Bool × World :=
  if hwcModule.isBypassEnabled = false then (false, w)
  else if list.numHwLayers < 1 then (false, w)
  else if K.HDMI_DUAL_DISPLAY
      ∧ (w.ctx.mHDMIEnabled ≠ external_display_type.EXT_TYPE_NONE ∨ w.ctx.pendingHDMI) then
    (false, w)
  else if w.ctx.forceComposition then (false, w)
  else
    let w :=
      match E.swapintervalProperty w.tick with
      | some v => (w.modCtx (fun c => { c with swapInterval := v })).next
      | none => w.next
    if list.hwLayers.any (fun layer =>
        hasBits layer.transform K.FINAL_TRANSFORM_MASK
        || (hasBits layer.flags K.HWC_LAYER_ASYNCHRONOUS && decide (w.ctx.swapInterval > 0))) then
      (false, w)
    else
      (decide (yuvCount = 0)
        && decide (w.ctx.hwcOverlayStatus = eHWCOverlayStatus.HWC_OVERLAY_CLOSED)
        && decide (list.numHwLayers ≤ MAX_BYPASS_LAYERS), w)

/-- One iteration, for slot `index`, of the first loop of `setBypassLayerFlags`. A slot
bound to an index outside the list writes outside the list, which the list does not see. -/
def setBypassLayerFlag (K : Hdr) (w : World) (list : hwc_layer_list_t) (index : Nat) :
    hwc_layer_list_t :=
  let layer_index := w.ctx.layerindex.get index
  if layer_index ≥ 0 then
    match list.hwLayers[layer_index.toNat]? with
    | none => list
    | some layer =>
      list.setLayer layer_index.toNat
        { layer with flags := layer.flags ||| K.HWC_COMP_BYPASS,
                     compositionType := K.HWC_USE_OVERLAY,
                     hints := layer.hints ||| K.HWC_HINT_CLEAR_FB }
  else list

def setBypassLayerFlags (K : Hdr) (w : World) (list : hwc_layer_list_t) : hwc_layer_list_t :=
  let list := (List.range MAX_BYPASS_LAYERS).foldl (setBypassLayerFlag K w) list
  if list.numHwLayers > w.ctx.nPipesUsed then
    { list with flags := clearBits list.flags K.HWC_SKIP_COMPOSITION }
  else { list with flags := list.flags ||| K.HWC_SKIP_COMPOSITION }

/-- The loop of `setupBypass`, entered at `index` with `nPipeAvailable` pipes left; `fuel`
bounds the number of iterations (the loop runs at most `numHwLayers - index` times).
The result is `none` when a layer failed to configure (the `return false` of the source)
and the number of pipes left otherwise. -/
def setupBypassLoop (K : Hdr) (E : Env) :
    Nat → Nat → Nat → World → hwc_layer_list_t → Option Nat × World × hwc_layer_list_t
  | 0, _, nPipeAvailable, w, list => (some nPipeAvailable, w, list)
  | fuel + 1, index, nPipeAvailable, w, list =>
    if index < list.numHwLayers ∧ nPipeAvailable ≠ 0 then
      match list.hwLayers[index]? with
      | none => (some nPipeAvailable, w, list)
      | some layer =>
        let nPipeIndex := MAX_BYPASS_LAYERS - nPipeAvailable
        let vsync_wait := decide ((nPipeIndex : Int) = (list.numHwLayers : Int) - 1)
        let isFG := decide (index = 0)
        let layer := { layer with flags := clearBits layer.flags K.HWC_COMP_BYPASS }
        let layer := { layer with flags := layer.flags ||| K.HWC_BYPASS_INDEX_MASK }
        let list := list.setLayer index layer
        let r := prepareBypass K E w layer nPipeIndex vsync_wait isFG
        if r.1 ≠ 0 then (none, r.2, list)
        else
          let w := r.2.modCtx (fun c =>
            { c with layerindex := c.layerindex.set nPipeIndex index })
          let list := list.setLayer index (setLayerbypassIndex K layer nPipeIndex)
          setupBypassLoop K E fuel (index + 1) (nPipeAvailable - 1) w list
    else (some nPipeAvailable, w, list)

def setupBypass (K : Hdr) (E : Env) (w : World) (list : hwc_layer_list_t) :
    Bool × World × hwc_layer_list_t :=
  let numHwLayers := list.numHwLayers
  let s := getOverlayState K E w numHwLayers 0
  let w := setOverlayState s.2 s.1
  let r := setupBypassLoop K E numHwLayers 0 MAX_BYPASS_LAYERS w list
  match r.1 with
  | none => (false, r.2.1, r.2.2)
  | some nPipeAvailable =>
    (true, r.2.1.modCtx (fun c => { c with nPipesUsed := MAX_BYPASS_LAYERS - nPipeAvailable }),
      r.2.2)

def unsetBypassLayerFlags (K : Hdr) (list : hwc_layer_list_t) : hwc_layer_list_t :=
  { list with hwLayers := list.hwLayers.map (fun layer =>
      if hasBits layer.flags K.HWC_COMP_BYPASS then
        { layer with flags := clearBits layer.flags K.HWC_COMP_BYPASS }
      else layer) }

/-- The statement after the per-layer loop that copies `ctx->skipComposition` into the
`HWC_SKIP_COMPOSITION` flag of the list. -/
def markSkipComposition (K : Hdr) (f : Frame) : hwc_layer_list_t :=
  if f.w.ctx.skipComposition then
    { f.list with flags := f.list.flags ||| K.HWC_SKIP_COMPOSITION }
  else { f.list with flags := clearBits f.list.flags K.HWC_SKIP_COMPOSITION }

/-- The bypass attempt of `hwc_prepare` when bypass is doable and no skip layer is present:
the first component is `isBypassUsed`. -/
def bypassAttempt (K : Hdr) (E : Env) (w : World) (list : hwc_layer_list_t) :
    Bool × World × hwc_layer_list_t :=
  let r := setupBypass K E w list
  if r.1 then
    (true, r.2.1.modCtx (fun c => { c with bypassState := BypassState.BYPASS_ON }),
      setBypassLayerFlags K r.2.1 r.2.2)
  else (false, setOverlayState r.2.1 eOverlayState.OV_CLOSED, r.2.2)

/-- The reset of the bypass states of `hwc_prepare` when bypass is not used. -/
def bypassReset (K : Hdr) (w : World) (list : hwc_layer_list_t) : World × hwc_layer_list_t :=
  let w := w.modCtx (fun c => { c with nPipesUsed := 0 })
  (if w.ctx.bypassState = BypassState.BYPASS_ON then
      w.modCtx (fun c => { c with bypassState := BypassState.BYPASS_OFF_PENDING })
    else w,
   unsetBypassLayerFlags K list)

/-- The part of `hwc_prepare` on a non-null list after the per-layer loop: the skip flag of
the list, the bypass attempt and the reset of the bypass state. -/
def prepareBypassStage (K : Hdr) (E : Env) (hwcModule : private_hwc_module_t) (f : Frame) :
    World × hwc_layer_list_t :=
  let list := markSkipComposition K f
  let d := isBypassDoable K E f.w hwcModule f.w.ctx.yuvBufferCount list
  let r := if d.1 && !f.isSkipLayerPresent then bypassAttempt K E d.2 list else (false, d.2, list)
  if !r.1 then bypassReset K r.2.1 r.2.2 else (r.2.1, r.2.2)

/-- The three calls `unlockPreviousBypassBuffers`, `unsetBypassBufferLockState`,
`unlockPreviousOverlayBuffer` that `hwc_prepare` and `hwc_set` make when there is no module
and `hwc_prepare` makes when there is no list. -/
def unlockAll (K : Hdr) (E : Env) (w : World) : World :=
  unlockPreviousOverlayBuffer K E (unsetBypassBufferLockState (unlockPreviousBypassBuffers K E w))

/-- The entry point `hwc_prepare(dev, list)`; `list = none` is the `NULL` list of a
suspended device. Returns the status, the device and the list as the caller finds them. -/
def hwc_prepare (K : Hdr) (E : Env) (w : World) (list : Option hwc_layer_list_t) :
    Int × World × Option hwc_layer_list_t :=
  let w := w.modCtx (fun c => { c with currentOverlayHandle := 0 })
  match w.module with
  | none => (-1, unlockAll K E w, list)
  | some hwcModule =>
    match list with
    | some list =>
      let r := prepareBypassStage K E hwcModule (classifyLayers K E hwcModule w list)
      (0, r.1.modCtx (fun c => { c with forceComposition := false }), some r.2)
    | none =>
      (0, (unlockAll K E w).modCtx (fun c => { c with forceComposition := false }), none)

/-! ## The frame executor (`hwc_set`) -/

/-- The stretch of `drawLayerUsingCopybit`: when the scaling needs two passes a temporary
buffer is allocated and the first pass is made; the first component is `tmpErr`. -/
def copybitStretch (E : Env) (w : World) : Int × World :=
  if E.copybitScaleTwice w.tick then
    if E.alloc_buffer w.next.tick then (E.stretch w.next.next.tick, w.next.next.next)
    else (0, w.next.next)
  else (0, w.next)

/-- The part of `drawLayerUsingCopybit` once the render buffer is known: the transform of
the layer is masked, the limits of the engine are read through `hwcModule->copybitEngine`
without a test of the pointer, the rectangles are checked, the blit is made and the buffer
is unlocked. -/
def copybitBlit (K : Hdr) (E : Env) (hwcModule : private_hwc_module_t) (w : World)
    (layer : hwc_layer_t) : Int × World × hwc_layer_t :=
  let hnd := layer.handle
  let layer := { layer with transform := layer.transform &&& K.FINAL_TRANSFORM_MASK }
  if !hwcModule.copybitEngine then (-1, w.log Event.nullDereference, layer)
  else
    let screen_w := layer.displayFrame.right - layer.displayFrame.left
    let screen_h := layer.displayFrame.bottom - layer.displayFrame.top
    let src_crop_width := layer.sourceCrop.right - layer.sourceCrop.left
    let src_crop_height := layer.sourceCrop.bottom - layer.sourceCrop.top
    let swap := layer.transform = K.HWC_TRANSFORM_ROT_90
                  ∨ layer.transform = K.HWC_TRANSFORM_ROT_270
    let screen := if swap then (screen_h, screen_w) else (screen_w, screen_h)
    if screen.1 ≤ 0 ∨ screen.2 ≤ 0 ∨ src_crop_width ≤ 0 ∨ src_crop_height ≤ 0 then
      (-1, (genlock_unlock_buffer E w hnd).2, layer)
    else if E.copybitOutOfLimits w.tick then (-1, (genlock_unlock_buffer E w.next hnd).2, layer)
    else
      let t := copybitStretch E w.next
      if t.1 < 0 then (t.1, (genlock_unlock_buffer E t.2 hnd).2, layer)
      else
        (K.genlockCode (genlock_unlock_buffer E t.2.next hnd).1,
          (genlock_unlock_buffer E t.2.next hnd).2, layer)

/-- Draws a layer with the blit engine; returns the status and the layer, whose transform
the function masks. The buffer is read-locked for the duration of the blit. The calls of
the copybit device other than `stretch` return nothing the function looks at. -/
def drawLayerUsingCopybit (K : Hdr) (E : Env) (w : World) (layer : hwc_layer_t) :
    Int × World × hwc_layer_t :=
  match w.module with
  | none => (-1, w, layer)
  | some hwcModule =>
    let hnd := layer.handle
    if hnd = 0 then (-1, w, layer)
    else
      let l := genlock_lock_buffer E w hnd
      if l.1 = genlock_status_t.GENLOCK_FAILURE then (-1, l.2, layer)
      else
        match E.renderBuffer l.2.tick with
        | none => (-1, (genlock_unlock_buffer E l.2.next hnd).2, layer)
        | some fbHandle =>
          if fbHandle = 0 then (-1, (genlock_unlock_buffer E l.2.next hnd).2, layer)
          else copybitBlit K E hwcModule l.2.next layer

/-- The `queueBuffer` calls of `drawLayerUsingOverlay`: both pipes and `waitForVsync` when
the video is mirrored to the external panel, one call on all pipes otherwise. -/
def overlayQueue (E : Env) (w : World) (hnd : Nat) : Bool × World :=
  if w.ovState = eOverlayState.OV_2D_VIDEO_ON_PANEL_TV
      ∨ w.ovState = eOverlayState.OV_3D_VIDEO_ON_2D_PANEL_2D_TV
      ∨ w.ovState = eOverlayState.OV_2D_TRUE_UI_MIRROR then
    let q1 := ov_queueBuffer E w (w.heap hnd).offset eDest.OV_PIPE1
    let q0 := ov_queueBuffer E q1.2 (q1.2.heap hnd).offset eDest.OV_PIPE0
    let v := ovCall E q0.2
    (q1.1 && q0.1 && v.1, v.2)
  else ov_queueBuffer E w (w.heap hnd).offset eDest.OV_PIPE_ALL

def drawLayerUsingOverlay (K : Hdr) (E : Env) (w : World) (layer : hwc_layer_t) : Int × World :=
  match w.module with
  | none => (-1, w)
  | some _ =>
    let hnd := layer.handle
    let l := genlock_lock_buffer E w hnd
    if l.1 ≠ genlock_status_t.GENLOCK_NO_ERROR then (-1, l.2)
    else
      let q := overlayQueue E l.2 hnd
      if !q.1 then (1, (genlock_unlock_buffer E q.2 hnd).2)
      else
        (0, (q.2.modHandleFlags hnd (fun flags => flags ||| K.PRIV_FLAGS_HWC_LOCK)).modCtx
          (fun c => { c with currentOverlayHandle := hnd }))

/-- The assignment `ctx->bypassBufferLockState[index] = v`. -/
def World.setLockState (w : World) (index : Nat) (v : BypassBufferLockState) : World :=
  w.modCtx (fun c => { c with bypassBufferLockState := c.bypassBufferLockState.set index v })

/-- The tail of `drawLayerUsingBypass` from the choice of the pipe on: the buffer is
queued on the pipe of slot `index`; on failure the lock taken before is given back. -/
def drawLayerUsingBypassQueue (E : Env) (w : World) (index : Nat) (hnd : Nat) : Int × World :=
  let dest :=
    if index = 0 then eDest.OV_PIPE0
    else if index = 1 then eDest.OV_PIPE1
    else if index = 2 then eDest.OV_PIPE2
    else eDest.OV_PIPE_ALL
  let q := ov_queueBuffer E w (w.heap hnd).offset dest
  if !q.1 then
    (-1, (if q.2.ctx.swapInterval > 0 then (genlock_unlock_buffer E q.2 hnd).2
          else q.2).setLockState index BypassBufferLockState.BYPASS_BUFFER_UNLOCKED)
  else (0, q.2)

def drawLayerUsingBypass (K : Hdr) (E : Env) (w : World) (layer : hwc_layer_t) : Int × World :=
  let index := getLayerbypassIndex K layer
  if index < 0 then (-1, w)
  else
    let index := index.toNat
    let hnd := layer.handle
    if hnd = 0 then (-1, w)
    else
      let w := w.setLockState index BypassBufferLockState.BYPASS_BUFFER_UNLOCKED
      if w.ctx.swapInterval > 0 then
        let l := genlock_lock_buffer E w hnd
        if l.1 = genlock_status_t.GENLOCK_FAILURE then (-1, l.2)
        else
          drawLayerUsingBypassQueue E
            (l.2.setLockState index BypassBufferLockState.BYPASS_BUFFER_LOCKED) index hnd
      else drawLayerUsingBypassQueue E w index hnd

/-- The call `ctx->idleInvalidator->markForSleep()` made when the invalidator exists. -/
def markForSleep (w : World) : World :=
  if w.ctx.idleInvalidator then w.log Event.markForSleep else w

/-- The body of the loop over the layers in `hwc_set`. -/
def drawLayer (K : Hdr) (E : Env) (f : World × hwc_layer_list_t) (i : Nat) :
    World × hwc_layer_list_t :=
  match f.2.hwLayers[i]? with
  | none => f
  | some layer =>
    if hasBits layer.flags K.HWC_SKIP_LAYER then f
    else if hasBits layer.flags K.HWC_COMP_BYPASS then
      ((drawLayerUsingBypass K E (markForSleep f.1) layer).2, f.2)
    else if layer.compositionType = K.HWC_USE_OVERLAY then
      ((drawLayerUsingOverlay K E f.1 layer).2, f.2)
    else if hasBits f.2.flags K.HWC_SKIP_COMPOSITION then f
    else if layer.compositionType = K.HWC_USE_COPYBIT then
      ((drawLayerUsingCopybit K E f.1 layer).2.1,
        f.2.setLayer i (drawLayerUsingCopybit K E f.1 layer).2.2)
    else f

/-- The read `list->hwLayers[i]` for a signed index. -/
def readLayer (E : Env) (list : hwc_layer_list_t) (i : Int) : hwc_layer_t :=
  if 0 ≤ i then (list.hwLayers[i.toNat]?).getD (E.stray i) else E.stray i

/-- One iteration, for slot `index`, of the loop of `storeLockedBypassHandle`. -/
def storeLockedBypassHandle1 (K : Hdr) (E : Env) (list : hwc_layer_list_t) (w : World)
    (index : Nat) : World :=
  let layer := readLayer E list (w.ctx.layerindex.get index)
  if hasBits layer.flags K.HWC_COMP_BYPASS then
    let hnd := layer.handle
    if w.ctx.bypassBufferLockState.get index = BypassBufferLockState.BYPASS_BUFFER_LOCKED then
      let w := w.modCtx (fun c => { c with
        previousBypassHandle := c.previousBypassHandle.set index hnd })
      w.modHandleFlags hnd (fun flags => flags ||| K.PRIV_FLAGS_HWC_LOCK)
    else
      w.modCtx (fun c => { c with previousBypassHandle := c.previousBypassHandle.set index 0 })
  else w

def storeLockedBypassHandle (K : Hdr) (E : Env) (list : Option hwc_layer_list_t) (w : World) :
    World :=
  match list with
  | none => w
  | some list => (List.range MAX_BYPASS_LAYERS).foldl (storeLockedBypassHandle1 K E list) w

def handleHDMIStateChange (K : Hdr) (w : World) (externaltype : external_display_type) : World :=
  if K.HDMI_DUAL_DISPLAY then
    match w.module with
    | none => w
    | some hwcModule =>
      match hwcModule.fbDevice with
      | none => w
      | some _ => w.log (Event.externalDisplay externaltype)
  else w

/-- The first part of `hwc_set` with a module: the loop over the layers of a non-null list,
or, for the `NULL` list of a suspended device, the request to close every pipe. -/
def setDrawStage (K : Hdr) (E : Env) (w : World) (list : Option hwc_layer_list_t) :
    World × Option hwc_layer_list_t :=
  match list with
  | some list =>
    let r := (List.range list.numHwLayers).foldl (drawLayer K E) (w, list)
    (r.1, some r.2)
  | none =>
    let w := w.modCtx (fun c => { c with nPipesUsed := 0 })
    (if w.ctx.hwcOverlayStatus = eHWCOverlayStatus.HWC_OVERLAY_OPEN then
        w.modCtx (fun c => { c with
          hwcOverlayStatus := eHWCOverlayStatus.HWC_OVERLAY_PREPARE_TO_CLOSE })
      else w,
     none)

/-- The calls `unlockPreviousBypassBuffers`, `storeLockedBypassHandle`,
`unsetBypassBufferLockState` of `hwc_set`: the device as `closeExtraPipes` finds it. -/
def setBypassStored (K : Hdr) (E : Env) (w : World) (list : Option hwc_layer_list_t) : World :=
  unsetBypassBufferLockState
    (storeLockedBypassHandle K E list (unlockPreviousBypassBuffers K E w))

/-- The call of `eglSwapBuffers` of `hwc_set`, made when the display and the surface are
non-null and the list does not carry `HWC_SKIP_COMPOSITION`; the first component is `ret`.
When the overlay is not closed the swap is framed by two `fbDev->perform` events, sent
through `hwcModule->fbDevice` without a test of the pointer. -/
def setSwapStage (K : Hdr) (E : Env) (w : World) (dpy sur canSkip : Bool) : Int × World :=
  if dpy && sur && !canSkip then
    let fbDev :=
      match w.module with
      | some hwcModule => hwcModule.fbDevice
      | none => none
    let waitForFBPost :=
      decide (w.ctx.hwcOverlayStatus ≠ eHWCOverlayStatus.HWC_OVERLAY_CLOSED)
    if waitForFBPost && fbDev.isNone then (0, w.log Event.nullDereference)
    else
      let w := if waitForFBPost then w.log Event.resetPostBuffer else w
      if !E.eglSwapBuffers w.tick then
        (K.HWC_EGL_ERROR, (w.log (Event.eglSwapBuffers (E.eglSwapBuffers w.tick))).next)
      else
        (0, if waitForFBPost then
              ((w.log (Event.eglSwapBuffers (E.eglSwapBuffers w.tick))).next).log
                Event.waitPostBuffer
            else (w.log (Event.eglSwapBuffers (E.eglSwapBuffers w.tick))).next)
  else (0, w)

/-- The handling of a pending external display of `hwc_set` (`HDMI_DUAL_DISPLAY` build). -/
def setHDMIStage (K : Hdr) (w : World) : World :=
  if K.HDMI_DUAL_DISPLAY && w.ctx.pendingHDMI then
    let w := handleHDMIStateChange K w w.ctx.mHDMIEnabled
    let w := w.modCtx (fun c => { c with pendingHDMI := false })
    if !w.ctx.procs then w
    else (w.modCtx (fun c => { c with forceComposition := true })).log Event.invalidate
  else w

/-- The flag `list && list->flags & HWC_SKIP_COMPOSITION` of `hwc_set`. -/
def listCanSkip (K : Hdr) (list : Option hwc_layer_list_t) : Bool :=
  match list with
  | some list => hasBits list.flags K.HWC_SKIP_COMPOSITION
  | none => false

/-- The entry point `hwc_set(dev, dpy, sur, list)`; `dpy` and `sur` tell whether the display
and the surface are non-null. -/
def hwc_set (K : Hdr) (E : Env) (w : World) (dpy sur : Bool) (list : Option hwc_layer_list_t) :
    Int × World × Option hwc_layer_list_t :=
  match w.module with
  | none => (-1, unlockAll K E w, list)
  | some _ =>
    let d := setDrawStage K E w list
    let w := closeExtraPipes K E (setBypassStored K E d.1 d.2)
    let s := setSwapStage K E w dpy sur (listCanSkip K d.2)
    let w := setHDMIStage K s.2
    let w := hwc_closeOverlayChannels K w
    let w := unlockPreviousOverlayBuffer K E w
    (s.1, w, d.2)

/-! ## Device open and close -/

/-- The context `hwc_device_open` builds when the overlay object opens: a zeroed context
with the fields the function then assigns. `hwcModule` is the module as
`hwc_module_initialize` leaves it, `idleInvalidator` tells whether
`IdleInvalidator::getInstance()` is non-null, `swapInterval` is the value of the property
`debug.egl.swapinterval` when `property_get` returns a positive length. -/
def hwc_device_open (hwcModule : private_hwc_module_t) (heap : Nat → private_handle_t)
    (idleInvalidator : Bool) (swapInterval : Option Int) : World :=
  { ctx :=
      { previousOverlayHandle := 0
        currentOverlayHandle := 0
        yuvBufferCount := 0
        numLayersNotUpdating := 0
        s3dLayerFormat := 0
        numHwLayers := 0
        skipComposition := false
        previousBypassHandle := { s0 := 0, s1 := 0, s2 := 0 }
        bypassBufferLockState :=
          { s0 := BypassBufferLockState.BYPASS_BUFFER_UNLOCKED,
            s1 := BypassBufferLockState.BYPASS_BUFFER_UNLOCKED,
            s2 := BypassBufferLockState.BYPASS_BUFFER_UNLOCKED }
        layerindex := { s0 := 0, s1 := 0, s2 := 0 }
        nPipesUsed := 0
        bypassState := BypassState.BYPASS_OFF
        idleInvalidator := idleInvalidator
        mHDMIEnabled := external_display_type.EXT_TYPE_NONE
        pendingHDMI := false
        forceComposition := false
        previousLayerCount := -1
        hwcOverlayStatus := eHWCOverlayStatus.HWC_OVERLAY_CLOSED
        swapInterval := swapInterval.getD 0
        procs := false }
    module := some hwcModule
    heap := heap
    ovState := eOverlayState.OV_CLOSED
    trace := []
    tick := 0 }

/-- The entry point `hwc_device_close` on a non-null device: the engines of the module are
closed, then the single-overlay buffer and the bypass buffers are unlocked. The result is
the state in which the context is freed. -/
def hwc_device_close (K : Hdr) (E : Env) (w : World) : Int × World :=
  let w := { w with module := w.module.map (fun hwcModule =>
    { hwcModule with copybitEngine := false, fbDevice := none }) }
  let w := unlockPreviousOverlayBuffer K E w
  let w := unlockPreviousBypassBuffers K E w
  let w := unsetBypassBufferLockState w
  (0, w)

/-! ## Reference values and proof devices -/

/-- Header values of a reference platform. -/
def refHdr : Hdr :=
  { HDMI_DUAL_DISPLAY := true
    HDMI_AS_PRIMARY := false
    HWC_SKIP_LAYER := 0x1
    HWC_LAYER_NOT_UPDATING := 0x2
    HWC_LAYER_ASYNCHRONOUS := 0x4
    HWC_USE_ORIGINAL_RESOLUTION := 0x10000000
    HWC_DO_NOT_USE_OVERLAY := 0x20000000
    HWC_COMP_BYPASS := 0x40000000
    HWC_BYPASS_INDEX_MASK := 0x30
    HWC_SKIP_COMPOSITION := 0x2
    HWC_HINT_CLEAR_FB := 0x2
    HWC_HINT_DRAW_S3D_SIDE_BY_SIDE := 0x4
    HWC_HINT_DRAW_S3D_TOP_BOTTOM := 0x8
    HWC_FRAMEBUFFER := 0
    HWC_USE_OVERLAY := 1
    HWC_USE_COPYBIT := 2
    FINAL_TRANSFORM_MASK := 0xF
    HWC_TRANSFORM_ROT_90 := 4
    HWC_TRANSFORM_ROT_270 := 7
    COMPOSITION_TYPE_CPU := 0x2
    COMPOSITION_TYPE_C2D := 0x10
    COMPOSITION_TYPE_MDP := 0x4
    COMPOSITION_TYPE_DYN := 0x8
    PRIV_FLAGS_HWC_LOCK := 0x200
    PRIV_FLAGS_NONCONTIGUOUS_MEM := 0x2
    PRIV_FLAGS_SECURE_BUFFER := 0x400
    BUFFER_TYPE_VIDEO := 1
    HAL_3D_IN_SIDE_BY_SIDE_L_R := 0x10000
    HAL_3D_IN_SIDE_BY_SIDE_R_L := 0x20000
    HAL_3D_IN_TOP_BOTTOM := 0x40000
    SHIFT_TOT_3D := 4
    format3D := fun x => x &&& 0xFF000
    format3DInput := fun x => x &&& 0xF0000
    format3DOutput := fun x => (x &&& 0xF000) >>> 12
    isRgb := fun f => f = 0 || f = 1 || f = 13 || f = 14
    HAL_PIXEL_FORMAT_RGBA_8888 := 1
    HAL_PIXEL_FORMAT_BGRA_8888 := 5
    HAL_PIXEL_FORMAT_RGB_565 := 4
    HAL_PIXEL_FORMAT_RGBX_8888 := 2
    HAL_PIXEL_FORMAT_YCbCr_422_SP := 0x10
    HAL_PIXEL_FORMAT_YCrCb_422_SP := 0x113
    HAL_PIXEL_FORMAT_YCbCr_420_SP := 0x109
    HAL_PIXEL_FORMAT_YCrCb_420_SP := 0x11
    HAL_PIXEL_FORMAT_YCbCr_420_SP_TILED := 0x108
    HAL_PIXEL_FORMAT_YV12 := 0x32315659
    MDP_RGBA_8888 := 13
    MDP_BGRA_8888 := 14
    MDP_RGB_565 := 0
    MDP_RGBX_8888 := 1
    MDP_Y_CBCR_H2V1 := 9
    MDP_Y_CRCB_H2V1 := 8
    MDP_Y_CBCR_H2V2 := 2
    MDP_Y_CRCB_H2V2 := 6
    MDP_Y_CBCR_H2V2_TILE := 11
    MDP_Y_CR_CB_H2V2 := 16
    VIDEO_OVERLAY_ENDED := 0
    VIDEO_2D_OVERLAY_STARTED := 1
    VIDEO_3D_OVERLAY_STARTED := 2
    HWC_EGL_ERROR := -1
    genlockCode := fun r =>
      match r with
      | genlock_status_t.GENLOCK_NO_ERROR => 0
      | genlock_status_t.GENLOCK_TIMEOUT => 1
      | genlock_status_t.GENLOCK_FAILURE => 2 }

/-- An environment in which every external call succeeds. -/
def okEnv : Env :=
  { ovResult := fun _ => true
    validate := fun _ => true
    genlock_lock_buffer := fun _ => genlock_status_t.GENLOCK_NO_ERROR
    genlock_unlock_buffer := fun _ => genlock_status_t.GENLOCK_NO_ERROR
    eglSwapBuffers := fun _ => true
    swapintervalProperty := fun _ => some 1
    is3DTV := fun _ => false
    usePanel3D := fun _ => false
    supportTrueMirroring := fun _ => false
    renderBuffer := fun _ => some 1000
    copybitOutOfLimits := fun _ => false
    copybitScaleTwice := fun _ => false
    alloc_buffer := fun _ => true
    stretch := fun _ => 0
    stray := fun _ =>
      { compositionType := 0, hints := 0, flags := 0, handle := 0, transform := 0,
        blending := 0, alpha := 0,
        sourceCrop := { left := 0, top := 0, right := 0, bottom := 0 },
        displayFrame := { left := 0, top := 0, right := 0, bottom := 0 } }
    cropArith := refCropArith }

/-- A module with a 1280 x 720 framebuffer and GPU composition. -/
def refModule : private_hwc_module_t :=
  { copybitEngine := true, fbDevice := some { width := 1280, height := 720 },
    compositionType := 1, isBypassEnabled := true }

/-- A heap in which every buffer is a 640 x 480 buffer of the given type, format, flags. -/
def uniformHeap (bufferType format : Int) (flags : Nat) : Nat → private_handle_t :=
  fun _ => { flags := flags, bufferType := bufferType, format := format, width := 640,
             height := 480, size := 460800, fd := 3, offset := 0 }

/-- A layer on buffer `hnd` with the given flags, shown at (0,0)-(640,480). -/
def mkLayer (hnd flags : Nat) : hwc_layer_t :=
  { compositionType := 0, hints := 0, flags := flags, handle := hnd, transform := 0,
    blending := 0, alpha := 255,
    sourceCrop := { left := 0, top := 0, right := 640, bottom := 480 },
    displayFrame := { left := 0, top := 0, right := 640, bottom := 480 } }

/-- The context with the bypass bookkeeping erased: what is left is the part of the
context that closing pipes never writes. -/
def hwc_context_t.noBypass (c : hwc_context_t) : hwc_context_t :=
  { c with previousBypassHandle := { s0 := 0, s1 := 0, s2 := 0 },
           bypassBufferLockState :=
             { s0 := BypassBufferLockState.BYPASS_BUFFER_UNLOCKED,
               s1 := BypassBufferLockState.BYPASS_BUFFER_UNLOCKED,
               s2 := BypassBufferLockState.BYPASS_BUFFER_UNLOCKED },
           layerindex := { s0 := 0, s1 := 0, s2 := 0 },
           nPipesUsed := 0,
           bypassState := BypassState.BYPASS_OFF }

/-- The context with, besides the bypass bookkeeping, the three fields erased that the
classification of a layer writes (`skipComposition`, `previousLayerCount`,
`hwcOverlayStatus`): what is left is the part of the context the per-layer loop of
`hwc_prepare` never writes. -/
def hwc_context_t.fixedPart (c : hwc_context_t) : hwc_context_t :=
  { c.noBypass with skipComposition := false,
                    previousLayerCount := 0,
                    hwcOverlayStatus := eHWCOverlayStatus.HWC_OVERLAY_CLOSED }

/-- A device on `refModule` that has just counted one video buffer in a frame of one layer
and recorded one layer for the previous frame. -/
def oneVideoWorld (forceComposition : Bool) : World :=
  (hwc_device_open refModule (uniformHeap 1 0x11 0) true (some 1)).modCtx (fun c =>
    { c with yuvBufferCount := 1, previousLayerCount := 1, numHwLayers := 1,
             forceComposition := forceComposition })

/-- The fields of a layer that the host supplies: the layer with the two fields the
classifier writes (`compositionType`, `hints`) erased. -/
def hwc_layer_t.input (layer : hwc_layer_t) : hwc_layer_t :=
  { layer with compositionType := 0, hints := 0 }

/-- The device `w` with a `NULL` module pointer. -/
def World.withoutModule (w : World) : World := { w with module := none }

/-- The overlay states that show video: single-panel video, video mirrored to the external
panel, the stereo variants and the true UI mirror. -/
def isVideoState (s : eOverlayState) : Bool :=
  match s with
  | eOverlayState.OV_2D_VIDEO_ON_PANEL => true
  | eOverlayState.OV_2D_VIDEO_ON_PANEL_TV => true
  | eOverlayState.OV_3D_VIDEO_ON_2D_PANEL => true
  | eOverlayState.OV_3D_VIDEO_ON_3D_PANEL => true
  | eOverlayState.OV_3D_VIDEO_ON_3D_TV => true
  | eOverlayState.OV_3D_VIDEO_ON_2D_PANEL_2D_TV => true
  | eOverlayState.OV_2D_TRUE_UI_MIRROR => true
  | _ => false

/-- The buffers with their flag words erased: the part of the heap that unlocking a buffer
never writes (type, format, size, file descriptor, offset). -/
def World.buffers (w : World) : Nat → private_handle_t :=
  fun a => { w.heap a with flags := 0 }

/-- A freshly opened device on module `m` and heap `heap` that has seen one frame of one
layer: `previousLayerCount` is 1. -/
def secondFrameWorld (m : private_hwc_module_t) (heap : Nat → private_handle_t)
    (forceComposition : Bool) : World :=
  (hwc_device_open m heap true (some 1)).modCtx (fun c =>
    { c with previousLayerCount := 1, numHwLayers := 1, forceComposition := forceComposition })

/-- The reference module in CPU composition. -/
def cpuModule : private_hwc_module_t :=
  { refModule with compositionType := refHdr.COMPOSITION_TYPE_CPU }

/-- A heap whose buffer 7 is a 640 x 480 video buffer (YCrCb 4:2:0) and whose other buffers
are UI buffers in RGBX with the side-by-side stereo bit set in the format word. -/
def stereoHeap : Nat → private_handle_t :=
  fun a =>
    if a = 7 then uniformHeap 1 0x11 0 a else uniformHeap 0 0x10002 0 a

/-- The device `secondFrameWorld` in the middle of a video: the overlay is open. -/
def openOverlayWorld (heap : Nat → private_handle_t) : World :=
  (secondFrameWorld refModule heap false).modCtx (fun c =>
    { c with hwcOverlayStatus := eHWCOverlayStatus.HWC_OVERLAY_OPEN })

/-- A layer with its flag word erased: what the pipe allocator never writes before the
pipes are all configured. -/
def hwc_layer_t.unflagged (layer : hwc_layer_t) : hwc_layer_t :=
  { layer with flags := 0 }

/-- The reference module in dynamic composition. -/
def dynModule : private_hwc_module_t :=
  { refModule with compositionType := refHdr.COMPOSITION_TYPE_DYN }

/-- The relation between the device before and after a step that leaves the bypass slots
alone: the recorded bypass buffers and the number of pipes in use are the same, and no
buffer has gained the mark `PRIV_FLAGS_HWC_LOCK`. -/
def World.keepsSlots (K : Hdr) (w w' : World) : Prop :=
  w'.ctx.previousBypassHandle = w.ctx.previousBypassHandle
  ∧ w'.ctx.nPipesUsed = w.ctx.nPipesUsed
  ∧ ∀ h, hasBits (w.heap h).flags K.PRIV_FLAGS_HWC_LOCK = false →
      hasBits (w'.heap h).flags K.PRIV_FLAGS_HWC_LOCK = false

/-- An environment in which `genlock_unlock_buffer` always fails and every other external
call succeeds. -/
def failUnlockEnv : Env :=
  { okEnv with genlock_unlock_buffer := fun _ => genlock_status_t.GENLOCK_FAILURE }

/-- An environment in which no handle validates and every other external call succeeds. -/
def invalidEnv : Env := { okEnv with validate := fun _ => false }

/-- A device whose bypass went off: no pipe is in use and slot 2 still records buffer 9,
every buffer of the heap carrying the given flags. -/
def staleSlotWorld (flags : Nat) : World :=
  (hwc_device_open refModule (uniformHeap 0 1 flags) true (some 1)).modCtx (fun c =>
    { c with previousBypassHandle := { s0 := 0, s1 := 0, s2 := 9 },
             bypassState := BypassState.BYPASS_OFF_PENDING,
             previousLayerCount := 1, numHwLayers := 1 })

/-- The context with the two fields erased that drawing a layer writes
(`currentOverlayHandle`, `bypassBufferLockState`). -/
def hwc_context_t.drawFixed (c : hwc_context_t) : hwc_context_t :=
  { c with currentOverlayHandle := 0,
           bypassBufferLockState :=
             { s0 := BypassBufferLockState.BYPASS_BUFFER_UNLOCKED,
               s1 := BypassBufferLockState.BYPASS_BUFFER_UNLOCKED,
               s2 := BypassBufferLockState.BYPASS_BUFFER_UNLOCKED } }

/-- A layer with its transform erased: what drawing a layer never writes. -/
def hwc_layer_t.untransformed (layer : hwc_layer_t) : hwc_layer_t :=
  { layer with transform := 0 }

/-- The layers `hwc_set` hands to `drawLayerUsingOverlay`: not flagged skip, not flagged
bypass, classified `HWC_USE_OVERLAY`. -/
def drawsWithOverlay (K : Hdr) (layer : hwc_layer_t) : Bool :=
  !hasBits layer.flags K.HWC_SKIP_LAYER && !hasBits layer.flags K.HWC_COMP_BYPASS
    && decide (layer.compositionType = K.HWC_USE_OVERLAY)

/-- The layers `hwc_set` hands to `drawLayerUsingBypass`: not flagged skip, flagged bypass. -/
def drawsWithBypass (K : Hdr) (layer : hwc_layer_t) : Bool :=
  !hasBits layer.flags K.HWC_SKIP_LAYER && hasBits layer.flags K.HWC_COMP_BYPASS

/-- The device `secondFrameWorld` with one pipe in use by the bypass, slot 0 bound to
layer 0. -/
def onePipeWorld : World :=
  (secondFrameWorld refModule (uniformHeap 0 1 0) false).modCtx (fun c =>
    { c with nPipesUsed := 1, bypassState := BypassState.BYPASS_ON })

/-- The devices that `hwc_device_open` followed by any sequence of `hwc_prepare` and
`hwc_set` calls can produce, whatever the lists and whatever the collaborators answer. -/
inductive Reachable (K : Hdr) : World → Prop where
  | opened (hwcModule : private_hwc_module_t) (heap : Nat → private_handle_t)
      (idleInvalidator : Bool) (swapInterval : Option Int) :
      Reachable K (hwc_device_open hwcModule heap idleInvalidator swapInterval)
  | prepared (E : Env) (w : World) (list : Option hwc_layer_list_t) :
      Reachable K w → Reachable K (hwc_prepare K E w list).2.1
  | drawn (E : Env) (w : World) (dpy sur : Bool) (list : Option hwc_layer_list_t) :
      Reachable K w → Reachable K (hwc_set K E w dpy sur list).2.1

/-- Buffer `h` has been released: its mark `PRIV_FLAGS_HWC_LOCK` is off and a successful
`genlock_unlock_buffer` on it is on record. -/
def World.released (K : Hdr) (w : World) (h : Nat) : Prop :=
  hasBits (w.heap h).flags K.PRIV_FLAGS_HWC_LOCK = false
  ∧ Event.genlock_unlock h genlock_status_t.GENLOCK_NO_ERROR ∈ w.trace

/-- Buffer `h` is still marked `PRIV_FLAGS_HWC_LOCK`, or it has been released. -/
def World.markedOrReleased (K : Hdr) (w : World) (h : Nat) : Prop :=
  hasBits (w.heap h).flags K.PRIV_FLAGS_HWC_LOCK = true ∨ w.released K h

/-- The device after `hwc_device_open`, one `hwc_prepare` and one `hwc_set` on a frame of
one video layer on buffer 7, every collaborator succeeding. -/
def playedWorld : World :=
  (hwc_set refHdr okEnv
    (hwc_prepare refHdr okEnv (hwc_device_open refModule (uniformHeap 1 0x11 0) true (some 1))
      (some { flags := 0, hwLayers := [mkLayer 7 0] })).2.1 true true
    (hwc_prepare refHdr okEnv (hwc_device_open refModule (uniformHeap 1 0x11 0) true (some 1))
      (some { flags := 0, hwLayers := [mkLayer 7 0] })).2.2).2.1

/-! ## Crop normalisation (`overlayUtils.cpp`) -/

/-- Modelled from the spec: `even_out` of `overlayUtils.h`, whose source is not at hand.
The comment at its call in `normalizeCrop` tells what it does: an odd value is decremented
by 1 to make it even, an even value is left alone. -/
def even_out (x : Nat) : Nat :=
  if x &&& 1 ≠ 0 then (x + 4294967295) % 4294967296 else x

/-- The `normalizeCrop` of `overlayUtils.cpp` on `uint32_t` values: returns `(xy, wh)`. -/
def normalizeCrop (xy wh : Nat) : Nat × Nat :=
  if xy &&& 1 ≠ 0 then
    if wh &&& 1 ≠ 0 then ((xy + 1) % 4294967296, even_out wh)
    else ((xy + 1) % 4294967296, (wh + 4294967294) % 4294967296)
  else (xy, even_out wh)

/-! ## The idle invalidator (`IdleInvalidator.cpp`) -/

/-- The calls `IdleInvalidator::threadLoop` makes. -/
inductive InvalidatorEvent where
  | usleep (micros : Nat)
  | handler (data : Nat)
deriving DecidableEq, Repr

/-- The members of `IdleInvalidator`; `mHwcContext` is the address given to `init`, and
`calls` is the record of the calls made so far. -/
structure IdleInvalidator where
  mHwcContext : Nat
  mSleepAgain : Bool
  mSleepTime : Nat
  calls : List InvalidatorEvent
deriving DecidableEq, Repr

/-- There was an mdp comp update, so keep sleeping. -/
def IdleInvalidator.markForSleep (inv : IdleInvalidator) : IdleInvalidator :=
  { inv with mSleepAgain := true }

/-- One run of `IdleInvalidator::threadLoop`. `marked` tells whether `markForSleep` was
called by the composer while the thread slept in `usleep`. -/
def IdleInvalidator.threadLoop (inv : IdleInvalidator) (marked : Bool) :
    Bool × IdleInvalidator :=
  let inv := { inv with
    calls := inv.calls ++ [InvalidatorEvent.usleep ((inv.mSleepTime * 1000) % 4294967296)] }
  let inv := if marked then inv.markForSleep else inv
  if inv.mSleepAgain then (true, { inv with mSleepAgain := false })
  else
    (false, { inv with calls := inv.calls ++ [InvalidatorEvent.handler inv.mHwcContext] })

/-- A device that shows buffer 7 through the video pipe for the second frame in a row:
buffer 7 is both the previous and the current overlay buffer and carries the mark. -/
def sameBufferWorld : World :=
  (hwc_device_open refModule (uniformHeap 1 0x11 0x200) true (some 1)).modCtx (fun c =>
    { c with previousOverlayHandle := 7, currentOverlayHandle := 7 })

/-- An environment in which the first `genlock_unlock_buffer` (call number 1) fails and
every other external call succeeds. -/
def failOnceEnv : Env :=
  { okEnv with genlock_unlock_buffer := fun t =>
      if t = 1 then genlock_status_t.GENLOCK_FAILURE else genlock_status_t.GENLOCK_NO_ERROR }

/-- An environment in which every call into the overlay fails and every other external
call succeeds. -/
def failOvEnv : Env := { okEnv with ovResult := fun _ => false }

/-- A freshly opened device on the reference module whose buffers are RGBA UI buffers. -/
def freshWorld : World := hwc_device_open refModule (uniformHeap 0 1 0) true (some 1)

/-- A frame of one layer on buffer 7. -/
def oneLayerList : hwc_layer_list_t := { flags := 0, hwLayers := [mkLayer 7 0] }

/-- A frame of three layers on buffers 7, 8 and 9. -/
def threeLayerList : hwc_layer_list_t :=
  { flags := 0, hwLayers := [mkLayer 7 0, mkLayer 8 0, mkLayer 9 0] }

/-- The device after `hwc_device_open` and a frame of three UI layers (`hwc_prepare`, then
`hwc_set`), every collaborator succeeding: the three layers went through the bypass. -/
def bypassedWorld : World :=
  (hwc_set refHdr okEnv (hwc_prepare refHdr okEnv freshWorld (some threeLayerList)).2.1
    true true (hwc_prepare refHdr okEnv freshWorld (some threeLayerList)).2.2).2.1

/-- The device `bypassedWorld` after `hwc_prepare` on the next frame, of one UI layer. -/
def staleIndexWorld : World := (hwc_prepare refHdr okEnv bypassedWorld (some oneLayerList)).2.1

/-- A frame of two video layers, the second flagged `HWC_DO_NOT_USE_OVERLAY`. -/
def twoVideoList : hwc_layer_list_t :=
  { flags := 0, hwLayers := [mkLayer 7 0, mkLayer 8 refHdr.HWC_DO_NOT_USE_OVERLAY] }

/-- A frame of one stereo UI layer that arrives classified `HWC_USE_OVERLAY`. -/
def stereoList : hwc_layer_list_t :=
  { flags := 0, hwLayers := [{ mkLayer 8 0 with compositionType := refHdr.HWC_USE_OVERLAY }] }

/-- Tells the `setSource` calls among the logged calls. -/
def isSetSource (e : Event) : Bool :=
  match e with
  | Event.setSource _ _ _ _ => true
  | _ => false

/-- A module with blit composition (C2D) and without composition bypass. -/
def c2dModule : private_hwc_module_t :=
  { refModule with compositionType := refHdr.COMPOSITION_TYPE_C2D, isBypassEnabled := false }

/-- A UI layer on buffer 7 shown at (1300,0)-(1400,100), to the right of a framebuffer that
is 1280 wide. -/
def outsideLayer : hwc_layer_t :=
  { mkLayer 7 0 with displayFrame := { left := 1300, top := 0, right := 1400, bottom := 100 } }

/-- Tells the `eglSwapBuffers` calls among the logged calls. -/
def isSwapEvent (e : Event) : Bool :=
  match e with
  | Event.eglSwapBuffers _ => true
  | _ => false

/-- The calls logged between the device `w` and the later device `w'`. -/
def World.since (w w' : World) : List Event := w'.trace.drop w.trace.length

/-- The device `w'` comes after `w`, and no call logged in between is `eglSwapBuffers`. -/
def World.noSwapSince (w w' : World) : Prop :=
  w'.trace = w.trace ++ w.since w' ∧ ∀ e ∈ w.since w', isSwapEvent e = false

/-- The layers for which the loop of `hwc_set` takes a buffer lock, whatever the calls
before returned: the layers drawn by `drawLayerUsingOverlay`, the layers with a buffer drawn
by `drawLayerUsingCopybit`, and the layers with a buffer and a pipe index drawn by
`drawLayerUsingBypass` while the swap interval is positive. -/
def drawLocksBuffer (K : Hdr) (list : hwc_layer_list_t) (swapInterval : Int)
    (layer : hwc_layer_t) : Bool :=
  drawsWithOverlay K layer
  || (drawsWithBypass K layer && decide (0 ≤ getLayerbypassIndex K layer)
      && decide (layer.handle ≠ 0) && decide (swapInterval > 0))
  || (!hasBits layer.flags K.HWC_SKIP_LAYER && !hasBits layer.flags K.HWC_COMP_BYPASS
      && decide (layer.compositionType ≠ K.HWC_USE_OVERLAY)
      && !hasBits list.flags K.HWC_SKIP_COMPOSITION
      && decide (layer.compositionType = K.HWC_USE_COPYBIT) && decide (layer.handle ≠ 0))

/-- An environment in which every `genlock_lock_buffer` and `eglSwapBuffers` fails. -/
def failLockEnv : Env :=
  { okEnv with genlock_lock_buffer := fun _ => genlock_status_t.GENLOCK_FAILURE,
               eglSwapBuffers := fun _ => false }

/-- The device `w'` comes after `w` on the same module, and the program has not stopped at
a `NULL` pointer in between. -/
def World.noFaultSince (w w' : World) : Prop :=
  w'.trace = w.trace ++ w.since w' ∧ w'.module = w.module
    ∧ Event.nullDereference ∉ w.since w'

/-- The extents by which `calculate_crop_rects` divides, in the order of the divisions: each
of its four blocks that is entered computes `crop_w * 1.0f / dst_w` or
`crop_h * 1.0f / dst_h` with the extent as the blocks before it left it. -/
def cropDivisors (F : CropArith) (crop dst : hwc_rect_t) (hw_w hw_h : Int) : List Int :=
  let s0 : CropState :=
    { crop := crop, dst := dst,
      crop_w := crop.right - crop.left, crop_h := crop.bottom - crop.top,
      dst_w := dst.right - dst.left, dst_h := dst.bottom - dst.top }
  let s1 := clampLeft F s0
  let s2 := clampRight F hw_w s1
  let s3 := clampTop F s2
  (if s0.dst.left < 0 then [s0.dst_w] else [])
    ++ (if s1.dst.right > hw_w then [s1.dst_w] else [])
    ++ (if s2.dst.top < 0 then [s2.dst_h] else [])
    ++ (if s3.dst.bottom > hw_h then [s3.dst_h] else [])

/-- A UI layer on buffer 7 with the empty destination (-5,0)-(-5,100), to the left of the
framebuffer. -/
def zeroWidthLayer : hwc_layer_t :=
  { mkLayer 7 0 with displayFrame := { left := -5, top := 0, right := -5, bottom := 100 } }

/-! # Theorems -/

/-! ## Flag words -/

theorem hasBits_clearBits (word mask : Nat) : hasBits (clearBits word mask) mask = false := by
  have h : (word ^^^ (word &&& mask)) &&& mask = 0 := by
    apply Nat.eq_of_testBit_eq
    intro i
    simp only [Nat.testBit_and, Nat.testBit_xor, Nat.zero_testBit]
    cases word.testBit i <;> cases mask.testBit i <;> rfl
  simp [hasBits, clearBits, h]

theorem hasBits_or_self (word mask : Nat) (h : mask ≠ 0) : hasBits (word ||| mask) mask = true := by
  have h2 : (word ||| mask) &&& mask = mask := by
    apply Nat.eq_of_testBit_eq
    intro i
    simp only [Nat.testBit_and, Nat.testBit_or]
    cases word.testBit i <;> cases mask.testBit i <;> rfl
  simp [hasBits, h2, h]

/-! ## Loops -/

theorem foldl_inv {σ ι : Type} (step : σ → ι → σ) (P : σ → Prop)
    (hstep : ∀ s i, P s → P (step s i)) (l : List ι) (s : σ) (h : P s) :
    P (l.foldl step s) := by
  induction l generalizing s with
  | nil => simpa using h
  | cons a l ih => exact ih _ (hstep s a h)

theorem foldl_range_inv {σ : Type} (step : σ → Nat → σ) (P : Nat → σ → Prop) (n : Nat)
    (s : σ) (h0 : P 0 s) (hstep : ∀ i s, i < n → P i s → P (i + 1) (step s i)) :
    P n ((List.range n).foldl step s) := by
  induction n with
  | zero => simpa using h0
  | succ n ih =>
    rw [List.range_succ, List.foldl_append]
    simp only [List.foldl_cons, List.foldl_nil]
    exact hstep n _ (Nat.lt_succ_self n)
      (ih (fun i s hi hp => hstep i s (Nat.lt_succ_of_lt hi) hp))

/-! ## What the helpers leave alone -/

@[simp] theorem modCtx_ctx (w : World) (f : hwc_context_t → hwc_context_t) :
    (w.modCtx f).ctx = f w.ctx := rfl
@[simp] theorem modCtx_module (w : World) (f : hwc_context_t → hwc_context_t) :
    (w.modCtx f).module = w.module := rfl
@[simp] theorem modCtx_heap (w : World) (f : hwc_context_t → hwc_context_t) :
    (w.modCtx f).heap = w.heap := rfl
@[simp] theorem modCtx_ovState (w : World) (f : hwc_context_t → hwc_context_t) :
    (w.modCtx f).ovState = w.ovState := rfl
@[simp] theorem modCtx_trace (w : World) (f : hwc_context_t → hwc_context_t) :
    (w.modCtx f).trace = w.trace := rfl
@[simp] theorem modCtx_tick (w : World) (f : hwc_context_t → hwc_context_t) :
    (w.modCtx f).tick = w.tick := rfl
@[simp] theorem next_ctx (w : World) : w.next.ctx = w.ctx := rfl
@[simp] theorem next_module (w : World) : w.next.module = w.module := rfl
@[simp] theorem next_heap (w : World) : w.next.heap = w.heap := rfl
@[simp] theorem next_ovState (w : World) : w.next.ovState = w.ovState := rfl
@[simp] theorem next_trace (w : World) : w.next.trace = w.trace := rfl
@[simp] theorem next_tick (w : World) : w.next.tick = w.tick + 1 := rfl
@[simp] theorem log_ctx (w : World) (e : Event) : (w.log e).ctx = w.ctx := rfl
@[simp] theorem log_module (w : World) (e : Event) : (w.log e).module = w.module := rfl
@[simp] theorem log_heap (w : World) (e : Event) : (w.log e).heap = w.heap := rfl
@[simp] theorem log_ovState (w : World) (e : Event) : (w.log e).ovState = w.ovState := rfl
@[simp] theorem log_trace (w : World) (e : Event) : (w.log e).trace = w.trace ++ [e] := rfl
@[simp] theorem log_tick (w : World) (e : Event) : (w.log e).tick = w.tick := rfl
@[simp] theorem modHandleFlags_ctx (w : World) (h : Nat) (f : Nat → Nat) :
    (w.modHandleFlags h f).ctx = w.ctx := rfl
@[simp] theorem modHandleFlags_module (w : World) (h : Nat) (f : Nat → Nat) :
    (w.modHandleFlags h f).module = w.module := rfl
@[simp] theorem modHandleFlags_ovState (w : World) (h : Nat) (f : Nat → Nat) :
    (w.modHandleFlags h f).ovState = w.ovState := rfl
@[simp] theorem modHandleFlags_trace (w : World) (h : Nat) (f : Nat → Nat) :
    (w.modHandleFlags h f).trace = w.trace := rfl
@[simp] theorem modHandleFlags_tick (w : World) (h : Nat) (f : Nat → Nat) :
    (w.modHandleFlags h f).tick = w.tick := rfl

@[simp] theorem noBypass_update (c : hwc_context_t) (a : Slots Nat)
    (b : Slots BypassBufferLockState) (d : Slots Int) (n : Nat) (s : BypassState) :
    hwc_context_t.noBypass
      { c with previousBypassHandle := a, bypassBufferLockState := b, layerindex := d,
               nPipesUsed := n, bypassState := s } = c.noBypass := rfl

@[simp] theorem fixedPart_update (c : hwc_context_t) (a : Slots Nat)
    (b : Slots BypassBufferLockState) (d : Slots Int) (n : Nat) (s : BypassState)
    (sk : Bool) (pl : Int) (st : eHWCOverlayStatus) :
    hwc_context_t.fixedPart
      { c with previousBypassHandle := a, bypassBufferLockState := b, layerindex := d,
               nPipesUsed := n, bypassState := s, skipComposition := sk,
               previousLayerCount := pl, hwcOverlayStatus := st } = c.fixedPart := rfl

@[simp] theorem getOverlayState_ctx (K : Hdr) (E : Env) (w : World) (b : Nat) (fmt : Int) :
    (getOverlayState K E w b fmt).2.ctx = w.ctx := by
  unfold getOverlayState
  dsimp only
  repeat' split
  all_goals rfl

@[simp] theorem getOverlayState_module (K : Hdr) (E : Env) (w : World) (b : Nat) (fmt : Int) :
    (getOverlayState K E w b fmt).2.module = w.module := by
  unfold getOverlayState
  dsimp only
  repeat' split
  all_goals rfl

@[simp] theorem getOverlayState_heap (K : Hdr) (E : Env) (w : World) (b : Nat) (fmt : Int) :
    (getOverlayState K E w b fmt).2.heap = w.heap := by
  unfold getOverlayState
  dsimp only
  repeat' split
  all_goals rfl

@[simp] theorem setOverlayState_ctx (w : World) (s : eOverlayState) :
    (setOverlayState w s).ctx = w.ctx := by
  unfold setOverlayState ovMgr_setState
  repeat' split
  all_goals rfl

@[simp] theorem setOverlayState_module (w : World) (s : eOverlayState) :
    (setOverlayState w s).module = w.module := by
  unfold setOverlayState ovMgr_setState
  repeat' split
  all_goals rfl

@[simp] theorem setOverlayState_heap (w : World) (s : eOverlayState) :
    (setOverlayState w s).heap = w.heap := by
  unfold setOverlayState ovMgr_setState
  repeat' split
  all_goals rfl

@[simp] theorem setVideoOverlayStatusInGralloc_ctx (K : Hdr) (w : World) (v : Int) :
    (setVideoOverlayStatusInGralloc K w v).ctx = w.ctx := by
  unfold setVideoOverlayStatusInGralloc
  repeat' split
  all_goals rfl

@[simp] theorem setVideoOverlayStatusInGralloc_module (K : Hdr) (w : World) (v : Int) :
    (setVideoOverlayStatusInGralloc K w v).module = w.module := by
  unfold setVideoOverlayStatusInGralloc
  repeat' split
  all_goals rfl

@[simp] theorem setVideoOverlayStatusInGralloc_heap (K : Hdr) (w : World) (v : Int) :
    (setVideoOverlayStatusInGralloc K w v).heap = w.heap := by
  unfold setVideoOverlayStatusInGralloc
  repeat' split
  all_goals rfl

theorem closeExtraPipe_noBypass (K : Hdr) (E : Env) (w : World) (i : Nat) :
    (closeExtraPipe K E w i).ctx.noBypass = w.ctx.noBypass := by
  unfold closeExtraPipe validate genlock_unlock_buffer
  dsimp only
  repeat' split
  all_goals simp

theorem closeExtraPipe_module (K : Hdr) (E : Env) (w : World) (i : Nat) :
    (closeExtraPipe K E w i).module = w.module := by
  unfold closeExtraPipe validate genlock_unlock_buffer
  dsimp only
  repeat' split
  all_goals rfl

theorem closeExtraPipes_noBypass (K : Hdr) (E : Env) (w : World) :
    (closeExtraPipes K E w).ctx.noBypass = w.ctx.noBypass := by
  unfold closeExtraPipes
  exact foldl_inv (closeExtraPipe K E) (fun s => s.ctx.noBypass = w.ctx.noBypass)
    (fun s i h => (closeExtraPipe_noBypass K E s i).trans h) _ w rfl

theorem closeExtraPipes_module (K : Hdr) (E : Env) (w : World) :
    (closeExtraPipes K E w).module = w.module := by
  unfold closeExtraPipes
  exact foldl_inv (closeExtraPipe K E) (fun s => s.module = w.module)
    (fun s i h => (closeExtraPipe_module K E s i).trans h) _ w rfl

@[simp] theorem programPipes_ctx (E : Env) (w : World) (dest : eDest) (wait isFg : Bool) :
    (programPipes E w dest wait isFg).2.ctx = w.ctx := by
  unfold programPipes ov_setSource ovCall
  dsimp only
  repeat' split
  all_goals rfl

@[simp] theorem programPipes_module (E : Env) (w : World) (dest : eDest) (wait isFg : Bool) :
    (programPipes E w dest wait isFg).2.module = w.module := by
  unfold programPipes ov_setSource ovCall
  dsimp only
  repeat' split
  all_goals rfl

@[simp] theorem programPipes_heap (E : Env) (w : World) (dest : eDest) (wait isFg : Bool) :
    (programPipes E w dest wait isFg).2.heap = w.heap := by
  unfold programPipes ov_setSource ovCall
  dsimp only
  repeat' split
  all_goals rfl

theorem prepareOverlayCloseBypass_noBypass (K : Hdr) (E : Env) (w : World) :
    (prepareOverlayCloseBypass K E w).ctx.noBypass = w.ctx.noBypass := by
  unfold prepareOverlayCloseBypass
  split
  · simp [closeExtraPipes_noBypass]
  · rfl

theorem prepareOverlayCloseBypass_module (K : Hdr) (E : Env) (w : World) :
    (prepareOverlayCloseBypass K E w).module = w.module := by
  unfold prepareOverlayCloseBypass
  split
  · simp [closeExtraPipes_module]
  · rfl

@[simp] theorem prepareOverlayPipes_ctx (K : Hdr) (E : Env) (w : World) (layer : hwc_layer_t) :
    (prepareOverlayPipes K E w layer).2.ctx = w.ctx := by
  unfold prepareOverlayPipes
  split
  · rfl
  · simp

@[simp] theorem prepareOverlayPipes_module (K : Hdr) (E : Env) (w : World) (layer : hwc_layer_t) :
    (prepareOverlayPipes K E w layer).2.module = w.module := by
  unfold prepareOverlayPipes
  split
  · rfl
  · simp

theorem prepareOverlay_noBypass (K : Hdr) (E : Env) (w : World) (layer : hwc_layer_t) :
    (prepareOverlay K E w layer).2.ctx.noBypass = w.ctx.noBypass := by
  unfold prepareOverlay
  rw [prepareOverlayPipes_ctx]
  exact prepareOverlayCloseBypass_noBypass K E w

theorem prepareOverlay_module (K : Hdr) (E : Env) (w : World) (layer : hwc_layer_t) :
    (prepareOverlay K E w layer).2.module = w.module := by
  unfold prepareOverlay
  rw [prepareOverlayPipes_module]
  exact prepareOverlayCloseBypass_module K E w

theorem noBypass_fixedPart {c c' : hwc_context_t} (h : c'.noBypass = c.noBypass) :
    c'.fixedPart = c.fixedPart := by
  unfold hwc_context_t.fixedPart
  rw [h]

theorem fixedPart_forceComposition {c c' : hwc_context_t} (h : c'.fixedPart = c.fixedPart) :
    c'.forceComposition = c.forceComposition := by
  have := congrArg hwc_context_t.forceComposition h
  exact this

theorem fixedPart_yuvBufferCount {c c' : hwc_context_t} (h : c'.fixedPart = c.fixedPart) :
    c'.yuvBufferCount = c.yuvBufferCount := by
  have := congrArg hwc_context_t.yuvBufferCount h
  exact this

theorem noBypass_skipComposition {c c' : hwc_context_t} (h : c'.noBypass = c.noBypass) :
    c'.skipComposition = c.skipComposition := by
  have := congrArg hwc_context_t.skipComposition h
  exact this

theorem noBypass_hwcOverlayStatus {c c' : hwc_context_t} (h : c'.noBypass = c.noBypass) :
    c'.hwcOverlayStatus = c.hwcOverlayStatus := by
  have := congrArg hwc_context_t.hwcOverlayStatus h
  exact this

@[simp] theorem prepareOverlay_skipComposition (K : Hdr) (E : Env) (w : World)
    (layer : hwc_layer_t) :
    (prepareOverlay K E w layer).2.ctx.skipComposition = w.ctx.skipComposition :=
  noBypass_skipComposition (prepareOverlay_noBypass K E w layer)

@[simp] theorem prepareOverlay_fixedPart (K : Hdr) (E : Env) (w : World) (layer : hwc_layer_t) :
    (prepareOverlay K E w layer).2.ctx.fixedPart = w.ctx.fixedPart :=
  noBypass_fixedPart (prepareOverlay_noBypass K E w layer)

/-! ### The classification loop -/

@[simp] theorem classifyVideoChoice_fixedPart (K : Hdr) (E : Env) (m : private_hwc_module_t)
    (w : World) (layer : hwc_layer_t) :
    (classifyVideoChoice K E m w layer).2.ctx.fixedPart = w.ctx.fixedPart := by
  unfold classifyVideoChoice
  dsimp only
  split_ifs <;> simp

theorem classifyVideoChoice_skip (K : Hdr) (E : Env) (m : private_hwc_module_t)
    (w : World) (layer : hwc_layer_t)
    (h : (classifyVideoChoice K E m w layer).2.ctx.skipComposition = true) :
    w.ctx.skipComposition = true := by
  unfold classifyVideoChoice at h
  dsimp only at h
  split_ifs at h <;> simp at h <;> exact h

theorem classifyLayer_fixedPart (K : Hdr) (E : Env) (m : private_hwc_module_t)
    (useCopybit s3d : Bool) (f : Frame) (i : Nat) :
    (classifyLayer K E m useCopybit s3d f i).w.ctx.fixedPart = f.w.ctx.fixedPart := by
  unfold classifyLayer
  split
  · rfl
  · rename_i layer _
    dsimp only
    split_ifs
    · unfold classifySkipLayer
      dsimp only
      split_ifs <;> simp
    · unfold classifyVideoLayer
      dsimp only
      split_ifs <;> simp
    · unfold classifyS3DLayer
      dsimp only
      split_ifs <;> simp
    all_goals rfl

theorem classifyLayer_skip (K : Hdr) (E : Env) (m : private_hwc_module_t)
    (useCopybit s3d : Bool) (f : Frame) (i : Nat)
    (h : (classifyLayer K E m useCopybit s3d f i).w.ctx.skipComposition = true) :
    f.w.ctx.skipComposition = true
      ∧ ∀ layer, f.list.hwLayers[i]? = some layer → isSkipLayer K layer = false := by
  unfold classifyLayer at h
  split at h
  · rename_i hnone
    exact ⟨h, fun layer hl => by rw [hnone] at hl; cases hl⟩
  · rename_i layer hsome
    dsimp only at h
    have key : f.w.ctx.skipComposition = true ∧ isSkipLayer K layer = false := by
      split_ifs at h with h1 h2 h3 h4 h5 h6 h7
      · unfold classifySkipLayer at h
        dsimp only at h
        split_ifs at h <;> simp at h
      · refine ⟨?_, by simpa using h1⟩
        unfold classifyVideoLayer at h
        dsimp only at h
        split_ifs at h <;>
          first
          | (have hv := classifyVideoChoice_skip K E m _ layer h
             simpa using hv)
          | simp at h
      · refine ⟨?_, by simpa using h1⟩
        unfold classifyS3DLayer at h
        dsimp only at h
        split_ifs at h <;> simpa using h
      all_goals exact ⟨h, by simpa using h1⟩
    exact ⟨key.1, fun l hl => by rw [hsome] at hl; cases hl; exact key.2⟩

/-! ## The frame-skip decision -/

/-- C3, as amended. For a frame whose layer count equals the previous frame's, with one
video layer, the decision of `canSkipComposition` is the same in any two contexts that
agree on the counts, on `forceComposition` and on whether the composition type of the
module is `COMPOSITION_TYPE_CPU`; it is: not forced, not CPU, and one layer in all or all
layers but one not updating. -/
theorem canSkipComposition_deterministic (K : Hdr) (w1 w2 : World)
    (m1 m2 : private_hwc_module_t) (layerCount notUpdating : Int)
    (hy1 : w1.ctx.yuvBufferCount = 1) (hy2 : w2.ctx.yuvBufferCount = 1)
    (hp1 : w1.ctx.previousLayerCount = layerCount)
    (hp2 : w2.ctx.previousLayerCount = layerCount)
    (hf : w1.ctx.forceComposition = w2.ctx.forceComposition)
    (hc : m1.compositionType = K.COMPOSITION_TYPE_CPU
            ↔ m2.compositionType = K.COMPOSITION_TYPE_CPU) :
    (canSkipComposition K w1 m1 1 layerCount notUpdating).1
        = (canSkipComposition K w2 m2 1 layerCount notUpdating).1
      ∧ (canSkipComposition K w1 m1 1 layerCount notUpdating).1
        = (!w1.ctx.forceComposition
            && !decide (m1.compositionType = K.COMPOSITION_TYPE_CPU)
            && (decide (layerCount = 1) || decide (layerCount - 1 = notUpdating))) := by
  have key : ∀ (w : World) (m : private_hwc_module_t), w.ctx.yuvBufferCount = 1 →
      w.ctx.previousLayerCount = layerCount →
      (canSkipComposition K w m 1 layerCount notUpdating).1
        = (!w.ctx.forceComposition
            && !decide (m.compositionType = K.COMPOSITION_TYPE_CPU)
            && (decide (layerCount = 1) || decide (layerCount - 1 = notUpdating))) := by
    intro w m hy hp
    unfold canSkipComposition
    dsimp only
    split_ifs <;> simp_all
  refine ⟨?_, key w1 m1 hy1 hp1⟩
  rw [key w1 m1 hy1 hp1, key w2 m2 hy2 hp2, hf]
  by_cases h : m1.compositionType = K.COMPOSITION_TYPE_CPU
  · simp [h, hc.mp h]
  · have h2 : ¬m2.compositionType = K.COMPOSITION_TYPE_CPU := fun h2 => h (hc.mpr h2)
    simp [h, h2]

/-- Witness of `canSkipComposition_deterministic`: two devices that differ in nothing the
decision looks at. -/
theorem canSkipComposition_deterministic_witness :
    (canSkipComposition refHdr (oneVideoWorld false) refModule 1 1 0).1
      = (canSkipComposition refHdr ((oneVideoWorld false).log Event.invalidate) refModule 1 1 0).1
    ∧ (canSkipComposition refHdr (oneVideoWorld false) refModule 1 1 0).1 = true :=
  ⟨(canSkipComposition_deterministic refHdr (oneVideoWorld false)
      ((oneVideoWorld false).log Event.invalidate) refModule refModule 1 0
      rfl rfl rfl rfl rfl Iff.rfl).1, by decide⟩

/-- C3, counterexample. Two contexts with the same four counts (one video buffer, one
layer, no layer not updating, one layer in the previous frame) get different decisions
when they differ in `forceComposition`. -/
theorem canSkipComposition_not_counts_only :
    (oneVideoWorld false).ctx.yuvBufferCount = (oneVideoWorld true).ctx.yuvBufferCount
    ∧ (oneVideoWorld false).ctx.previousLayerCount = (oneVideoWorld true).ctx.previousLayerCount
    ∧ (oneVideoWorld false).ctx.yuvBufferCount = 1
    ∧ (oneVideoWorld false).ctx.previousLayerCount = 1
    ∧ (canSkipComposition refHdr (oneVideoWorld false) refModule 1 1 0).1 = true
    ∧ (canSkipComposition refHdr (oneVideoWorld true) refModule 1 1 0).1 = false := by
  decide

/-! ## Forced composition -/

theorem statCount_fixedPart_force (K : Hdr) (w : World) (list : hwc_layer_list_t) :
    (statCount K w list).ctx.forceComposition = w.ctx.forceComposition := rfl

theorem prepareStats_forceComposition (K : Hdr) (m : private_hwc_module_t) (w : World)
    (list : hwc_layer_list_t) :
    (prepareStats K m w list).ctx.forceComposition = w.ctx.forceComposition := by
  unfold prepareStats canSkipComposition
  dsimp only
  split_ifs <;> rfl

theorem prepareStats_skip_of_force (K : Hdr) (m : private_hwc_module_t) (w : World)
    (list : hwc_layer_list_t) (hf : w.ctx.forceComposition = true) :
    (prepareStats K m w list).ctx.skipComposition = false := by
  have h : (statCount K w list).ctx.forceComposition = true := hf
  unfold prepareStats canSkipComposition
  dsimp only
  rw [if_pos h]
  split_ifs <;> rfl

@[simp] theorem isS3DCompositionRequired_ctx (K : Hdr) (E : Env) (w : World) :
    (isS3DCompositionRequired K E w).2.ctx = w.ctx := by
  unfold isS3DCompositionRequired
  split <;> rfl

@[simp] theorem s3dCheck_ctx (K : Hdr) (E : Env) (w : World) : (s3dCheck K E w).2.ctx = w.ctx := by
  unfold s3dCheck
  split
  · exact isS3DCompositionRequired_ctx K E w
  · rfl

theorem classifyLoop_fixedPart (K : Hdr) (E : Env) (m : private_hwc_module_t)
    (useCopybit s3d : Bool) (n : Nat) (f : Frame) :
    (classifyLoop K E m useCopybit s3d n f).w.ctx.fixedPart = f.w.ctx.fixedPart :=
  foldl_inv _ (fun g : Frame => g.w.ctx.fixedPart = f.w.ctx.fixedPart)
    (fun g i h => (classifyLayer_fixedPart K E m useCopybit s3d g i).trans h) _ _ rfl

theorem classifyLayer_skip_false (K : Hdr) (E : Env) (m : private_hwc_module_t)
    (useCopybit s3d : Bool) (f : Frame) (i : Nat) (h : f.w.ctx.skipComposition = false) :
    (classifyLayer K E m useCopybit s3d f i).w.ctx.skipComposition = false := by
  cases hs : (classifyLayer K E m useCopybit s3d f i).w.ctx.skipComposition
  · rfl
  · have := (classifyLayer_skip K E m useCopybit s3d f i hs).1
    rw [h] at this
    cases this

theorem classifyLoop_skip_false (K : Hdr) (E : Env) (m : private_hwc_module_t)
    (useCopybit s3d : Bool) (n : Nat) (f : Frame) (h : f.w.ctx.skipComposition = false) :
    (classifyLoop K E m useCopybit s3d n f).w.ctx.skipComposition = false :=
  foldl_inv _ (fun g : Frame => g.w.ctx.skipComposition = false)
    (fun g i hg => classifyLayer_skip_false K E m useCopybit s3d g i hg) _ _ h

theorem classifyLayers_forceComposition (K : Hdr) (E : Env) (m : private_hwc_module_t)
    (w : World) (list : hwc_layer_list_t) :
    (classifyLayers K E m w list).w.ctx.forceComposition = w.ctx.forceComposition := by
  unfold classifyLayers
  dsimp only
  rw [fixedPart_forceComposition (classifyLoop_fixedPart K E m _ _ _ _)]
  dsimp only [Frame.init]
  rw [s3dCheck_ctx]
  exact prepareStats_forceComposition K m w list

theorem classifyLayers_skip_of_force (K : Hdr) (E : Env) (m : private_hwc_module_t)
    (w : World) (list : hwc_layer_list_t) (hf : w.ctx.forceComposition = true) :
    (classifyLayers K E m w list).w.ctx.skipComposition = false := by
  unfold classifyLayers
  dsimp only
  apply classifyLoop_skip_false
  dsimp only [Frame.init]
  rw [s3dCheck_ctx]
  exact prepareStats_skip_of_force K m w list hf

theorem isBypassDoable_of_force (K : Hdr) (E : Env) (w : World) (m : private_hwc_module_t)
    (yuvCount : Int) (list : hwc_layer_list_t) (hf : w.ctx.forceComposition = true) :
    isBypassDoable K E w m yuvCount list = (false, w) := by
  unfold isBypassDoable
  split_ifs <;> rfl

theorem prepareBypassStage_of_force (K : Hdr) (E : Env) (m : private_hwc_module_t) (f : Frame)
    (hf : f.w.ctx.forceComposition = true) :
    (prepareBypassStage K E m f).2 = unsetBypassLayerFlags K (markSkipComposition K f) := by
  unfold prepareBypassStage
  dsimp only
  rw [isBypassDoable_of_force K E f.w m _ _ hf]
  rfl

/-- C1. A call of `hwc_prepare` on a device with a valid module and a non-null
list that is entered with `ctx->forceComposition` set never allows the whole-frame skip:
on return the list has `HWC_SKIP_COMPOSITION` cleared and no layer carries
`HWC_COMP_BYPASS`. -/
theorem hwc_prepare_forceComposition_no_skip (K : Hdr) (E : Env) (w : World)
    (m : private_hwc_module_t) (list : hwc_layer_list_t)
    (hm : w.module = some m) (hf : w.ctx.forceComposition = true) :
    ∃ list', (hwc_prepare K E w (some list)).2.2 = some list'
      ∧ hasBits list'.flags K.HWC_SKIP_COMPOSITION = false
      ∧ ∀ layer ∈ list'.hwLayers, hasBits layer.flags K.HWC_COMP_BYPASS = false := by
  have hm' : (w.modCtx (fun c => { c with currentOverlayHandle := 0 })).module = some m := hm
  have hf' : (w.modCtx (fun c => { c with currentOverlayHandle := 0 })).ctx.forceComposition
      = true := hf
  unfold hwc_prepare
  dsimp only
  rw [hm']
  dsimp only
  refine ⟨_, rfl, ?_⟩
  rw [prepareBypassStage_of_force K E m _
    ((classifyLayers_forceComposition K E m _ list).trans hf')]
  have hs := classifyLayers_skip_of_force K E m _ list hf'
  constructor
  · unfold unsetBypassLayerFlags markSkipComposition
    rw [hs]
    exact hasBits_clearBits _ _
  · intro layer hl
    unfold unsetBypassLayerFlags at hl
    simp only [List.mem_map] at hl
    obtain ⟨l0, _, rfl⟩ := hl
    split
    · exact hasBits_clearBits _ _
    · rename_i hb
      simpa using hb

/-! ## The classifier leaves the inputs of the layers alone -/

@[simp] theorem input_update (layer : hwc_layer_t) (ct : Int) (h : Nat) :
    hwc_layer_t.input { layer with compositionType := ct, hints := h } = layer.input := rfl

theorem input_flags {l l' : hwc_layer_t} (h : l'.input = l.input) : l'.flags = l.flags := by
  have := congrArg hwc_layer_t.flags h
  exact this

theorem input_handle {l l' : hwc_layer_t} (h : l'.input = l.input) : l'.handle = l.handle := by
  have := congrArg hwc_layer_t.handle h
  exact this

@[simp] theorem markUILayerForS3DComposition_input (K : Hdr) (layer : hwc_layer_t) (s : Nat) :
    (markUILayerForS3DComposition K layer s).input = layer.input := by
  unfold markUILayerForS3DComposition
  dsimp only
  split_ifs <;> rfl

theorem map_input_set (l : List hwc_layer_t) (i : Nat) (layer x : hwc_layer_t)
    (hl : l[i]? = some layer) (hx : x.input = layer.input) :
    (l.set i x).map hwc_layer_t.input = l.map hwc_layer_t.input := by
  induction l generalizing i with
  | nil => rfl
  | cons a l ih =>
    cases i with
    | zero =>
      simp only [List.getElem?_cons_zero, Option.some.injEq] at hl
      subst hl
      simp [hx]
    | succ i =>
      simp only [List.getElem?_cons_succ] at hl
      simp [ih i hl]

theorem setLayer_input (list : hwc_layer_list_t) (i : Nat) (layer x : hwc_layer_t)
    (hl : list.hwLayers[i]? = some layer) (hx : x.input = layer.input) :
    (list.setLayer i x).hwLayers.map hwc_layer_t.input = list.hwLayers.map hwc_layer_t.input :=
  map_input_set list.hwLayers i layer x hl hx

theorem markForGPUComp_input (K : Hdr) (w : World) (list : hwc_layer_list_t) (limit : Nat) :
    (markForGPUComp K w list limit).hwLayers.map hwc_layer_t.input
      = list.hwLayers.map hwc_layer_t.input := by
  unfold markForGPUComp
  dsimp only
  rw [List.map_append, List.map_map]
  have h : (hwc_layer_t.input ∘ fun layer : hwc_layer_t =>
      if getLayerS3DFormat K w layer ≠ 0 then layer
      else { layer with compositionType := K.HWC_FRAMEBUFFER,
                        hints := clearBits layer.hints K.HWC_HINT_CLEAR_FB })
      = hwc_layer_t.input := by
    funext layer
    simp only [Function.comp]
    split <;> rfl
  rw [h, ← List.map_append, List.take_append_drop]

theorem classifyLayer_input (K : Hdr) (E : Env) (m : private_hwc_module_t)
    (useCopybit s3d : Bool) (f : Frame) (i : Nat) :
    (classifyLayer K E m useCopybit s3d f i).list.hwLayers.map hwc_layer_t.input
      = f.list.hwLayers.map hwc_layer_t.input := by
  unfold classifyLayer
  split
  · rfl
  · rename_i layer hl
    dsimp only
    split_ifs
    · unfold classifySkipLayer
      dsimp only
      rw [markForGPUComp_input]
      apply setLayer_input _ _ layer _ hl
      split <;> simp
    · unfold classifyVideoLayer
      dsimp only
      apply setLayer_input _ _ layer _ hl
      unfold classifyVideoChoice
      dsimp only
      split_ifs <;> rfl
    · unfold classifyS3DLayer
      dsimp only
      split_ifs <;> first | exact setLayer_input _ _ layer _ hl rfl | rfl
    · exact setLayer_input _ _ layer _ hl (by simp)
    all_goals exact setLayer_input _ _ layer _ hl rfl

theorem classifyLoop_input (K : Hdr) (E : Env) (m : private_hwc_module_t)
    (useCopybit s3d : Bool) (n : Nat) (f : Frame) :
    (classifyLoop K E m useCopybit s3d n f).list.hwLayers.map hwc_layer_t.input
      = f.list.hwLayers.map hwc_layer_t.input :=
  foldl_inv _
    (fun g : Frame => g.list.hwLayers.map hwc_layer_t.input = f.list.hwLayers.map hwc_layer_t.input)
    (fun g i h => (classifyLayer_input K E m useCopybit s3d g i).trans h) _ _ rfl

theorem classifyLayers_fixedPart (K : Hdr) (E : Env) (m : private_hwc_module_t)
    (w : World) (list : hwc_layer_list_t) :
    (classifyLayers K E m w list).w.ctx.fixedPart = (prepareStats K m w list).ctx.fixedPart := by
  unfold classifyLayers
  dsimp only
  rw [classifyLoop_fixedPart]
  dsimp only [Frame.init]
  rw [s3dCheck_ctx]

theorem classifyLayers_input (K : Hdr) (E : Env) (m : private_hwc_module_t)
    (w : World) (list : hwc_layer_list_t) :
    (classifyLayers K E m w list).list.hwLayers.map hwc_layer_t.input
      = list.hwLayers.map hwc_layer_t.input := by
  unfold classifyLayers
  dsimp only
  rw [classifyLoop_input]
  rfl

theorem isSkipLayer_of_input (K : Hdr) {l l' : hwc_layer_t} (h : l'.input = l.input) :
    isSkipLayer K l' = isSkipLayer K l := by
  unfold isSkipLayer
  rw [input_flags h]

theorem getElem?_input_of_map {l l' : List hwc_layer_t}
    (h : l'.map hwc_layer_t.input = l.map hwc_layer_t.input) (j : Nat) (x : hwc_layer_t)
    (hx : l[j]? = some x) : ∃ x', l'[j]? = some x' ∧ x'.input = x.input := by
  have h1 : (l'.map hwc_layer_t.input)[j]? = (l.map hwc_layer_t.input)[j]? := by rw [h]
  rw [List.getElem?_map, List.getElem?_map, hx] at h1
  cases hx' : l'[j]? with
  | none => rw [hx'] at h1; cases h1
  | some x' =>
    rw [hx'] at h1
    exact ⟨x', rfl, by simpa using h1⟩

/-- The loop of `hwc_prepare` ends with `skipComposition` set only if it started so and
none of the layers it went through is flagged `HWC_SKIP_LAYER`. -/
theorem classifyLoop_skip (K : Hdr) (E : Env) (m : private_hwc_module_t)
    (useCopybit s3d : Bool) (n : Nat) (f : Frame)
    (hs : (classifyLoop K E m useCopybit s3d n f).w.ctx.skipComposition = true) :
    f.w.ctx.skipComposition = true
      ∧ ∀ j, j < n → ∀ layer, f.list.hwLayers[j]? = some layer → isSkipLayer K layer = false := by
  have inv := foldl_range_inv (classifyLayer K E m useCopybit s3d)
    (fun i (g : Frame) =>
      g.list.hwLayers.map hwc_layer_t.input = f.list.hwLayers.map hwc_layer_t.input
      ∧ (g.w.ctx.skipComposition = true →
          f.w.ctx.skipComposition = true
          ∧ ∀ j, j < i → ∀ layer, f.list.hwLayers[j]? = some layer → isSkipLayer K layer = false))
    n f ⟨rfl, fun h => ⟨h, fun j hj => absurd hj (Nat.not_lt_zero j)⟩⟩ ?_
  · exact inv.2 hs
  · intro i g _ ⟨hin, hsk⟩
    refine ⟨(classifyLayer_input K E m _ _ g i).trans hin, fun h => ?_⟩
    obtain ⟨h1, h2⟩ := classifyLayer_skip K E m _ _ g i h
    obtain ⟨h3, h4⟩ := hsk h1
    refine ⟨h3, fun j hj layer hl => ?_⟩
    rcases Nat.lt_succ_iff_lt_or_eq.mp hj with hlt | heq
    · exact h4 j hlt layer hl
    · subst heq
      obtain ⟨x', hx', hxi⟩ := getElem?_input_of_map hin j layer hl
      rw [← isSkipLayer_of_input K hxi]
      exact h2 x' hx'

theorem canSkipComposition_true (K : Hdr) (w : World) (m : private_hwc_module_t)
    (yuv cur notUpdating : Int) (h : (canSkipComposition K w m yuv cur notUpdating).1 = true) :
    w.ctx.forceComposition = false ∧ m.compositionType ≠ K.COMPOSITION_TYPE_CPU
      ∧ w.ctx.yuvBufferCount = 1 ∧ cur = w.ctx.previousLayerCount
      ∧ (cur = 1 ∨ cur - 1 = notUpdating) := by
  unfold canSkipComposition at h
  dsimp only at h
  split_ifs at h with h1 h2 h3 h4 h5
  all_goals cases h
  refine ⟨by simpa using h1, h2, h3, ?_, h5⟩
  exact not_not.mp h4

theorem canSkipComposition_ctx (K : Hdr) (w : World) (m : private_hwc_module_t)
    (yuv cur notUpdating : Int) :
    ∃ pl, (canSkipComposition K w m yuv cur notUpdating).2
      = w.modCtx (fun c => { c with previousLayerCount := pl }) := by
  unfold canSkipComposition
  dsimp only
  split_ifs
  all_goals exact ⟨_, rfl⟩

theorem prepareStats_eq (K : Hdr) (m : private_hwc_module_t) (w : World)
    (list : hwc_layer_list_t) :
    ∃ (pl : Int) (st : eHWCOverlayStatus), prepareStats K m w list =
      (statCount K w list).modCtx (fun c =>
        { c with previousLayerCount := pl, hwcOverlayStatus := st,
                 skipComposition := (canSkipComposition K (statCount K w list) m
                   (statCount K w list).ctx.yuvBufferCount (list.numHwLayers : Int)
                   (statCount K w list).ctx.numLayersNotUpdating).1 }) := by
  unfold prepareStats
  dsimp only
  obtain ⟨pl, hpl⟩ := canSkipComposition_ctx K (statCount K w list) m
    (statCount K w list).ctx.yuvBufferCount (list.numHwLayers : Int)
    (statCount K w list).ctx.numLayersNotUpdating
  rw [hpl]
  generalize (canSkipComposition K (statCount K w list) m
    (statCount K w list).ctx.yuvBufferCount (list.numHwLayers : Int)
    (statCount K w list).ctx.numLayersNotUpdating).1 = sk
  generalize statCount K w list = w1
  split_ifs
  · exact ⟨pl, eHWCOverlayStatus.HWC_OVERLAY_PREPARE_TO_CLOSE, rfl⟩
  · exact ⟨pl, w1.ctx.hwcOverlayStatus, rfl⟩
  · exact ⟨pl, w1.ctx.hwcOverlayStatus, rfl⟩

theorem prepareStats_skip (K : Hdr) (m : private_hwc_module_t) (w : World)
    (list : hwc_layer_list_t) (hs : (prepareStats K m w list).ctx.skipComposition = true) :
    (prepareStats K m w list).ctx.yuvBufferCount = 1
      ∧ (list.numHwLayers : Int) = w.ctx.previousLayerCount
      ∧ (list.numHwLayers = 1
          ∨ (list.numHwLayers : Int) - 1 = (prepareStats K m w list).ctx.numLayersNotUpdating)
      ∧ w.ctx.forceComposition = false
      ∧ m.compositionType ≠ K.COMPOSITION_TYPE_CPU := by
  obtain ⟨pl, st, he⟩ := prepareStats_eq K m w list
  rw [he] at hs ⊢
  have hs' : (canSkipComposition K (statCount K w list) m
      (statCount K w list).ctx.yuvBufferCount (list.numHwLayers : Int)
      (statCount K w list).ctx.numLayersNotUpdating).1 = true := hs
  obtain ⟨h1, h2, h3, h4, h5⟩ := canSkipComposition_true K _ m _ _ _ hs'
  refine ⟨h3, h4, ?_, h1, h2⟩
  rcases h5 with h5 | h5
  · left
    exact_mod_cast h5
  · right
    exact h5

/-- C2. When `ctx->skipComposition` is true at the end of the per-layer loop of
`hwc_prepare` (run on a non-null list, on a device with a module), the frame has one video
buffer, no layer is flagged `HWC_SKIP_LAYER` (neither in the list as received nor as
classified), the layer count equals the `previousLayerCount` held on entry, and either the
list has one layer or all layers but one are not updating. -/
theorem classifyLayers_skipComposition (K : Hdr) (E : Env) (m : private_hwc_module_t)
    (w : World) (list : hwc_layer_list_t)
    (hs : (classifyLayers K E m w list).w.ctx.skipComposition = true) :
    (classifyLayers K E m w list).w.ctx.yuvBufferCount = 1
      ∧ (∀ layer ∈ list.hwLayers, isSkipLayer K layer = false)
      ∧ (∀ layer ∈ (classifyLayers K E m w list).list.hwLayers, isSkipLayer K layer = false)
      ∧ (list.numHwLayers : Int) = w.ctx.previousLayerCount
      ∧ (list.numHwLayers = 1
          ∨ (list.numHwLayers : Int) - 1
              = (classifyLayers K E m w list).w.ctx.numLayersNotUpdating) := by
  have hfix := classifyLayers_fixedPart K E m w list
  have hin := classifyLayers_input K E m w list
  have hy : (classifyLayers K E m w list).w.ctx.yuvBufferCount
      = (prepareStats K m w list).ctx.yuvBufferCount := fixedPart_yuvBufferCount hfix
  have hn : (classifyLayers K E m w list).w.ctx.numLayersNotUpdating
      = (prepareStats K m w list).ctx.numLayersNotUpdating := by
    have := congrArg hwc_context_t.numLayersNotUpdating hfix
    exact this
  have hloop : (prepareStats K m w list).ctx.skipComposition = true
      ∧ ∀ j, j < list.numHwLayers → ∀ layer, list.hwLayers[j]? = some layer →
          isSkipLayer K layer = false := by
    unfold classifyLayers at hs
    dsimp only at hs
    have := classifyLoop_skip K E m _ _ _ _ hs
    dsimp only [Frame.init] at this
    rwa [s3dCheck_ctx] at this
  obtain ⟨h1, h2, h3, _, _⟩ := prepareStats_skip K m w list hloop.1
  have hall : ∀ layer ∈ list.hwLayers, isSkipLayer K layer = false := by
    intro layer hl
    obtain ⟨j, hj, hj2⟩ := List.getElem_of_mem hl
    exact hloop.2 j hj layer (by rw [List.getElem?_eq_getElem hj, hj2])
  refine ⟨hy.trans h1, hall, ?_, h2, ?_⟩
  · intro layer hl
    have hmem : layer.input ∈ list.hwLayers.map hwc_layer_t.input := by
      rw [← hin]
      exact List.mem_map_of_mem _ hl
    obtain ⟨l0, hl0, hl0i⟩ := List.mem_map.mp hmem
    rw [← isSkipLayer_of_input K hl0i]
    exact hall l0 hl0
  · rw [hn]
    exact h3

/-- Witness of `hwc_prepare_forceComposition_no_skip`: a forced frame whose list arrives
with the skip flag set and whose layer arrives with the bypass flag set. -/
theorem hwc_prepare_forceComposition_no_skip_witness :
    (oneVideoWorld true).ctx.forceComposition = true
    ∧ ∃ list', (hwc_prepare refHdr okEnv (oneVideoWorld true)
          (some { flags := 2, hwLayers := [mkLayer 7 0x40000000] })).2.2 = some list'
        ∧ hasBits list'.flags refHdr.HWC_SKIP_COMPOSITION = false
        ∧ ∀ layer ∈ list'.hwLayers, hasBits layer.flags refHdr.HWC_COMP_BYPASS = false :=
  ⟨rfl, hwc_prepare_forceComposition_no_skip refHdr okEnv (oneVideoWorld true) refModule
    { flags := 2, hwLayers := [mkLayer 7 0x40000000] } rfl rfl⟩

/-- Witness of `classifyLayers_skipComposition`: one video layer, one layer in the
previous frame. -/
theorem classifyLayers_skipComposition_witness :
    (classifyLayers refHdr okEnv refModule (oneVideoWorld false)
        { flags := 0, hwLayers := [mkLayer 7 0] }).w.ctx.skipComposition = true
    ∧ (classifyLayers refHdr okEnv refModule (oneVideoWorld false)
        { flags := 0, hwLayers := [mkLayer 7 0] }).w.ctx.yuvBufferCount = 1 :=
  ⟨by decide, (classifyLayers_skipComposition refHdr okEnv refModule (oneVideoWorld false)
    { flags := 0, hwLayers := [mkLayer 7 0] } (by decide)).1⟩

/-! ## More of what the helpers leave alone -/

@[simp] theorem modHandleFlags_heap_flags (w : World) (h : Nat) (f : Nat → Nat) (a : Nat) :
    ((w.modHandleFlags h f).heap a).bufferType = (w.heap a).bufferType := by
  unfold World.modHandleFlags
  dsimp only
  split
  · rename_i e
    rw [e]
  · rfl

@[simp] theorem getOverlayState_ovState (K : Hdr) (E : Env) (w : World) (b : Nat) (fmt : Int) :
    (getOverlayState K E w b fmt).2.ovState = w.ovState := by
  unfold getOverlayState
  dsimp only
  repeat' split
  all_goals rfl

@[simp] theorem programPipes_ovState (E : Env) (w : World) (dest : eDest) (wait isFg : Bool) :
    (programPipes E w dest wait isFg).2.ovState = w.ovState := by
  unfold programPipes ov_setSource ovCall
  dsimp only
  repeat' split
  all_goals rfl

theorem programPipes_ok (E : Env) (w : World) (dest : eDest) (wait isFg : Bool)
    (hov : ∀ t, E.ovResult t = true) : (programPipes E w dest wait isFg).1 = 0 := by
  unfold programPipes ov_setSource ovCall
  simp [hov]

theorem setOverlayState_ovState (w : World) (s : eOverlayState) (m : private_hwc_module_t)
    (fb : framebuffer_device_t) (hm : w.module = some m) (hfb : m.fbDevice = some fb) :
    (setOverlayState w s).ovState = s := by
  unfold setOverlayState ovMgr_setState
  rw [hm]
  dsimp only
  rw [hfb]

theorem getOverlayState_video (K : Hdr) (E : Env) (w : World) (fmt : Int)
    (hrgb : K.isRgb (getMdpFormat K fmt) = false)
    (hwifi : w.ctx.mHDMIEnabled ≠ external_display_type.EXT_TYPE_WIFI) :
    isVideoState (getOverlayState K E w 0 fmt).1 = true := by
  unfold getOverlayState
  dsimp only
  rw [if_neg (by simp), if_neg (by simp [hrgb])]
  split
  · split_ifs <;> rfl
  · rename_i h
    exact absurd h hwifi
  · split_ifs <;> rfl

theorem prepareOverlayPipes_ok (K : Hdr) (E : Env) (w : World) (layer : hwc_layer_t)
    (m : private_hwc_module_t) (hm : w.module = some m) (hov : ∀ t, E.ovResult t = true) :
    (prepareOverlayPipes K E w layer).1 = 0 := by
  unfold prepareOverlayPipes
  rw [hm]
  exact programPipes_ok E _ _ _ _ hov

theorem prepareOverlayPipes_video (K : Hdr) (E : Env) (w : World) (layer : hwc_layer_t)
    (m : private_hwc_module_t) (fb : framebuffer_device_t)
    (hm : w.module = some m) (hfb : m.fbDevice = some fb)
    (hrgb : K.isRgb (getMdpFormat K (w.heap layer.handle).format) = false)
    (hwifi : w.ctx.mHDMIEnabled ≠ external_display_type.EXT_TYPE_WIFI) :
    isVideoState (prepareOverlayPipes K E w layer).2.ovState = true := by
  unfold prepareOverlayPipes
  rw [hm]
  dsimp only
  rw [programPipes_ovState,
    setOverlayState_ovState _ _ m fb (by rw [getOverlayState_module]; exact hm) hfb]
  exact getOverlayState_video K E w _ hrgb hwifi

/-! ## Buffers keep their type and format -/

@[simp] theorem buffers_modHandleFlags (w : World) (h : Nat) (f : Nat → Nat) :
    (w.modHandleFlags h f).buffers = w.buffers := by
  funext a
  unfold World.buffers World.modHandleFlags
  dsimp only
  split
  · rename_i e
    rw [e]
  · rfl

@[simp] theorem buffers_modCtx (w : World) (f : hwc_context_t → hwc_context_t) :
    (w.modCtx f).buffers = w.buffers := rfl
@[simp] theorem buffers_next (w : World) : w.next.buffers = w.buffers := rfl
@[simp] theorem buffers_log (w : World) (e : Event) : (w.log e).buffers = w.buffers := rfl

theorem buffers_of_heap {w w' : World} (h : w'.heap = w.heap) : w'.buffers = w.buffers := by
  unfold World.buffers
  rw [h]

theorem buffers_bufferType {w w' : World} (h : w'.buffers = w.buffers) (a : Nat) :
    (w'.heap a).bufferType = (w.heap a).bufferType := by
  have := congrArg private_handle_t.bufferType (congrFun h a)
  exact this

theorem buffers_format {w w' : World} (h : w'.buffers = w.buffers) (a : Nat) :
    (w'.heap a).format = (w.heap a).format := by
  have := congrArg private_handle_t.format (congrFun h a)
  exact this

theorem closeExtraPipe_buffers (K : Hdr) (E : Env) (w : World) (i : Nat) :
    (closeExtraPipe K E w i).buffers = w.buffers := by
  unfold closeExtraPipe validate genlock_unlock_buffer
  dsimp only
  repeat' split
  all_goals simp

theorem closeExtraPipes_buffers (K : Hdr) (E : Env) (w : World) :
    (closeExtraPipes K E w).buffers = w.buffers := by
  unfold closeExtraPipes
  exact foldl_inv (closeExtraPipe K E) (fun s => s.buffers = w.buffers)
    (fun s i h => (closeExtraPipe_buffers K E s i).trans h) _ w rfl

theorem prepareOverlayCloseBypass_buffers (K : Hdr) (E : Env) (w : World) :
    (prepareOverlayCloseBypass K E w).buffers = w.buffers := by
  unfold prepareOverlayCloseBypass
  split
  · simp [closeExtraPipes_buffers]
  · rfl

@[simp] theorem prepareOverlayPipes_heap (K : Hdr) (E : Env) (w : World) (layer : hwc_layer_t) :
    (prepareOverlayPipes K E w layer).2.heap = w.heap := by
  unfold prepareOverlayPipes
  split
  · rfl
  · simp

theorem prepareOverlay_buffers (K : Hdr) (E : Env) (w : World) (layer : hwc_layer_t) :
    (prepareOverlay K E w layer).2.buffers = w.buffers := by
  unfold prepareOverlay
  exact (buffers_of_heap (prepareOverlayPipes_heap K E _ layer)).trans
    (prepareOverlayCloseBypass_buffers K E w)

theorem prepareOverlay_ok (K : Hdr) (E : Env) (w : World) (layer : hwc_layer_t)
    (m : private_hwc_module_t) (hm : w.module = some m) (hov : ∀ t, E.ovResult t = true) :
    (prepareOverlay K E w layer).1 = 0 := by
  unfold prepareOverlay
  exact prepareOverlayPipes_ok K E _ layer m
    ((prepareOverlayCloseBypass_module K E w).trans hm) hov

theorem noBypass_mHDMIEnabled {c c' : hwc_context_t} (h : c'.noBypass = c.noBypass) :
    c'.mHDMIEnabled = c.mHDMIEnabled := by
  have := congrArg hwc_context_t.mHDMIEnabled h
  exact this

theorem prepareOverlay_video (K : Hdr) (E : Env) (w : World) (layer : hwc_layer_t)
    (m : private_hwc_module_t) (fb : framebuffer_device_t)
    (hm : w.module = some m) (hfb : m.fbDevice = some fb)
    (hrgb : K.isRgb (getMdpFormat K (w.heap layer.handle).format) = false)
    (hwifi : w.ctx.mHDMIEnabled ≠ external_display_type.EXT_TYPE_WIFI) :
    isVideoState (prepareOverlay K E w layer).2.ovState = true := by
  unfold prepareOverlay
  refine prepareOverlayPipes_video K E _ layer m fb
    ((prepareOverlayCloseBypass_module K E w).trans hm) hfb ?_ ?_
  · rw [buffers_format (prepareOverlayCloseBypass_buffers K E w)]
    exact hrgb
  · rw [noBypass_mHDMIEnabled (prepareOverlayCloseBypass_noBypass K E w)]
    exact hwifi

/-! ## The bypass stage when bypass is not used -/

theorem isBypassDoable_ctx (K : Hdr) (E : Env) (w : World) (m : private_hwc_module_t)
    (yuvCount : Int) (list : hwc_layer_list_t) :
    ∃ sw, (isBypassDoable K E w m yuvCount list).2.ctx = { w.ctx with swapInterval := sw } := by
  unfold isBypassDoable
  dsimp only
  split_ifs
  all_goals first
    | exact ⟨w.ctx.swapInterval, rfl⟩
    | (split
       all_goals exact ⟨_, rfl⟩)

@[simp] theorem isBypassDoable_module (K : Hdr) (E : Env) (w : World) (m : private_hwc_module_t)
    (yuvCount : Int) (list : hwc_layer_list_t) :
    (isBypassDoable K E w m yuvCount list).2.module = w.module := by
  unfold isBypassDoable
  dsimp only
  split_ifs
  all_goals first
    | rfl
    | (split
       all_goals rfl)

@[simp] theorem isBypassDoable_heap (K : Hdr) (E : Env) (w : World) (m : private_hwc_module_t)
    (yuvCount : Int) (list : hwc_layer_list_t) :
    (isBypassDoable K E w m yuvCount list).2.heap = w.heap := by
  unfold isBypassDoable
  dsimp only
  split_ifs
  all_goals first
    | rfl
    | (split
       all_goals rfl)

@[simp] theorem isBypassDoable_ovState (K : Hdr) (E : Env) (w : World) (m : private_hwc_module_t)
    (yuvCount : Int) (list : hwc_layer_list_t) :
    (isBypassDoable K E w m yuvCount list).2.ovState = w.ovState := by
  unfold isBypassDoable
  dsimp only
  split_ifs
  all_goals first
    | rfl
    | (split
       all_goals rfl)

theorem isBypassDoable_of_yuv (K : Hdr) (E : Env) (w : World) (m : private_hwc_module_t)
    (yuvCount : Int) (list : hwc_layer_list_t) (hy : yuvCount ≠ 0) :
    (isBypassDoable K E w m yuvCount list).1 = false := by
  unfold isBypassDoable
  dsimp only
  split_ifs <;> simp [hy]

/-- When bypass is not doable or a skip layer is present, the bypass stage of
`hwc_prepare` is the reset of the bypass states. -/
theorem prepareBypassStage_not_used (K : Hdr) (E : Env) (m : private_hwc_module_t) (f : Frame)
    (h : (isBypassDoable K E f.w m f.w.ctx.yuvBufferCount (markSkipComposition K f)).1 = false
          ∨ f.isSkipLayerPresent = true) :
    prepareBypassStage K E m f
      = bypassReset K (isBypassDoable K E f.w m f.w.ctx.yuvBufferCount
          (markSkipComposition K f)).2 (markSkipComposition K f) := by
  unfold prepareBypassStage
  dsimp only
  have hc : ((isBypassDoable K E f.w m f.w.ctx.yuvBufferCount (markSkipComposition K f)).1
      && !f.isSkipLayerPresent) = false := by
    rcases h with h | h <;> simp [h]
  rw [hc]
  rfl

theorem bypassReset_noBypass (K : Hdr) (w : World) (list : hwc_layer_list_t) :
    (bypassReset K w list).1.ctx.noBypass = w.ctx.noBypass := by
  unfold bypassReset
  dsimp only
  split <;> simp

@[simp] theorem bypassReset_ovState (K : Hdr) (w : World) (list : hwc_layer_list_t) :
    (bypassReset K w list).1.ovState = w.ovState := by
  unfold bypassReset
  dsimp only
  split <;> rfl

@[simp] theorem bypassReset_list (K : Hdr) (w : World) (list : hwc_layer_list_t) :
    (bypassReset K w list).2 = unsetBypassLayerFlags K list := rfl

@[simp] theorem bypassReset_nPipesUsed (K : Hdr) (w : World) (list : hwc_layer_list_t) :
    (bypassReset K w list).1.ctx.nPipesUsed = 0 := by
  unfold bypassReset
  dsimp only
  split <;> rfl

@[simp] theorem unsetBypassLayerFlags_flags (K : Hdr) (list : hwc_layer_list_t) :
    (unsetBypassLayerFlags K list).flags = list.flags := rfl

theorem unsetBypassLayerFlags_no_bypass (K : Hdr) (list : hwc_layer_list_t) :
    ∀ layer ∈ (unsetBypassLayerFlags K list).hwLayers,
      hasBits layer.flags K.HWC_COMP_BYPASS = false := by
  intro layer hl
  unfold unsetBypassLayerFlags at hl
  simp only [List.mem_map] at hl
  obtain ⟨l0, _, rfl⟩ := hl
  split
  · exact hasBits_clearBits _ _
  · rename_i hb
    simpa using hb

/-- Clearing the bypass flag leaves the composition type and the hints of every layer. -/
theorem unsetBypassLayerFlags_getElem? (K : Hdr) (list : hwc_layer_list_t) (i : Nat) :
    (unsetBypassLayerFlags K list).hwLayers[i]? = (list.hwLayers[i]?).map (fun layer =>
      if hasBits layer.flags K.HWC_COMP_BYPASS then
        { layer with flags := clearBits layer.flags K.HWC_COMP_BYPASS }
      else layer) := by
  unfold unsetBypassLayerFlags
  simp

/-! ## The single video layer -/

theorem classifyLoop_one (K : Hdr) (E : Env) (m : private_hwc_module_t)
    (useCopybit s3d : Bool) (f : Frame) :
    classifyLoop K E m useCopybit s3d 1 f = classifyLayer K E m useCopybit s3d f 0 := rfl

theorem statCount_single_video (K : Hdr) (w : World) (layer : hwc_layer_t) (lf : Nat)
    (hh : layer.handle ≠ 0) (hv : (w.heap layer.handle).bufferType = K.BUFFER_TYPE_VIDEO)
    (hno : hasBits layer.flags K.HWC_DO_NOT_USE_OVERLAY = false) :
    (statCount K w { flags := lf, hwLayers := [layer] }).ctx.yuvBufferCount = 1 := by
  unfold statCount
  simp [statCountLayer, hh, hv, hno]

@[simp] theorem statCount_module (K : Hdr) (w : World) (list : hwc_layer_list_t) :
    (statCount K w list).module = w.module := rfl
@[simp] theorem statCount_heap (K : Hdr) (w : World) (list : hwc_layer_list_t) :
    (statCount K w list).heap = w.heap := rfl
@[simp] theorem statCount_ovState (K : Hdr) (w : World) (list : hwc_layer_list_t) :
    (statCount K w list).ovState = w.ovState := rfl

@[simp] theorem prepareStats_module (K : Hdr) (m : private_hwc_module_t) (w : World)
    (list : hwc_layer_list_t) : (prepareStats K m w list).module = w.module := by
  obtain ⟨pl, st, h⟩ := prepareStats_eq K m w list
  rw [h]
  rfl

@[simp] theorem prepareStats_heap (K : Hdr) (m : private_hwc_module_t) (w : World)
    (list : hwc_layer_list_t) : (prepareStats K m w list).heap = w.heap := by
  obtain ⟨pl, st, h⟩ := prepareStats_eq K m w list
  rw [h]
  rfl

theorem prepareStats_yuvBufferCount (K : Hdr) (m : private_hwc_module_t) (w : World)
    (list : hwc_layer_list_t) :
    (prepareStats K m w list).ctx.yuvBufferCount = (statCount K w list).ctx.yuvBufferCount := by
  obtain ⟨pl, st, h⟩ := prepareStats_eq K m w list
  rw [h]
  rfl

theorem prepareStats_mHDMIEnabled (K : Hdr) (m : private_hwc_module_t) (w : World)
    (list : hwc_layer_list_t) :
    (prepareStats K m w list).ctx.mHDMIEnabled = w.ctx.mHDMIEnabled := by
  obtain ⟨pl, st, h⟩ := prepareStats_eq K m w list
  rw [h]
  rfl

theorem prepareStats_skipComposition (K : Hdr) (m : private_hwc_module_t) (w : World)
    (list : hwc_layer_list_t) :
    (prepareStats K m w list).ctx.skipComposition
      = (canSkipComposition K (statCount K w list) m (statCount K w list).ctx.yuvBufferCount
          (list.numHwLayers : Int) (statCount K w list).ctx.numLayersNotUpdating).1 := by
  obtain ⟨pl, st, h⟩ := prepareStats_eq K m w list
  rw [h]
  rfl

@[simp] theorem isS3DCompositionRequired_module (K : Hdr) (E : Env) (w : World) :
    (isS3DCompositionRequired K E w).2.module = w.module := by
  unfold isS3DCompositionRequired
  split <;> rfl

@[simp] theorem isS3DCompositionRequired_heap (K : Hdr) (E : Env) (w : World) :
    (isS3DCompositionRequired K E w).2.heap = w.heap := by
  unfold isS3DCompositionRequired
  split <;> rfl

@[simp] theorem s3dCheck_module (K : Hdr) (E : Env) (w : World) :
    (s3dCheck K E w).2.module = w.module := by
  unfold s3dCheck
  split
  · exact isS3DCompositionRequired_module K E w
  · rfl

@[simp] theorem s3dCheck_heap (K : Hdr) (E : Env) (w : World) :
    (s3dCheck K E w).2.heap = w.heap := by
  unfold s3dCheck
  split
  · exact isS3DCompositionRequired_heap K E w
  · rfl

/-- What the video branch does when the destination is valid and the pipes configure. -/
theorem classifyVideoChoice_ok (K : Hdr) (E : Env) (m : private_hwc_module_t) (w : World)
    (layer : hwc_layer_t) (hm : w.module = some m)
    (hdst : isValidDestination m.fbDevice layer.displayFrame = true)
    (hov : ∀ t, E.ovResult t = true) :
    classifyVideoChoice K E m w layer
      = ({ layer with compositionType := K.HWC_USE_OVERLAY,
                      hints := layer.hints ||| K.HWC_HINT_CLEAR_FB },
         (prepareOverlay K E w layer).2.modCtx (fun c =>
            { c with hwcOverlayStatus := eHWCOverlayStatus.HWC_OVERLAY_OPEN })) := by
  unfold classifyVideoChoice
  dsimp only
  rw [if_neg (by simp [hdst]), if_pos (prepareOverlay_ok K E w layer m hm hov)]

theorem classifyVideoLayer_ok (K : Hdr) (E : Env) (m : private_hwc_module_t) (f : Frame)
    (i : Nat) (layer : hwc_layer_t) (hm : f.w.module = some m)
    (hdst : isValidDestination m.fbDevice layer.displayFrame = true)
    (hov : ∀ t, E.ovResult t = true) :
    ∃ w1, w1.module = some m ∧ w1.heap = f.w.heap ∧ w1.ctx = f.w.ctx ∧
      classifyVideoLayer K E m f i layer
        = { f with
            w := (prepareOverlay K E w1 layer).2.modCtx (fun c =>
                    { c with hwcOverlayStatus := eHWCOverlayStatus.HWC_OVERLAY_OPEN }),
            list := f.list.setLayer i
              { layer with compositionType := K.HWC_USE_OVERLAY,
                           hints := layer.hints ||| K.HWC_HINT_CLEAR_FB } } := by
  refine ⟨setVideoOverlayStatusInGralloc K (if f.w.ctx.s3dLayerFormat ≠ 0 then f.w.next else f.w)
    (if f.w.ctx.s3dLayerFormat ≠ 0 ∧ E.is3DTV f.w.tick = true then K.VIDEO_3D_OVERLAY_STARTED
      else K.VIDEO_2D_OVERLAY_STARTED), ?_, ?_, ?_, ?_⟩
  · rw [setVideoOverlayStatusInGralloc_module]
    split <;> exact hm
  · rw [setVideoOverlayStatusInGralloc_heap]
    split <;> rfl
  · rw [setVideoOverlayStatusInGralloc_ctx]
    split <;> rfl
  · unfold classifyVideoLayer
    dsimp only
    rw [classifyVideoChoice_ok K E m _ layer
      (by rw [setVideoOverlayStatusInGralloc_module]; split <;> exact hm) hdst hov]
    dsimp only
    rw [if_neg (by simp)]

theorem noBypass_numHwLayers {c c' : hwc_context_t} (h : c'.noBypass = c.noBypass) :
    c'.numHwLayers = c.numHwLayers := by
  have := congrArg hwc_context_t.numHwLayers h
  exact this

theorem noBypass_yuvBufferCount {c c' : hwc_context_t} (h : c'.noBypass = c.noBypass) :
    c'.yuvBufferCount = c.yuvBufferCount := by
  have := congrArg hwc_context_t.yuvBufferCount h
  exact this

/-- C4, as amended. A call of `hwc_prepare` on a device with a valid module, not forced to
compose (`forceComposition` false) and not in CPU composition, on a list with a single
layer that is a video buffer not flagged `HWC_DO_NOT_USE_OVERLAY`, whose display frame is
a valid destination, with no skip flag, with `previousLayerCount == 1` on entry and with
the pipe programming succeeding: returns 0, the layer ends with composition type
`HWC_USE_OVERLAY` and the hint `HWC_HINT_CLEAR_FB`, composition is skipped
(`ctx->skipComposition` and `HWC_SKIP_COMPOSITION` on the list), the overlay is open, and
the overlay state is a video state when the format of the buffer is not RGB and the
external display is not WIFI. -/
theorem hwc_prepare_single_video (K : Hdr) (E : Env) (w : World) (m : private_hwc_module_t)
    (layer : hwc_layer_t) (listFlags : Nat)
    (hSKIP : K.HWC_SKIP_COMPOSITION ≠ 0) (hCLEAR : K.HWC_HINT_CLEAR_FB ≠ 0)
    (hm : w.module = some m)
    (hh : layer.handle ≠ 0) (hv : (w.heap layer.handle).bufferType = K.BUFFER_TYPE_VIDEO)
    (hno : hasBits layer.flags K.HWC_DO_NOT_USE_OVERLAY = false)
    (hskip : isSkipLayer K layer = false)
    (hdst : isValidDestination m.fbDevice layer.displayFrame = true)
    (hprev : w.ctx.previousLayerCount = 1)
    (hforce : w.ctx.forceComposition = false)
    (hcpu : m.compositionType ≠ K.COMPOSITION_TYPE_CPU)
    (hov : ∀ t, E.ovResult t = true) :
    (hwc_prepare K E w (some { flags := listFlags, hwLayers := [layer] })).1 = 0
    ∧ ∃ layer' lf,
        (hwc_prepare K E w (some { flags := listFlags, hwLayers := [layer] })).2.2
          = some { flags := lf, hwLayers := [layer'] }
        ∧ layer'.compositionType = K.HWC_USE_OVERLAY
        ∧ hasBits layer'.hints K.HWC_HINT_CLEAR_FB = true
        ∧ hasBits lf K.HWC_SKIP_COMPOSITION = true
        ∧ (hwc_prepare K E w (some { flags := listFlags, hwLayers := [layer] })).2.1.ctx.skipComposition
            = true
        ∧ (hwc_prepare K E w (some { flags := listFlags, hwLayers := [layer] })).2.1.ctx.hwcOverlayStatus
            = eHWCOverlayStatus.HWC_OVERLAY_OPEN
        ∧ (K.isRgb (getMdpFormat K (w.heap layer.handle).format) = false →
            w.ctx.mHDMIEnabled ≠ external_display_type.EXT_TYPE_WIFI →
            isVideoState
              (hwc_prepare K E w (some { flags := listFlags, hwLayers := [layer] })).2.1.ovState
              = true) := by
  -- the device after the statistics and the S3D check
  generalize hL : ({ flags := listFlags, hwLayers := [layer] } : hwc_layer_list_t) = L
  have hLl : L.hwLayers = [layer] := by rw [← hL]
  have hLn : L.numHwLayers = 1 := by rw [← hL]; rfl
  generalize hw0 : w.modCtx (fun c => { c with currentOverlayHandle := 0 }) = w0
  have hm0 : w0.module = some m := by rw [← hw0]; exact hm
  have hheap0 : w0.heap = w.heap := by rw [← hw0]; rfl
  have hprev0 : w0.ctx.previousLayerCount = 1 := by rw [← hw0]; exact hprev
  have hforce0 : w0.ctx.forceComposition = false := by rw [← hw0]; exact hforce
  have hhd0 : w0.ctx.mHDMIEnabled = w.ctx.mHDMIEnabled := by rw [← hw0]; rfl
  have hyuv : (statCount K w0 L).ctx.yuvBufferCount = 1 := by
    rw [← hL]
    exact statCount_single_video K w0 layer listFlags hh (by rw [hheap0]; exact hv) hno
  have hskipS : (prepareStats K m w0 L).ctx.skipComposition = true := by
    rw [prepareStats_skipComposition]
    unfold canSkipComposition
    dsimp only
    have e1 : (statCount K w0 L).ctx.forceComposition = false := hforce0
    have e2 : (statCount K w0 L).ctx.previousLayerCount = 1 := hprev0
    simp [e1, e2, hcpu, hyuv, hLn]
  generalize hS : s3dCheck K E (prepareStats K m w0 L) = S
  have hSm : S.2.module = some m := by rw [← hS]; simp [hm0]
  have hSh : S.2.heap = w.heap := by rw [← hS]; simp [hheap0]
  have hSc : S.2.ctx = (prepareStats K m w0 L).ctx := by rw [← hS]; simp
  -- the loop is one run of the video branch
  have hF : classifyLayers K E m w0 L
      = classifyVideoLayer K E m (Frame.init S.2 L) 0 layer := by
    unfold classifyLayers
    dsimp only
    rw [hS, hLn, classifyLoop_one]
    dsimp only [Frame.init]
    unfold classifyLayer
    simp only [hLl, List.getElem?_cons_zero]
    rw [if_neg (by simp [hskip]), if_pos]
    refine ⟨hh, ?_, ?_⟩
    · rw [hSh]; exact hv
    · rw [hSc, prepareStats_yuvBufferCount]; exact hyuv
  obtain ⟨w1, hw1m, hw1h, hw1c, hV⟩ := classifyVideoLayer_ok K E m
    (Frame.init S.2 L) 0 layer hSm hdst hov
  rw [hV] at hF
  dsimp only [Frame.init] at hF hw1h hw1c
  -- the bypass stage
  have hnb := prepareOverlay_noBypass K E w1 layer
  generalize hP : prepareOverlay K E w1 layer = P at hF hnb
  have hFs : (classifyLayers K E m w0 L).w.ctx.skipComposition = true := by
    rw [hF]
    simp only [modCtx_ctx]
    rw [noBypass_skipComposition hnb, hw1c, hSc]
    exact hskipS
  have hFy : (classifyLayers K E m w0 L).w.ctx.yuvBufferCount ≠ 0 := by
    rw [hF]
    simp only [modCtx_ctx]
    rw [noBypass_yuvBufferCount hnb, hw1c, hSc, prepareStats_yuvBufferCount, hyuv]
    decide
  have hstage := prepareBypassStage_not_used K E m (classifyLayers K E m w0 L)
    (Or.inl (isBypassDoable_of_yuv K E _ m _ _ hFy))
  obtain ⟨sw, hsw⟩ := isBypassDoable_ctx K E (classifyLayers K E m w0 L).w m
    (classifyLayers K E m w0 L).w.ctx.yuvBufferCount
    (markSkipComposition K (classifyLayers K E m w0 L))
  have hmark : markSkipComposition K (classifyLayers K E m w0 L)
      = { flags := L.flags ||| K.HWC_SKIP_COMPOSITION,
          hwLayers := [{ layer with compositionType := K.HWC_USE_OVERLAY,
                                    hints := layer.hints ||| K.HWC_HINT_CLEAR_FB }] } := by
    unfold markSkipComposition
    rw [if_pos hFs, hF]
    simp [hwc_layer_list_t.setLayer, hLl]
  unfold hwc_prepare
  dsimp only
  rw [hw0, hm0]
  dsimp only
  rw [hstage]
  generalize hD : isBypassDoable K E (classifyLayers K E m w0 L).w m
    (classifyLayers K E m w0 L).w.ctx.yuvBufferCount
    (markSkipComposition K (classifyLayers K E m w0 L)) = D at hsw
  have hDo : D.2.ovState = (classifyLayers K E m w0 L).w.ovState := by
    rw [← hD]; simp
  have hRn := bypassReset_noBypass K D.2 (markSkipComposition K (classifyLayers K E m w0 L))
  refine ⟨rfl, ?_⟩
  rw [bypassReset_list, hmark]
  rw [hmark] at hRn
  refine ⟨_, _, rfl, ?_, ?_, ?_, ?_, ?_, ?_⟩
  · dsimp only
    split <;> rfl
  · have : ∀ x : hwc_layer_t, hasBits x.hints K.HWC_HINT_CLEAR_FB = true →
        hasBits (if hasBits x.flags K.HWC_COMP_BYPASS = true then
          { x with flags := clearBits x.flags K.HWC_COMP_BYPASS } else x).hints
          K.HWC_HINT_CLEAR_FB = true := by
      intro x hx
      split <;> exact hx
    exact this _ (hasBits_or_self _ _ hCLEAR)
  · exact hasBits_or_self _ _ hSKIP
  · simp only [modCtx_ctx]
    rw [noBypass_skipComposition hRn, hsw]
    exact hFs
  · simp only [modCtx_ctx]
    rw [noBypass_hwcOverlayStatus hRn, hsw, hF]
    rfl
  · intro hrgb hwifi
    show isVideoState (bypassReset K D.2 _).1.ovState = true
    rw [bypassReset_ovState, hDo, hF]
    show isVideoState P.2.ovState = true
    rw [← hP]
    cases hfb : m.fbDevice with
    | none => rw [hfb] at hdst; simp [isValidDestination] at hdst
    | some fb =>
      refine prepareOverlay_video K E w1 layer m fb hw1m hfb ?_ ?_
      · rw [hw1h, hSh]; exact hrgb
      · rw [hw1c, hSc, prepareStats_mHDMIEnabled, hhd0]
        exact hwifi
/-- Witness of `hwc_prepare_single_video`: one 640 x 480 video layer on a 1280 x 720
panel, second frame. -/
theorem hwc_prepare_single_video_witness :
    (hwc_prepare refHdr okEnv (secondFrameWorld refModule (uniformHeap 1 0x11 0) false)
        (some { flags := 0, hwLayers := [mkLayer 7 0] })).1 = 0
    ∧ ∃ layer' lf,
        (hwc_prepare refHdr okEnv (secondFrameWorld refModule (uniformHeap 1 0x11 0) false)
          (some { flags := 0, hwLayers := [mkLayer 7 0] })).2.2
          = some { flags := lf, hwLayers := [layer'] }
        ∧ layer'.compositionType = refHdr.HWC_USE_OVERLAY
        ∧ hasBits layer'.hints refHdr.HWC_HINT_CLEAR_FB = true
        ∧ hasBits lf refHdr.HWC_SKIP_COMPOSITION = true
        ∧ (hwc_prepare refHdr okEnv (secondFrameWorld refModule (uniformHeap 1 0x11 0) false)
            (some { flags := 0, hwLayers := [mkLayer 7 0] })).2.1.ctx.skipComposition = true
        ∧ (hwc_prepare refHdr okEnv (secondFrameWorld refModule (uniformHeap 1 0x11 0) false)
            (some { flags := 0, hwLayers := [mkLayer 7 0] })).2.1.ctx.hwcOverlayStatus
            = eHWCOverlayStatus.HWC_OVERLAY_OPEN
        ∧ (refHdr.isRgb (getMdpFormat refHdr
              ((secondFrameWorld refModule (uniformHeap 1 0x11 0) false).heap
                (mkLayer 7 0).handle).format) = false →
            (secondFrameWorld refModule (uniformHeap 1 0x11 0) false).ctx.mHDMIEnabled
              ≠ external_display_type.EXT_TYPE_WIFI →
            isVideoState
              (hwc_prepare refHdr okEnv (secondFrameWorld refModule (uniformHeap 1 0x11 0) false)
                (some { flags := 0, hwLayers := [mkLayer 7 0] })).2.1.ovState = true) :=
  hwc_prepare_single_video refHdr okEnv (secondFrameWorld refModule (uniformHeap 1 0x11 0) false)
    refModule (mkLayer 7 0) 0 (by decide) (by decide) rfl (by decide) rfl (by decide)
    (by decide) (by decide) rfl rfl (by decide) (fun _ => rfl)

/-- C4, counterexample. One video layer (buffer 7) with a valid destination, no skip flag,
`previousLayerCount == 1` and every call into the overlay succeeding. (1) With
`forceComposition` set the layer is given to the overlay (`HWC_USE_OVERLAY`, which is only
written after `prepareOverlay` returned 0) but composition is not skipped. (2) The same in
CPU composition. (3) When the layer carries `HWC_DO_NOT_USE_OVERLAY` it is not counted as a
video layer: `ctx->skipComposition` is false and the video overlay stays closed. (4) When the
video buffer has an RGB format the overlay is open but the overlay state is left as it
was, `OV_CLOSED`. -/
theorem hwc_prepare_single_video_not_skipped :
    ((hwc_prepare refHdr okEnv (secondFrameWorld refModule (uniformHeap 1 0x11 0) true)
        (some { flags := 0, hwLayers := [mkLayer 7 0] })).2.2
        = some { flags := 0, hwLayers := [{ mkLayer 7 0 with compositionType := 1, hints := 2 }] }
      ∧ (hwc_prepare refHdr okEnv (secondFrameWorld refModule (uniformHeap 1 0x11 0) true)
        (some { flags := 0, hwLayers := [mkLayer 7 0] })).2.1.ctx.skipComposition = false)
    ∧ ((hwc_prepare refHdr okEnv (secondFrameWorld cpuModule (uniformHeap 1 0x11 0) false)
        (some { flags := 0, hwLayers := [mkLayer 7 0] })).2.2
        = some { flags := 0, hwLayers := [{ mkLayer 7 0 with compositionType := 1, hints := 2 }] }
      ∧ (hwc_prepare refHdr okEnv (secondFrameWorld cpuModule (uniformHeap 1 0x11 0) false)
        (some { flags := 0, hwLayers := [mkLayer 7 0] })).2.1.ctx.skipComposition = false)
    ∧ ((hwc_prepare refHdr okEnv (secondFrameWorld refModule (uniformHeap 1 0x11 0) false)
        (some { flags := 0, hwLayers := [mkLayer 7 0x20000000] })).2.1.ctx.skipComposition = false
      ∧ (hwc_prepare refHdr okEnv (secondFrameWorld refModule (uniformHeap 1 0x11 0) false)
        (some { flags := 0, hwLayers := [mkLayer 7 0x20000000] })).2.1.ctx.hwcOverlayStatus
        = eHWCOverlayStatus.HWC_OVERLAY_CLOSED)
    ∧ ((hwc_prepare refHdr okEnv (secondFrameWorld refModule (uniformHeap 1 1 0) false)
        (some { flags := 0, hwLayers := [mkLayer 7 0] })).2.1.ctx.hwcOverlayStatus
        = eHWCOverlayStatus.HWC_OVERLAY_OPEN
      ∧ (hwc_prepare refHdr okEnv (secondFrameWorld refModule (uniformHeap 1 1 0) false)
        (some { flags := 0, hwLayers := [mkLayer 7 0] })).2.1.ovState = eOverlayState.OV_CLOSED) := by
  decide

/-! ## Skip layers -/

theorem markForGPUComp_getElem? (K : Hdr) (w : World) (list : hwc_layer_list_t)
    (limit i : Nat) (l : hwc_layer_t) (hl : list.hwLayers[i]? = some l) :
    (markForGPUComp K w list limit).hwLayers[i]? = some l
    ∨ (markForGPUComp K w list limit).hwLayers[i]?
        = some { l with compositionType := K.HWC_FRAMEBUFFER,
                        hints := clearBits l.hints K.HWC_HINT_CLEAR_FB } := by
  unfold markForGPUComp
  dsimp only
  have hlen : i < list.hwLayers.length := by
    rcases Nat.lt_or_ge i list.hwLayers.length with h | h
    · exact h
    · rw [List.getElem?_eq_none h] at hl; cases hl
  by_cases hi : i < limit
  · rw [List.getElem?_append_left (by simp [hi, hlen])]
    rw [List.getElem?_map, List.getElem?_take_of_lt hi, hl]
    dsimp only [Option.map]
    split
    · exact Or.inl rfl
    · exact Or.inr rfl
  · left
    have hge : limit ≤ i := Nat.le_of_not_lt hi
    rw [List.getElem?_append_right (by simp; omega)]
    simp only [List.length_map, List.length_take, List.getElem?_drop]
    rw [← hl]
    congr 1
    omega

theorem markForGPUComp_flags (K : Hdr) (w : World) (list : hwc_layer_list_t) (limit : Nat) :
    (markForGPUComp K w list limit).flags = list.flags := rfl

theorem classifyLayer_flags (K : Hdr) (E : Env) (m : private_hwc_module_t)
    (useCopybit s3d : Bool) (f : Frame) (i : Nat) :
    (classifyLayer K E m useCopybit s3d f i).list.flags = f.list.flags := by
  unfold classifyLayer
  split
  · rfl
  · dsimp only
    split_ifs
    · rfl
    · rfl
    · unfold classifyS3DLayer
      dsimp only
      split_ifs <;> rfl
    all_goals rfl

/-- A layer already sent to the framebuffer with the clear hint off stays so when another
layer is classified. -/
theorem classifyLayer_keeps_framebuffer (K : Hdr) (E : Env) (m : private_hwc_module_t)
    (useCopybit s3d : Bool) (f : Frame) (i j : Nat) (hij : j ≠ i) (l : hwc_layer_t)
    (hl : f.list.hwLayers[i]? = some l)
    (h1 : l.compositionType = K.HWC_FRAMEBUFFER)
    (h2 : hasBits l.hints K.HWC_HINT_CLEAR_FB = false) :
    ∃ l', (classifyLayer K E m useCopybit s3d f j).list.hwLayers[i]? = some l'
      ∧ l'.compositionType = K.HWC_FRAMEBUFFER
      ∧ hasBits l'.hints K.HWC_HINT_CLEAR_FB = false := by
  have hset : ∀ x, (f.list.setLayer j x).hwLayers[i]? = some l := by
    intro x
    unfold hwc_layer_list_t.setLayer
    dsimp only
    rw [List.getElem?_set_ne hij]
    exact hl
  unfold classifyLayer
  split
  · exact ⟨l, hl, h1, h2⟩
  · dsimp only
    split_ifs
    · unfold classifySkipLayer
      dsimp only
      rcases markForGPUComp_getElem? K _ _ j i l (hset _) with h | h
      · exact ⟨_, h, h1, h2⟩
      · exact ⟨_, h, rfl, hasBits_clearBits _ _⟩
    · exact ⟨l, hset _, h1, h2⟩
    · unfold classifyS3DLayer
      dsimp only
      split_ifs <;> first | exact ⟨l, hset _, h1, h2⟩ | exact ⟨l, hl, h1, h2⟩
    all_goals exact ⟨l, hset _, h1, h2⟩

theorem setVideoOverlayStatusInGralloc_buffers (K : Hdr) (w : World) (v : Int) :
    (setVideoOverlayStatusInGralloc K w v).buffers = w.buffers :=
  buffers_of_heap (setVideoOverlayStatusInGralloc_heap K w v)

theorem classifyVideoChoice_buffers (K : Hdr) (E : Env) (m : private_hwc_module_t) (w : World)
    (layer : hwc_layer_t) : (classifyVideoChoice K E m w layer).2.buffers = w.buffers := by
  unfold classifyVideoChoice
  dsimp only
  split_ifs <;> first | rfl | exact prepareOverlay_buffers K E w layer

theorem classifyVideoChoice_status (K : Hdr) (E : Env) (m : private_hwc_module_t) (w : World)
    (layer : hwc_layer_t)
    (h : w.ctx.hwcOverlayStatus ≠ eHWCOverlayStatus.HWC_OVERLAY_CLOSED) :
    (classifyVideoChoice K E m w layer).2.ctx.hwcOverlayStatus
      ≠ eHWCOverlayStatus.HWC_OVERLAY_CLOSED := by
  have hp : (prepareOverlay K E w layer).2.ctx.hwcOverlayStatus = w.ctx.hwcOverlayStatus :=
    noBypass_hwcOverlayStatus (prepareOverlay_noBypass K E w layer)
  unfold classifyVideoChoice
  dsimp only
  split_ifs
  · simp
  · simpa using h
  · simp
  · rw [hp]; exact h
  · rw [hp]; exact h

theorem classifyVideoLayer_w (K : Hdr) (E : Env) (m : private_hwc_module_t) (f : Frame)
    (i : Nat) (layer : hwc_layer_t) :
    ∃ w1, w1.buffers = f.w.buffers ∧ w1.ctx = f.w.ctx ∧
      (classifyVideoLayer K E m f i layer).w
        = if K.HWC_USE_OVERLAY ≠ (classifyVideoChoice K E m w1 layer).1.compositionType then
            (classifyVideoChoice K E m w1 layer).2.modCtx
              (fun c => { c with skipComposition := false })
          else (classifyVideoChoice K E m w1 layer).2 := by
  refine ⟨setVideoOverlayStatusInGralloc K
    (if f.w.ctx.s3dLayerFormat ≠ 0 then f.w.next else f.w)
    (if f.w.ctx.s3dLayerFormat ≠ 0 ∧ E.is3DTV f.w.tick = true then K.VIDEO_3D_OVERLAY_STARTED
      else K.VIDEO_2D_OVERLAY_STARTED), ?_, ?_, rfl⟩
  · rw [setVideoOverlayStatusInGralloc_buffers]
    split <;> rfl
  · rw [setVideoOverlayStatusInGralloc_ctx]
    split <;> rfl

theorem classifyS3DLayer_w (K : Hdr) (E : Env) (f : Frame) (i : Nat) (layer : hwc_layer_t) :
    ∃ w1, w1.buffers = f.w.buffers ∧ w1.ctx = f.w.ctx ∧
      (classifyS3DLayer K E f i layer).w
        = if (prepareOverlay K E w1 layer).1 = 0 then
            (prepareOverlay K E w1 layer).2.modCtx
              (fun c => { c with hwcOverlayStatus := eHWCOverlayStatus.HWC_OVERLAY_OPEN })
          else (prepareOverlay K E w1 layer).2 := by
  refine ⟨setVideoOverlayStatusInGralloc K f.w.next
    (if E.is3DTV f.w.tick then K.VIDEO_3D_OVERLAY_STARTED else K.VIDEO_2D_OVERLAY_STARTED),
    ?_, ?_, ?_⟩
  · rw [setVideoOverlayStatusInGralloc_buffers]
    rfl
  · rw [setVideoOverlayStatusInGralloc_ctx]
    rfl
  · unfold classifyS3DLayer
    dsimp only
    split_ifs <;> rfl

theorem classifyLayer_buffers (K : Hdr) (E : Env) (m : private_hwc_module_t)
    (useCopybit s3d : Bool) (f : Frame) (i : Nat) :
    (classifyLayer K E m useCopybit s3d f i).w.buffers = f.w.buffers := by
  unfold classifyLayer
  split
  · rfl
  · rename_i layer _
    dsimp only
    split_ifs
    · unfold classifySkipLayer
      dsimp only
      split_ifs <;> rfl
    · obtain ⟨w1, hb, _, hw⟩ := classifyVideoLayer_w K E m f i layer
      rw [hw]
      split
      · rw [buffers_modCtx, classifyVideoChoice_buffers, hb]
      · rw [classifyVideoChoice_buffers, hb]
    · obtain ⟨w1, hb, _, hw⟩ := classifyS3DLayer_w K E f i layer
      rw [hw]
      split
      · rw [buffers_modCtx, prepareOverlay_buffers, hb]
      · rw [prepareOverlay_buffers, hb]
    all_goals rfl

theorem classifyLayer_skipPresent (K : Hdr) (E : Env) (m : private_hwc_module_t)
    (useCopybit s3d : Bool) (f : Frame) (i : Nat) (h : f.isSkipLayerPresent = true) :
    (classifyLayer K E m useCopybit s3d f i).isSkipLayerPresent = true := by
  unfold classifyLayer
  split
  · exact h
  · dsimp only
    split_ifs
    · rfl
    · exact h
    · unfold classifyS3DLayer
      dsimp only
      split_ifs <;> exact h
    all_goals exact h

theorem classifyLayer_status (K : Hdr) (E : Env) (m : private_hwc_module_t)
    (useCopybit s3d : Bool) (f : Frame) (i : Nat)
    (h : f.w.ctx.hwcOverlayStatus ≠ eHWCOverlayStatus.HWC_OVERLAY_CLOSED) :
    (classifyLayer K E m useCopybit s3d f i).w.ctx.hwcOverlayStatus
      ≠ eHWCOverlayStatus.HWC_OVERLAY_CLOSED := by
  unfold classifyLayer
  split
  · exact h
  · rename_i layer _
    dsimp only
    split_ifs
    · unfold classifySkipLayer
      dsimp only
      split_ifs
      · simp
      all_goals simpa using h
    · obtain ⟨w1, _, hc, hw⟩ := classifyVideoLayer_w K E m f i layer
      rw [hw]
      have hs := classifyVideoChoice_status K E m w1 layer (by rw [hc]; exact h)
      split
      · simpa using hs
      · exact hs
    · obtain ⟨w1, _, hc, hw⟩ := classifyS3DLayer_w K E f i layer
      rw [hw]
      split
      · simp
      · rw [noBypass_hwcOverlayStatus (prepareOverlay_noBypass K E _ _), hc]
        exact h
    all_goals exact h

/-- The skip branch of the loop: the layer goes to the framebuffer with the clear hint off,
frame skip is disabled, and an overlay that is not closed is on its way to be closed when
the layer is a video buffer. -/
theorem classifyLayer_at_skip (K : Hdr) (E : Env) (m : private_hwc_module_t)
    (useCopybit s3d : Bool) (f : Frame) (i : Nat) (layer : hwc_layer_t)
    (hl : f.list.hwLayers[i]? = some layer) (hs : isSkipLayer K layer = true) :
    (classifyLayer K E m useCopybit s3d f i).isSkipLayerPresent = true
    ∧ (classifyLayer K E m useCopybit s3d f i).w.ctx.skipComposition = false
    ∧ (∃ l', (classifyLayer K E m useCopybit s3d f i).list.hwLayers[i]? = some l'
        ∧ l'.compositionType = K.HWC_FRAMEBUFFER
        ∧ hasBits l'.hints K.HWC_HINT_CLEAR_FB = false)
    ∧ (isYuvBuffer K f.w layer.handle = true →
        f.w.ctx.hwcOverlayStatus ≠ eHWCOverlayStatus.HWC_OVERLAY_CLOSED →
        (classifyLayer K E m useCopybit s3d f i).w.ctx.hwcOverlayStatus
          = eHWCOverlayStatus.HWC_OVERLAY_PREPARE_TO_CLOSE) := by
  have hlen : i < f.list.hwLayers.length := by
    rcases Nat.lt_or_ge i f.list.hwLayers.length with h | h
    · exact h
    · rw [List.getElem?_eq_none h] at hl; cases hl
  have hE : classifyLayer K E m useCopybit s3d f i = classifySkipLayer K s3d f i layer := by
    unfold classifyLayer
    rw [hl]
    dsimp only
    rw [if_pos hs]
  rw [hE]
  unfold classifySkipLayer
  dsimp only
  refine ⟨rfl, ?_, ?_, ?_⟩
  · split_ifs <;> rfl
  · have hset : ∀ x, (f.list.setLayer i x).hwLayers[i]? = some x := by
      intro x
      unfold hwc_layer_list_t.setLayer
      simp [hlen]
    rcases markForGPUComp_getElem? K _ _ i i _ (hset _) with h | h
    · exact ⟨_, h, rfl, hasBits_clearBits _ _⟩
    · exact ⟨_, h, rfl, hasBits_clearBits _ _⟩
  · intro hy hc
    have hy2 : isYuvBuffer K (f.w.modCtx (fun c =>
        { c with skipComposition := false, previousLayerCount := -1 })) layer.handle = true := hy
    rw [if_pos hy2]
    cases hst : f.w.ctx.hwcOverlayStatus with
    | HWC_OVERLAY_CLOSED => exact absurd hst hc
    | HWC_OVERLAY_OPEN =>
      rw [if_pos (by simpa using hst)]
      rfl
    | HWC_OVERLAY_PREPARE_TO_CLOSE =>
      rw [if_neg (by simp [hst])]
      simpa using hst

/-- A layer that is flagged skip, or that is neither a video buffer nor a stereo layer,
leaves an overlay that is being closed as it is. -/
theorem classifyLayer_status_closing (K : Hdr) (E : Env) (m : private_hwc_module_t)
    (useCopybit s3d : Bool) (f : Frame) (i : Nat)
    (hst : f.w.ctx.hwcOverlayStatus = eHWCOverlayStatus.HWC_OVERLAY_PREPARE_TO_CLOSE)
    (hl : ∀ layer, f.list.hwLayers[i]? = some layer → isSkipLayer K layer = false →
      isYuvBuffer K f.w layer.handle = false ∧ getLayerS3DFormat K f.w layer = 0) :
    (classifyLayer K E m useCopybit s3d f i).w.ctx.hwcOverlayStatus
      = eHWCOverlayStatus.HWC_OVERLAY_PREPARE_TO_CLOSE := by
  unfold classifyLayer
  split
  · exact hst
  · rename_i layer hsome
    dsimp only
    split_ifs with h1 h2 h3
    · unfold classifySkipLayer
      dsimp only
      split_ifs
      · rfl
      all_goals simpa using hst
    · exfalso
      have := (hl layer hsome (by simpa using h1)).1
      unfold isYuvBuffer at this
      simp [h2.1, h2.2.1] at this
    · exact absurd (hl layer hsome (by simpa using h1)).2 h3
    all_goals exact hst

theorem isYuvBuffer_congr (K : Hdr) {w w' : World} (h : w'.buffers = w.buffers) (hnd : Nat) :
    isYuvBuffer K w' hnd = isYuvBuffer K w hnd := by
  unfold isYuvBuffer
  rw [buffers_bufferType h]

theorem getLayerS3DFormat_congr (K : Hdr) {w w' : World} (h : w'.buffers = w.buffers)
    {l l' : hwc_layer_t} (hl : l'.input = l.input) :
    getLayerS3DFormat K w' l' = getLayerS3DFormat K w l := by
  unfold getLayerS3DFormat
  rw [input_handle hl, buffers_format h]

/-- The per-layer loop on a list whose layer `i` is flagged skip. -/
theorem classifyLoop_skip_layer (K : Hdr) (E : Env) (m : private_hwc_module_t)
    (useCopybit s3d : Bool) (n : Nat) (f : Frame) (i : Nat) (layer : hwc_layer_t)
    (hi : i < n) (hl : f.list.hwLayers[i]? = some layer) (hs : isSkipLayer K layer = true) :
    (classifyLoop K E m useCopybit s3d n f).isSkipLayerPresent = true
    ∧ (classifyLoop K E m useCopybit s3d n f).w.ctx.skipComposition = false
    ∧ (∃ l', (classifyLoop K E m useCopybit s3d n f).list.hwLayers[i]? = some l'
        ∧ l'.compositionType = K.HWC_FRAMEBUFFER
        ∧ hasBits l'.hints K.HWC_HINT_CLEAR_FB = false)
    ∧ (isYuvBuffer K f.w layer.handle = true →
        f.w.ctx.hwcOverlayStatus ≠ eHWCOverlayStatus.HWC_OVERLAY_CLOSED →
        (∀ j l, i < j → f.list.hwLayers[j]? = some l → isSkipLayer K l = false →
          isYuvBuffer K f.w l.handle = false ∧ getLayerS3DFormat K f.w l = 0) →
        (classifyLoop K E m useCopybit s3d n f).w.ctx.hwcOverlayStatus
          = eHWCOverlayStatus.HWC_OVERLAY_PREPARE_TO_CLOSE) := by
  have inv := foldl_range_inv (classifyLayer K E m useCopybit s3d)
    (fun k (g : Frame) =>
      g.list.hwLayers.map hwc_layer_t.input = f.list.hwLayers.map hwc_layer_t.input
      ∧ g.w.buffers = f.w.buffers
      ∧ (f.w.ctx.hwcOverlayStatus ≠ eHWCOverlayStatus.HWC_OVERLAY_CLOSED →
          g.w.ctx.hwcOverlayStatus ≠ eHWCOverlayStatus.HWC_OVERLAY_CLOSED)
      ∧ (i < k →
          g.isSkipLayerPresent = true
          ∧ g.w.ctx.skipComposition = false
          ∧ (∃ l', g.list.hwLayers[i]? = some l'
              ∧ l'.compositionType = K.HWC_FRAMEBUFFER
              ∧ hasBits l'.hints K.HWC_HINT_CLEAR_FB = false)
          ∧ (isYuvBuffer K f.w layer.handle = true →
              f.w.ctx.hwcOverlayStatus ≠ eHWCOverlayStatus.HWC_OVERLAY_CLOSED →
              (∀ j l, i < j → f.list.hwLayers[j]? = some l → isSkipLayer K l = false →
                isYuvBuffer K f.w l.handle = false ∧ getLayerS3DFormat K f.w l = 0) →
              g.w.ctx.hwcOverlayStatus = eHWCOverlayStatus.HWC_OVERLAY_PREPARE_TO_CLOSE)))
    n f ⟨rfl, rfl, fun h => h, fun h => absurd h (Nat.not_lt_zero i)⟩ ?_
  · exact inv.2.2.2 hi
  · intro k g _ ⟨hin, hbuf, hst, hpost⟩
    refine ⟨(classifyLayer_input K E m _ _ g k).trans hin,
      (classifyLayer_buffers K E m _ _ g k).trans hbuf,
      fun h => classifyLayer_status K E m _ _ g k (hst h), fun hik => ?_⟩
    rcases Nat.lt_or_ge i k with hlt | hge
    · obtain ⟨p1, p2, ⟨l', hl', hc1, hc2⟩, p4⟩ := hpost hlt
      refine ⟨classifyLayer_skipPresent K E m _ _ g k p1,
        classifyLayer_skip_false K E m _ _ g k p2,
        classifyLayer_keeps_framebuffer K E m _ _ g i k (Nat.ne_of_gt hlt) l' hl' hc1 hc2,
        fun hy hc hlater => ?_⟩
      apply classifyLayer_status_closing K E m _ _ g k (p4 hy hc hlater)
      intro x' hx' hsx'
      obtain ⟨x, hx, hxi⟩ := getElem?_input_of_map hin.symm k x' hx'
      have hsx : isSkipLayer K x = false := by
        rw [isSkipLayer_of_input K hxi]; exact hsx'
      obtain ⟨q1, q2⟩ := hlater k x hlt hx hsx
      refine ⟨?_, ?_⟩
      · rw [isYuvBuffer_congr K hbuf, ← input_handle hxi]; exact q1
      · rw [getLayerS3DFormat_congr K hbuf hxi.symm]; exact q2
    · have hk : k = i := by omega
      subst hk
      obtain ⟨x', hx', hxi⟩ := getElem?_input_of_map hin k layer hl
      have hsx : isSkipLayer K x' = true := by
        rw [isSkipLayer_of_input K hxi]; exact hs
      obtain ⟨r1, r2, r3, r4⟩ := classifyLayer_at_skip K E m useCopybit s3d g k x' hx' hsx
      refine ⟨r1, r2, r3, fun hy hc _ => r4 ?_ (hst hc)⟩
      rw [isYuvBuffer_congr K hbuf, input_handle hxi]; exact hy

theorem prepareStats_status (K : Hdr) (m : private_hwc_module_t) (w : World)
    (list : hwc_layer_list_t)
    (h : w.ctx.hwcOverlayStatus ≠ eHWCOverlayStatus.HWC_OVERLAY_CLOSED) :
    (prepareStats K m w list).ctx.hwcOverlayStatus ≠ eHWCOverlayStatus.HWC_OVERLAY_CLOSED := by
  have h1 : (statCount K w list).ctx.hwcOverlayStatus ≠ eHWCOverlayStatus.HWC_OVERLAY_CLOSED := h
  unfold prepareStats
  dsimp only
  obtain ⟨pl, hpl⟩ := canSkipComposition_ctx K (statCount K w list) m
    (statCount K w list).ctx.yuvBufferCount (list.numHwLayers : Int)
    (statCount K w list).ctx.numLayersNotUpdating
  rw [hpl]
  generalize (canSkipComposition K (statCount K w list) m
    (statCount K w list).ctx.yuvBufferCount (list.numHwLayers : Int)
    (statCount K w list).ctx.numLayersNotUpdating).1 = sk
  generalize statCount K w list = w1 at h1
  split_ifs
  · simp
  · exact h1
  · exact h1

theorem markSkipComposition_false (K : Hdr) (f : Frame)
    (h : f.w.ctx.skipComposition = false) :
    markSkipComposition K f
      = { f.list with flags := clearBits f.list.flags K.HWC_SKIP_COMPOSITION } := by
  unfold markSkipComposition
  rw [if_neg (by simp [h])]

/-- C5, as amended. A call of `hwc_prepare` on a device with a valid module and on a list
whose layer `i` is flagged `HWC_SKIP_LAYER`: on return that layer has composition type
`HWC_FRAMEBUFFER` and the hint `HWC_HINT_CLEAR_FB` off, `ctx->skipComposition` is false and
`HWC_SKIP_COMPOSITION` is off on the list; and when the skip layer is a video buffer, the
call is entered with `hwcOverlayStatus == HWC_OVERLAY_OPEN`, and no layer after it that is
not flagged skip is a video buffer or carries a stereo format, `hwcOverlayStatus` is
`HWC_OVERLAY_PREPARE_TO_CLOSE` on return. -/
theorem hwc_prepare_skip_layer (K : Hdr) (E : Env) (w : World) (m : private_hwc_module_t)
    (list : hwc_layer_list_t) (i : Nat) (layer : hwc_layer_t)
    (hm : w.module = some m)
    (hl : list.hwLayers[i]? = some layer) (hs : isSkipLayer K layer = true) :
    ∃ list', (hwc_prepare K E w (some list)).2.2 = some list'
      ∧ (∃ l', list'.hwLayers[i]? = some l'
          ∧ l'.compositionType = K.HWC_FRAMEBUFFER
          ∧ hasBits l'.hints K.HWC_HINT_CLEAR_FB = false)
      ∧ (hwc_prepare K E w (some list)).2.1.ctx.skipComposition = false
      ∧ hasBits list'.flags K.HWC_SKIP_COMPOSITION = false
      ∧ (isYuvBuffer K w layer.handle = true →
          w.ctx.hwcOverlayStatus = eHWCOverlayStatus.HWC_OVERLAY_OPEN →
          (∀ j l, i < j → list.hwLayers[j]? = some l → isSkipLayer K l = false →
            isYuvBuffer K w l.handle = false ∧ getLayerS3DFormat K w l = 0) →
          (hwc_prepare K E w (some list)).2.1.ctx.hwcOverlayStatus
            = eHWCOverlayStatus.HWC_OVERLAY_PREPARE_TO_CLOSE) := by
  have hlen : i < list.numHwLayers := by
    unfold hwc_layer_list_t.numHwLayers
    rcases Nat.lt_or_ge i list.hwLayers.length with h | h
    · exact h
    · rw [List.getElem?_eq_none h] at hl; cases hl
  generalize hw0 : w.modCtx (fun c => { c with currentOverlayHandle := 0 }) = w0
  have hm0 : w0.module = some m := by rw [← hw0]; exact hm
  have hst0 : w0.ctx.hwcOverlayStatus = w.ctx.hwcOverlayStatus := by rw [← hw0]; rfl
  have hb0 : w0.buffers = w.buffers := by rw [← hw0]; rfl
  generalize hS : s3dCheck K E (prepareStats K m w0 list) = S
  have hSb : S.2.buffers = w.buffers := by
    rw [← hS]
    exact (buffers_of_heap ((s3dCheck_heap K E _).trans (prepareStats_heap K m w0 list))).trans hb0
  have hSc : S.2.ctx = (prepareStats K m w0 list).ctx := by rw [← hS]; simp
  have hF : classifyLayers K E m w0 list
      = classifyLoop K E m (canUseCopybit m.fbDevice list) S.1 list.numHwLayers
          (Frame.init S.2 list) := by
    unfold classifyLayers
    dsimp only
    rw [hS]
  obtain ⟨p1, p2, ⟨l1, hl1, hc1, hc2⟩, p4⟩ := classifyLoop_skip_layer K E m
    (canUseCopybit m.fbDevice list) S.1 list.numHwLayers (Frame.init S.2 list) i layer hlen hl hs
  unfold hwc_prepare
  dsimp only
  rw [hw0, hm0]
  dsimp only
  rw [← hF] at p1 p2 hl1 p4
  generalize classifyLayers K E m w0 list = F at p1 p2 hl1 p4 ⊢
  rw [prepareBypassStage_not_used K E m F (Or.inr p1)]
  obtain ⟨sw, hsw⟩ := isBypassDoable_ctx K E F.w m F.w.ctx.yuvBufferCount
    (markSkipComposition K F)
  have hRn := bypassReset_noBypass K
    (isBypassDoable K E F.w m F.w.ctx.yuvBufferCount (markSkipComposition K F)).2
    (markSkipComposition K F)
  generalize isBypassDoable K E F.w m F.w.ctx.yuvBufferCount (markSkipComposition K F) = D
    at hsw hRn ⊢
  refine ⟨_, rfl, ?_, ?_, ?_, ?_⟩
  · rw [bypassReset_list, unsetBypassLayerFlags_getElem?, markSkipComposition_false K F p2]
    dsimp only
    rw [hl1]
    dsimp only [Option.map]
    split
    · exact ⟨_, rfl, hc1, hc2⟩
    · exact ⟨_, rfl, hc1, hc2⟩
  · simp only [modCtx_ctx]
    rw [noBypass_skipComposition hRn, hsw]
    exact p2
  · rw [bypassReset_list, unsetBypassLayerFlags_flags, markSkipComposition_false K F p2]
    exact hasBits_clearBits _ _
  · intro hy ho hlater
    simp only [modCtx_ctx]
    rw [noBypass_hwcOverlayStatus hRn, hsw]
    refine p4 ?_ ?_ ?_
    · rw [← hy]
      exact isYuvBuffer_congr K hSb layer.handle
    · show S.2.ctx.hwcOverlayStatus ≠ eHWCOverlayStatus.HWC_OVERLAY_CLOSED
      rw [hSc]
      apply prepareStats_status
      rw [hst0, ho]
      decide
    · intro j l hij hjl hsl
      obtain ⟨q1, q2⟩ := hlater j l hij hjl hsl
      refine ⟨?_, ?_⟩
      · rw [← q1]
        exact isYuvBuffer_congr K hSb l.handle
      · rw [← q2]
        exact getLayerS3DFormat_congr K hSb rfl

/-- Witness of `hwc_prepare_skip_layer`: the video layer of a running video arrives flagged
skip as an overlay layer with the clear hint. -/
theorem hwc_prepare_skip_layer_witness :
    ∃ list', (hwc_prepare refHdr okEnv (openOverlayWorld (uniformHeap 1 0x11 0))
        (some { flags := 2, hwLayers := [{ mkLayer 7 1 with compositionType := 1, hints := 2 }] })).2.2
        = some list'
      ∧ (∃ l', list'.hwLayers[0]? = some l'
          ∧ l'.compositionType = refHdr.HWC_FRAMEBUFFER
          ∧ hasBits l'.hints refHdr.HWC_HINT_CLEAR_FB = false)
      ∧ hasBits list'.flags refHdr.HWC_SKIP_COMPOSITION = false
      ∧ (hwc_prepare refHdr okEnv (openOverlayWorld (uniformHeap 1 0x11 0))
        (some { flags := 2, hwLayers := [{ mkLayer 7 1 with compositionType := 1, hints := 2 }] })).2.1.ctx.hwcOverlayStatus
        = eHWCOverlayStatus.HWC_OVERLAY_PREPARE_TO_CLOSE := by
  obtain ⟨list', h1, h2, _, h4, h5⟩ := hwc_prepare_skip_layer refHdr okEnv
    (openOverlayWorld (uniformHeap 1 0x11 0)) refModule
    { flags := 2, hwLayers := [{ mkLayer 7 1 with compositionType := 1, hints := 2 }] } 0
    { mkLayer 7 1 with compositionType := 1, hints := 2 } rfl rfl (by decide)
  refine ⟨list', h1, h2, h4, h5 (by decide) rfl ?_⟩
  intro j l hij hjl
  cases j with
  | zero => exact absurd hij (by decide)
  | succ j => simp at hjl

/-- C5, counterexample. (1) On a device whose module pointer is `NULL`, `hwc_prepare`
returns -1 before it looks at the list: a skip layer that arrives as an overlay layer with
the clear hint, on a list with `HWC_SKIP_COMPOSITION`, leaves as it came. (2) The video
layer (buffer 7) is flagged skip while the overlay is open, and the layer after it is a UI
buffer with a stereo format: the overlay is marked for closing at the skip layer and opened
again for the stereo layer, so `hwcOverlayStatus` is `HWC_OVERLAY_OPEN` on return. (3) The
same when the layer after it is a second video buffer flagged `HWC_DO_NOT_USE_OVERLAY`,
which the statistics do not count. -/
theorem hwc_prepare_skip_layer_reopened :
    ((hwc_prepare refHdr okEnv (openOverlayWorld (uniformHeap 1 0x11 0)).withoutModule
        (some { flags := 2, hwLayers := [{ mkLayer 7 1 with compositionType := 1, hints := 2 }] })).2.2
        = some { flags := 2, hwLayers := [{ mkLayer 7 1 with compositionType := 1, hints := 2 }] }
      ∧ isSkipLayer refHdr { mkLayer 7 1 with compositionType := 1, hints := 2 } = true
      ∧ (1 : Int) ≠ refHdr.HWC_FRAMEBUFFER
      ∧ hasBits 2 refHdr.HWC_HINT_CLEAR_FB = true
      ∧ hasBits 2 refHdr.HWC_SKIP_COMPOSITION = true)
    ∧ (isSkipLayer refHdr (mkLayer 7 1) = true
      ∧ isYuvBuffer refHdr (openOverlayWorld stereoHeap) (mkLayer 7 1).handle = true
      ∧ isYuvBuffer refHdr (openOverlayWorld stereoHeap) (mkLayer 8 0).handle = false
      ∧ (openOverlayWorld stereoHeap).ctx.hwcOverlayStatus = eHWCOverlayStatus.HWC_OVERLAY_OPEN
      ∧ (hwc_prepare refHdr okEnv (openOverlayWorld stereoHeap)
          (some { flags := 0, hwLayers := [mkLayer 7 1, mkLayer 8 0] })).2.1.ctx.hwcOverlayStatus
          = eHWCOverlayStatus.HWC_OVERLAY_OPEN)
    ∧ (isYuvBuffer refHdr (openOverlayWorld (uniformHeap 1 0x11 0)) (mkLayer 7 1).handle = true
      ∧ (openOverlayWorld (uniformHeap 1 0x11 0)).ctx.hwcOverlayStatus
          = eHWCOverlayStatus.HWC_OVERLAY_OPEN
      ∧ (hwc_prepare refHdr okEnv (openOverlayWorld (uniformHeap 1 0x11 0))
          (some { flags := 0, hwLayers := [mkLayer 7 1, mkLayer 8 0x20000000] })).2.1.ctx.hwcOverlayStatus
          = eHWCOverlayStatus.HWC_OVERLAY_OPEN) := by
  decide

/-! ## Layers without a buffer -/

theorem s3dCheck_true (K : Hdr) (E : Env) (w : World) (h : (s3dCheck K E w).1 = true) :
    K.HDMI_AS_PRIMARY = true := by
  unfold s3dCheck isS3DCompositionRequired at h
  split_ifs at h with h1 h2
  exact h2

theorem markUILayerForS3DComposition_type (K : Hdr) (layer : hwc_layer_t) (s : Nat)
    (h : K.HDMI_AS_PRIMARY = true) :
    (markUILayerForS3DComposition K layer s).compositionType = K.HWC_FRAMEBUFFER := by
  unfold markUILayerForS3DComposition
  rw [if_pos h]
  dsimp only
  split_ifs <;> rfl

/-- A layer without a buffer already sent to the framebuffer stays so when another layer is
classified. -/
theorem classifyLayer_keeps_type (K : Hdr) (E : Env) (m : private_hwc_module_t)
    (useCopybit s3d : Bool) (f : Frame) (i j : Nat) (hij : j ≠ i) (l : hwc_layer_t)
    (hl : f.list.hwLayers[i]? = some l)
    (h1 : l.compositionType = K.HWC_FRAMEBUFFER) :
    ∃ l', (classifyLayer K E m useCopybit s3d f j).list.hwLayers[i]? = some l'
      ∧ l'.compositionType = K.HWC_FRAMEBUFFER := by
  have hset : ∀ x, (f.list.setLayer j x).hwLayers[i]? = some l := by
    intro x
    unfold hwc_layer_list_t.setLayer
    dsimp only
    rw [List.getElem?_set_ne hij]
    exact hl
  unfold classifyLayer
  split
  · exact ⟨l, hl, h1⟩
  · dsimp only
    split_ifs
    · unfold classifySkipLayer
      dsimp only
      rcases markForGPUComp_getElem? K _ _ j i l (hset _) with h | h
      · exact ⟨_, h, h1⟩
      · exact ⟨_, h, rfl⟩
    · exact ⟨l, hset _, h1⟩
    · unfold classifyS3DLayer
      dsimp only
      split_ifs <;> first | exact ⟨l, hset _, h1⟩ | exact ⟨l, hl, h1⟩
    all_goals exact ⟨l, hset _, h1⟩

/-- The classification of a layer without a buffer that is not flagged
`HWC_USE_ORIGINAL_RESOLUTION`, when the dynamic composition does not pick copybit. -/
theorem classifyLayer_null_handle (K : Hdr) (E : Env) (m : private_hwc_module_t)
    (useCopybit s3d : Bool) (f : Frame) (i : Nat) (layer : hwc_layer_t)
    (hl : f.list.hwLayers[i]? = some layer) (hh : layer.handle = 0)
    (hs3d : s3d = true → K.HDMI_AS_PRIMARY = true)
    (hcase : isSkipLayer K layer = true
      ∨ (hasBits layer.flags K.HWC_USE_ORIGINAL_RESOLUTION = false
          ∧ ¬ (hasBits m.compositionType K.COMPOSITION_TYPE_DYN = true ∧ useCopybit = true))) :
    ∃ l', (classifyLayer K E m useCopybit s3d f i).list.hwLayers[i]? = some l'
      ∧ l'.compositionType = K.HWC_FRAMEBUFFER := by
  by_cases hs : isSkipLayer K layer = true
  · obtain ⟨_, _, ⟨l', h1, h2, _⟩, _⟩ := classifyLayer_at_skip K E m useCopybit s3d f i layer hl hs
    exact ⟨l', h1, h2⟩
  · have hlen : i < f.list.hwLayers.length := by
      rcases Nat.lt_or_ge i f.list.hwLayers.length with h | h
      · exact h
      · rw [List.getElem?_eq_none h] at hl; cases hl
    have hset : ∀ x, (f.list.setLayer i x).hwLayers[i]? = some x := by
      intro x
      unfold hwc_layer_list_t.setLayer
      simp [hlen]
    obtain ⟨ho, hd⟩ := hcase.resolve_left hs
    have h3d : getLayerS3DFormat K f.w layer = 0 := by
      unfold getLayerS3DFormat
      simp [hh]
    unfold classifyLayer
    rw [hl]
    dsimp only
    rw [if_neg hs, if_neg (by simp [hh]), if_neg (by simp [h3d])]
    split_ifs with h4
    · exact ⟨_, hset _, markUILayerForS3DComposition_type K layer _ (hs3d h4)⟩
    all_goals first
      | exact ⟨_, hset _, rfl⟩
      | (exfalso; simp_all)

theorem classifyLoop_null_handle (K : Hdr) (E : Env) (m : private_hwc_module_t)
    (useCopybit s3d : Bool) (n : Nat) (f : Frame) (i : Nat) (layer : hwc_layer_t)
    (hi : i < n) (hl : f.list.hwLayers[i]? = some layer) (hh : layer.handle = 0)
    (hs3d : s3d = true → K.HDMI_AS_PRIMARY = true)
    (hcase : isSkipLayer K layer = true
      ∨ (hasBits layer.flags K.HWC_USE_ORIGINAL_RESOLUTION = false
          ∧ ¬ (hasBits m.compositionType K.COMPOSITION_TYPE_DYN = true ∧ useCopybit = true))) :
    ∃ l', (classifyLoop K E m useCopybit s3d n f).list.hwLayers[i]? = some l'
      ∧ l'.compositionType = K.HWC_FRAMEBUFFER ∧ l'.handle = 0 := by
  have inv := foldl_range_inv (classifyLayer K E m useCopybit s3d)
    (fun k (g : Frame) =>
      g.list.hwLayers.map hwc_layer_t.input = f.list.hwLayers.map hwc_layer_t.input
      ∧ (i < k → ∃ l', g.list.hwLayers[i]? = some l'
            ∧ l'.compositionType = K.HWC_FRAMEBUFFER))
    n f ⟨rfl, fun h => absurd h (Nat.not_lt_zero i)⟩ ?_
  · obtain ⟨l', h1, h2⟩ := inv.2 hi
    obtain ⟨x, hx, hxi⟩ := getElem?_input_of_map inv.1.symm i l' h1
    rw [hl] at hx
    cases hx
    exact ⟨l', h1, h2, by rw [input_handle hxi.symm]; exact hh⟩
  · intro k g _ ⟨hin, hpost⟩
    refine ⟨(classifyLayer_input K E m _ _ g k).trans hin, fun hik => ?_⟩
    rcases Nat.lt_or_ge i k with hlt | hge
    · obtain ⟨l', hl', hc1⟩ := hpost hlt
      exact classifyLayer_keeps_type K E m _ _ g i k (Nat.ne_of_gt hlt) l' hl' hc1
    · have hk : k = i := by omega
      subst hk
      obtain ⟨x', hx', hxi⟩ := getElem?_input_of_map hin k layer hl
      apply classifyLayer_null_handle K E m useCopybit s3d g k x' hx'
        (by rw [input_handle hxi]; exact hh) hs3d
      rw [isSkipLayer_of_input K hxi, input_flags hxi]
      exact hcase

/-! ## The pipe allocator -/

theorem unflagged_handle {l l' : hwc_layer_t} (h : l'.unflagged = l.unflagged) :
    l'.handle = l.handle := by
  have := congrArg hwc_layer_t.handle h
  exact this

theorem unflagged_compositionType {l l' : hwc_layer_t} (h : l'.unflagged = l.unflagged) :
    l'.compositionType = l.compositionType := by
  have := congrArg hwc_layer_t.compositionType h
  exact this

theorem map_unflagged_set (l : List hwc_layer_t) (i : Nat) (layer x : hwc_layer_t)
    (hl : l[i]? = some layer) (hx : x.unflagged = layer.unflagged) :
    (l.set i x).map hwc_layer_t.unflagged = l.map hwc_layer_t.unflagged := by
  induction l generalizing i with
  | nil => rfl
  | cons a l ih =>
    cases i with
    | zero =>
      simp only [List.getElem?_cons_zero, Option.some.injEq] at hl
      subst hl
      simp [hx]
    | succ i =>
      simp only [List.getElem?_cons_succ] at hl
      simp [ih i hl]

theorem getElem?_unflagged_of_map {l l' : List hwc_layer_t}
    (h : l'.map hwc_layer_t.unflagged = l.map hwc_layer_t.unflagged) (j : Nat) (x : hwc_layer_t)
    (hx : l[j]? = some x) : ∃ x', l'[j]? = some x' ∧ x'.unflagged = x.unflagged := by
  have h1 : (l'.map hwc_layer_t.unflagged)[j]? = (l.map hwc_layer_t.unflagged)[j]? := by rw [h]
  rw [List.getElem?_map, List.getElem?_map, hx] at h1
  cases hx' : l'[j]? with
  | none => rw [hx'] at h1; cases h1
  | some x' =>
    rw [hx'] at h1
    exact ⟨x', rfl, by simpa using h1⟩

@[simp] theorem setLayer_numHwLayers (list : hwc_layer_list_t) (i : Nat) (x : hwc_layer_t) :
    (list.setLayer i x).numHwLayers = list.numHwLayers := by
  unfold hwc_layer_list_t.setLayer hwc_layer_list_t.numHwLayers
  simp

theorem setLayer_getElem?_self (list : hwc_layer_list_t) (i : Nat) (x : hwc_layer_t)
    (hi : i < list.numHwLayers) : (list.setLayer i x).hwLayers[i]? = some x := by
  unfold hwc_layer_list_t.numHwLayers at hi
  unfold hwc_layer_list_t.setLayer
  simp [hi]

theorem setLayer_getElem?_ne (list : hwc_layer_list_t) (i j : Nat) (x : hwc_layer_t)
    (hij : i ≠ j) : (list.setLayer i x).hwLayers[j]? = list.hwLayers[j]? := by
  unfold hwc_layer_list_t.setLayer
  dsimp only
  rw [List.getElem?_set_ne hij]

theorem getElem?_lt_numHwLayers (list : hwc_layer_list_t) (i : Nat) (l : hwc_layer_t)
    (h : list.hwLayers[i]? = some l) : i < list.numHwLayers := by
  unfold hwc_layer_list_t.numHwLayers
  rcases Nat.lt_or_ge i list.hwLayers.length with h1 | h1
  · exact h1
  · rw [List.getElem?_eq_none h1] at h; cases h

theorem prepareBypass_null (K : Hdr) (E : Env) (w : World) (layer : hwc_layer_t)
    (n : Nat) (v g : Bool) (h : layer.handle = 0) :
    (prepareBypass K E w layer n v g).1 ≠ 0 := by
  unfold prepareBypass
  dsimp only
  split
  · simp
  · rw [if_pos h]
    simp

/-- The loop of `setupBypass` writes flag words only. -/
theorem setupBypassLoop_unflagged (K : Hdr) (E : Env) (fuel : Nat) :
    ∀ (index nPA : Nat) (w : World) (list : hwc_layer_list_t),
      (setupBypassLoop K E fuel index nPA w list).2.2.hwLayers.map hwc_layer_t.unflagged
        = list.hwLayers.map hwc_layer_t.unflagged := by
  induction fuel with
  | zero => intro index nPA w list; rfl
  | succ fuel ih =>
    intro index nPA w list
    unfold setupBypassLoop
    split_ifs with h1
    · split
      · rfl
      · rename_i layer hl
        dsimp only
        have e1 : (list.setLayer index
            { layer with flags := clearBits layer.flags K.HWC_COMP_BYPASS
                                    ||| K.HWC_BYPASS_INDEX_MASK }).hwLayers.map hwc_layer_t.unflagged
            = list.hwLayers.map hwc_layer_t.unflagged :=
          map_unflagged_set _ _ layer _ hl rfl
        split_ifs
        · exact e1
        · rw [ih]
          rw [← e1]
          refine map_unflagged_set _ _ _ _
            (setLayer_getElem?_self _ _ _ (getElem?_lt_numHwLayers _ _ _ hl)) rfl
    · rfl

/-- When the loop of `setupBypass` runs to its end on a list that fits the pipes left, every
layer from `index` on has a buffer. -/
theorem setupBypassLoop_handles (K : Hdr) (E : Env) (fuel : Nat) :
    ∀ (index nPA : Nat) (w : World) (list : hwc_layer_list_t) (k : Nat),
      (setupBypassLoop K E fuel index nPA w list).1 = some k →
      list.numHwLayers ≤ index + fuel → list.numHwLayers ≤ index + nPA →
      ∀ (j : Nat) (l : hwc_layer_t), index ≤ j → list.hwLayers[j]? = some l →
        l.handle ≠ 0 := by
  induction fuel with
  | zero =>
    intro index nPA w list k _ hf _ j l hj hl
    have := getElem?_lt_numHwLayers list j l hl
    omega
  | succ fuel ih =>
    intro index nPA w list k h hf hp j l hj hl
    have hjn := getElem?_lt_numHwLayers list j l hl
    unfold setupBypassLoop at h
    have h1 : index < list.numHwLayers ∧ nPA ≠ 0 := by
      constructor
      · omega
      · intro h0; omega
    rw [if_pos h1] at h
    split at h
    · rename_i hnone
      have hlt : index < list.hwLayers.length := h1.1
      rw [List.getElem?_eq_getElem hlt] at hnone
      cases hnone
    · rename_i layer hlayer
      dsimp only at h
      split_ifs at h with h2
      have hnz : layer.handle ≠ 0 := by
        intro h0
        exact h2 (prepareBypass_null K E w _ _ _ _ h0)
      rcases Nat.eq_or_lt_of_le hj with heq | hlt
      · subst heq
        rw [hlayer] at hl
        cases hl
        exact hnz
      · refine ih (index + 1) (nPA - 1) _ _ k h ?_ ?_ j l hlt ?_
        · simp only [setLayer_numHwLayers]; omega
        · simp only [setLayer_numHwLayers]; omega
        · rw [setLayer_getElem?_ne _ _ _ _ (Nat.ne_of_lt hlt),
            setLayer_getElem?_ne _ _ _ _ (Nat.ne_of_lt hlt)]
          exact hl

theorem isBypassDoable_true_le (K : Hdr) (E : Env) (w : World) (m : private_hwc_module_t)
    (yuvCount : Int) (list : hwc_layer_list_t)
    (h : (isBypassDoable K E w m yuvCount list).1 = true) :
    list.numHwLayers ≤ MAX_BYPASS_LAYERS := by
  unfold isBypassDoable at h
  dsimp only at h
  split_ifs at h
  simp only [Bool.and_eq_true, decide_eq_true_eq] at h
  obtain ⟨_, h2⟩ := h
  exact h2

@[simp] theorem markSkipComposition_hwLayers (K : Hdr) (f : Frame) :
    (markSkipComposition K f).hwLayers = f.list.hwLayers := by
  unfold markSkipComposition
  split <;> rfl

theorem setupBypass_unflagged (K : Hdr) (E : Env) (w : World) (list : hwc_layer_list_t) :
    (setupBypass K E w list).2.2.hwLayers.map hwc_layer_t.unflagged
      = list.hwLayers.map hwc_layer_t.unflagged := by
  have key := setupBypassLoop_unflagged K E list.numHwLayers 0 MAX_BYPASS_LAYERS
    (setOverlayState (getOverlayState K E w list.numHwLayers 0).2
      (getOverlayState K E w list.numHwLayers 0).1) list
  unfold setupBypass
  dsimp only
  generalize setupBypassLoop K E list.numHwLayers 0 MAX_BYPASS_LAYERS
    (setOverlayState (getOverlayState K E w list.numHwLayers 0).2
      (getOverlayState K E w list.numHwLayers 0).1) list = r at key ⊢
  rcases r with ⟨a, b, c⟩
  cases a <;> exact key

/-- When `setupBypass` succeeds on a list of at most three layers, every layer has a
buffer. -/
theorem setupBypass_handles (K : Hdr) (E : Env) (w : World) (list : hwc_layer_list_t)
    (h : (setupBypass K E w list).1 = true) (hn : list.numHwLayers ≤ MAX_BYPASS_LAYERS) :
    ∀ (j : Nat) (l : hwc_layer_t), list.hwLayers[j]? = some l → l.handle ≠ 0 := by
  have key := setupBypassLoop_handles K E list.numHwLayers 0 MAX_BYPASS_LAYERS
    (setOverlayState (getOverlayState K E w list.numHwLayers 0).2
      (getOverlayState K E w list.numHwLayers 0).1) list
  unfold setupBypass at h
  dsimp only at h
  generalize setupBypassLoop K E list.numHwLayers 0 MAX_BYPASS_LAYERS
    (setOverlayState (getOverlayState K E w list.numHwLayers 0).2
      (getOverlayState K E w list.numHwLayers 0).1) list = r at key h
  rcases r with ⟨a, b, c⟩
  cases a with
  | none => cases h
  | some k =>
    intro j l hl
    exact key k rfl (by omega) (by omega) j l (Nat.zero_le j) hl

/-- The two ways out of the bypass stage of `hwc_prepare`: the bypass states are reset
after flag words only were written, or `setupBypass` succeeded and its layers are
flagged. -/
theorem prepareBypassStage_cases (K : Hdr) (E : Env) (m : private_hwc_module_t) (f : Frame) :
    (∃ w1 list1, prepareBypassStage K E m f = bypassReset K w1 list1
        ∧ list1.hwLayers.map hwc_layer_t.unflagged = f.list.hwLayers.map hwc_layer_t.unflagged)
    ∨ ((isBypassDoable K E f.w m f.w.ctx.yuvBufferCount (markSkipComposition K f)).1 = true
        ∧ f.isSkipLayerPresent = false
        ∧ (setupBypass K E
            (isBypassDoable K E f.w m f.w.ctx.yuvBufferCount (markSkipComposition K f)).2
            (markSkipComposition K f)).1 = true
        ∧ prepareBypassStage K E m f
            = ((setupBypass K E
                (isBypassDoable K E f.w m f.w.ctx.yuvBufferCount (markSkipComposition K f)).2
                (markSkipComposition K f)).2.1.modCtx
                  (fun c => { c with bypassState := BypassState.BYPASS_ON }),
               setBypassLayerFlags K
                (setupBypass K E
                  (isBypassDoable K E f.w m f.w.ctx.yuvBufferCount
                    (markSkipComposition K f)).2 (markSkipComposition K f)).2.1
                (setupBypass K E
                  (isBypassDoable K E f.w m f.w.ctx.yuvBufferCount
                    (markSkipComposition K f)).2 (markSkipComposition K f)).2.2)) := by
  unfold prepareBypassStage
  dsimp only
  generalize isBypassDoable K E f.w m f.w.ctx.yuvBufferCount (markSkipComposition K f) = D
  by_cases hc : (D.1 && !f.isSkipLayerPresent) = true
  · rw [if_pos hc]
    unfold bypassAttempt
    dsimp only
    simp only [Bool.and_eq_true, Bool.not_eq_true', ] at hc
    by_cases hs : (setupBypass K E D.2 (markSkipComposition K f)).1 = true
    · right
      refine ⟨hc.1, hc.2, hs, ?_⟩
      rw [if_pos hs]
      rfl
    · left
      rw [if_neg hs]
      refine ⟨_, _, rfl, ?_⟩
      rw [setupBypass_unflagged, markSkipComposition_hwLayers]
  · left
    rw [if_neg hc]
    refine ⟨_, _, rfl, ?_⟩
    rw [markSkipComposition_hwLayers]

/-- The bypass stage of `hwc_prepare` leaves the composition type of a layer without a
buffer as the classification loop set it. -/
theorem prepareBypassStage_null_handle (K : Hdr) (E : Env) (m : private_hwc_module_t)
    (f : Frame) (i : Nat) (l : hwc_layer_t) (hl : f.list.hwLayers[i]? = some l)
    (hh : l.handle = 0) :
    ∃ l', (prepareBypassStage K E m f).2.hwLayers[i]? = some l'
      ∧ l'.compositionType = l.compositionType := by
  rcases prepareBypassStage_cases K E m f with ⟨w1, list1, he, hu⟩ | ⟨hd, _, hs, _⟩
  · rw [he, bypassReset_list, unsetBypassLayerFlags_getElem?]
    obtain ⟨x, hx, hxu⟩ := getElem?_unflagged_of_map hu i l hl
    rw [hx]
    dsimp only [Option.map]
    split
    · exact ⟨_, rfl, unflagged_compositionType hxu⟩
    · exact ⟨_, rfl, unflagged_compositionType hxu⟩
  · exfalso
    have hn := isBypassDoable_true_le K E f.w m _ _ hd
    refine setupBypass_handles K E _ _ hs hn i l ?_ hh
    rw [markSkipComposition_hwLayers]
    exact hl

/-- C6, as amended. A call of `hwc_prepare` on a device with a valid module, and a layer of
the list whose buffer handle is `NULL`: when the layer is flagged `HWC_SKIP_LAYER`, or is
not flagged `HWC_USE_ORIGINAL_RESOLUTION` while the dynamic composition does not pick
copybit for the frame, its composition type on return is `HWC_FRAMEBUFFER`, for every
module composition type and every other flag. -/
theorem hwc_prepare_null_handle (K : Hdr) (E : Env) (w : World) (m : private_hwc_module_t)
    (list : hwc_layer_list_t) (i : Nat) (layer : hwc_layer_t)
    (hm : w.module = some m)
    (hl : list.hwLayers[i]? = some layer) (hh : layer.handle = 0)
    (hcase : isSkipLayer K layer = true
      ∨ (hasBits layer.flags K.HWC_USE_ORIGINAL_RESOLUTION = false
          ∧ ¬ (hasBits m.compositionType K.COMPOSITION_TYPE_DYN = true
                ∧ canUseCopybit m.fbDevice list = true))) :
    ∃ list' l', (hwc_prepare K E w (some list)).2.2 = some list'
      ∧ list'.hwLayers[i]? = some l'
      ∧ l'.compositionType = K.HWC_FRAMEBUFFER := by
  have hlen := getElem?_lt_numHwLayers list i layer hl
  generalize hw0 : w.modCtx (fun c => { c with currentOverlayHandle := 0 }) = w0
  have hm0 : w0.module = some m := by rw [← hw0]; exact hm
  have hs3d : (s3dCheck K E (prepareStats K m w0 list)).1 = true → K.HDMI_AS_PRIMARY = true :=
    s3dCheck_true K E _
  obtain ⟨l1, hl1, hc1, hh1⟩ := classifyLoop_null_handle K E m
    (canUseCopybit m.fbDevice list) (s3dCheck K E (prepareStats K m w0 list)).1
    list.numHwLayers (Frame.init (s3dCheck K E (prepareStats K m w0 list)).2 list)
    i layer hlen hl hh hs3d hcase
  have hF : classifyLayers K E m w0 list
      = classifyLoop K E m (canUseCopybit m.fbDevice list)
          (s3dCheck K E (prepareStats K m w0 list)).1 list.numHwLayers
          (Frame.init (s3dCheck K E (prepareStats K m w0 list)).2 list) := rfl
  rw [← hF] at hl1
  obtain ⟨l2, hl2, hc2⟩ := prepareBypassStage_null_handle K E m _ i l1 hl1 hh1
  unfold hwc_prepare
  dsimp only
  rw [hw0, hm0]
  exact ⟨_, l2, rfl, hl2, hc2.trans hc1⟩

/-- Witness of `hwc_prepare_null_handle`: a layer without a buffer that arrives as an
overlay layer, in C2D composition. -/
theorem hwc_prepare_null_handle_witness :
    ∃ list' l', (hwc_prepare refHdr okEnv
        (secondFrameWorld { refModule with compositionType := 0x10 } (uniformHeap 0 1 0) false)
        (some { flags := 0, hwLayers := [{ mkLayer 0 0 with compositionType := 1 }] })).2.2
        = some list'
      ∧ list'.hwLayers[0]? = some l'
      ∧ l'.compositionType = refHdr.HWC_FRAMEBUFFER :=
  hwc_prepare_null_handle refHdr okEnv
    (secondFrameWorld { refModule with compositionType := 0x10 } (uniformHeap 0 1 0) false)
    { refModule with compositionType := 0x10 }
    { flags := 0, hwLayers := [{ mkLayer 0 0 with compositionType := 1 }] } 0
    { mkLayer 0 0 with compositionType := 1 } rfl rfl rfl (Or.inr ⟨by decide, by decide⟩)

/-- C6, counterexample. A list of one layer whose buffer handle is `NULL`. (1) On a device
whose module pointer is `NULL`, `hwc_prepare` returns -1 before it looks at the list: a
layer that arrives as an overlay layer leaves as one. (2) A layer flagged
`HWC_USE_ORIGINAL_RESOLUTION` is made an overlay layer, whatever its handle. (3) In dynamic
composition, when `canUseCopybit` accepts the frame, the layer is made a copybit layer,
whatever its handle. -/
theorem hwc_prepare_null_handle_not_framebuffer :
    ((mkLayer 0 0).handle = 0
      ∧ (hwc_prepare refHdr okEnv (secondFrameWorld refModule (uniformHeap 0 1 0) false).withoutModule
          (some { flags := 0, hwLayers := [{ mkLayer 0 0 with compositionType := 1 }] })).2.2
          = some { flags := 0, hwLayers := [{ mkLayer 0 0 with compositionType := 1 }] }
      ∧ (1 : Int) ≠ refHdr.HWC_FRAMEBUFFER)
    ∧ ((mkLayer 0 0x10000000).handle = 0
      ∧ ∃ list' l', (hwc_prepare refHdr okEnv (secondFrameWorld refModule (uniformHeap 0 1 0) false)
          (some { flags := 0, hwLayers := [mkLayer 0 0x10000000] })).2.2 = some list'
        ∧ list'.hwLayers = [l']
        ∧ l'.compositionType = refHdr.HWC_USE_OVERLAY
        ∧ l'.compositionType ≠ refHdr.HWC_FRAMEBUFFER)
    ∧ ∃ list' l', (hwc_prepare refHdr okEnv (secondFrameWorld dynModule (uniformHeap 0 1 0) false)
          (some { flags := 0, hwLayers := [mkLayer 0 0] })).2.2 = some list'
        ∧ list'.hwLayers = [l']
        ∧ l'.compositionType = refHdr.HWC_USE_COPYBIT
        ∧ l'.compositionType ≠ refHdr.HWC_FRAMEBUFFER := by
  refine ⟨by decide, ⟨rfl, _, _, rfl, rfl, by decide, by decide⟩, _, _, rfl, rfl, by decide, by decide⟩

theorem Slots.get_set_self {α : Type} (a : Slots α) (i : Nat) (v : α) (hi : i < 3) :
    (a.set i v).get i = v := by
  interval_cases i <;> rfl

theorem Slots.get_set_ne {α : Type} (a : Slots α) (i j : Nat) (v : α) (hi : i < 3)
    (hj : j < 3) (hij : i ≠ j) : (a.set i v).get j = a.get j := by
  interval_cases i <;> interval_cases j <;> first | rfl | exact absurd rfl hij

@[simp] theorem prepareBypass_ctx (K : Hdr) (E : Env) (w : World) (layer : hwc_layer_t)
    (n : Nat) (v g : Bool) : (prepareBypass K E w layer n v g).2.ctx = w.ctx := by
  unfold prepareBypass
  dsimp only
  split
  · rfl
  · by_cases h0 : layer.handle = 0
    · rw [if_pos h0]
    · rw [if_neg h0]
      split
      · rfl
      · by_cases h1 : hasBits (w.heap layer.handle).flags K.PRIV_FLAGS_NONCONTIGUOUS_MEM = true
        · rw [if_pos h1]
        · rw [if_neg h1, programPipes_ctx]
          split_ifs <;> rfl

/-- When the loop of `setupBypass` runs to its end on a list that fits the pipes left, it
has taken one pipe per layer, slot after slot, and bound each slot to its layer. -/
theorem setupBypassLoop_slots (K : Hdr) (E : Env) (fuel : Nat) :
    ∀ (index nPA : Nat) (w : World) (list : hwc_layer_list_t) (k : Nat),
      (setupBypassLoop K E fuel index nPA w list).1 = some k →
      list.numHwLayers ≤ index + fuel → list.numHwLayers ≤ index + nPA →
      nPA ≤ 3 → index ≤ list.numHwLayers →
      k + list.numHwLayers = index + nPA
      ∧ (∀ s, s < 3 - nPA →
          (setupBypassLoop K E fuel index nPA w list).2.1.ctx.layerindex.get s
            = w.ctx.layerindex.get s)
      ∧ (∀ t, index ≤ t → t < list.numHwLayers →
          (setupBypassLoop K E fuel index nPA w list).2.1.ctx.layerindex.get
            (3 - nPA + (t - index)) = (t : Int)) := by
  induction fuel with
  | zero =>
    intro index nPA w list k h hf _ _ hi
    have hk : k = nPA := by
      have h' : some nPA = some k := h
      cases h'
      rfl
    exact ⟨by omega, fun s _ => rfl, fun t h1 h2 => by omega⟩
  | succ fuel ih =>
    intro index nPA w list k h hf hp h3 hi
    by_cases h1 : index < list.numHwLayers ∧ nPA ≠ 0
    · unfold setupBypassLoop at h ⊢
      rw [if_pos h1] at h ⊢
      have hlt : index < list.hwLayers.length := h1.1
      rw [List.getElem?_eq_getElem hlt] at h ⊢
      dsimp only at h ⊢
      generalize hlayer : list.hwLayers[index] = layer at h ⊢
      generalize hr : prepareBypass K E w
        { layer with flags := clearBits layer.flags K.HWC_COMP_BYPASS
                                ||| K.HWC_BYPASS_INDEX_MASK }
        (MAX_BYPASS_LAYERS - nPA)
        (decide (((MAX_BYPASS_LAYERS - nPA : Nat) : Int) = (list.numHwLayers : Int) - 1))
        (decide (index = 0)) = r at h ⊢
      have hrc : r.2.ctx = w.ctx := by rw [← hr]; exact prepareBypass_ctx K E w _ _ _ _
      by_cases h2 : r.1 ≠ 0
      · rw [if_pos h2] at h
        cases h
      · rw [if_neg h2] at h ⊢
        obtain ⟨e1, e2, e3⟩ := ih (index + 1) (nPA - 1) _ _ k h
          (by simp only [setLayer_numHwLayers]; omega)
          (by simp only [setLayer_numHwLayers]; omega) (by omega)
          (by simp only [setLayer_numHwLayers]; omega)
        simp only [setLayer_numHwLayers] at e1 e3
        have hnp : nPA ≠ 0 := h1.2
        refine ⟨by omega, fun s hs => ?_, fun t ht1 ht2 => ?_⟩
        · rw [e2 s (by omega)]
          simp only [modCtx_ctx, MAX_BYPASS_LAYERS]
          rw [Slots.get_set_ne _ _ _ _ (by omega) (by omega) (by omega), hrc]
        · rcases Nat.eq_or_lt_of_le ht1 with heq | hlt2
          · subst heq
            have hz : 3 - nPA + (index - index) = 3 - nPA := by omega
            rw [hz, e2 (3 - nPA) (by omega)]
            simp only [modCtx_ctx, MAX_BYPASS_LAYERS]
            rw [Slots.get_set_self _ _ _ (by omega)]
          · have hz : 3 - nPA + (t - index) = 3 - (nPA - 1) + (t - (index + 1)) := by omega
            rw [hz]
            exact e3 t hlt2 ht2
    · have hin : index = list.numHwLayers := by
        by_contra hne
        apply h1
        constructor
        · omega
        · intro h0; omega
      unfold setupBypassLoop at h ⊢
      rw [if_neg h1] at h ⊢
      have hk : k = nPA := by
        have h' : some nPA = some k := h
        cases h'
        rfl
      exact ⟨by omega, fun s _ => rfl, fun t ht1 ht2 => by omega⟩

theorem hasBits_or_left (word extra mask : Nat) (h : hasBits word mask = true) :
    hasBits (word ||| extra) mask = true := by
  unfold hasBits at h ⊢
  simp only [bne_iff_ne, ne_eq] at h ⊢
  intro h0
  apply h
  apply Nat.eq_of_testBit_eq
  intro i
  have h1 := congrArg (fun x => x.testBit i) h0
  simp only [Nat.testBit_and, Nat.testBit_or, Nat.zero_testBit] at h1 ⊢
  cases h5 : word.testBit i <;> cases h6 : mask.testBit i <;> simp_all

/-- When `setupBypass` succeeds on a list of at most three layers, it has used one pipe per
layer and slot `t` is bound to layer `t`. -/
theorem setupBypass_slots (K : Hdr) (E : Env) (w : World) (list : hwc_layer_list_t)
    (h : (setupBypass K E w list).1 = true) (hn : list.numHwLayers ≤ MAX_BYPASS_LAYERS) :
    (setupBypass K E w list).2.1.ctx.nPipesUsed = list.numHwLayers
    ∧ ∀ t, t < list.numHwLayers →
        (setupBypass K E w list).2.1.ctx.layerindex.get t = (t : Int) := by
  have key := setupBypassLoop_slots K E list.numHwLayers 0 MAX_BYPASS_LAYERS
    (setOverlayState (getOverlayState K E w list.numHwLayers 0).2
      (getOverlayState K E w list.numHwLayers 0).1) list
  unfold setupBypass at h ⊢
  dsimp only at h ⊢
  generalize setupBypassLoop K E list.numHwLayers 0 MAX_BYPASS_LAYERS
    (setOverlayState (getOverlayState K E w list.numHwLayers 0).2
      (getOverlayState K E w list.numHwLayers 0).1) list = r at key h ⊢
  rcases r with ⟨a, b, c⟩
  cases a with
  | none => cases h
  | some k =>
    simp only [MAX_BYPASS_LAYERS] at hn key ⊢
    obtain ⟨e1, _, e3⟩ := key k rfl (by omega) (by omega) (Nat.le_refl 3) (Nat.zero_le _)
    refine ⟨?_, fun t ht => ?_⟩
    · show 3 - k = list.numHwLayers
      omega
    · have := e3 t (Nat.zero_le t) ht
      simpa using this

theorem length_eq_of_map_unflagged {l l' : List hwc_layer_t}
    (h : l'.map hwc_layer_t.unflagged = l.map hwc_layer_t.unflagged) : l'.length = l.length := by
  have := congrArg List.length h
  simpa using this

theorem length_eq_of_map_input {l l' : List hwc_layer_t}
    (h : l'.map hwc_layer_t.input = l.map hwc_layer_t.input) : l'.length = l.length := by
  have := congrArg List.length h
  simpa using this

/-- One slot of `setBypassLayerFlags` keeps the length of the list and every bypass flag
that is set. -/
theorem setBypassLayerFlag_keeps (K : Hdr) (w : World) (list : hwc_layer_list_t) (index : Nat) :
    (setBypassLayerFlag K w list index).numHwLayers = list.numHwLayers
    ∧ ∀ (j : Nat) (l : hwc_layer_t), list.hwLayers[j]? = some l →
        hasBits l.flags K.HWC_COMP_BYPASS = true →
        ∃ l', (setBypassLayerFlag K w list index).hwLayers[j]? = some l'
          ∧ hasBits l'.flags K.HWC_COMP_BYPASS = true := by
  unfold setBypassLayerFlag
  dsimp only
  split_ifs with h1
  · split
    · exact ⟨rfl, fun j l hl hb => ⟨l, hl, hb⟩⟩
    · rename_i layer hlayer
      refine ⟨setLayer_numHwLayers _ _ _, fun j l hl hb => ?_⟩
      by_cases hj : (w.ctx.layerindex.get index).toNat = j
      · subst hj
        rw [hlayer] at hl
        cases hl
        refine ⟨_, setLayer_getElem?_self _ _ _ (getElem?_lt_numHwLayers _ _ _ hlayer), ?_⟩
        exact hasBits_or_left _ _ _ hb
      · exact ⟨l, (setLayer_getElem?_ne _ _ _ _ hj).trans hl, hb⟩
  · exact ⟨rfl, fun j l hl hb => ⟨l, hl, hb⟩⟩

/-- A slot of `setBypassLayerFlags` bound to a layer of the list flags that layer. -/
theorem setBypassLayerFlag_sets (K : Hdr) (w : World) (list : hwc_layer_list_t) (index : Nat)
    (hB : K.HWC_COMP_BYPASS ≠ 0) (hidx : w.ctx.layerindex.get index = (index : Int))
    (hlt : index < list.numHwLayers) :
    ∃ l', (setBypassLayerFlag K w list index).hwLayers[index]? = some l'
      ∧ hasBits l'.flags K.HWC_COMP_BYPASS = true := by
  unfold setBypassLayerFlag
  dsimp only
  rw [hidx, if_pos (by omega)]
  have hl : index < list.hwLayers.length := hlt
  simp only [Int.toNat_ofNat]
  rw [List.getElem?_eq_getElem hl]
  dsimp only
  exact ⟨_, setLayer_getElem?_self _ _ _ hlt, hasBits_or_self _ _ hB⟩

/-- When every slot below the number of layers is bound to its layer, `setBypassLayerFlags`
flags every layer of a list of at most three layers. -/
theorem setBypassLayerFlags_all (K : Hdr) (w : World) (list : hwc_layer_list_t)
    (hB : K.HWC_COMP_BYPASS ≠ 0) (hn : list.numHwLayers ≤ MAX_BYPASS_LAYERS)
    (hidx : ∀ t, t < list.numHwLayers → w.ctx.layerindex.get t = (t : Int)) :
    (setBypassLayerFlags K w list).numHwLayers = list.numHwLayers
    ∧ ∀ l ∈ (setBypassLayerFlags K w list).hwLayers,
        hasBits l.flags K.HWC_COMP_BYPASS = true := by
  have inv := foldl_range_inv (setBypassLayerFlag K w)
    (fun t (L : hwc_layer_list_t) =>
      L.numHwLayers = list.numHwLayers
      ∧ ∀ j, j < t → j < list.numHwLayers →
          ∃ l, L.hwLayers[j]? = some l ∧ hasBits l.flags K.HWC_COMP_BYPASS = true)
    MAX_BYPASS_LAYERS list ⟨rfl, fun j hj => absurd hj (Nat.not_lt_zero j)⟩ ?_
  · obtain ⟨hlen, hall⟩ := inv
    have hfin : ∀ l ∈ ((List.range MAX_BYPASS_LAYERS).foldl (setBypassLayerFlag K w) list).hwLayers,
        hasBits l.flags K.HWC_COMP_BYPASS = true := by
      intro l hl
      obtain ⟨j, hj, hjl⟩ := List.getElem_of_mem hl
      have hj2 : j < list.numHwLayers := by rw [← hlen]; exact hj
      obtain ⟨l2, h2, h3⟩ := hall j (by omega) hj2
      rw [List.getElem?_eq_getElem hj, hjl] at h2
      cases h2
      exact h3
    unfold setBypassLayerFlags
    dsimp only
    split
    · exact ⟨hlen, hfin⟩
    · exact ⟨hlen, hfin⟩
  · intro t L ht ⟨hlen, hall⟩
    obtain ⟨k1, k2⟩ := setBypassLayerFlag_keeps K w L t
    refine ⟨k1.trans hlen, fun j hj hjn => ?_⟩
    rcases Nat.lt_or_ge j t with hlt | hge
    · obtain ⟨l, h1, h2⟩ := hall j hlt hjn
      exact k2 j l h1 h2
    · have hjt : j = t := by omega
      subst hjt
      exact setBypassLayerFlag_sets K w L j hB (hidx j hjn) (by rw [hlen]; exact hjn)

theorem bypassReset_bypassState (K : Hdr) (w : World) (list : hwc_layer_list_t) :
    (bypassReset K w list).1.ctx.bypassState ≠ BypassState.BYPASS_ON := by
  unfold bypassReset
  dsimp only
  split
  · simp
  · rename_i h
    simpa using h

theorem countP_eq_zero_of_forall (p : hwc_layer_t → Bool) (l : List hwc_layer_t)
    (h : ∀ x ∈ l, p x = false) : l.countP p = 0 := by
  rw [List.countP_eq_zero]
  intro x hx
  rw [h x hx]
  simp

theorem countP_eq_length_of_forall (p : hwc_layer_t → Bool) (l : List hwc_layer_t)
    (h : ∀ x ∈ l, p x = true) : l.countP p = l.length := by
  rw [List.countP_eq_length]
  exact h

theorem numHwLayers_of_map_unflagged {a b : hwc_layer_list_t}
    (h : a.hwLayers.map hwc_layer_t.unflagged = b.hwLayers.map hwc_layer_t.unflagged) :
    a.numHwLayers = b.numHwLayers :=
  length_eq_of_map_unflagged h

@[simp] theorem unsetBypassLayerFlags_numHwLayers (K : Hdr) (list : hwc_layer_list_t) :
    (unsetBypassLayerFlags K list).numHwLayers = list.numHwLayers := by
  unfold unsetBypassLayerFlags hwc_layer_list_t.numHwLayers
  simp

theorem classifyLayers_numHwLayers (K : Hdr) (E : Env) (m : private_hwc_module_t)
    (w : World) (list : hwc_layer_list_t) :
    (classifyLayers K E m w list).list.numHwLayers = list.numHwLayers :=
  length_eq_of_map_input (classifyLayers_input K E m w list)

theorem markSkipComposition_numHwLayers (K : Hdr) (f : Frame) :
    (markSkipComposition K f).numHwLayers = f.list.numHwLayers := by
  unfold hwc_layer_list_t.numHwLayers
  rw [markSkipComposition_hwLayers]

/-- C7. A call of `hwc_prepare` on a device with a valid module and on any list
is all-or-none for bypass. On return either no layer carries `HWC_COMP_BYPASS`,
`ctx->nPipesUsed` is 0 and the bypass state is not `BYPASS_ON`; or every layer carries
`HWC_COMP_BYPASS`, `ctx->nPipesUsed` is `numHwLayers` and the bypass state is `BYPASS_ON`.
In particular, when `setupBypass` fails on the frame (some `prepareBypass` failed), no
layer carries the flag and `nPipesUsed` is 0. -/
theorem hwc_prepare_bypass_all_or_none (K : Hdr) (E : Env) (w : World)
    (m : private_hwc_module_t) (list : hwc_layer_list_t)
    (hB : K.HWC_COMP_BYPASS ≠ 0) (hm : w.module = some m) :
    ∃ list', (hwc_prepare K E w (some list)).2.2 = some list'
      ∧ list'.numHwLayers = list.numHwLayers
      ∧ ((list'.hwLayers.countP (fun l => hasBits l.flags K.HWC_COMP_BYPASS) = 0
            ∧ (hwc_prepare K E w (some list)).2.1.ctx.nPipesUsed = 0
            ∧ (hwc_prepare K E w (some list)).2.1.ctx.bypassState ≠ BypassState.BYPASS_ON)
          ∨ (list'.hwLayers.countP (fun l => hasBits l.flags K.HWC_COMP_BYPASS)
                = list.numHwLayers
            ∧ (hwc_prepare K E w (some list)).2.1.ctx.nPipesUsed = list.numHwLayers
            ∧ (hwc_prepare K E w (some list)).2.1.ctx.bypassState = BypassState.BYPASS_ON))
      ∧ ((setupBypass K E
            (isBypassDoable K E
              (classifyLayers K E m (w.modCtx (fun c => { c with currentOverlayHandle := 0 }))
                list).w m
              (classifyLayers K E m (w.modCtx (fun c => { c with currentOverlayHandle := 0 }))
                list).w.ctx.yuvBufferCount
              (markSkipComposition K
                (classifyLayers K E m
                  (w.modCtx (fun c => { c with currentOverlayHandle := 0 })) list))).2
            (markSkipComposition K
              (classifyLayers K E m (w.modCtx (fun c => { c with currentOverlayHandle := 0 }))
                list))).1 = false →
          list'.hwLayers.countP (fun l => hasBits l.flags K.HWC_COMP_BYPASS) = 0
          ∧ (hwc_prepare K E w (some list)).2.1.ctx.nPipesUsed = 0) := by
  unfold hwc_prepare
  dsimp only
  generalize hw0 : w.modCtx (fun c => { c with currentOverlayHandle := 0 }) = w0
  have hm0 : w0.module = some m := by rw [← hw0]; exact hm
  rw [hm0]
  dsimp only
  have hFn := classifyLayers_numHwLayers K E m w0 list
  generalize classifyLayers K E m w0 list = F at hFn ⊢
  have hMn := markSkipComposition_numHwLayers K F
  rcases prepareBypassStage_cases K E m F with ⟨w1, list1, he, hu⟩ | ⟨hd, _, hs, he⟩
  · rw [he]
    have hA : (unsetBypassLayerFlags K list1).hwLayers.countP
        (fun l => hasBits l.flags K.HWC_COMP_BYPASS) = 0 :=
      countP_eq_zero_of_forall _ _ (unsetBypassLayerFlags_no_bypass K list1)
    have hP : ((bypassReset K w1 list1).1.modCtx
        (fun c => { c with forceComposition := false })).ctx.nPipesUsed = 0 :=
      bypassReset_nPipesUsed K w1 list1
    refine ⟨_, rfl, ?_, Or.inl ⟨hA, hP, bypassReset_bypassState K w1 list1⟩,
      fun _ => ⟨hA, hP⟩⟩
    rw [bypassReset_list, unsetBypassLayerFlags_numHwLayers]
    exact (length_eq_of_map_unflagged hu).trans hFn
  · rw [he]
    have hn := isBypassDoable_true_le K E F.w m _ _ hd
    obtain ⟨s1, s2⟩ := setupBypass_slots K E _ _ hs hn
    have hSn := numHwLayers_of_map_unflagged (setupBypass_unflagged K E
      (isBypassDoable K E F.w m F.w.ctx.yuvBufferCount (markSkipComposition K F)).2
      (markSkipComposition K F))
    generalize setupBypass K E
      (isBypassDoable K E F.w m F.w.ctx.yuvBufferCount (markSkipComposition K F)).2
      (markSkipComposition K F) = S at hs s1 s2 hSn ⊢
    obtain ⟨f1, f2⟩ := setBypassLayerFlags_all K S.2.1 S.2.2 hB (by rw [hSn]; exact hn)
      (fun t ht => s2 t (by rw [← hSn]; exact ht))
    refine ⟨_, rfl, ?_, Or.inr ⟨?_, ?_, rfl⟩, fun hf => ?_⟩
    · rw [f1, hSn, hMn, hFn]
    · rw [countP_eq_length_of_forall _ _ f2]
      show (setBypassLayerFlags K S.2.1 S.2.2).numHwLayers = list.numHwLayers
      rw [f1, hSn, hMn, hFn]
    · show S.2.1.ctx.nPipesUsed = list.numHwLayers
      rw [s1, hMn, hFn]
    · rw [hs] at hf
      cases hf

/-- Witness of `hwc_prepare_bypass_all_or_none`: two UI layers on a closed overlay. -/
theorem hwc_prepare_bypass_all_or_none_witness :
    ∃ list', (hwc_prepare refHdr okEnv (secondFrameWorld refModule (uniformHeap 0 1 0) false)
        (some { flags := 0, hwLayers := [mkLayer 7 0, mkLayer 8 0x40000000] })).2.2 = some list'
      ∧ list'.numHwLayers = 2
      ∧ ((list'.hwLayers.countP (fun l => hasBits l.flags refHdr.HWC_COMP_BYPASS) = 0
            ∧ (hwc_prepare refHdr okEnv (secondFrameWorld refModule (uniformHeap 0 1 0) false)
                (some { flags := 0, hwLayers := [mkLayer 7 0, mkLayer 8 0x40000000] })).2.1.ctx.nPipesUsed
                = 0)
          ∨ (list'.hwLayers.countP (fun l => hasBits l.flags refHdr.HWC_COMP_BYPASS) = 2
            ∧ (hwc_prepare refHdr okEnv (secondFrameWorld refModule (uniformHeap 0 1 0) false)
                (some { flags := 0, hwLayers := [mkLayer 7 0, mkLayer 8 0x40000000] })).2.1.ctx.nPipesUsed
                = 2)) := by
  obtain ⟨list', h1, h2, h3, _⟩ := hwc_prepare_bypass_all_or_none refHdr okEnv
    (secondFrameWorld refModule (uniformHeap 0 1 0) false) refModule
    { flags := 0, hwLayers := [mkLayer 7 0, mkLayer 8 0x40000000] } (by decide) rfl
  refine ⟨list', h1, h2, ?_⟩
  rcases h3 with ⟨a, b, _⟩ | ⟨a, b, _⟩
  · exact Or.inl ⟨a, b⟩
  · exact Or.inr ⟨a, b⟩

/-! ## The frame executor: pipes that the frame does not use -/

theorem foldl_establish {σ ι : Type} (step : σ → ι → σ) (A B : σ → Prop) (i : ι)
    (hpre : ∀ s j, j ≠ i → A s → A (step s j))
    (hest : ∀ s, A s → B (step s i))
    (hpost : ∀ s j, B s → B (step s j)) (l : List ι) (s : σ) (hA : A s) (hi : i ∈ l) :
    B (l.foldl step s) := by
  induction l generalizing s with
  | nil => cases hi
  | cons j l ih =>
    simp only [List.foldl_cons]
    by_cases hj : j = i
    · subst hj
      exact foldl_inv step B hpost l _ (hest s hA)
    · have hi2 : i ∈ l := by
        rcases List.mem_cons.mp hi with h | h
        · exact absurd h.symm hj
        · exact h
      exact ih _ (hpre s j hj hA) hi2

theorem Slots.get_set_other {α : Type} (a : Slots α) (i j : Nat) (v : α) (hj : j < 3)
    (hij : i ≠ j) : (a.set i v).get j = a.get j := by
  rcases i with _ | _ | _ | i <;> interval_cases j <;>
    first | rfl | exact absurd rfl hij

theorem clear_self (K : Hdr) (w : World) (h : Nat) :
    hasBits ((w.modHandleFlags h
      (fun flags => clearBits flags K.PRIV_FLAGS_HWC_LOCK)).heap h).flags
      K.PRIV_FLAGS_HWC_LOCK = false := by
  unfold World.modHandleFlags
  simp only [if_true]
  exact hasBits_clearBits _ _

theorem clear_keeps (K : Hdr) (w : World) (h h' : Nat)
    (hu : hasBits (w.heap h).flags K.PRIV_FLAGS_HWC_LOCK = false) :
    hasBits ((w.modHandleFlags h'
      (fun flags => clearBits flags K.PRIV_FLAGS_HWC_LOCK)).heap h).flags
      K.PRIV_FLAGS_HWC_LOCK = false := by
  by_cases e : h = h'
  · subst e
    exact clear_self K w h
  · unfold World.modHandleFlags
    simp only [if_neg e]
    exact hu

theorem closeExtraPipe_nPipesUsed (K : Hdr) (E : Env) (w : World) (i : Nat) :
    (closeExtraPipe K E w i).ctx.nPipesUsed = w.ctx.nPipesUsed := by
  unfold closeExtraPipe validate genlock_unlock_buffer
  dsimp only
  repeat' split
  all_goals rfl

theorem closeExtraPipe_slot_other (K : Hdr) (E : Env) (w : World) (i j : Nat) (hj : j < 3)
    (hij : i ≠ j) :
    (closeExtraPipe K E w i).ctx.previousBypassHandle.get j = w.ctx.previousBypassHandle.get j := by
  unfold closeExtraPipe validate genlock_unlock_buffer
  dsimp only
  repeat' split
  all_goals first
    | rfl
    | exact Slots.get_set_other _ i j _ hj hij

theorem closeExtraPipe_zero_keeps (K : Hdr) (E : Env) (w : World) (i j : Nat) (hj : j < 3)
    (hz : w.ctx.previousBypassHandle.get j = 0) :
    (closeExtraPipe K E w i).ctx.previousBypassHandle.get j = 0 := by
  by_cases hij : i = j
  · subst hij
    unfold closeExtraPipe
    dsimp only
    rw [if_neg (by simp [hz])]
    exact hz
  · rw [closeExtraPipe_slot_other K E w i j hj hij]
    exact hz

theorem closeExtraPipe_zero (K : Hdr) (E : Env) (w : World) (i : Nat) (hi : i < 3)
    (hunlock : ∀ t, E.genlock_unlock_buffer t ≠ genlock_status_t.GENLOCK_FAILURE) :
    (closeExtraPipe K E w i).ctx.previousBypassHandle.get i = 0 := by
  by_cases hz : w.ctx.previousBypassHandle.get i = 0
  · exact closeExtraPipe_zero_keeps K E w i i hi hz
  · unfold closeExtraPipe validate genlock_unlock_buffer
    dsimp only
    rw [if_pos hz]
    split
    · rw [if_neg (hunlock _)]
      exact Slots.get_set_self _ i _ hi
    · exact Slots.get_set_self _ i _ hi

theorem closeExtraPipe_unmarked_keeps (K : Hdr) (E : Env) (w : World) (i h : Nat)
    (hu : hasBits (w.heap h).flags K.PRIV_FLAGS_HWC_LOCK = false) :
    hasBits ((closeExtraPipe K E w i).heap h).flags K.PRIV_FLAGS_HWC_LOCK = false := by
  unfold closeExtraPipe validate genlock_unlock_buffer
  dsimp only
  repeat' split
  all_goals first
    | exact hu
    | exact clear_keeps K _ h _ hu

theorem closeExtraPipe_unmarks (K : Hdr) (E : Env) (w : World) (i h : Nat)
    (hh : w.ctx.previousBypassHandle.get i = h) (hnz : h ≠ 0)
    (hvalid : ∀ t, E.validate t = true)
    (hunlock : ∀ t, E.genlock_unlock_buffer t ≠ genlock_status_t.GENLOCK_FAILURE) :
    hasBits ((closeExtraPipe K E w i).heap h).flags K.PRIV_FLAGS_HWC_LOCK = false := by
  subst hh
  unfold closeExtraPipe validate genlock_unlock_buffer
  dsimp only
  rw [if_pos hnz, if_pos (hvalid _), if_neg (hunlock _)]
  exact clear_self K _ _

theorem keepsSlots_refl (K : Hdr) (w : World) : World.keepsSlots K w w :=
  ⟨rfl, rfl, fun _ h => h⟩

theorem keepsSlots_trans (K : Hdr) {a b c : World} (h1 : World.keepsSlots K a b)
    (h2 : World.keepsSlots K b c) : World.keepsSlots K a c :=
  ⟨h2.1.trans h1.1, h2.2.1.trans h1.2.1, fun h hu => h2.2.2 h (h1.2.2 h hu)⟩

theorem setSwapStage_keepsSlots (K : Hdr) (E : Env) (w : World) (dpy sur canSkip : Bool) :
    World.keepsSlots K w (setSwapStage K E w dpy sur canSkip).2 := by
  unfold setSwapStage
  dsimp only
  split_ifs <;> exact ⟨rfl, rfl, fun _ h => h⟩

theorem setHDMIStage_keepsSlots (K : Hdr) (w : World) :
    World.keepsSlots K w (setHDMIStage K w) := by
  unfold setHDMIStage handleHDMIStateChange
  dsimp only
  repeat' split
  all_goals exact ⟨rfl, rfl, fun _ h => h⟩

theorem hwc_closeOverlayChannels_keepsSlots (K : Hdr) (w : World) :
    World.keepsSlots K w (hwc_closeOverlayChannels K w) := by
  unfold hwc_closeOverlayChannels
  dsimp only
  split
  · refine ⟨?_, ?_, fun h hu => ?_⟩
    · simp only [modCtx_ctx, setVideoOverlayStatusInGralloc_ctx]
      split <;> simp only [setOverlayState_ctx]
    · simp only [modCtx_ctx, setVideoOverlayStatusInGralloc_ctx]
      split <;> simp only [setOverlayState_ctx]
    · simp only [modCtx_heap, setVideoOverlayStatusInGralloc_heap]
      split <;> simp only [setOverlayState_heap] <;> exact hu
  · exact keepsSlots_refl K w

theorem unlockPreviousOverlayBuffer_keepsSlots (K : Hdr) (E : Env) (w : World) :
    World.keepsSlots K w (unlockPreviousOverlayBuffer K E w) := by
  unfold unlockPreviousOverlayBuffer validate genlock_unlock_buffer
  dsimp only
  refine ⟨?_, ?_, fun h hu => ?_⟩
  · repeat' split
    all_goals rfl
  · repeat' split
    all_goals rfl
  · repeat' split
    all_goals first
      | exact hu
      | exact clear_keeps K _ h _ hu

/-- The part of `hwc_set` after `closeExtraPipes` leaves the bypass slots alone. -/
theorem setTail_keepsSlots (K : Hdr) (E : Env) (w : World) (dpy sur canSkip : Bool) :
    World.keepsSlots K w
      (unlockPreviousOverlayBuffer K E (hwc_closeOverlayChannels K
        (setHDMIStage K (setSwapStage K E w dpy sur canSkip).2))) :=
  keepsSlots_trans K (setSwapStage_keepsSlots K E w dpy sur canSkip)
    (keepsSlots_trans K (setHDMIStage_keepsSlots K _)
      (keepsSlots_trans K (hwc_closeOverlayChannels_keepsSlots K _)
        (unlockPreviousOverlayBuffer_keepsSlots K E _)))

theorem closeExtraPipes_nPipesUsed (K : Hdr) (E : Env) (w : World) :
    (closeExtraPipes K E w).ctx.nPipesUsed = w.ctx.nPipesUsed := by
  unfold closeExtraPipes
  exact foldl_inv (closeExtraPipe K E) (fun s => s.ctx.nPipesUsed = w.ctx.nPipesUsed)
    (fun s j h => (closeExtraPipe_nPipesUsed K E s j).trans h) _ w rfl

theorem mem_extraPipes (w : World) (i : Nat) (hi : i < 3) (hp : w.ctx.nPipesUsed ≤ i) :
    i ∈ (List.range MAX_BYPASS_LAYERS).filter (fun i => decide (w.ctx.nPipesUsed ≤ i)) := by
  simp only [List.mem_filter, List.mem_range, MAX_BYPASS_LAYERS, decide_eq_true_eq]
  exact ⟨hi, hp⟩

/-- After `closeExtraPipes`, when no unlock fails, every slot from `nPipesUsed` on holds
no buffer. -/
theorem closeExtraPipes_zero (K : Hdr) (E : Env) (w : World) (i : Nat) (hi : i < 3)
    (hp : w.ctx.nPipesUsed ≤ i)
    (hunlock : ∀ t, E.genlock_unlock_buffer t ≠ genlock_status_t.GENLOCK_FAILURE) :
    (closeExtraPipes K E w).ctx.previousBypassHandle.get i = 0 := by
  unfold closeExtraPipes
  exact foldl_establish (closeExtraPipe K E) (fun _ => True)
    (fun s => s.ctx.previousBypassHandle.get i = 0) i
    (fun _ _ _ _ => trivial)
    (fun s _ => closeExtraPipe_zero K E s i hi hunlock)
    (fun s j h => closeExtraPipe_zero_keeps K E s j i hi h) _ w trivial
    (mem_extraPipes w i hi hp)

/-- After `closeExtraPipes`, when every handle is valid and no unlock fails, the buffer a
slot from `nPipesUsed` on held is no longer marked. -/
theorem closeExtraPipes_unmarks (K : Hdr) (E : Env) (w : World) (i : Nat) (hi : i < 3)
    (hp : w.ctx.nPipesUsed ≤ i) (hnz : w.ctx.previousBypassHandle.get i ≠ 0)
    (hvalid : ∀ t, E.validate t = true)
    (hunlock : ∀ t, E.genlock_unlock_buffer t ≠ genlock_status_t.GENLOCK_FAILURE) :
    hasBits ((closeExtraPipes K E w).heap (w.ctx.previousBypassHandle.get i)).flags
      K.PRIV_FLAGS_HWC_LOCK = false := by
  unfold closeExtraPipes
  exact foldl_establish (closeExtraPipe K E)
    (fun s => s.ctx.previousBypassHandle.get i = w.ctx.previousBypassHandle.get i)
    (fun s => hasBits (s.heap (w.ctx.previousBypassHandle.get i)).flags
      K.PRIV_FLAGS_HWC_LOCK = false) i
    (fun s j hj h => (closeExtraPipe_slot_other K E s j i hi hj).trans h)
    (fun s h => closeExtraPipe_unmarks K E s i _ h hnz hvalid hunlock)
    (fun s j h => closeExtraPipe_unmarked_keeps K E s j _ h) _ w rfl
    (mem_extraPipes w i hi hp)

theorem hwc_set_eq (K : Hdr) (E : Env) (w : World) (m : private_hwc_module_t)
    (dpy sur : Bool) (list : Option hwc_layer_list_t) (hm : w.module = some m) :
    hwc_set K E w dpy sur list
      = ((setSwapStage K E
            (closeExtraPipes K E (setBypassStored K E (setDrawStage K E w list).1
              (setDrawStage K E w list).2)) dpy sur
            (listCanSkip K (setDrawStage K E w list).2)).1,
         unlockPreviousOverlayBuffer K E (hwc_closeOverlayChannels K (setHDMIStage K
          (setSwapStage K E
            (closeExtraPipes K E (setBypassStored K E (setDrawStage K E w list).1
              (setDrawStage K E w list).2)) dpy sur
            (listCanSkip K (setDrawStage K E w list).2)).2)),
         (setDrawStage K E w list).2) := by
  unfold hwc_set
  rw [hm]

/-- C8, as amended. After a call of `hwc_set` on a device with a valid module in which no
`genlock_unlock_buffer` fails, every pipe slot `i` with `nPipesUsed <= i <
MAX_BYPASS_LAYERS` holds no buffer (`previousBypassHandle[i]` is `NULL`), for every outcome
of handle validation; and when the handles validate, the buffer the slot held when
`closeExtraPipes` was entered no longer carries `PRIV_FLAGS_HWC_LOCK`. -/
theorem hwc_set_extra_slots (K : Hdr) (E : Env) (w : World) (m : private_hwc_module_t)
    (dpy sur : Bool) (list : Option hwc_layer_list_t) (i : Nat)
    (hm : w.module = some m) (hi : i < MAX_BYPASS_LAYERS)
    (hp : (hwc_set K E w dpy sur list).2.1.ctx.nPipesUsed ≤ i)
    (hunlock : ∀ t, E.genlock_unlock_buffer t ≠ genlock_status_t.GENLOCK_FAILURE) :
    (hwc_set K E w dpy sur list).2.1.ctx.previousBypassHandle.get i = 0
    ∧ ((∀ t, E.validate t = true) →
        (setBypassStored K E (setDrawStage K E w list).1
          (setDrawStage K E w list).2).ctx.previousBypassHandle.get i ≠ 0 →
        hasBits ((hwc_set K E w dpy sur list).2.1.heap
          ((setBypassStored K E (setDrawStage K E w list).1
            (setDrawStage K E w list).2).ctx.previousBypassHandle.get i)).flags
          K.PRIV_FLAGS_HWC_LOCK = false) := by
  rw [hwc_set_eq K E w m dpy sur list hm] at hp ⊢
  dsimp only at hp ⊢
  generalize setBypassStored K E (setDrawStage K E w list).1 (setDrawStage K E w list).2 = S
    at hp ⊢
  obtain ⟨k1, k2, k3⟩ := setTail_keepsSlots K E (closeExtraPipes K E S) dpy sur
    (listCanSkip K (setDrawStage K E w list).2)
  rw [k2, closeExtraPipes_nPipesUsed] at hp
  have hi3 : i < 3 := hi
  refine ⟨?_, fun hvalid hnz => ?_⟩
  · rw [k1]
    exact closeExtraPipes_zero K E S i hi3 hp hunlock
  · exact k3 _ (closeExtraPipes_unmarks K E S i hi3 hp hnz hvalid hunlock)

/-- Witness of `hwc_set_extra_slots`: slot 2 records buffer 9 and no pipe is in use. -/
theorem hwc_set_extra_slots_witness :
    (hwc_set refHdr okEnv (staleSlotWorld 0) true true
        (some { flags := 0, hwLayers := [mkLayer 7 0] })).2.1.ctx.previousBypassHandle.get 2 = 0
    ∧ hasBits ((hwc_set refHdr okEnv (staleSlotWorld 0) true true
        (some { flags := 0, hwLayers := [mkLayer 7 0] })).2.1.heap 9).flags
        refHdr.PRIV_FLAGS_HWC_LOCK = false :=
  ⟨(hwc_set_extra_slots refHdr okEnv (staleSlotWorld 0) refModule true true
      (some { flags := 0, hwLayers := [mkLayer 7 0] }) 2 rfl (by decide) (by decide)
      (fun _ => by simp [okEnv])).1,
   (hwc_set_extra_slots refHdr okEnv (staleSlotWorld 0) refModule true true
      (some { flags := 0, hwLayers := [mkLayer 7 0] }) 2 rfl (by decide) (by decide)
      (fun _ => by simp [okEnv])).2 (fun _ => rfl) (by decide)⟩

/-- C8, counterexample. No pipe is in use and slot 2 records buffer 9. (1) When
`genlock_unlock_buffer` fails, `closeExtraPipes` keeps the handle and the mark: after
`hwc_set` slot 2 still holds buffer 9 and the buffer still carries `PRIV_FLAGS_HWC_LOCK`.
(2) When the handle does not validate, the slot is emptied but the mark stays on the
buffer. (3) On a device whose module pointer is `NULL`, `hwc_set` returns -1 after
`unlockPreviousBypassBuffers`, which leaves a slot whose buffer is not marked as it is. -/
theorem hwc_set_extra_slot_kept :
    ((hwc_set refHdr failUnlockEnv (staleSlotWorld 0x200) true true
        (some { flags := 0, hwLayers := [mkLayer 7 0] })).2.1.ctx.nPipesUsed = 0
      ∧ (hwc_set refHdr failUnlockEnv (staleSlotWorld 0x200) true true
        (some { flags := 0, hwLayers := [mkLayer 7 0] })).2.1.ctx.previousBypassHandle.get 2 = 9
      ∧ hasBits ((hwc_set refHdr failUnlockEnv (staleSlotWorld 0x200) true true
        (some { flags := 0, hwLayers := [mkLayer 7 0] })).2.1.heap 9).flags
        refHdr.PRIV_FLAGS_HWC_LOCK = true)
    ∧ ((hwc_set refHdr invalidEnv (staleSlotWorld 0x200) true true
        (some { flags := 0, hwLayers := [mkLayer 7 0] })).2.1.ctx.previousBypassHandle.get 2 = 0
      ∧ hasBits ((hwc_set refHdr invalidEnv (staleSlotWorld 0x200) true true
        (some { flags := 0, hwLayers := [mkLayer 7 0] })).2.1.heap 9).flags
        refHdr.PRIV_FLAGS_HWC_LOCK = true)
    ∧ ((hwc_set refHdr okEnv (staleSlotWorld 0).withoutModule true true
        (some { flags := 0, hwLayers := [mkLayer 7 0] })).1 = -1
      ∧ (hwc_set refHdr okEnv (staleSlotWorld 0).withoutModule true true
        (some { flags := 0, hwLayers := [mkLayer 7 0] })).2.1.ctx.nPipesUsed = 0
      ∧ (hwc_set refHdr okEnv (staleSlotWorld 0).withoutModule true true
        (some { flags := 0, hwLayers := [mkLayer 7 0] })).2.1.ctx.previousBypassHandle.get 2 = 9) := by
  decide

/-! ## The frame executor: what drawing a layer records -/

@[simp] theorem genlock_lock_buffer_ctx (E : Env) (w : World) (h : Nat) :
    (genlock_lock_buffer E w h).2.ctx = w.ctx := rfl
@[simp] theorem genlock_lock_buffer_module (E : Env) (w : World) (h : Nat) :
    (genlock_lock_buffer E w h).2.module = w.module := rfl
@[simp] theorem genlock_lock_buffer_heap (E : Env) (w : World) (h : Nat) :
    (genlock_lock_buffer E w h).2.heap = w.heap := rfl
@[simp] theorem genlock_unlock_buffer_ctx (E : Env) (w : World) (h : Nat) :
    (genlock_unlock_buffer E w h).2.ctx = w.ctx := rfl
@[simp] theorem genlock_unlock_buffer_module (E : Env) (w : World) (h : Nat) :
    (genlock_unlock_buffer E w h).2.module = w.module := rfl
@[simp] theorem genlock_unlock_buffer_heap (E : Env) (w : World) (h : Nat) :
    (genlock_unlock_buffer E w h).2.heap = w.heap := rfl
@[simp] theorem ov_queueBuffer_ctx (E : Env) (w : World) (o : Nat) (d : eDest) :
    (ov_queueBuffer E w o d).2.ctx = w.ctx := rfl
@[simp] theorem ov_queueBuffer_module (E : Env) (w : World) (o : Nat) (d : eDest) :
    (ov_queueBuffer E w o d).2.module = w.module := rfl
@[simp] theorem ov_queueBuffer_heap (E : Env) (w : World) (o : Nat) (d : eDest) :
    (ov_queueBuffer E w o d).2.heap = w.heap := rfl
@[simp] theorem ovCall_ctx (E : Env) (w : World) : (ovCall E w).2.ctx = w.ctx := rfl
@[simp] theorem ovCall_module (E : Env) (w : World) : (ovCall E w).2.module = w.module := rfl
@[simp] theorem ovCall_heap (E : Env) (w : World) : (ovCall E w).2.heap = w.heap := rfl

@[simp] theorem drawFixed_update (c : hwc_context_t) (a : Nat)
    (b : Slots BypassBufferLockState) :
    ({ c with currentOverlayHandle := a, bypassBufferLockState := b } : hwc_context_t).drawFixed
      = c.drawFixed := rfl

@[simp] theorem drawFixed_update_current (c : hwc_context_t) (a : Nat) :
    ({ c with currentOverlayHandle := a } : hwc_context_t).drawFixed = c.drawFixed := rfl

@[simp] theorem drawFixed_update_lock (c : hwc_context_t) (b : Slots BypassBufferLockState) :
    ({ c with bypassBufferLockState := b } : hwc_context_t).drawFixed = c.drawFixed := rfl

theorem copybitStretch_ctx (E : Env) (w : World) :
    (copybitStretch E w).2.ctx = w.ctx ∧ (copybitStretch E w).2.module = w.module := by
  unfold copybitStretch
  split_ifs <;> exact ⟨rfl, rfl⟩

theorem copybitBlit_ctx (K : Hdr) (E : Env) (m : private_hwc_module_t) (w : World)
    (layer : hwc_layer_t) :
    (copybitBlit K E m w layer).2.1.ctx = w.ctx
    ∧ (copybitBlit K E m w layer).2.1.module = w.module
    ∧ (copybitBlit K E m w layer).2.2.untransformed = layer.untransformed := by
  obtain ⟨h1, h2⟩ := copybitStretch_ctx E w.next
  unfold copybitBlit
  dsimp only
  generalize copybitStretch E w.next = t at h1 h2
  split_ifs <;> first | exact ⟨rfl, rfl, rfl⟩ | exact ⟨h1, h2, rfl⟩

theorem drawLayerUsingCopybit_ctx (K : Hdr) (E : Env) (w : World) (layer : hwc_layer_t) :
    (drawLayerUsingCopybit K E w layer).2.1.ctx = w.ctx
    ∧ (drawLayerUsingCopybit K E w layer).2.1.module = w.module
    ∧ (drawLayerUsingCopybit K E w layer).2.2.untransformed = layer.untransformed := by
  unfold drawLayerUsingCopybit
  split
  · exact ⟨rfl, rfl, rfl⟩
  · dsimp only
    split_ifs
    · exact ⟨rfl, rfl, rfl⟩
    · exact ⟨rfl, rfl, rfl⟩
    · split
      · exact ⟨rfl, rfl, rfl⟩
      · split_ifs
        · exact ⟨rfl, rfl, rfl⟩
        · exact copybitBlit_ctx K E _ _ layer

@[simp] theorem overlayQueue_ctx (E : Env) (w : World) (h : Nat) :
    (overlayQueue E w h).2.ctx = w.ctx := by
  unfold overlayQueue
  split <;> rfl

@[simp] theorem overlayQueue_module (E : Env) (w : World) (h : Nat) :
    (overlayQueue E w h).2.module = w.module := by
  unfold overlayQueue
  split <;> rfl

theorem overlayQueue_ok (E : Env) (w : World) (h : Nat) (hov : ∀ t, E.ovResult t = true) :
    (overlayQueue E w h).1 = true := by
  unfold overlayQueue ov_queueBuffer ovCall
  split <;> simp [hov]

theorem drawLayerUsingOverlay_module (K : Hdr) (E : Env) (w : World) (layer : hwc_layer_t) :
    (drawLayerUsingOverlay K E w layer).2.module = w.module := by
  unfold drawLayerUsingOverlay
  dsimp only
  repeat' split
  all_goals simp [World.modHandleFlags]

theorem drawLayerUsingOverlay_lock (K : Hdr) (E : Env) (w : World) (layer : hwc_layer_t) :
    (drawLayerUsingOverlay K E w layer).2.ctx.bypassBufferLockState
      = w.ctx.bypassBufferLockState
    ∧ (drawLayerUsingOverlay K E w layer).2.ctx.drawFixed = w.ctx.drawFixed := by
  unfold drawLayerUsingOverlay
  dsimp only
  repeat' split
  all_goals simp

theorem drawLayerUsingOverlay_ok (K : Hdr) (E : Env) (w : World) (layer : hwc_layer_t)
    (m : private_hwc_module_t) (hm : w.module = some m)
    (hlock : ∀ t, E.genlock_lock_buffer t = genlock_status_t.GENLOCK_NO_ERROR)
    (hov : ∀ t, E.ovResult t = true) :
    (drawLayerUsingOverlay K E w layer).1 = 0
    ∧ (drawLayerUsingOverlay K E w layer).2.ctx.currentOverlayHandle = layer.handle := by
  have hq := overlayQueue_ok E (genlock_lock_buffer E w layer.handle).2 layer.handle hov
  have hl : (genlock_lock_buffer E w layer.handle).1 = genlock_status_t.GENLOCK_NO_ERROR :=
    hlock _
  unfold drawLayerUsingOverlay
  rw [hm]
  dsimp only
  rw [if_neg (by simp [hl]), if_neg (by simp [hq])]
  exact ⟨rfl, rfl⟩

@[simp] theorem setLockState_lock (w : World) (i : Nat) (v : BypassBufferLockState) :
    (w.setLockState i v).ctx.bypassBufferLockState = w.ctx.bypassBufferLockState.set i v := rfl
@[simp] theorem setLockState_drawFixed (w : World) (i : Nat) (v : BypassBufferLockState) :
    (w.setLockState i v).ctx.drawFixed = w.ctx.drawFixed := rfl
@[simp] theorem setLockState_current (w : World) (i : Nat) (v : BypassBufferLockState) :
    (w.setLockState i v).ctx.currentOverlayHandle = w.ctx.currentOverlayHandle := rfl
@[simp] theorem setLockState_swapInterval (w : World) (i : Nat) (v : BypassBufferLockState) :
    (w.setLockState i v).ctx.swapInterval = w.ctx.swapInterval := rfl
@[simp] theorem setLockState_module (w : World) (i : Nat) (v : BypassBufferLockState) :
    (w.setLockState i v).module = w.module := rfl

@[simp] theorem drawLayerUsingBypassQueue_module (E : Env) (w : World) (index hnd : Nat) :
    (drawLayerUsingBypassQueue E w index hnd).2.module = w.module := by
  unfold drawLayerUsingBypassQueue
  dsimp only
  split_ifs <;> rfl

theorem drawLayerUsingBypassQueue_ctx (E : Env) (w : World) (index hnd : Nat) :
    (drawLayerUsingBypassQueue E w index hnd).2.ctx.drawFixed = w.ctx.drawFixed
    ∧ (drawLayerUsingBypassQueue E w index hnd).2.ctx.currentOverlayHandle
        = w.ctx.currentOverlayHandle
    ∧ ∀ slot : Nat, slot < 3 → index ≠ slot →
        (drawLayerUsingBypassQueue E w index hnd).2.ctx.bypassBufferLockState.get slot
          = w.ctx.bypassBufferLockState.get slot := by
  unfold drawLayerUsingBypassQueue
  dsimp only
  split_ifs
  all_goals first
    | exact ⟨rfl, rfl, fun _ _ _ => rfl⟩
    | exact ⟨rfl, rfl, fun slot hs hne => Slots.get_set_other _ _ slot _ hs hne⟩

theorem drawLayerUsingBypassQueue_ok (E : Env) (w : World) (index hnd : Nat)
    (hov : ∀ t, E.ovResult t = true) :
    (drawLayerUsingBypassQueue E w index hnd).1 = 0
    ∧ (drawLayerUsingBypassQueue E w index hnd).2.ctx = w.ctx := by
  unfold drawLayerUsingBypassQueue ov_queueBuffer
  dsimp only
  rw [if_neg (by simp [hov])]
  exact ⟨rfl, rfl⟩

theorem drawLayerUsingBypass_module (K : Hdr) (E : Env) (w : World) (layer : hwc_layer_t) :
    (drawLayerUsingBypass K E w layer).2.module = w.module := by
  unfold drawLayerUsingBypass
  dsimp only
  split_ifs <;> simp

/-- Drawing a bypass layer writes the lock state of its slot only. -/
theorem drawLayerUsingBypass_ctx (K : Hdr) (E : Env) (w : World) (layer : hwc_layer_t) :
    (drawLayerUsingBypass K E w layer).2.ctx.drawFixed = w.ctx.drawFixed
    ∧ (drawLayerUsingBypass K E w layer).2.ctx.currentOverlayHandle
        = w.ctx.currentOverlayHandle
    ∧ ∀ slot : Nat, slot < 3 → getLayerbypassIndex K layer ≠ (slot : Int) →
        (drawLayerUsingBypass K E w layer).2.ctx.bypassBufferLockState.get slot
          = w.ctx.bypassBufferLockState.get slot := by
  have hx : ∀ slot : Nat, 0 ≤ getLayerbypassIndex K layer →
      getLayerbypassIndex K layer ≠ (slot : Int) →
      (getLayerbypassIndex K layer).toNat ≠ slot := by
    intro slot h0 hne h1
    apply hne
    rw [← h1]
    exact (Int.toNat_of_nonneg h0).symm
  unfold drawLayerUsingBypass
  dsimp only
  by_cases h0 : getLayerbypassIndex K layer < 0
  · rw [if_pos h0]
    exact ⟨rfl, rfl, fun _ _ _ => rfl⟩
  · rw [if_neg h0]
    have h0' : 0 ≤ getLayerbypassIndex K layer := by omega
    split_ifs
    · exact ⟨rfl, rfl, fun _ _ _ => rfl⟩
    · exact ⟨rfl, rfl, fun slot hs hne =>
        Slots.get_set_other _ _ slot _ hs (hx slot h0' hne)⟩
    · obtain ⟨a, b, c⟩ := drawLayerUsingBypassQueue_ctx E
        ((genlock_lock_buffer E (w.setLockState (getLayerbypassIndex K layer).toNat
          BypassBufferLockState.BYPASS_BUFFER_UNLOCKED) layer.handle).2.setLockState
          (getLayerbypassIndex K layer).toNat BypassBufferLockState.BYPASS_BUFFER_LOCKED)
        (getLayerbypassIndex K layer).toNat layer.handle
      refine ⟨a, b, fun slot hs hne => ?_⟩
      rw [c slot hs (hx slot h0' hne)]
      simp only [setLockState_lock, genlock_lock_buffer_ctx]
      rw [Slots.get_set_other _ _ slot _ hs (hx slot h0' hne),
        Slots.get_set_other _ _ slot _ hs (hx slot h0' hne)]
    · obtain ⟨a, b, c⟩ := drawLayerUsingBypassQueue_ctx E
        (w.setLockState (getLayerbypassIndex K layer).toNat
          BypassBufferLockState.BYPASS_BUFFER_UNLOCKED)
        (getLayerbypassIndex K layer).toNat layer.handle
      refine ⟨a, b, fun slot hs hne => ?_⟩
      rw [c slot hs (hx slot h0' hne)]
      simp only [setLockState_lock]
      rw [Slots.get_set_other _ _ slot _ hs (hx slot h0' hne)]

theorem drawLayerUsingBypass_ok (K : Hdr) (E : Env) (w : World) (layer : hwc_layer_t)
    (slot : Nat) (hs : slot < 3) (hidx : getLayerbypassIndex K layer = (slot : Int))
    (hh : layer.handle ≠ 0) (hsw : 0 < w.ctx.swapInterval)
    (hlock : ∀ t, E.genlock_lock_buffer t = genlock_status_t.GENLOCK_NO_ERROR)
    (hov : ∀ t, E.ovResult t = true) :
    (drawLayerUsingBypass K E w layer).1 = 0
    ∧ (drawLayerUsingBypass K E w layer).2.ctx.bypassBufferLockState.get slot
      = BypassBufferLockState.BYPASS_BUFFER_LOCKED := by
  unfold drawLayerUsingBypass
  dsimp only
  rw [hidx, if_neg (by omega), if_neg hh]
  simp only [Int.toNat_ofNat, setLockState_swapInterval]
  rw [if_pos hsw]
  have hl : ∀ (w' : World) (h : Nat),
      ¬ (genlock_lock_buffer E w' h).1 = genlock_status_t.GENLOCK_FAILURE := by
    intro w' h e
    have e2 : E.genlock_lock_buffer w'.tick = genlock_status_t.GENLOCK_FAILURE := e
    rw [hlock] at e2
    cases e2
  rw [if_neg (hl _ _)]
  obtain ⟨q1, q2⟩ := drawLayerUsingBypassQueue_ok E
    ((genlock_lock_buffer E (w.setLockState slot
      BypassBufferLockState.BYPASS_BUFFER_UNLOCKED) layer.handle).2.setLockState slot
      BypassBufferLockState.BYPASS_BUFFER_LOCKED) slot layer.handle hov
  refine ⟨q1, ?_⟩
  rw [q2]
  exact Slots.get_set_self _ slot _ hs

theorem untransformed_flags {l l' : hwc_layer_t} (h : l'.untransformed = l.untransformed) :
    l'.flags = l.flags := by
  have := congrArg hwc_layer_t.flags h
  exact this

theorem untransformed_handle {l l' : hwc_layer_t} (h : l'.untransformed = l.untransformed) :
    l'.handle = l.handle := by
  have := congrArg hwc_layer_t.handle h
  exact this

theorem untransformed_compositionType {l l' : hwc_layer_t}
    (h : l'.untransformed = l.untransformed) : l'.compositionType = l.compositionType := by
  have := congrArg hwc_layer_t.compositionType h
  exact this

theorem map_untransformed_set (l : List hwc_layer_t) (i : Nat) (layer x : hwc_layer_t)
    (hl : l[i]? = some layer) (hx : x.untransformed = layer.untransformed) :
    (l.set i x).map hwc_layer_t.untransformed = l.map hwc_layer_t.untransformed := by
  induction l generalizing i with
  | nil => rfl
  | cons a l ih =>
    cases i with
    | zero =>
      simp only [List.getElem?_cons_zero, Option.some.injEq] at hl
      subst hl
      simp [hx]
    | succ i =>
      simp only [List.getElem?_cons_succ] at hl
      simp [ih i hl]

theorem getElem?_untransformed_of_map {l l' : List hwc_layer_t}
    (h : l'.map hwc_layer_t.untransformed = l.map hwc_layer_t.untransformed) (j : Nat)
    (x : hwc_layer_t) (hx : l[j]? = some x) :
    ∃ x', l'[j]? = some x' ∧ x'.untransformed = x.untransformed := by
  have h1 : (l'.map hwc_layer_t.untransformed)[j]? = (l.map hwc_layer_t.untransformed)[j]? := by
    rw [h]
  rw [List.getElem?_map, List.getElem?_map, hx] at h1
  cases hx' : l'[j]? with
  | none => rw [hx'] at h1; cases h1
  | some x' =>
    rw [hx'] at h1
    exact ⟨x', rfl, by simpa using h1⟩

@[simp] theorem markForSleep_ctx (w : World) : (markForSleep w).ctx = w.ctx := by
  unfold markForSleep
  split <;> rfl
@[simp] theorem markForSleep_module (w : World) : (markForSleep w).module = w.module := by
  unfold markForSleep
  split <;> rfl
@[simp] theorem markForSleep_heap (w : World) : (markForSleep w).heap = w.heap := by
  unfold markForSleep
  split <;> rfl

/-- What every iteration of the loop of `hwc_set` leaves alone. -/
theorem drawLayer_frame (K : Hdr) (E : Env) (f : World × hwc_layer_list_t) (i : Nat) :
    (drawLayer K E f i).1.module = f.1.module
    ∧ (drawLayer K E f i).1.ctx.drawFixed = f.1.ctx.drawFixed
    ∧ (drawLayer K E f i).2.flags = f.2.flags
    ∧ (drawLayer K E f i).2.hwLayers.map hwc_layer_t.untransformed
        = f.2.hwLayers.map hwc_layer_t.untransformed := by
  unfold drawLayer
  split
  · exact ⟨rfl, rfl, rfl, rfl⟩
  · rename_i layer hl
    split_ifs
    · exact ⟨rfl, rfl, rfl, rfl⟩
    · refine ⟨?_, ?_, rfl, rfl⟩
      · rw [drawLayerUsingBypass_module, markForSleep_module]
      · rw [(drawLayerUsingBypass_ctx K E _ layer).1, markForSleep_ctx]
    · exact ⟨drawLayerUsingOverlay_module K E f.1 layer,
        (drawLayerUsingOverlay_lock K E f.1 layer).2, rfl, rfl⟩
    · exact ⟨rfl, rfl, rfl, rfl⟩
    · obtain ⟨a, b, c⟩ := drawLayerUsingCopybit_ctx K E f.1 layer
      refine ⟨b, by rw [a], rfl, ?_⟩
      exact map_untransformed_set _ _ layer _ hl c
    · exact ⟨rfl, rfl, rfl, rfl⟩

theorem drawLayer_current_other (K : Hdr) (E : Env) (f : World × hwc_layer_list_t) (i : Nat)
    (h : ∀ layer, f.2.hwLayers[i]? = some layer → drawsWithOverlay K layer = false) :
    (drawLayer K E f i).1.ctx.currentOverlayHandle = f.1.ctx.currentOverlayHandle := by
  unfold drawLayer
  split
  · rfl
  · rename_i layer hl
    have hd := h layer hl
    unfold drawsWithOverlay at hd
    split_ifs with h1 h2 h3
    · rfl
    · rw [(drawLayerUsingBypass_ctx K E _ layer).2.1, markForSleep_ctx]
    · simp [h1, h2, h3] at hd
    · rfl
    · rw [(drawLayerUsingCopybit_ctx K E f.1 layer).1]
    · rfl

theorem drawLayer_current_set (K : Hdr) (E : Env) (f : World × hwc_layer_list_t) (i : Nat)
    (layer : hwc_layer_t) (m : private_hwc_module_t) (hm : f.1.module = some m)
    (hl : f.2.hwLayers[i]? = some layer) (hd : drawsWithOverlay K layer = true)
    (hlock : ∀ t, E.genlock_lock_buffer t = genlock_status_t.GENLOCK_NO_ERROR)
    (hov : ∀ t, E.ovResult t = true) :
    (drawLayer K E f i).1.ctx.currentOverlayHandle = layer.handle := by
  unfold drawsWithOverlay at hd
  simp only [Bool.and_eq_true, Bool.not_eq_true', decide_eq_true_eq] at hd
  unfold drawLayer
  rw [hl]
  dsimp only
  rw [if_neg (by simp [hd.1.1]), if_neg (by simp [hd.1.2]), if_pos hd.2]
  exact (drawLayerUsingOverlay_ok K E f.1 layer m hm hlock hov).2

theorem drawLayer_lock_other (K : Hdr) (E : Env) (f : World × hwc_layer_list_t) (i : Nat)
    (slot : Nat) (hs : slot < 3)
    (h : ∀ layer, f.2.hwLayers[i]? = some layer → drawsWithBypass K layer = true →
      getLayerbypassIndex K layer ≠ (slot : Int)) :
    (drawLayer K E f i).1.ctx.bypassBufferLockState.get slot
      = f.1.ctx.bypassBufferLockState.get slot := by
  unfold drawLayer
  split
  · rfl
  · rename_i layer hl
    have hd := h layer hl
    unfold drawsWithBypass at hd
    split_ifs with h1 h2 h3
    · rfl
    · rw [(drawLayerUsingBypass_ctx K E _ layer).2.2 slot hs (hd (by simp [h1, h2])),
        markForSleep_ctx]
    · rw [(drawLayerUsingOverlay_lock K E f.1 layer).1]
    · rfl
    · rw [(drawLayerUsingCopybit_ctx K E f.1 layer).1]
    · rfl

theorem drawLayer_lock_set (K : Hdr) (E : Env) (f : World × hwc_layer_list_t) (i : Nat)
    (layer : hwc_layer_t) (slot : Nat) (hs : slot < 3)
    (hl : f.2.hwLayers[i]? = some layer) (hd : drawsWithBypass K layer = true)
    (hidx : getLayerbypassIndex K layer = (slot : Int))
    (hh : layer.handle ≠ 0) (hsw : 0 < f.1.ctx.swapInterval)
    (hlock : ∀ t, E.genlock_lock_buffer t = genlock_status_t.GENLOCK_NO_ERROR)
    (hov : ∀ t, E.ovResult t = true) :
    (drawLayer K E f i).1.ctx.bypassBufferLockState.get slot
      = BypassBufferLockState.BYPASS_BUFFER_LOCKED := by
  unfold drawsWithBypass at hd
  simp only [Bool.and_eq_true, Bool.not_eq_true'] at hd
  unfold drawLayer
  rw [hl]
  dsimp only
  rw [if_neg (by simp [hd.1]), if_pos hd.2]
  refine (drawLayerUsingBypass_ok K E _ layer slot hs hidx hh ?_ hlock hov).2
  rw [markForSleep_ctx]
  exact hsw

theorem drawsWithOverlay_congr (K : Hdr) {l l' : hwc_layer_t}
    (h : l'.untransformed = l.untransformed) : drawsWithOverlay K l' = drawsWithOverlay K l := by
  unfold drawsWithOverlay
  rw [untransformed_flags h, untransformed_compositionType h]

theorem drawsWithBypass_congr (K : Hdr) {l l' : hwc_layer_t}
    (h : l'.untransformed = l.untransformed) : drawsWithBypass K l' = drawsWithBypass K l := by
  unfold drawsWithBypass
  rw [untransformed_flags h]

theorem getLayerbypassIndex_congr (K : Hdr) {l l' : hwc_layer_t}
    (h : l'.untransformed = l.untransformed) :
    getLayerbypassIndex K l' = getLayerbypassIndex K l := by
  unfold getLayerbypassIndex
  rw [untransformed_flags h]

theorem drawFixed_swapInterval {c c' : hwc_context_t} (h : c'.drawFixed = c.drawFixed) :
    c'.swapInterval = c.swapInterval := by
  have := congrArg hwc_context_t.swapInterval h
  exact this

theorem drawFixed_layerindex {c c' : hwc_context_t} (h : c'.drawFixed = c.drawFixed) :
    c'.layerindex = c.layerindex := by
  have := congrArg hwc_context_t.layerindex h
  exact this

theorem drawFixed_nPipesUsed {c c' : hwc_context_t} (h : c'.drawFixed = c.drawFixed) :
    c'.nPipesUsed = c.nPipesUsed := by
  have := congrArg hwc_context_t.nPipesUsed h
  exact this

theorem drawFixed_previousBypassHandle {c c' : hwc_context_t}
    (h : c'.drawFixed = c.drawFixed) : c'.previousBypassHandle = c.previousBypassHandle := by
  have := congrArg hwc_context_t.previousBypassHandle h
  exact this

/-- What the loop of `hwc_set` over the layers leaves alone. -/
theorem drawLoop_frame (K : Hdr) (E : Env) (n : Nat) (f : World × hwc_layer_list_t) :
    ((List.range n).foldl (drawLayer K E) f).1.module = f.1.module
    ∧ ((List.range n).foldl (drawLayer K E) f).1.ctx.drawFixed = f.1.ctx.drawFixed
    ∧ ((List.range n).foldl (drawLayer K E) f).2.flags = f.2.flags
    ∧ ((List.range n).foldl (drawLayer K E) f).2.hwLayers.map hwc_layer_t.untransformed
        = f.2.hwLayers.map hwc_layer_t.untransformed :=
  foldl_inv (drawLayer K E)
    (fun s => s.1.module = f.1.module ∧ s.1.ctx.drawFixed = f.1.ctx.drawFixed
      ∧ s.2.flags = f.2.flags
      ∧ s.2.hwLayers.map hwc_layer_t.untransformed = f.2.hwLayers.map hwc_layer_t.untransformed)
    (fun s j ⟨a, b, c, d⟩ =>
      ⟨(drawLayer_frame K E s j).1.trans a, (drawLayer_frame K E s j).2.1.trans b,
        (drawLayer_frame K E s j).2.2.1.trans c, (drawLayer_frame K E s j).2.2.2.trans d⟩)
    _ f ⟨rfl, rfl, rfl, rfl⟩

/-- After the loop of `hwc_set`, `currentOverlayHandle` is the buffer of the last layer
drawn with the overlay, when its lock and its queueing succeed. -/
theorem drawLoop_current (K : Hdr) (E : Env) (n : Nat) (f : World × hwc_layer_list_t)
    (i : Nat) (layer : hwc_layer_t) (m : private_hwc_module_t) (hm : f.1.module = some m)
    (hi : i < n) (hl : f.2.hwLayers[i]? = some layer) (hd : drawsWithOverlay K layer = true)
    (hlast : ∀ (j : Nat) (l : hwc_layer_t), i < j → f.2.hwLayers[j]? = some l →
      drawsWithOverlay K l = false)
    (hlock : ∀ t, E.genlock_lock_buffer t = genlock_status_t.GENLOCK_NO_ERROR)
    (hov : ∀ t, E.ovResult t = true) :
    ((List.range n).foldl (drawLayer K E) f).1.ctx.currentOverlayHandle = layer.handle := by
  have inv := foldl_range_inv (drawLayer K E)
    (fun k (s : World × hwc_layer_list_t) =>
      s.1.module = f.1.module
      ∧ s.2.hwLayers.map hwc_layer_t.untransformed = f.2.hwLayers.map hwc_layer_t.untransformed
      ∧ (i < k → s.1.ctx.currentOverlayHandle = layer.handle))
    n f ⟨rfl, rfl, fun h => absurd h (Nat.not_lt_zero i)⟩ ?_
  · exact inv.2.2 hi
  · intro k s _ ⟨a, b, c⟩
    refine ⟨(drawLayer_frame K E s k).1.trans a, (drawLayer_frame K E s k).2.2.2.trans b,
      fun hik => ?_⟩
    rcases Nat.lt_or_ge i k with hlt | hge
    · rw [drawLayer_current_other K E s k, c hlt]
      intro x' hx'
      obtain ⟨x, hx, hxu⟩ := getElem?_untransformed_of_map b.symm k x' hx'
      rw [← drawsWithOverlay_congr K hxu]
      exact hlast k x hlt hx
    · have hk : k = i := by omega
      subst hk
      obtain ⟨x', hx', hxu⟩ := getElem?_untransformed_of_map b k layer hl
      rw [drawLayer_current_set K E s k x' m (a.trans hm) hx'
        (by rw [drawsWithOverlay_congr K hxu]; exact hd) hlock hov]
      exact untransformed_handle hxu

/-- After the loop of `hwc_set`, the lock state of a slot is `BYPASS_BUFFER_LOCKED` when the
last bypass layer drawn on the slot was locked and queued. -/
theorem drawLoop_lock (K : Hdr) (E : Env) (n : Nat) (f : World × hwc_layer_list_t)
    (i : Nat) (layer : hwc_layer_t) (slot : Nat) (hs : slot < 3)
    (hi : i < n) (hl : f.2.hwLayers[i]? = some layer) (hd : drawsWithBypass K layer = true)
    (hidx : getLayerbypassIndex K layer = (slot : Int)) (hh : layer.handle ≠ 0)
    (hsw : 0 < f.1.ctx.swapInterval)
    (hlast : ∀ (j : Nat) (l : hwc_layer_t), i < j → f.2.hwLayers[j]? = some l →
      drawsWithBypass K l = true → getLayerbypassIndex K l ≠ (slot : Int))
    (hlock : ∀ t, E.genlock_lock_buffer t = genlock_status_t.GENLOCK_NO_ERROR)
    (hov : ∀ t, E.ovResult t = true) :
    ((List.range n).foldl (drawLayer K E) f).1.ctx.bypassBufferLockState.get slot
      = BypassBufferLockState.BYPASS_BUFFER_LOCKED := by
  have inv := foldl_range_inv (drawLayer K E)
    (fun k (s : World × hwc_layer_list_t) =>
      s.1.ctx.drawFixed = f.1.ctx.drawFixed
      ∧ s.2.hwLayers.map hwc_layer_t.untransformed = f.2.hwLayers.map hwc_layer_t.untransformed
      ∧ (i < k → s.1.ctx.bypassBufferLockState.get slot
            = BypassBufferLockState.BYPASS_BUFFER_LOCKED))
    n f ⟨rfl, rfl, fun h => absurd h (Nat.not_lt_zero i)⟩ ?_
  · exact inv.2.2 hi
  · intro k s _ ⟨a, b, c⟩
    refine ⟨(drawLayer_frame K E s k).2.1.trans a, (drawLayer_frame K E s k).2.2.2.trans b,
      fun hik => ?_⟩
    rcases Nat.lt_or_ge i k with hlt | hge
    · rw [drawLayer_lock_other K E s k slot hs, c hlt]
      intro x' hx' hdx'
      obtain ⟨x, hx, hxu⟩ := getElem?_untransformed_of_map b.symm k x' hx'
      rw [← getLayerbypassIndex_congr K hxu]
      exact hlast k x hlt hx (by rw [drawsWithBypass_congr K hxu]; exact hdx')
    · have hk : k = i := by omega
      subst hk
      obtain ⟨x', hx', hxu⟩ := getElem?_untransformed_of_map b k layer hl
      exact drawLayer_lock_set K E s k x' slot hs hx'
        (by rw [drawsWithBypass_congr K hxu]; exact hd)
        (by rw [getLayerbypassIndex_congr K hxu]; exact hidx)
        (by rw [untransformed_handle hxu]; exact hh)
        (by rw [drawFixed_swapInterval a]; exact hsw) hlock hov

theorem foldl_inv_mem {σ ι : Type} (step : σ → ι → σ) (P : σ → Prop) (l : List ι)
    (hstep : ∀ s i, i ∈ l → P s → P (step s i)) (s : σ) (h : P s) : P (l.foldl step s) := by
  induction l generalizing s with
  | nil => simpa using h
  | cons a l ih =>
    exact ih (fun s i hi hp => hstep s i (List.mem_cons_of_mem a hi) hp) _
      (hstep s a (List.mem_cons_self a l) h)

theorem noBypass_currentOverlayHandle {c c' : hwc_context_t} (h : c'.noBypass = c.noBypass) :
    c'.currentOverlayHandle = c.currentOverlayHandle := by
  have := congrArg hwc_context_t.currentOverlayHandle h
  exact this

theorem unlockPreviousBypassBuffer_ctx (K : Hdr) (E : Env) (w : World) (i : Nat) :
    (unlockPreviousBypassBuffer K E w i).ctx.noBypass = w.ctx.noBypass
    ∧ (unlockPreviousBypassBuffer K E w i).ctx.bypassBufferLockState
        = w.ctx.bypassBufferLockState
    ∧ (unlockPreviousBypassBuffer K E w i).ctx.layerindex = w.ctx.layerindex
    ∧ (unlockPreviousBypassBuffer K E w i).ctx.nPipesUsed = w.ctx.nPipesUsed
    ∧ (unlockPreviousBypassBuffer K E w i).module = w.module := by
  unfold unlockPreviousBypassBuffer validate genlock_unlock_buffer
  dsimp only
  repeat' split
  all_goals exact ⟨rfl, rfl, rfl, rfl, rfl⟩

theorem unlockPreviousBypassBuffers_ctx (K : Hdr) (E : Env) (w : World) :
    (unlockPreviousBypassBuffers K E w).ctx.noBypass = w.ctx.noBypass
    ∧ (unlockPreviousBypassBuffers K E w).ctx.bypassBufferLockState
        = w.ctx.bypassBufferLockState
    ∧ (unlockPreviousBypassBuffers K E w).ctx.layerindex = w.ctx.layerindex
    ∧ (unlockPreviousBypassBuffers K E w).ctx.nPipesUsed = w.ctx.nPipesUsed
    ∧ (unlockPreviousBypassBuffers K E w).module = w.module := by
  unfold unlockPreviousBypassBuffers
  exact foldl_inv (unlockPreviousBypassBuffer K E)
    (fun s => s.ctx.noBypass = w.ctx.noBypass
      ∧ s.ctx.bypassBufferLockState = w.ctx.bypassBufferLockState
      ∧ s.ctx.layerindex = w.ctx.layerindex ∧ s.ctx.nPipesUsed = w.ctx.nPipesUsed
      ∧ s.module = w.module)
    (fun s j ⟨a, b, c, d, e⟩ =>
      ⟨(unlockPreviousBypassBuffer_ctx K E s j).1.trans a,
        (unlockPreviousBypassBuffer_ctx K E s j).2.1.trans b,
        (unlockPreviousBypassBuffer_ctx K E s j).2.2.1.trans c,
        (unlockPreviousBypassBuffer_ctx K E s j).2.2.2.1.trans d,
        (unlockPreviousBypassBuffer_ctx K E s j).2.2.2.2.trans e⟩)
    _ w ⟨rfl, rfl, rfl, rfl, rfl⟩

theorem storeLockedBypassHandle1_ctx (K : Hdr) (E : Env) (list : hwc_layer_list_t)
    (w : World) (index : Nat) :
    (storeLockedBypassHandle1 K E list w index).ctx.noBypass = w.ctx.noBypass
    ∧ (storeLockedBypassHandle1 K E list w index).ctx.bypassBufferLockState
        = w.ctx.bypassBufferLockState
    ∧ (storeLockedBypassHandle1 K E list w index).ctx.layerindex = w.ctx.layerindex
    ∧ (storeLockedBypassHandle1 K E list w index).ctx.nPipesUsed = w.ctx.nPipesUsed
    ∧ (storeLockedBypassHandle1 K E list w index).module = w.module
    ∧ ∀ slot : Nat, slot < 3 → index ≠ slot →
        (storeLockedBypassHandle1 K E list w index).ctx.previousBypassHandle.get slot
          = w.ctx.previousBypassHandle.get slot := by
  unfold storeLockedBypassHandle1
  dsimp only
  split_ifs
  all_goals first
    | exact ⟨rfl, rfl, rfl, rfl, rfl, fun _ _ _ => rfl⟩
    | exact ⟨rfl, rfl, rfl, rfl, rfl, fun slot hs hne => Slots.get_set_other _ _ slot _ hs hne⟩

theorem readLayer_of_index (E : Env) (list : hwc_layer_list_t) (i : Nat) (x : hwc_layer_t)
    (hx : list.hwLayers[i]? = some x) : readLayer E list (i : Int) = x := by
  unfold readLayer
  rw [if_pos (by omega)]
  simp [hx]

theorem storeLockedBypassHandle1_sets (K : Hdr) (E : Env) (list : hwc_layer_list_t)
    (w : World) (slot i : Nat) (x : hwc_layer_t) (hs : slot < 3)
    (hx : list.hwLayers[i]? = some x) (hb : hasBits x.flags K.HWC_COMP_BYPASS = true)
    (hidx : w.ctx.layerindex.get slot = (i : Int))
    (hlk : w.ctx.bypassBufferLockState.get slot = BypassBufferLockState.BYPASS_BUFFER_LOCKED) :
    (storeLockedBypassHandle1 K E list w slot).ctx.previousBypassHandle.get slot = x.handle := by
  unfold storeLockedBypassHandle1
  dsimp only
  rw [hidx, readLayer_of_index E list i x hx, if_pos hb, if_pos hlk]
  exact Slots.get_set_self _ slot _ hs

/-- After `storeLockedBypassHandle`, a slot whose lock state is `BYPASS_BUFFER_LOCKED` and
which is bound to a layer flagged bypass records the buffer of that layer. -/
theorem storeLockedBypassHandle_sets (K : Hdr) (E : Env) (list : hwc_layer_list_t)
    (w : World) (slot i : Nat) (x : hwc_layer_t) (hs : slot < 3)
    (hx : list.hwLayers[i]? = some x) (hb : hasBits x.flags K.HWC_COMP_BYPASS = true)
    (hidx : w.ctx.layerindex.get slot = (i : Int))
    (hlk : w.ctx.bypassBufferLockState.get slot = BypassBufferLockState.BYPASS_BUFFER_LOCKED) :
    (storeLockedBypassHandle K E (some list) w).ctx.previousBypassHandle.get slot = x.handle
    ∧ (storeLockedBypassHandle K E (some list) w).ctx.nPipesUsed = w.ctx.nPipesUsed := by
  unfold storeLockedBypassHandle
  dsimp only
  have key := foldl_establish (storeLockedBypassHandle1 K E list)
    (fun s => s.ctx.layerindex = w.ctx.layerindex
      ∧ s.ctx.bypassBufferLockState = w.ctx.bypassBufferLockState)
    (fun s => (s.ctx.layerindex = w.ctx.layerindex
      ∧ s.ctx.bypassBufferLockState = w.ctx.bypassBufferLockState)
      ∧ s.ctx.previousBypassHandle.get slot = x.handle) slot
    (fun s j _ ⟨a, b⟩ =>
      ⟨(storeLockedBypassHandle1_ctx K E list s j).2.2.1.trans a,
        (storeLockedBypassHandle1_ctx K E list s j).2.1.trans b⟩)
    (fun s ⟨a, b⟩ =>
      ⟨⟨(storeLockedBypassHandle1_ctx K E list s slot).2.2.1.trans a,
        (storeLockedBypassHandle1_ctx K E list s slot).2.1.trans b⟩,
       storeLockedBypassHandle1_sets K E list s slot i x hs hx hb (by rw [a]; exact hidx)
        (by rw [b]; exact hlk)⟩)
    (fun s j ⟨⟨a, b⟩, c⟩ =>
      ⟨⟨(storeLockedBypassHandle1_ctx K E list s j).2.2.1.trans a,
        (storeLockedBypassHandle1_ctx K E list s j).2.1.trans b⟩, by
        by_cases hj : j = slot
        · subst hj
          exact storeLockedBypassHandle1_sets K E list s j i x hs hx hb (by rw [a]; exact hidx)
            (by rw [b]; exact hlk)
        · rw [(storeLockedBypassHandle1_ctx K E list s j).2.2.2.2.2 slot hs hj]
          exact c⟩)
    (List.range MAX_BYPASS_LAYERS) w ⟨rfl, rfl⟩
    (by simp only [List.mem_range, MAX_BYPASS_LAYERS]; exact hs)
  refine ⟨key.2, ?_⟩
  exact foldl_inv (storeLockedBypassHandle1 K E list)
    (fun s => s.ctx.nPipesUsed = w.ctx.nPipesUsed)
    (fun s j h => (storeLockedBypassHandle1_ctx K E list s j).2.2.2.1.trans h) _ w rfl

theorem storeLockedBypassHandle_noBypass (K : Hdr) (E : Env) (list : Option hwc_layer_list_t)
    (w : World) : (storeLockedBypassHandle K E list w).ctx.noBypass = w.ctx.noBypass := by
  unfold storeLockedBypassHandle
  split
  · rfl
  · rename_i l
    exact foldl_inv (storeLockedBypassHandle1 K E l) (fun s => s.ctx.noBypass = w.ctx.noBypass)
      (fun s j h => (storeLockedBypassHandle1_ctx K E l s j).1.trans h) _ w rfl

theorem setBypassStored_noBypass (K : Hdr) (E : Env) (w : World)
    (list : Option hwc_layer_list_t) :
    (setBypassStored K E w list).ctx.noBypass = w.ctx.noBypass := by
  unfold setBypassStored unsetBypassBufferLockState
  rw [modCtx_ctx, noBypass_update, storeLockedBypassHandle_noBypass]
  exact (unlockPreviousBypassBuffers_ctx K E w).1

theorem setSwapStage_ctx (K : Hdr) (E : Env) (w : World) (dpy sur canSkip : Bool) :
    (setSwapStage K E w dpy sur canSkip).2.ctx = w.ctx := by
  unfold setSwapStage
  dsimp only
  split_ifs <;> rfl

theorem setHDMIStage_current (K : Hdr) (w : World) :
    (setHDMIStage K w).ctx.currentOverlayHandle = w.ctx.currentOverlayHandle := by
  unfold setHDMIStage handleHDMIStateChange
  dsimp only
  repeat' split
  all_goals rfl

theorem hwc_closeOverlayChannels_current (K : Hdr) (w : World) :
    (hwc_closeOverlayChannels K w).ctx.currentOverlayHandle = w.ctx.currentOverlayHandle := by
  unfold hwc_closeOverlayChannels
  dsimp only
  split
  · simp only [modCtx_ctx, setVideoOverlayStatusInGralloc_ctx]
    split <;> simp only [setOverlayState_ctx]
  · rfl

theorem unlockPreviousOverlayBuffer_handles (K : Hdr) (E : Env) (w : World) :
    (unlockPreviousOverlayBuffer K E w).ctx.previousOverlayHandle = w.ctx.currentOverlayHandle
    ∧ (unlockPreviousOverlayBuffer K E w).ctx.currentOverlayHandle = 0 := by
  unfold unlockPreviousOverlayBuffer validate genlock_unlock_buffer
  dsimp only
  repeat' split
  all_goals exact ⟨rfl, rfl⟩

/-- A slot below `nPipesUsed` is not touched by `closeExtraPipes`. -/
theorem closeExtraPipes_slot_below (K : Hdr) (E : Env) (w : World) (slot : Nat)
    (hs : slot < 3) (hp : slot < w.ctx.nPipesUsed) :
    (closeExtraPipes K E w).ctx.previousBypassHandle.get slot
      = w.ctx.previousBypassHandle.get slot := by
  unfold closeExtraPipes
  refine foldl_inv_mem (closeExtraPipe K E)
    (fun s => s.ctx.previousBypassHandle.get slot = w.ctx.previousBypassHandle.get slot) _
    (fun s j hj h => ?_) w rfl
  rw [← h]
  apply closeExtraPipe_slot_other K E s j slot hs
  simp only [List.mem_filter, decide_eq_true_eq] at hj
  omega

theorem getLayerbypassIndex_lt (K : Hdr) (layer : hwc_layer_t) (slot : Nat)
    (h : getLayerbypassIndex K layer = (slot : Int)) : slot < 3 := by
  unfold getLayerbypassIndex at h
  dsimp only at h
  split_ifs at h with h1 h2
  simp only [MAX_BYPASS_LAYERS] at h2
  omega

/-- C9, as amended. A call of `hwc_set` on a device with a valid module in which every
`genlock_lock_buffer` and every call into the overlay succeeds. (1) The buffer of the last
layer of the list drawn by `drawLayerUsingOverlay` (not flagged skip or bypass, classified
`HWC_USE_OVERLAY`) is recorded in `ctx->previousOverlayHandle` on return, and
`ctx->currentOverlayHandle` is `NULL` again. (2) The buffer of a bypass layer with a buffer,
drawn with `swapInterval > 0` as the last bypass layer of its slot, is recorded in
`previousBypassHandle[slot]` on return when the slot is bound to the layer
(`layerindex[slot]` is its index) and is one of the `nPipesUsed` pipes in use. -/
theorem hwc_set_records (K : Hdr) (E : Env) (w : World) (m : private_hwc_module_t)
    (dpy sur : Bool) (list : hwc_layer_list_t) (hm : w.module = some m)
    (hlock : ∀ t, E.genlock_lock_buffer t = genlock_status_t.GENLOCK_NO_ERROR)
    (hov : ∀ t, E.ovResult t = true) :
    (∀ (i : Nat) (layer : hwc_layer_t), list.hwLayers[i]? = some layer →
        drawsWithOverlay K layer = true →
        (∀ (j : Nat) (l : hwc_layer_t), i < j → list.hwLayers[j]? = some l →
          drawsWithOverlay K l = false) →
        (hwc_set K E w dpy sur (some list)).2.1.ctx.previousOverlayHandle = layer.handle
        ∧ (hwc_set K E w dpy sur (some list)).2.1.ctx.currentOverlayHandle = 0)
    ∧ (∀ (i : Nat) (layer : hwc_layer_t) (slot : Nat), list.hwLayers[i]? = some layer →
        drawsWithBypass K layer = true → getLayerbypassIndex K layer = (slot : Int) →
        layer.handle ≠ 0 → 0 < w.ctx.swapInterval →
        w.ctx.layerindex.get slot = (i : Int) → slot < w.ctx.nPipesUsed →
        (∀ (j : Nat) (l : hwc_layer_t), i < j → list.hwLayers[j]? = some l →
          drawsWithBypass K l = true → getLayerbypassIndex K l ≠ (slot : Int)) →
        (hwc_set K E w dpy sur (some list)).2.1.ctx.previousBypassHandle.get slot
          = layer.handle) := by
  rw [hwc_set_eq K E w m dpy sur (some list) hm]
  dsimp only
  have hD : setDrawStage K E w (some list)
      = (((List.range list.numHwLayers).foldl (drawLayer K E) (w, list)).1,
          some ((List.range list.numHwLayers).foldl (drawLayer K E) (w, list)).2) := rfl
  rw [hD]
  dsimp only
  obtain ⟨f1, f2, f3, f4⟩ := drawLoop_frame K E list.numHwLayers (w, list)
  constructor
  · intro i layer hl hd hlast
    have hcur := drawLoop_current K E list.numHwLayers (w, list) i layer m hm
      (getElem?_lt_numHwLayers list i layer hl) hl hd hlast hlock hov
    generalize (List.range list.numHwLayers).foldl (drawLayer K E) (w, list) = D at hcur
    obtain ⟨u1, u2⟩ := unlockPreviousOverlayBuffer_handles K E
      (hwc_closeOverlayChannels K (setHDMIStage K (setSwapStage K E
        (closeExtraPipes K E (setBypassStored K E D.1 (some D.2))) dpy sur
        (listCanSkip K (some D.2))).2))
    refine ⟨?_, u2⟩
    rw [u1, hwc_closeOverlayChannels_current, setHDMIStage_current, setSwapStage_ctx,
      noBypass_currentOverlayHandle (closeExtraPipes_noBypass K E _),
      noBypass_currentOverlayHandle (setBypassStored_noBypass K E _ _)]
    exact hcur
  · intro i layer slot hl hd hidx hh hsw hli hp hlast
    have hs := getLayerbypassIndex_lt K layer slot hidx
    have hlk := drawLoop_lock K E list.numHwLayers (w, list) i layer slot hs
      (getElem?_lt_numHwLayers list i layer hl) hl hd hidx hh hsw hlast hlock hov
    obtain ⟨x', hx', hxu⟩ := getElem?_untransformed_of_map f4 i layer hl
    generalize (List.range list.numHwLayers).foldl (drawLayer K E) (w, list) = D
      at hlk f1 f2 f3 f4 hx'
    have hb : hasBits x'.flags K.HWC_COMP_BYPASS = true := by
      rw [untransformed_flags hxu]
      unfold drawsWithBypass at hd
      simp only [Bool.and_eq_true] at hd
      exact hd.2
    obtain ⟨v1, v2, v3, v4, _⟩ := unlockPreviousBypassBuffers_ctx K E D.1
    obtain ⟨s1, s2⟩ := storeLockedBypassHandle_sets K E D.2
      (unlockPreviousBypassBuffers K E D.1) slot i x' hs hx' hb
      (by rw [v3, drawFixed_layerindex f2]; exact hli) (by rw [v2]; exact hlk)
    have hstored : (setBypassStored K E D.1 (some D.2)).ctx.previousBypassHandle.get slot
        = x'.handle := s1
    have hnp : (setBypassStored K E D.1 (some D.2)).ctx.nPipesUsed = w.ctx.nPipesUsed := by
      have e : (setBypassStored K E D.1 (some D.2)).ctx.nPipesUsed
          = (storeLockedBypassHandle K E (some D.2)
              (unlockPreviousBypassBuffers K E D.1)).ctx.nPipesUsed := rfl
      rw [e, s2, v4]
      exact drawFixed_nPipesUsed f2
    have ht := (setTail_keepsSlots K E
      (closeExtraPipes K E (setBypassStored K E D.1 (some D.2))) dpy sur
      (listCanSkip K (some D.2))).1
    rw [ht, closeExtraPipes_slot_below K E _ slot hs (by rw [hnp]; exact hp), hstored]
    exact untransformed_handle hxu
/-- Witness of `hwc_set_records`: a frame of one overlay layer on buffer 7, and a frame of
one bypass layer on buffer 7 in slot 0. -/
theorem hwc_set_records_witness :
    ((hwc_set refHdr okEnv (secondFrameWorld refModule (uniformHeap 1 0x11 0) false) true true
        (some { flags := 2, hwLayers := [{ mkLayer 7 0 with compositionType := 1 }] })
        ).2.1.ctx.previousOverlayHandle = 7
      ∧ (hwc_set refHdr okEnv (secondFrameWorld refModule (uniformHeap 1 0x11 0) false) true true
        (some { flags := 2, hwLayers := [{ mkLayer 7 0 with compositionType := 1 }] })
        ).2.1.ctx.currentOverlayHandle = 0)
    ∧ (hwc_set refHdr okEnv onePipeWorld true true
        (some { flags := 2, hwLayers := [mkLayer 7 0x40000000] })
        ).2.1.ctx.previousBypassHandle.get 0 = 7 :=
  ⟨(hwc_set_records refHdr okEnv (secondFrameWorld refModule (uniformHeap 1 0x11 0) false)
      refModule true true
      { flags := 2, hwLayers := [{ mkLayer 7 0 with compositionType := 1 }] } rfl
      (fun _ => rfl) (fun _ => rfl)).1 0 { mkLayer 7 0 with compositionType := 1 } rfl
      (by decide) (fun j l hij hjl => by
        cases j with
        | zero => exact absurd hij (by decide)
        | succ j => simp at hjl),
   (hwc_set_records refHdr okEnv onePipeWorld refModule true true
      { flags := 2, hwLayers := [mkLayer 7 0x40000000] } rfl
      (fun _ => rfl) (fun _ => rfl)).2 0 (mkLayer 7 0x40000000) 0 rfl (by decide) (by decide)
      (by decide) (by decide) rfl (by decide) (fun j l hij hjl => by
        cases j with
        | zero => exact absurd hij (by decide)
        | succ j => simp at hjl)⟩

/-- C9, counterexample. (1) A frame of one overlay layer on buffer 7, as `hwc_prepare`
leaves it for a single video layer: `drawLayerUsingOverlay` locks and queues the buffer
(it returns 0), and after `hwc_set` `ctx->currentOverlayHandle` is `NULL`, not buffer 7;
the buffer is in `ctx->previousOverlayHandle`. (2) A bypass layer on buffer 7 in slot 0,
locked and queued (`drawLayerUsingBypass` returns 0), while no pipe is counted in use:
`closeExtraPipes` releases the slot, and `previousBypassHandle[0]` is `NULL` on return. -/
theorem hwc_set_current_not_recorded :
    ((hwc_prepare refHdr okEnv (secondFrameWorld refModule (uniformHeap 1 0x11 0) false)
        (some { flags := 0, hwLayers := [mkLayer 7 0] })).2.2
        = some { flags := 2, hwLayers := [{ mkLayer 7 0 with compositionType := 1, hints := 2 }] }
      ∧ (drawLayerUsingOverlay refHdr okEnv
          (hwc_prepare refHdr okEnv (secondFrameWorld refModule (uniformHeap 1 0x11 0) false)
            (some { flags := 0, hwLayers := [mkLayer 7 0] })).2.1
          { mkLayer 7 0 with compositionType := 1, hints := 2 }).1 = 0
      ∧ (hwc_set refHdr okEnv
          (hwc_prepare refHdr okEnv (secondFrameWorld refModule (uniformHeap 1 0x11 0) false)
            (some { flags := 0, hwLayers := [mkLayer 7 0] })).2.1 true true
          (some { flags := 2,
                  hwLayers := [{ mkLayer 7 0 with compositionType := 1, hints := 2 }] })
          ).2.1.ctx.currentOverlayHandle = 0
      ∧ (hwc_set refHdr okEnv
          (hwc_prepare refHdr okEnv (secondFrameWorld refModule (uniformHeap 1 0x11 0) false)
            (some { flags := 0, hwLayers := [mkLayer 7 0] })).2.1 true true
          (some { flags := 2,
                  hwLayers := [{ mkLayer 7 0 with compositionType := 1, hints := 2 }] })
          ).2.1.ctx.previousOverlayHandle = 7)
    ∧ ((drawLayerUsingBypass refHdr okEnv
          (secondFrameWorld refModule (uniformHeap 0 1 0) false) (mkLayer 7 0x40000000)).1 = 0
      ∧ (drawLayerUsingBypass refHdr okEnv
          (secondFrameWorld refModule (uniformHeap 0 1 0) false)
          (mkLayer 7 0x40000000)).2.ctx.bypassBufferLockState.get 0
          = BypassBufferLockState.BYPASS_BUFFER_LOCKED
      ∧ (hwc_set refHdr okEnv (secondFrameWorld refModule (uniformHeap 0 1 0) false) true true
          (some { flags := 2, hwLayers := [mkLayer 7 0x40000000] })
          ).2.1.ctx.previousBypassHandle.get 0 = 0) := by
  decide

/-! ## Device close -/

theorem fixedPart_currentOverlayHandle {c c' : hwc_context_t} (h : c'.fixedPart = c.fixedPart) :
    c'.currentOverlayHandle = c.currentOverlayHandle := by
  have := congrArg hwc_context_t.currentOverlayHandle h
  exact this

theorem unlockAll_current (K : Hdr) (E : Env) (w : World) :
    (unlockAll K E w).ctx.currentOverlayHandle = 0 := by
  unfold unlockAll
  exact (unlockPreviousOverlayBuffer_handles K E _).2

theorem setupBypassLoop_noBypass (K : Hdr) (E : Env) (fuel : Nat) :
    ∀ (index nPA : Nat) (w : World) (list : hwc_layer_list_t),
      (setupBypassLoop K E fuel index nPA w list).2.1.ctx.noBypass = w.ctx.noBypass := by
  induction fuel with
  | zero => intro index nPA w list; rfl
  | succ fuel ih =>
    intro index nPA w list
    unfold setupBypassLoop
    split_ifs with h1
    · split
      · rfl
      · dsimp only
        split_ifs
        · rw [prepareBypass_ctx]
        · rw [ih]
          simp only [modCtx_ctx, noBypass_update, prepareBypass_ctx]
    · rfl

theorem setupBypass_noBypass (K : Hdr) (E : Env) (w : World) (list : hwc_layer_list_t) :
    (setupBypass K E w list).2.1.ctx.noBypass = w.ctx.noBypass := by
  have key := setupBypassLoop_noBypass K E list.numHwLayers 0 MAX_BYPASS_LAYERS
    (setOverlayState (getOverlayState K E w list.numHwLayers 0).2
      (getOverlayState K E w list.numHwLayers 0).1) list
  simp only [setOverlayState_ctx, getOverlayState_ctx] at key
  unfold setupBypass
  dsimp only
  generalize setupBypassLoop K E list.numHwLayers 0 MAX_BYPASS_LAYERS
    (setOverlayState (getOverlayState K E w list.numHwLayers 0).2
      (getOverlayState K E w list.numHwLayers 0).1) list = r at key ⊢
  rcases r with ⟨a, b, c⟩
  cases a with
  | none => exact key
  | some k =>
    simp only [modCtx_ctx, noBypass_update]
    exact key

theorem prepareBypassStage_current (K : Hdr) (E : Env) (m : private_hwc_module_t) (f : Frame) :
    (prepareBypassStage K E m f).1.ctx.currentOverlayHandle
      = f.w.ctx.currentOverlayHandle := by
  obtain ⟨sw, hsw⟩ := isBypassDoable_ctx K E f.w m f.w.ctx.yuvBufferCount
    (markSkipComposition K f)
  have hD : (isBypassDoable K E f.w m f.w.ctx.yuvBufferCount
      (markSkipComposition K f)).2.ctx.currentOverlayHandle = f.w.ctx.currentOverlayHandle := by
    rw [hsw]
  unfold prepareBypassStage
  dsimp only
  generalize isBypassDoable K E f.w m f.w.ctx.yuvBufferCount (markSkipComposition K f) = D
    at hD ⊢
  by_cases hc : (D.1 && !f.isSkipLayerPresent) = true
  · rw [if_pos hc]
    unfold bypassAttempt
    dsimp only
    have hS := setupBypass_noBypass K E D.2 (markSkipComposition K f)
    generalize setupBypass K E D.2 (markSkipComposition K f) = S at hS ⊢
    by_cases hs : S.1 = true
    · rw [if_pos hs]
      simp only [Bool.not_true, Bool.false_eq_true, if_false, modCtx_ctx]
      rw [← hD]
      exact noBypass_currentOverlayHandle hS
    · rw [if_neg hs]
      simp only [Bool.not_false, if_true]
      rw [noBypass_currentOverlayHandle (bypassReset_noBypass K _ _), setOverlayState_ctx,
        ← hD]
      exact noBypass_currentOverlayHandle hS
  · rw [if_neg hc]
    simp only [Bool.not_false, if_true]
    rw [noBypass_currentOverlayHandle (bypassReset_noBypass K _ _)]
    exact hD

theorem hwc_prepare_current (K : Hdr) (E : Env) (w : World)
    (list : Option hwc_layer_list_t) :
    (hwc_prepare K E w list).2.1.ctx.currentOverlayHandle = 0 := by
  unfold hwc_prepare
  dsimp only
  generalize hw0 : w.modCtx (fun c => { c with currentOverlayHandle := 0 }) = w0
  have h0 : w0.ctx.currentOverlayHandle = 0 := by rw [← hw0]; rfl
  split
  · exact unlockAll_current K E w0
  · rename_i m _
    split
    · rename_i l
      simp only [modCtx_ctx]
      show (prepareBypassStage K E m (classifyLayers K E m w0 l)).1.ctx.currentOverlayHandle = 0
      rw [prepareBypassStage_current,
        fixedPart_currentOverlayHandle (classifyLayers_fixedPart K E m w0 l)]
      obtain ⟨pl, st, h⟩ := prepareStats_eq K m w0 l
      rw [h]
      exact h0
    · exact unlockAll_current K E w0

theorem hwc_set_current (K : Hdr) (E : Env) (w : World) (dpy sur : Bool)
    (list : Option hwc_layer_list_t) :
    (hwc_set K E w dpy sur list).2.1.ctx.currentOverlayHandle = 0 := by
  unfold hwc_set
  split
  · exact unlockAll_current K E w
  · exact (unlockPreviousOverlayBuffer_handles K E _).2

/-- In every reachable state `currentOverlayHandle` is `NULL`: `hwc_prepare` resets it on
entry and `hwc_set` moves it to `previousOverlayHandle` before it returns. -/
theorem reachable_current (K : Hdr) (w : World) (h : Reachable K w) :
    w.ctx.currentOverlayHandle = 0 := by
  cases h with
  | opened => rfl
  | prepared E w list _ => exact hwc_prepare_current K E w list
  | drawn E w dpy sur list _ => exact hwc_set_current K E w dpy sur list

theorem released_unlock_clear (K : Hdr) (E : Env) (w : World) (hnd : Nat)
    (hunlock : ∀ t, E.genlock_unlock_buffer t = genlock_status_t.GENLOCK_NO_ERROR)
    (f : hwc_context_t → hwc_context_t) :
    World.released K (((genlock_unlock_buffer E w hnd).2.modCtx f).modHandleFlags hnd
      (fun flags => clearBits flags K.PRIV_FLAGS_HWC_LOCK)) hnd := by
  refine ⟨clear_self K _ hnd, ?_⟩
  show Event.genlock_unlock hnd genlock_status_t.GENLOCK_NO_ERROR
    ∈ w.trace ++ [Event.genlock_unlock hnd (E.genlock_unlock_buffer w.tick)]
  rw [hunlock]
  simp

theorem released_keeps_unlock_clear (K : Hdr) (E : Env) (w : World) (hnd h : Nat)
    (f : hwc_context_t → hwc_context_t) (hr : World.released K w h) :
    World.released K (((genlock_unlock_buffer E w hnd).2.modCtx f).modHandleFlags hnd
      (fun flags => clearBits flags K.PRIV_FLAGS_HWC_LOCK)) h := by
  refine ⟨clear_keeps K _ h hnd hr.1, ?_⟩
  show Event.genlock_unlock h genlock_status_t.GENLOCK_NO_ERROR
    ∈ w.trace ++ [Event.genlock_unlock hnd (E.genlock_unlock_buffer w.tick)]
  exact List.mem_append_left _ hr.2

theorem marked_keeps_unlock_clear (K : Hdr) (E : Env) (w : World) (hnd h : Nat)
    (f : hwc_context_t → hwc_context_t) (hne : h ≠ hnd)
    (hm : hasBits (w.heap h).flags K.PRIV_FLAGS_HWC_LOCK = true) :
    hasBits ((((genlock_unlock_buffer E w hnd).2.modCtx f).modHandleFlags hnd
      (fun flags => clearBits flags K.PRIV_FLAGS_HWC_LOCK)).heap h).flags
      K.PRIV_FLAGS_HWC_LOCK = true := by
  unfold World.modHandleFlags
  simp only [if_neg hne]
  exact hm

theorem unlockPreviousBypassBuffer_zero (K : Hdr) (E : Env) (w : World) (i : Nat)
    (h1 : w.ctx.previousBypassHandle.get i = 0) : unlockPreviousBypassBuffer K E w i = w := by
  unfold unlockPreviousBypassBuffer
  dsimp only
  rw [if_pos h1]

theorem unlockPreviousBypassBuffer_unmarked (K : Hdr) (E : Env) (w : World) (i : Nat)
    (hvalid : ∀ t, E.validate t = true)
    (h1 : w.ctx.previousBypassHandle.get i ≠ 0)
    (h2 : hasBits (w.heap (w.ctx.previousBypassHandle.get i)).flags
      K.PRIV_FLAGS_HWC_LOCK = false) :
    unlockPreviousBypassBuffer K E w i = w.next := by
  unfold unlockPreviousBypassBuffer validate
  dsimp only
  rw [if_neg h1]
  simp only [hvalid, Bool.not_true, Bool.false_eq_true, if_false, next_heap, h2]

/-- The step of `unlockPreviousBypassBuffers` for a slot whose buffer is marked, when the
handle validates and the unlock succeeds: the slot is emptied and the mark cleared. -/
theorem unlockPreviousBypassBuffer_marked (K : Hdr) (E : Env) (w : World) (i : Nat)
    (hvalid : ∀ t, E.validate t = true)
    (hunlock : ∀ t, E.genlock_unlock_buffer t = genlock_status_t.GENLOCK_NO_ERROR)
    (h1 : w.ctx.previousBypassHandle.get i ≠ 0)
    (h2 : hasBits (w.heap (w.ctx.previousBypassHandle.get i)).flags
      K.PRIV_FLAGS_HWC_LOCK = true) :
    unlockPreviousBypassBuffer K E w i
      = ((genlock_unlock_buffer E w.next (w.ctx.previousBypassHandle.get i)).2.modCtx
            (fun c => { c with previousBypassHandle := c.previousBypassHandle.set i 0 })
            ).modHandleFlags (w.ctx.previousBypassHandle.get i)
              (fun flags => clearBits flags K.PRIV_FLAGS_HWC_LOCK) := by
  have hf : ¬ (genlock_unlock_buffer E w.next (w.ctx.previousBypassHandle.get i)).1
      = genlock_status_t.GENLOCK_FAILURE := by
    intro e
    have e2 : E.genlock_unlock_buffer w.next.tick = genlock_status_t.GENLOCK_FAILURE := e
    rw [hunlock] at e2
    cases e2
  unfold unlockPreviousBypassBuffer validate
  dsimp only
  rw [if_neg h1]
  simp only [hvalid, Bool.not_true, Bool.false_eq_true, if_false, next_heap, h2, if_true, hf]

theorem released_next (K : Hdr) (w : World) (h : Nat) (hr : World.released K w h) :
    World.released K w.next h := hr

theorem unlockPreviousBypassBuffer_released_keeps (K : Hdr) (E : Env) (w : World) (i h : Nat)
    (hvalid : ∀ t, E.validate t = true)
    (hunlock : ∀ t, E.genlock_unlock_buffer t = genlock_status_t.GENLOCK_NO_ERROR)
    (hr : World.released K w h) : World.released K (unlockPreviousBypassBuffer K E w i) h := by
  by_cases h1 : w.ctx.previousBypassHandle.get i = 0
  · rw [unlockPreviousBypassBuffer_zero K E w i h1]
    exact hr
  · cases h2 : hasBits (w.heap (w.ctx.previousBypassHandle.get i)).flags K.PRIV_FLAGS_HWC_LOCK
    · rw [unlockPreviousBypassBuffer_unmarked K E w i hvalid h1 h2]
      exact hr
    · rw [unlockPreviousBypassBuffer_marked K E w i hvalid hunlock h1 h2]
      exact released_keeps_unlock_clear K E w.next _ h _ hr

theorem unlockPreviousBypassBuffer_mor_keeps (K : Hdr) (E : Env) (w : World) (i h : Nat)
    (hvalid : ∀ t, E.validate t = true)
    (hunlock : ∀ t, E.genlock_unlock_buffer t = genlock_status_t.GENLOCK_NO_ERROR)
    (hq : World.markedOrReleased K w h) :
    World.markedOrReleased K (unlockPreviousBypassBuffer K E w i) h := by
  rcases hq with hm | hr
  · by_cases h1 : w.ctx.previousBypassHandle.get i = 0
    · rw [unlockPreviousBypassBuffer_zero K E w i h1]
      exact Or.inl hm
    · cases h2 : hasBits (w.heap (w.ctx.previousBypassHandle.get i)).flags
          K.PRIV_FLAGS_HWC_LOCK
      · rw [unlockPreviousBypassBuffer_unmarked K E w i hvalid h1 h2]
        exact Or.inl hm
      · rw [unlockPreviousBypassBuffer_marked K E w i hvalid hunlock h1 h2]
        by_cases he : h = w.ctx.previousBypassHandle.get i
        · right
          rw [he]
          exact released_unlock_clear K E w.next _ hunlock _
        · left
          exact marked_keeps_unlock_clear K E w.next _ h _ he hm
  · exact Or.inr (unlockPreviousBypassBuffer_released_keeps K E w i h hvalid hunlock hr)

theorem unlockPreviousBypassBuffer_releases (K : Hdr) (E : Env) (w : World) (i h : Nat)
    (hvalid : ∀ t, E.validate t = true)
    (hunlock : ∀ t, E.genlock_unlock_buffer t = genlock_status_t.GENLOCK_NO_ERROR)
    (hh : w.ctx.previousBypassHandle.get i = h) (hnz : h ≠ 0)
    (hq : World.markedOrReleased K w h) :
    World.released K (unlockPreviousBypassBuffer K E w i) h := by
  rcases hq with hm | hr
  · subst hh
    rw [unlockPreviousBypassBuffer_marked K E w i hvalid hunlock hnz hm]
    exact released_unlock_clear K E w.next _ hunlock _
  · exact unlockPreviousBypassBuffer_released_keeps K E w i h hvalid hunlock hr

theorem unlockPreviousBypassBuffer_slot_other (K : Hdr) (E : Env) (w : World) (i j : Nat)
    (hj : j < 3) (hij : i ≠ j) :
    (unlockPreviousBypassBuffer K E w i).ctx.previousBypassHandle.get j
      = w.ctx.previousBypassHandle.get j := by
  unfold unlockPreviousBypassBuffer validate genlock_unlock_buffer
  dsimp only
  repeat' split
  all_goals first
    | rfl
    | exact Slots.get_set_other _ i j _ hj hij

/-- After `unlockPreviousBypassBuffers`, when the handles validate and the unlocks succeed,
the buffer a slot recorded is released if it was marked. -/
theorem unlockPreviousBypassBuffers_releases (K : Hdr) (E : Env) (w : World) (i h : Nat)
    (hi : i < 3)
    (hvalid : ∀ t, E.validate t = true)
    (hunlock : ∀ t, E.genlock_unlock_buffer t = genlock_status_t.GENLOCK_NO_ERROR)
    (hh : w.ctx.previousBypassHandle.get i = h) (hnz : h ≠ 0)
    (hq : World.markedOrReleased K w h) :
    World.released K (unlockPreviousBypassBuffers K E w) h := by
  unfold unlockPreviousBypassBuffers
  exact foldl_establish (unlockPreviousBypassBuffer K E)
    (fun s => s.ctx.previousBypassHandle.get i = h ∧ World.markedOrReleased K s h)
    (fun s => World.released K s h) i
    (fun s j hj ⟨a, b⟩ =>
      ⟨(unlockPreviousBypassBuffer_slot_other K E s j i hi hj).trans a,
        unlockPreviousBypassBuffer_mor_keeps K E s j h hvalid hunlock b⟩)
    (fun s ⟨a, b⟩ => unlockPreviousBypassBuffer_releases K E s i h hvalid hunlock a hnz b)
    (fun s j hr => unlockPreviousBypassBuffer_released_keeps K E s j h hvalid hunlock hr)
    _ w ⟨hh, hq⟩ (by simp only [List.mem_range, MAX_BYPASS_LAYERS]; exact hi)

theorem unlockPreviousBypassBuffers_released_keeps (K : Hdr) (E : Env) (w : World) (h : Nat)
    (hvalid : ∀ t, E.validate t = true)
    (hunlock : ∀ t, E.genlock_unlock_buffer t = genlock_status_t.GENLOCK_NO_ERROR)
    (hr : World.released K w h) : World.released K (unlockPreviousBypassBuffers K E w) h := by
  unfold unlockPreviousBypassBuffers
  exact foldl_inv (unlockPreviousBypassBuffer K E) (fun s => World.released K s h)
    (fun s j hs => unlockPreviousBypassBuffer_released_keeps K E s j h hvalid hunlock hs)
    _ w hr

theorem unlockPreviousOverlayBuffer_zero (K : Hdr) (E : Env) (w : World)
    (h1 : w.ctx.previousOverlayHandle = 0) :
    unlockPreviousOverlayBuffer K E w = w.modCtx rotateOverlayHandles := by
  unfold unlockPreviousOverlayBuffer
  dsimp only
  rw [if_neg (by simp [h1])]

theorem unlockPreviousOverlayBuffer_unmarked (K : Hdr) (E : Env) (w : World)
    (h1 : w.ctx.previousOverlayHandle ≠ 0)
    (h2 : hasBits (w.heap w.ctx.previousOverlayHandle).flags K.PRIV_FLAGS_HWC_LOCK = false) :
    unlockPreviousOverlayBuffer K E w = w.next.modCtx rotateOverlayHandles := by
  unfold unlockPreviousOverlayBuffer validate isBufferLocked
  dsimp only
  rw [if_pos h1]
  simp only [next_heap, h2, Bool.and_false, Bool.false_eq_true, if_false]

theorem unlockPreviousOverlayBuffer_marked (K : Hdr) (E : Env) (w : World)
    (hvalid : ∀ t, E.validate t = true)
    (hunlock : ∀ t, E.genlock_unlock_buffer t = genlock_status_t.GENLOCK_NO_ERROR)
    (hc : w.ctx.currentOverlayHandle = 0)
    (h1 : w.ctx.previousOverlayHandle ≠ 0)
    (h2 : hasBits (w.heap w.ctx.previousOverlayHandle).flags K.PRIV_FLAGS_HWC_LOCK = true) :
    unlockPreviousOverlayBuffer K E w
      = ((genlock_unlock_buffer E w.next w.ctx.previousOverlayHandle).2.modHandleFlags
          w.ctx.previousOverlayHandle
          (fun flags => clearBits flags K.PRIV_FLAGS_HWC_LOCK)).modCtx rotateOverlayHandles := by
  have hr : (genlock_unlock_buffer E w.next w.ctx.previousOverlayHandle).1
      = genlock_status_t.GENLOCK_NO_ERROR := hunlock _
  unfold unlockPreviousOverlayBuffer validate isBufferLocked
  dsimp only
  rw [if_pos h1]
  have hb : (w.ctx.previousOverlayHandle != 0) = true := by simpa using h1
  simp only [next_heap, h2, hvalid, Bool.and_true, if_true, hr, genlock_unlock_buffer_ctx,
    next_ctx, hc, hb, Bool.and_self, ne_eq, h1, not_false_eq_true]

theorem unlockPreviousOverlayBuffer_releases (K : Hdr) (E : Env) (w : World)
    (hvalid : ∀ t, E.validate t = true)
    (hunlock : ∀ t, E.genlock_unlock_buffer t = genlock_status_t.GENLOCK_NO_ERROR)
    (hc : w.ctx.currentOverlayHandle = 0)
    (h1 : w.ctx.previousOverlayHandle ≠ 0)
    (h2 : hasBits (w.heap w.ctx.previousOverlayHandle).flags K.PRIV_FLAGS_HWC_LOCK = true) :
    World.released K (unlockPreviousOverlayBuffer K E w) w.ctx.previousOverlayHandle := by
  rw [unlockPreviousOverlayBuffer_marked K E w hvalid hunlock hc h1 h2]
  refine ⟨clear_self K _ _, ?_⟩
  show Event.genlock_unlock w.ctx.previousOverlayHandle genlock_status_t.GENLOCK_NO_ERROR
    ∈ w.trace ++ [Event.genlock_unlock w.ctx.previousOverlayHandle
        (E.genlock_unlock_buffer w.next.tick)]
  rw [hunlock]
  simp

theorem unlockPreviousOverlayBuffer_mor (K : Hdr) (E : Env) (w : World) (h : Nat)
    (hvalid : ∀ t, E.validate t = true)
    (hunlock : ∀ t, E.genlock_unlock_buffer t = genlock_status_t.GENLOCK_NO_ERROR)
    (hc : w.ctx.currentOverlayHandle = 0)
    (hm : hasBits (w.heap h).flags K.PRIV_FLAGS_HWC_LOCK = true) :
    World.markedOrReleased K (unlockPreviousOverlayBuffer K E w) h := by
  by_cases h1 : w.ctx.previousOverlayHandle = 0
  · rw [unlockPreviousOverlayBuffer_zero K E w h1]
    exact Or.inl hm
  · cases h2 : hasBits (w.heap w.ctx.previousOverlayHandle).flags K.PRIV_FLAGS_HWC_LOCK
    · rw [unlockPreviousOverlayBuffer_unmarked K E w h1 h2]
      exact Or.inl hm
    · by_cases he : h = w.ctx.previousOverlayHandle
      · right
        rw [he]
        exact unlockPreviousOverlayBuffer_releases K E w hvalid hunlock hc h1 h2
      · left
        rw [unlockPreviousOverlayBuffer_marked K E w hvalid hunlock hc h1 h2]
        show hasBits (((genlock_unlock_buffer E w.next w.ctx.previousOverlayHandle).2.modHandleFlags
          w.ctx.previousOverlayHandle
          (fun flags => clearBits flags K.PRIV_FLAGS_HWC_LOCK)).heap h).flags
          K.PRIV_FLAGS_HWC_LOCK = true
        unfold World.modHandleFlags
        simp only [if_neg he]
        exact hm

/-- C10, as amended. In every state reachable from `hwc_device_open` by `hwc_prepare` and
`hwc_set` calls, when the handles validate and `genlock_unlock_buffer` succeeds during
`hwc_device_close`: every buffer the context records (`previousOverlayHandle`,
`currentOverlayHandle`, `previousBypassHandle[0..2]`) that is marked `PRIV_FLAGS_HWC_LOCK`
has, after `hwc_device_close`, its mark cleared and a `genlock_unlock_buffer` issued on
it. -/
theorem hwc_device_close_releases (K : Hdr) (E : Env) (w : World) (h : Nat)
    (hr : Reachable K w)
    (hvalid : ∀ t, E.validate t = true)
    (hunlock : ∀ t, E.genlock_unlock_buffer t = genlock_status_t.GENLOCK_NO_ERROR)
    (hh : h ≠ 0)
    (hrec : h = w.ctx.previousOverlayHandle ∨ h = w.ctx.currentOverlayHandle
      ∨ ∃ i, i < MAX_BYPASS_LAYERS ∧ h = w.ctx.previousBypassHandle.get i)
    (hmark : hasBits (w.heap h).flags K.PRIV_FLAGS_HWC_LOCK = true) :
    (hwc_device_close K E w).1 = 0
    ∧ hasBits ((hwc_device_close K E w).2.heap h).flags K.PRIV_FLAGS_HWC_LOCK = false
    ∧ Event.genlock_unlock h genlock_status_t.GENLOCK_NO_ERROR
        ∈ (hwc_device_close K E w).2.trace := by
  have hc := reachable_current K w hr
  refine ⟨rfl, ?_⟩
  unfold hwc_device_close
  dsimp only
  generalize hw0 : ({ w with module := w.module.map (fun hwcModule =>
    { hwcModule with copybitEngine := false, fbDevice := none }) } : World) = w0
  have e1 : w0.ctx = w.ctx := by rw [← hw0]
  have e2 : w0.heap = w.heap := by rw [← hw0]
  have hc0 : w0.ctx.currentOverlayHandle = 0 := by rw [e1]; exact hc
  have hm0 : hasBits (w0.heap h).flags K.PRIV_FLAGS_HWC_LOCK = true := by rw [e2]; exact hmark
  have key : World.released K
      (unlockPreviousBypassBuffers K E (unlockPreviousOverlayBuffer K E w0)) h := by
    rcases hrec with hp | hcur | ⟨i, hi, hb⟩
    · apply unlockPreviousBypassBuffers_released_keeps K E _ h hvalid hunlock
      have hp0 : h = w0.ctx.previousOverlayHandle := by rw [e1]; exact hp
      rw [hp0]
      apply unlockPreviousOverlayBuffer_releases K E w0 hvalid hunlock hc0
      · rw [← hp0]; exact hh
      · rw [← hp0]; exact hm0
    · rw [hc] at hcur
      exact absurd hcur hh
    · refine unlockPreviousBypassBuffers_releases K E _ i h hi hvalid hunlock ?_ hh
        (unlockPreviousOverlayBuffer_mor K E w0 h hvalid hunlock hc0 hm0)
      rw [(unlockPreviousOverlayBuffer_keepsSlots K E w0).1, e1]
      exact hb.symm
  exact key

/-- Witness of `hwc_device_close_releases`: the device is closed after one frame of video,
whose buffer 7 is recorded in `previousOverlayHandle` and marked. -/
theorem hwc_device_close_releases_witness :
    playedWorld.ctx.previousOverlayHandle = 7
    ∧ hasBits (playedWorld.heap 7).flags refHdr.PRIV_FLAGS_HWC_LOCK = true
    ∧ (hwc_device_close refHdr okEnv playedWorld).1 = 0
    ∧ hasBits ((hwc_device_close refHdr okEnv playedWorld).2.heap 7).flags
        refHdr.PRIV_FLAGS_HWC_LOCK = false
    ∧ Event.genlock_unlock 7 genlock_status_t.GENLOCK_NO_ERROR
        ∈ (hwc_device_close refHdr okEnv playedWorld).2.trace :=
  ⟨by decide, by decide,
    hwc_device_close_releases refHdr okEnv playedWorld 7
      (Reachable.drawn _ _ _ _ _ (Reachable.prepared _ _ _ (Reachable.opened _ _ _ _)))
      (fun _ => rfl) (fun _ => rfl) (by decide) (Or.inl (by decide)) (by decide)⟩

/-- C10, counterexample. The device is closed after one frame of video; buffer 7 is
recorded in `previousOverlayHandle` and marked. (1) When `genlock_unlock_buffer` fails
during `hwc_device_close`, the mark stays on the buffer. (2) When the handle does not
validate, no unlock is issued at all and the mark stays. -/
theorem hwc_device_close_leaves_mark :
    playedWorld.ctx.previousOverlayHandle = 7
    ∧ hasBits (playedWorld.heap 7).flags refHdr.PRIV_FLAGS_HWC_LOCK = true
    ∧ hasBits ((hwc_device_close refHdr failUnlockEnv playedWorld).2.heap 7).flags
        refHdr.PRIV_FLAGS_HWC_LOCK = true
    ∧ hasBits ((hwc_device_close refHdr invalidEnv playedWorld).2.heap 7).flags
        refHdr.PRIV_FLAGS_HWC_LOCK = true
    ∧ (hwc_device_close refHdr invalidEnv playedWorld).2.trace = playedWorld.trace := by
  decide

/-! ## The frame-skip decision on a change of the layer count -/

/-- C19, as amended. When the layer count differs from the one recorded for the previous
frame, `canSkipComposition` returns false; the recorded count is left as it was when
composition is forced or the module composes on the CPU, it becomes the current count when
the frame has one video buffer, and it becomes -1 otherwise. -/
theorem canSkipComposition_count_mismatch (K : Hdr) (w : World) (m : private_hwc_module_t)
    (yuv layerCount notUpdating : Int) (h : layerCount ≠ w.ctx.previousLayerCount) :
    (canSkipComposition K w m yuv layerCount notUpdating).1 = false
      ∧ (canSkipComposition K w m yuv layerCount notUpdating).2.ctx.previousLayerCount
        = (if w.ctx.forceComposition = true ∨ m.compositionType = K.COMPOSITION_TYPE_CPU
            then w.ctx.previousLayerCount
           else if w.ctx.yuvBufferCount = 1 then layerCount else -1) := by
  unfold canSkipComposition
  dsimp only
  split_ifs <;> simp_all

/-- Witness of `canSkipComposition_count_mismatch`: two layers after a frame of one. -/
theorem canSkipComposition_count_mismatch_witness :
    (canSkipComposition refHdr (oneVideoWorld false) refModule 1 2 0).1 = false
      ∧ (canSkipComposition refHdr (oneVideoWorld false) refModule 1 2 0).2.ctx.previousLayerCount
        = 2 :=
  canSkipComposition_count_mismatch refHdr (oneVideoWorld false) refModule 1 2 0 (by decide)

/-- C19, counterexample. With one video buffer, a frame of two layers after a frame of one
leaves `previousLayerCount` at 2, not at -1. -/
theorem canSkipComposition_mismatch_remembers :
    (2 : Int) ≠ (oneVideoWorld false).ctx.previousLayerCount
    ∧ (canSkipComposition refHdr (oneVideoWorld false) refModule 1 2 0).1 = false
    ∧ (canSkipComposition refHdr (oneVideoWorld false) refModule 1 2 0).2.ctx.previousLayerCount
        = 2
    ∧ (canSkipComposition refHdr (oneVideoWorld false) refModule 1 2 0).2.ctx.previousLayerCount
        ≠ -1 := by
  decide

/-! ## The overlay state table -/

/-- C22, as amended. The decision table of `getOverlayState`: without an external display,
1, 2 or 3 bypass layers give the bypass state of that many layers and more than 3 give the
current state; otherwise an RGB format or a WIFI display give the current state; otherwise
HDMI gives the 3D or 2D television states and no external display the panel states. -/
theorem getOverlayState_table (K : Hdr) (E : Env) (w : World) (b : Nat) (fmt : Int) :
    (w.ctx.mHDMIEnabled = external_display_type.EXT_TYPE_NONE ∧ b = 1 →
        (getOverlayState K E w b fmt).1 = eOverlayState.OV_BYPASS_1_LAYER)
    ∧ (w.ctx.mHDMIEnabled = external_display_type.EXT_TYPE_NONE ∧ b = 2 →
        (getOverlayState K E w b fmt).1 = eOverlayState.OV_BYPASS_2_LAYER)
    ∧ (w.ctx.mHDMIEnabled = external_display_type.EXT_TYPE_NONE ∧ b = 3 →
        (getOverlayState K E w b fmt).1 = eOverlayState.OV_BYPASS_3_LAYER)
    ∧ (w.ctx.mHDMIEnabled = external_display_type.EXT_TYPE_NONE ∧ 3 < b →
        (getOverlayState K E w b fmt).1 = w.ovState)
    ∧ (¬(w.ctx.mHDMIEnabled = external_display_type.EXT_TYPE_NONE ∧ 0 < b) →
        K.isRgb (getMdpFormat K fmt) = true →
        (getOverlayState K E w b fmt).1 = w.ovState)
    ∧ (w.ctx.mHDMIEnabled = external_display_type.EXT_TYPE_WIFI →
        (getOverlayState K E w b fmt).1 = w.ovState)
    ∧ (K.isRgb (getMdpFormat K fmt) = false →
        w.ctx.mHDMIEnabled = external_display_type.EXT_TYPE_HDMI →
        getS3DFormat K (toU32 fmt) ≠ 0 →
        (getOverlayState K E w b fmt).1
          = if E.is3DTV w.tick then eOverlayState.OV_3D_VIDEO_ON_3D_TV
            else eOverlayState.OV_3D_VIDEO_ON_2D_PANEL_2D_TV)
    ∧ (K.isRgb (getMdpFormat K fmt) = false →
        w.ctx.mHDMIEnabled = external_display_type.EXT_TYPE_HDMI →
        getS3DFormat K (toU32 fmt) = 0 →
        (getOverlayState K E w b fmt).1
          = if E.supportTrueMirroring w.tick then eOverlayState.OV_2D_TRUE_UI_MIRROR
            else eOverlayState.OV_2D_VIDEO_ON_PANEL_TV)
    ∧ (K.isRgb (getMdpFormat K fmt) = false →
        w.ctx.mHDMIEnabled = external_display_type.EXT_TYPE_NONE → b = 0 →
        getS3DFormat K (toU32 fmt) ≠ 0 →
        (getOverlayState K E w b fmt).1
          = if E.usePanel3D w.tick then eOverlayState.OV_3D_VIDEO_ON_3D_PANEL
            else eOverlayState.OV_3D_VIDEO_ON_2D_PANEL)
    ∧ (K.isRgb (getMdpFormat K fmt) = false →
        w.ctx.mHDMIEnabled = external_display_type.EXT_TYPE_NONE → b = 0 →
        getS3DFormat K (toU32 fmt) = 0 →
        (getOverlayState K E w b fmt).1 = eOverlayState.OV_2D_VIDEO_ON_PANEL) := by
  refine ⟨?_, ?_, ?_, ?_, ?_, ?_, ?_, ?_, ?_, ?_⟩
  · rintro ⟨h1, rfl⟩
    simp [getOverlayState, h1]
  · rintro ⟨h1, rfl⟩
    simp [getOverlayState, h1]
  · rintro ⟨h1, rfl⟩
    simp [getOverlayState, h1]
  · rintro ⟨h1, h2⟩
    have e1 : b ≠ 1 := by omega
    have e2 : b ≠ 2 := by omega
    have e3 : b ≠ 3 := by omega
    have e0 : 0 < b := by omega
    simp [getOverlayState, h1, e1, e2, e3, e0]
  · intro h1 h2
    have h3 : ¬(b > 0 ∧ w.ctx.mHDMIEnabled = external_display_type.EXT_TYPE_NONE) :=
      fun h => h1 ⟨h.2, h.1⟩
    unfold getOverlayState
    dsimp only
    rw [if_neg h3, if_pos h2]
  · intro h1
    unfold getOverlayState
    dsimp only
    rw [h1]
    simp only [reduceCtorEq, and_false, if_false]
    split <;> rfl
  · intro h1 h2 h3
    unfold getOverlayState
    dsimp only
    rw [h2]
    simp only [reduceCtorEq, and_false, if_false, h1, Bool.false_eq_true, ne_eq, h3,
      not_false_eq_true, if_true]
    split <;> rfl
  · intro h1 h2 h3
    unfold getOverlayState
    dsimp only
    rw [h2]
    simp only [reduceCtorEq, and_false, if_false, h1, Bool.false_eq_true, ne_eq, h3,
      not_true_eq_false]
    split <;> rfl
  · intro h1 h2 h3 h4
    subst h3
    unfold getOverlayState
    dsimp only
    rw [h2]
    simp only [gt_iff_lt, lt_self_iff_false, false_and, if_false, h1, Bool.false_eq_true,
      ne_eq, h4, not_false_eq_true, if_true]
    split <;> rfl
  · intro h1 h2 h3 h4
    subst h3
    unfold getOverlayState
    dsimp only
    rw [h2]
    simp only [gt_iff_lt, lt_self_iff_false, false_and, if_false, h1, Bool.false_eq_true,
      ne_eq, h4, not_true_eq_false]

/-- C22, counterexample. With no external display, four bypass layers and a 2D video
format, the state returned is the current state (`OV_CLOSED` on a fresh device), not
`OV_2D_VIDEO_ON_PANEL`. -/
theorem getOverlayState_four_layers :
    (hwc_device_open refModule (uniformHeap 1 0x11 0) true (some 1)).ctx.mHDMIEnabled
        = external_display_type.EXT_TYPE_NONE
    ∧ refHdr.isRgb (getMdpFormat refHdr 0x11) = false
    ∧ getS3DFormat refHdr (toU32 0x11) = 0
    ∧ (getOverlayState refHdr okEnv
        (hwc_device_open refModule (uniformHeap 1 0x11 0) true (some 1)) 4 0x11).1
        = eOverlayState.OV_CLOSED := by
  decide

/-! ## The idle invalidator -/

/-- C25. One run of `IdleInvalidator::threadLoop` is a step function on `mSleepAgain`:
when the flag is set after the sleep it is cleared, the handler is not called and the loop
re-arms (returns true); otherwise the handler is called once, with the registered context,
and the loop stops (returns false). In both cases the flag is false afterwards. -/
theorem threadLoop_step (inv : IdleInvalidator) (marked : Bool) :
    ((inv.mSleepAgain || marked) = true →
        (inv.threadLoop marked).1 = true
        ∧ (inv.threadLoop marked).2.calls
            = inv.calls ++ [InvalidatorEvent.usleep ((inv.mSleepTime * 1000) % 4294967296)])
    ∧ ((inv.mSleepAgain || marked) = false →
        (inv.threadLoop marked).1 = false
        ∧ (inv.threadLoop marked).2.calls
            = inv.calls ++ [InvalidatorEvent.usleep ((inv.mSleepTime * 1000) % 4294967296),
                            InvalidatorEvent.handler inv.mHwcContext])
    ∧ (inv.threadLoop marked).2.mSleepAgain = false
    ∧ (inv.threadLoop marked).2.mHwcContext = inv.mHwcContext
    ∧ (inv.threadLoop marked).2.mSleepTime = inv.mSleepTime := by
  unfold IdleInvalidator.threadLoop IdleInvalidator.markForSleep
  cases marked <;> cases h : inv.mSleepAgain <;> simp [h]

/-! ## The crop clamp -/

theorem clampLeft_spec (F : CropArith) (s : CropState) :
    (clampLeft F s).dst.left = (if s.dst.left < 0 then 0 else s.dst.left)
    ∧ (clampLeft F s).dst.top = s.dst.top
    ∧ (clampLeft F s).dst.right = s.dst.right
    ∧ (clampLeft F s).dst.bottom = s.dst.bottom
    ∧ (0 ≤ s.dst.left → clampLeft F s = s) := by
  unfold clampLeft
  split_ifs with h
  · exact ⟨rfl, rfl, rfl, rfl, fun h2 => absurd h (by omega)⟩
  · exact ⟨rfl, rfl, rfl, rfl, fun _ => rfl⟩

theorem clampRight_spec (F : CropArith) (hw_w : Int) (s : CropState) :
    (clampRight F hw_w s).dst.left = s.dst.left
    ∧ (clampRight F hw_w s).dst.top = s.dst.top
    ∧ (clampRight F hw_w s).dst.right = (if s.dst.right > hw_w then hw_w else s.dst.right)
    ∧ (clampRight F hw_w s).dst.bottom = s.dst.bottom
    ∧ (s.dst.right ≤ hw_w → clampRight F hw_w s = s) := by
  unfold clampRight
  split_ifs with h
  · exact ⟨rfl, rfl, rfl, rfl, fun h2 => absurd h (by omega)⟩
  · exact ⟨rfl, rfl, rfl, rfl, fun _ => rfl⟩

theorem clampTop_spec (F : CropArith) (s : CropState) :
    (clampTop F s).dst.left = s.dst.left
    ∧ (clampTop F s).dst.top = (if s.dst.top < 0 then 0 else s.dst.top)
    ∧ (clampTop F s).dst.right = s.dst.right
    ∧ (clampTop F s).dst.bottom = s.dst.bottom
    ∧ (0 ≤ s.dst.top → clampTop F s = s) := by
  unfold clampTop
  split_ifs with h
  · exact ⟨rfl, rfl, rfl, rfl, fun h2 => absurd h (by omega)⟩
  · exact ⟨rfl, rfl, rfl, rfl, fun _ => rfl⟩

theorem clampBottom_spec (F : CropArith) (hw_h : Int) (s : CropState) :
    (clampBottom F hw_h s).dst.left = s.dst.left
    ∧ (clampBottom F hw_h s).dst.top = s.dst.top
    ∧ (clampBottom F hw_h s).dst.right = s.dst.right
    ∧ (clampBottom F hw_h s).dst.bottom = (if s.dst.bottom > hw_h then hw_h else s.dst.bottom)
    ∧ (s.dst.bottom ≤ hw_h → clampBottom F hw_h s = s) := by
  unfold clampBottom
  split_ifs with h
  · exact ⟨rfl, rfl, rfl, rfl, fun h2 => absurd h (by omega)⟩
  · exact ⟨rfl, rfl, rfl, rfl, fun _ => rfl⟩

/-- C26. After `calculate_crop_rects` the destination lies inside the framebuffer, every
destination edge that was inside is unchanged, and a destination that was inside on all
four edges leaves both rectangles unchanged. -/
theorem calculate_crop_rects_clamps (F : CropArith) (crop dst : hwc_rect_t) (hw_w hw_h : Int) :
    0 ≤ (calculate_crop_rects F crop dst hw_w hw_h).2.left
    ∧ 0 ≤ (calculate_crop_rects F crop dst hw_w hw_h).2.top
    ∧ (calculate_crop_rects F crop dst hw_w hw_h).2.right ≤ hw_w
    ∧ (calculate_crop_rects F crop dst hw_w hw_h).2.bottom ≤ hw_h
    ∧ (0 ≤ dst.left → (calculate_crop_rects F crop dst hw_w hw_h).2.left = dst.left)
    ∧ (0 ≤ dst.top → (calculate_crop_rects F crop dst hw_w hw_h).2.top = dst.top)
    ∧ (dst.right ≤ hw_w → (calculate_crop_rects F crop dst hw_w hw_h).2.right = dst.right)
    ∧ (dst.bottom ≤ hw_h → (calculate_crop_rects F crop dst hw_w hw_h).2.bottom = dst.bottom)
    ∧ (0 ≤ dst.left → 0 ≤ dst.top → dst.right ≤ hw_w → dst.bottom ≤ hw_h →
        calculate_crop_rects F crop dst hw_w hw_h = (crop, dst)) := by
  obtain ⟨s0, hs0, hc0⟩ : ∃ s0 : CropState, s0.dst = dst ∧ s0.crop = crop
      ∧ calculate_crop_rects F crop dst hw_w hw_h
        = ((clampBottom F hw_h (clampTop F (clampRight F hw_w (clampLeft F s0)))).crop,
           (clampBottom F hw_h (clampTop F (clampRight F hw_w (clampLeft F s0)))).dst) :=
    ⟨_, rfl, rfl, rfl⟩
  obtain ⟨hc0, he⟩ := hc0
  rw [he]
  dsimp only
  obtain ⟨a1, a2, a3, a4, a5⟩ := clampLeft_spec F s0
  obtain ⟨b1, b2, b3, b4, b5⟩ := clampRight_spec F hw_w (clampLeft F s0)
  obtain ⟨c1, c2, c3, c4, c5⟩ := clampTop_spec F (clampRight F hw_w (clampLeft F s0))
  obtain ⟨d1, d2, d3, d4, d5⟩ :=
    clampBottom_spec F hw_h (clampTop F (clampRight F hw_w (clampLeft F s0)))
  rw [d1, d2, d3, d4, c1, c2, c3, c4, b1, b2, b3, b4, a1, a2, a3, a4, hs0]
  refine ⟨?_, ?_, ?_, ?_, ?_, ?_, ?_, ?_, ?_⟩
  · split_ifs <;> omega
  · split_ifs <;> omega
  · split_ifs <;> omega
  · split_ifs <;> omega
  · intro h
    rw [if_neg (by omega)]
  · intro h
    rw [if_neg (by omega)]
  · intro h
    rw [if_neg (by omega)]
  · intro h
    rw [if_neg (by omega)]
  · intro h1 h2 h3 h4
    have e1 : clampLeft F s0 = s0 := a5 (by rw [hs0]; exact h1)
    have e2 : clampRight F hw_w (clampLeft F s0) = s0 := by
      rw [e1]
      exact (clampRight_spec F hw_w s0).2.2.2.2 (by rw [hs0]; exact h3)
    have e3 : clampTop F (clampRight F hw_w (clampLeft F s0)) = s0 := by
      rw [e2]
      exact (clampTop_spec F s0).2.2.2.2 (by rw [hs0]; exact h2)
    have e4 : clampBottom F hw_h (clampTop F (clampRight F hw_w (clampLeft F s0))) = s0 := by
      rw [e3]
      exact (clampBottom_spec F hw_h s0).2.2.2.2 (by rw [hs0]; exact h4)
    rw [e4, hs0, hc0]

/-! ## Crop normalisation -/

/-- C30, the code at the failing input. An odd offset with a zero extent: `wh -= 2` wraps
around, and the result `(2, 4294967294)` reaches far beyond the original span. -/
theorem normalizeCrop_zero_extent_wraps :
    normalizeCrop 1 0 = (2, 4294967294)
    ∧ ¬((normalizeCrop 1 0).1 + (normalizeCrop 1 0).2 ≤ 1 + 0) := by
  decide

/-! ## The single-overlay buffer -/

/-- C23, as amended. `unlockPreviousOverlayBuffer` makes the current buffer the previous one
and clears the current one. When the old previous buffer is the current one, the marks of
the buffers are kept. When the old previous buffer validates and is marked,
`genlock_unlock_buffer` is issued on it once, whether or not it is the current buffer, and
its mark is cleared when the unlock succeeds and it is not the current buffer. Otherwise
no call is issued and no mark changes. -/
theorem unlockPreviousOverlayBuffer_rotates (K : Hdr) (E : Env) (w : World) :
    (unlockPreviousOverlayBuffer K E w).ctx.previousOverlayHandle = w.ctx.currentOverlayHandle
    ∧ (unlockPreviousOverlayBuffer K E w).ctx.currentOverlayHandle = 0
    ∧ (w.ctx.previousOverlayHandle = w.ctx.currentOverlayHandle →
        (unlockPreviousOverlayBuffer K E w).heap = w.heap)
    ∧ (w.ctx.previousOverlayHandle ≠ 0 → E.validate w.tick = true →
        hasBits (w.heap w.ctx.previousOverlayHandle).flags K.PRIV_FLAGS_HWC_LOCK = true →
        (unlockPreviousOverlayBuffer K E w).trace
            = w.trace ++ [Event.genlock_unlock w.ctx.previousOverlayHandle
                (E.genlock_unlock_buffer (w.tick + 1))]
          ∧ (E.genlock_unlock_buffer (w.tick + 1) = genlock_status_t.GENLOCK_NO_ERROR →
              w.ctx.previousOverlayHandle ≠ w.ctx.currentOverlayHandle →
              hasBits ((unlockPreviousOverlayBuffer K E w).heap
                w.ctx.previousOverlayHandle).flags K.PRIV_FLAGS_HWC_LOCK = false))
    ∧ (w.ctx.previousOverlayHandle = 0 ∨ E.validate w.tick = false
          ∨ hasBits (w.heap w.ctx.previousOverlayHandle).flags K.PRIV_FLAGS_HWC_LOCK = false →
        (unlockPreviousOverlayBuffer K E w).trace = w.trace
          ∧ (unlockPreviousOverlayBuffer K E w).heap = w.heap) := by
  refine ⟨(unlockPreviousOverlayBuffer_handles K E w).1,
    (unlockPreviousOverlayBuffer_handles K E w).2, ?_, ?_, ?_⟩
  · intro he
    unfold unlockPreviousOverlayBuffer validate isBufferLocked genlock_unlock_buffer
    dsimp only
    split_ifs with h1 h2 h3 h4
    all_goals first
      | rfl
      | exact absurd he h4
  · intro h1 hv hm
    have hb : (w.ctx.previousOverlayHandle != 0) = true := by simpa using h1
    unfold unlockPreviousOverlayBuffer validate isBufferLocked genlock_unlock_buffer
    dsimp only
    rw [if_pos h1]
    simp only [hv, hb, next_heap, hm, Bool.and_self, if_true]
    split_ifs with a b
    · exact ⟨rfl, fun _ _ => clear_self K _ _⟩
    · exact ⟨rfl, fun _ hne => absurd hne b⟩
    · exact ⟨rfl, fun hr _ => absurd hr a⟩
  · intro h
    unfold unlockPreviousOverlayBuffer validate isBufferLocked genlock_unlock_buffer
    dsimp only
    rcases h with h | h | h
    · rw [if_neg (by simp [h])]
      exact ⟨rfl, rfl⟩
    · simp only [h, Bool.false_and, Bool.false_eq_true, if_false]
      split_ifs <;> exact ⟨rfl, rfl⟩
    · simp only [next_heap, h, Bool.and_false, Bool.false_eq_true, if_false]
      split_ifs <;> exact ⟨rfl, rfl⟩

/-- C23, counterexample. When the previous overlay buffer is the current one (buffer 7,
marked), `genlock_unlock_buffer` is issued on it; only its mark is kept. -/
theorem unlockPreviousOverlayBuffer_same_buffer_unlocked :
    sameBufferWorld.ctx.previousOverlayHandle = sameBufferWorld.ctx.currentOverlayHandle
    ∧ (unlockPreviousOverlayBuffer refHdr okEnv sameBufferWorld).trace
        = [Event.genlock_unlock 7 genlock_status_t.GENLOCK_NO_ERROR]
    ∧ hasBits ((unlockPreviousOverlayBuffer refHdr okEnv sameBufferWorld).heap 7).flags
        refHdr.PRIV_FLAGS_HWC_LOCK = true := by
  decide

/-! ## Running the bypass unlock step twice -/

/-- One step of `unlockPreviousBypassBuffers`: the slot is kept or emptied, and the calls
it adds to the log are unlocks of the buffer the slot recorded. -/
theorem unlockPreviousBypassBuffer_step (K : Hdr) (E : Env) (w : World) (i : Nat)
    (hi : i < 3) :
    ((unlockPreviousBypassBuffer K E w i).ctx.previousBypassHandle.get i
        = w.ctx.previousBypassHandle.get i
      ∨ (unlockPreviousBypassBuffer K E w i).ctx.previousBypassHandle.get i = 0)
    ∧ ∃ l, (unlockPreviousBypassBuffer K E w i).trace = w.trace ++ l
        ∧ ∀ e ∈ l, w.ctx.previousBypassHandle.get i ≠ 0
            ∧ ∃ r, e = Event.genlock_unlock (w.ctx.previousBypassHandle.get i) r := by
  unfold unlockPreviousBypassBuffer validate genlock_unlock_buffer
  dsimp only
  split_ifs with h1 h2 h3 h4
  · exact ⟨Or.inl rfl, [], by simp, by simp⟩
  · exact ⟨Or.inr (Slots.get_set_self _ i _ hi), [], by simp, by simp⟩
  · exact ⟨Or.inl rfl, [_], rfl, by
      intro e he
      simp only [List.mem_singleton] at he
      exact ⟨h1, _, he⟩⟩
  · exact ⟨Or.inr (Slots.get_set_self _ i _ hi), [_], rfl, by
      intro e he
      simp only [List.mem_singleton] at he
      exact ⟨h1, _, he⟩⟩
  · exact ⟨Or.inl rfl, [], by simp, by simp⟩

/-- A run of `unlockPreviousBypassBuffers`: empty slots stay empty, every call it logs is an
unlock of a buffer one of the slots recorded, and with three empty slots nothing happens. -/
theorem unlockPreviousBypassBuffers_run (K : Hdr) (E : Env) (w : World) :
    (∀ i, i < 3 → w.ctx.previousBypassHandle.get i = 0 →
        (unlockPreviousBypassBuffers K E w).ctx.previousBypassHandle.get i = 0)
    ∧ (∃ l, (unlockPreviousBypassBuffers K E w).trace = w.trace ++ l
        ∧ ∀ e ∈ l, ∃ i, i < 3 ∧ w.ctx.previousBypassHandle.get i ≠ 0
            ∧ ∃ r, e = Event.genlock_unlock (w.ctx.previousBypassHandle.get i) r)
    ∧ ((∀ i, i < 3 → w.ctx.previousBypassHandle.get i = 0) →
        unlockPreviousBypassBuffers K E w = w) := by
  have hrun : unlockPreviousBypassBuffers K E w
      = unlockPreviousBypassBuffer K E
          (unlockPreviousBypassBuffer K E (unlockPreviousBypassBuffer K E w 0) 1) 2 := rfl
  rw [hrun]
  obtain ⟨a1, l0, a2, a3⟩ := unlockPreviousBypassBuffer_step K E w 0 (by decide)
  obtain ⟨b1, l1, b2, b3⟩ :=
    unlockPreviousBypassBuffer_step K E (unlockPreviousBypassBuffer K E w 0) 1 (by decide)
  obtain ⟨c1, l2, c2, c3⟩ := unlockPreviousBypassBuffer_step K E
    (unlockPreviousBypassBuffer K E (unlockPreviousBypassBuffer K E w 0) 1) 2 (by decide)
  have o01 := unlockPreviousBypassBuffer_slot_other K E w 0 1 (by decide) (by decide)
  have o02 := unlockPreviousBypassBuffer_slot_other K E w 0 2 (by decide) (by decide)
  have o10 := unlockPreviousBypassBuffer_slot_other K E
    (unlockPreviousBypassBuffer K E w 0) 1 0 (by decide) (by decide)
  have o12 := unlockPreviousBypassBuffer_slot_other K E
    (unlockPreviousBypassBuffer K E w 0) 1 2 (by decide) (by decide)
  have o20 := unlockPreviousBypassBuffer_slot_other K E
    (unlockPreviousBypassBuffer K E (unlockPreviousBypassBuffer K E w 0) 1) 2 0
    (by decide) (by decide)
  have o21 := unlockPreviousBypassBuffer_slot_other K E
    (unlockPreviousBypassBuffer K E (unlockPreviousBypassBuffer K E w 0) 1) 2 1
    (by decide) (by decide)
  refine ⟨?_, ?_, ?_⟩
  · intro i hi hz
    interval_cases i
    · rw [o20, o10]
      rcases a1 with a1 | a1
      · rw [a1, hz]
      · exact a1
    · rw [o21]
      rcases b1 with b1 | b1
      · rw [b1, o01, hz]
      · exact b1
    · rcases c1 with c1 | c1
      · rw [c1, o12, o02, hz]
      · exact c1
  · refine ⟨l0 ++ l1 ++ l2, ?_, ?_⟩
    · rw [c2, b2, a2]
      simp only [List.append_assoc]
    · intro e he
      simp only [List.mem_append] at he
      rcases he with (he | he) | he
      · exact ⟨0, by decide, a3 e he⟩
      · have h := b3 e he
        rw [o01] at h
        exact ⟨1, by decide, h⟩
      · have h := c3 e he
        rw [o12, o02] at h
        exact ⟨2, by decide, h⟩
  · intro hz
    rw [unlockPreviousBypassBuffer_zero K E w 0 (hz 0 (by decide)),
      unlockPreviousBypassBuffer_zero K E w 1 (hz 1 (by decide)),
      unlockPreviousBypassBuffer_zero K E w 2 (hz 2 (by decide))]

/-- One step of `unlockPreviousBypassBuffers` and the lock marks: the step calls
`genlock_unlock_buffer` only on the buffer of its slot and only when that buffer carries
`PRIV_FLAGS_HWC_LOCK`; an unlock that does not fail takes the mark off the buffer; and a
buffer without the mark stays without it. -/
theorem unlockPreviousBypassBuffer_marks (K : Hdr) (E : Env) (w : World) (i : Nat) :
    (∃ l, (unlockPreviousBypassBuffer K E w i).trace = w.trace ++ l
        ∧ ∀ e ∈ l, w.ctx.previousBypassHandle.get i ≠ 0
            ∧ hasBits (w.heap (w.ctx.previousBypassHandle.get i)).flags K.PRIV_FLAGS_HWC_LOCK
                = true
            ∧ ∃ r, e = Event.genlock_unlock (w.ctx.previousBypassHandle.get i) r
                ∧ (r ≠ genlock_status_t.GENLOCK_FAILURE →
                    hasBits ((unlockPreviousBypassBuffer K E w i).heap
                      (w.ctx.previousBypassHandle.get i)).flags K.PRIV_FLAGS_HWC_LOCK = false))
    ∧ ∀ h, hasBits (w.heap h).flags K.PRIV_FLAGS_HWC_LOCK = false →
        hasBits ((unlockPreviousBypassBuffer K E w i).heap h).flags K.PRIV_FLAGS_HWC_LOCK
          = false := by
  unfold unlockPreviousBypassBuffer validate genlock_unlock_buffer
  dsimp only
  split_ifs with h1 h2 h3 h4
  · exact ⟨⟨[], by simp, by simp⟩, fun h hh => hh⟩
  · exact ⟨⟨[], by simp, by simp⟩, fun h hh => hh⟩
  · refine ⟨⟨[_], rfl, ?_⟩, fun h hh => hh⟩
    intro e he
    simp only [List.mem_singleton] at he
    exact ⟨h1, h3, _, he, fun hr => absurd h4 hr⟩
  · refine ⟨⟨[_], rfl, ?_⟩, ?_⟩
    · intro e he
      simp only [List.mem_singleton] at he
      refine ⟨h1, h3, _, he, fun _ => ?_⟩
      simp only [World.modHandleFlags, World.modCtx, World.next, World.log, if_true]
      exact hasBits_clearBits _ _
    · intro h hh
      simp only [World.modHandleFlags, World.modCtx, World.next, World.log]
      split_ifs with hq
      · exact hasBits_clearBits _ _
      · exact hh
  · exact ⟨⟨[], by simp, by simp⟩, fun h hh => hh⟩

/-- A run of `unlockPreviousBypassBuffers` and the lock marks: every call it logs is an unlock
of a buffer that a slot recorded and that carried `PRIV_FLAGS_HWC_LOCK` when the run began;
a buffer on which it issued an unlock that did not fail has lost the mark when the run
ends; and a buffer without the mark stays without it. -/
theorem unlockPreviousBypassBuffers_marks (K : Hdr) (E : Env) (w : World) :
    (∃ l, (unlockPreviousBypassBuffers K E w).trace = w.trace ++ l
        ∧ (∀ e ∈ l, ∃ i, i < 3 ∧ w.ctx.previousBypassHandle.get i ≠ 0
            ∧ hasBits (w.heap (w.ctx.previousBypassHandle.get i)).flags K.PRIV_FLAGS_HWC_LOCK
                = true
            ∧ ∃ r, e = Event.genlock_unlock (w.ctx.previousBypassHandle.get i) r)
        ∧ ∀ h r, Event.genlock_unlock h r ∈ l → r ≠ genlock_status_t.GENLOCK_FAILURE →
            hasBits ((unlockPreviousBypassBuffers K E w).heap h).flags K.PRIV_FLAGS_HWC_LOCK
              = false)
    ∧ ∀ h, hasBits (w.heap h).flags K.PRIV_FLAGS_HWC_LOCK = false →
        hasBits ((unlockPreviousBypassBuffers K E w).heap h).flags K.PRIV_FLAGS_HWC_LOCK
          = false := by
  have hrun : unlockPreviousBypassBuffers K E w
      = unlockPreviousBypassBuffer K E
          (unlockPreviousBypassBuffer K E (unlockPreviousBypassBuffer K E w 0) 1) 2 := rfl
  rw [hrun]
  obtain ⟨⟨l0, a2, a3⟩, a4⟩ := unlockPreviousBypassBuffer_marks K E w 0
  obtain ⟨⟨l1, b2, b3⟩, b4⟩ :=
    unlockPreviousBypassBuffer_marks K E (unlockPreviousBypassBuffer K E w 0) 1
  obtain ⟨⟨l2, c2, c3⟩, c4⟩ := unlockPreviousBypassBuffer_marks K E
    (unlockPreviousBypassBuffer K E (unlockPreviousBypassBuffer K E w 0) 1) 2
  have o01 := unlockPreviousBypassBuffer_slot_other K E w 0 1 (by decide) (by decide)
  have o02 := unlockPreviousBypassBuffer_slot_other K E w 0 2 (by decide) (by decide)
  have o12 := unlockPreviousBypassBuffer_slot_other K E
    (unlockPreviousBypassBuffer K E w 0) 1 2 (by decide) (by decide)
  have mark : ∀ (u : World) (j : Nat) (h : Nat),
      hasBits ((unlockPreviousBypassBuffer K E u j).heap h).flags K.PRIV_FLAGS_HWC_LOCK = true →
      hasBits (u.heap h).flags K.PRIV_FLAGS_HWC_LOCK = true := by
    intro u j h hh
    by_contra hc
    rw [Bool.not_eq_true] at hc
    rw [(unlockPreviousBypassBuffer_marks K E u j).2 h hc] at hh
    exact Bool.noConfusion hh
  refine ⟨⟨l0 ++ l1 ++ l2, ?_, ?_, ?_⟩, fun h hh => c4 h (b4 h (a4 h hh))⟩
  · rw [c2, b2, a2]
    simp only [List.append_assoc]
  · intro e he
    simp only [List.mem_append] at he
    rcases he with (he | he) | he
    · obtain ⟨p, q, r, hr, _⟩ := a3 e he
      exact ⟨0, by decide, p, q, r, hr⟩
    · obtain ⟨p, q, r, hr, _⟩ := b3 e he
      rw [o01] at p q hr
      exact ⟨1, by decide, p, mark _ _ _ q, r, hr⟩
    · obtain ⟨p, q, r, hr, _⟩ := c3 e he
      rw [o12, o02] at p q hr
      exact ⟨2, by decide, p, mark _ _ _ (mark _ _ _ q), r, hr⟩
  · intro h r he hr
    simp only [List.mem_append] at he
    rcases he with (he | he) | he
    · obtain ⟨_, _, r', hr', hclr⟩ := a3 _ he
      injection hr' with e1 e2
      subst e1 e2
      exact c4 _ (b4 _ (hclr hr))
    · obtain ⟨_, _, r', hr', hclr⟩ := b3 _ he
      injection hr' with e1 e2
      subst e1 e2
      exact c4 _ (hclr hr)
    · obtain ⟨_, _, r', hr', hclr⟩ := c3 _ he
      injection hr' with e1 e2
      subst e1 e2
      exact hclr hr

/-- C24, as amended. When `unlockPreviousBypassBuffers` runs a second time directly after
a first run: a slot the first run left empty stays empty; every `genlock_unlock_buffer` the
second run issues is on a buffer that a slot still records after the first run and that
still carries `PRIV_FLAGS_HWC_LOCK` after the first run; a buffer on which the first run
issued an unlock that did not fail is without the mark after the first run and gets no
`genlock_unlock_buffer` call in the second run, whichever slots record it; and when the
first run emptied all three slots the second run changes nothing at all. -/
theorem unlockPreviousBypassBuffers_twice (K : Hdr) (E : Env) (w : World) :
    (∀ i, i < 3 → (unlockPreviousBypassBuffers K E w).ctx.previousBypassHandle.get i = 0 →
        (unlockPreviousBypassBuffers K E
          (unlockPreviousBypassBuffers K E w)).ctx.previousBypassHandle.get i = 0)
    ∧ (∃ l1 l2, (unlockPreviousBypassBuffers K E w).trace = w.trace ++ l1
        ∧ (unlockPreviousBypassBuffers K E (unlockPreviousBypassBuffers K E w)).trace
          = (unlockPreviousBypassBuffers K E w).trace ++ l2
        ∧ (∀ e ∈ l2, ∃ i, i < 3
            ∧ (unlockPreviousBypassBuffers K E w).ctx.previousBypassHandle.get i ≠ 0
            ∧ hasBits ((unlockPreviousBypassBuffers K E w).heap
                ((unlockPreviousBypassBuffers K E w).ctx.previousBypassHandle.get i)).flags
                K.PRIV_FLAGS_HWC_LOCK = true
            ∧ ∃ r, e = Event.genlock_unlock
                ((unlockPreviousBypassBuffers K E w).ctx.previousBypassHandle.get i) r)
        ∧ ∀ h r, Event.genlock_unlock h r ∈ l1 → r ≠ genlock_status_t.GENLOCK_FAILURE →
            hasBits ((unlockPreviousBypassBuffers K E w).heap h).flags K.PRIV_FLAGS_HWC_LOCK
              = false
            ∧ ∀ r2, Event.genlock_unlock h r2 ∉ l2)
    ∧ ((∀ i, i < 3 → (unlockPreviousBypassBuffers K E w).ctx.previousBypassHandle.get i = 0) →
        unlockPreviousBypassBuffers K E (unlockPreviousBypassBuffers K E w)
          = unlockPreviousBypassBuffers K E w) := by
  obtain ⟨⟨l1, t1, _, u1⟩, _⟩ := unlockPreviousBypassBuffers_marks K E w
  obtain ⟨⟨l2, t2, m2, _⟩, _⟩ :=
    unlockPreviousBypassBuffers_marks K E (unlockPreviousBypassBuffers K E w)
  refine ⟨(unlockPreviousBypassBuffers_run K E (unlockPreviousBypassBuffers K E w)).1,
    ⟨l1, l2, t1, t2, m2, ?_⟩,
    (unlockPreviousBypassBuffers_run K E (unlockPreviousBypassBuffers K E w)).2.2⟩
  intro h r he hr
  refine ⟨u1 h r he hr, ?_⟩
  intro r2 he2
  obtain ⟨i, _, _, q, r3, hr3⟩ := m2 _ he2
  injection hr3 with e1 e2
  rw [← e1, u1 h r he hr] at q
  exact Bool.noConfusion q

/-- C24, counterexample. A slot records the marked buffer 9 and the first unlock fails: the
first run keeps the slot, the second run unlocks the buffer and empties the slot, so the
context after two runs is not the context after one. -/
theorem unlockPreviousBypassBuffers_retry :
    (unlockPreviousBypassBuffers refHdr failOnceEnv
        (staleSlotWorld 0x200)).ctx.previousBypassHandle.get 2 = 9
    ∧ (unlockPreviousBypassBuffers refHdr failOnceEnv
        (unlockPreviousBypassBuffers refHdr failOnceEnv
          (staleSlotWorld 0x200))).ctx.previousBypassHandle.get 2 = 0
    ∧ (unlockPreviousBypassBuffers refHdr failOnceEnv
        (unlockPreviousBypassBuffers refHdr failOnceEnv (staleSlotWorld 0x200))).ctx
      ≠ (unlockPreviousBypassBuffers refHdr failOnceEnv (staleSlotWorld 0x200)).ctx := by
  decide

/-! ## Lock balance of the blit path -/

theorem unlock_after_lock (E : Env) (w : World) (hnd : Nat) (w1 : World)
    (h : w1.trace = w.trace ++ [Event.genlock_lock hnd (E.genlock_lock_buffer w.tick)]) :
    ∃ r, (genlock_unlock_buffer E w1 hnd).2.trace
      = w.trace ++ [Event.genlock_lock hnd (E.genlock_lock_buffer w.tick),
                    Event.genlock_unlock hnd r] :=
  ⟨E.genlock_unlock_buffer w1.tick, by simp [genlock_unlock_buffer, h]⟩

/-- The blit on a module without a copybit engine: the buffer is locked, the render buffer
is obtained, and the call stops at the dereference of the engine with the lock held. -/
theorem drawLayerUsingCopybit_null_engine :
    (drawLayerUsingCopybit refHdr okEnv
        (hwc_device_open { refModule with copybitEngine := false } (uniformHeap 0 1 0) true
          (some 1)) (mkLayer 7 0)).2.1.trace
      = [Event.genlock_lock 7 genlock_status_t.GENLOCK_NO_ERROR, Event.nullDereference] := by
  decide

/-! ## The overlay status after a frame -/

theorem unlockPreviousOverlayBuffer_status (K : Hdr) (E : Env) (w : World) :
    (unlockPreviousOverlayBuffer K E w).ctx.hwcOverlayStatus = w.ctx.hwcOverlayStatus := by
  unfold unlockPreviousOverlayBuffer validate genlock_unlock_buffer
  dsimp only
  repeat' split
  all_goals rfl

theorem hwc_closeOverlayChannels_status (K : Hdr) (w : World) :
    (hwc_closeOverlayChannels K w).ctx.hwcOverlayStatus
      = (if w.ctx.hwcOverlayStatus = eHWCOverlayStatus.HWC_OVERLAY_PREPARE_TO_CLOSE
          then eHWCOverlayStatus.HWC_OVERLAY_CLOSED else w.ctx.hwcOverlayStatus) := by
  unfold hwc_closeOverlayChannels
  dsimp only
  split <;> rfl

theorem setHDMIStage_status (K : Hdr) (w : World) :
    (setHDMIStage K w).ctx.hwcOverlayStatus = w.ctx.hwcOverlayStatus := by
  unfold setHDMIStage handleHDMIStateChange
  dsimp only
  repeat' split
  all_goals rfl

/-- The overlay status that the tail of `hwc_set` finds is the one the draw stage left. -/
theorem setTail_status (K : Hdr) (E : Env) (w : World) (list : Option hwc_layer_list_t)
    (dpy sur skip : Bool) :
    (setHDMIStage K (setSwapStage K E (closeExtraPipes K E (setBypassStored K E w list))
      dpy sur skip).2).ctx.hwcOverlayStatus = w.ctx.hwcOverlayStatus := by
  rw [setHDMIStage_status, setSwapStage_ctx,
    noBypass_hwcOverlayStatus (closeExtraPipes_noBypass K E _),
    noBypass_hwcOverlayStatus (setBypassStored_noBypass K E _ _)]

/-- C27. After `hwc_set` with a valid module the overlay status is `HWC_OVERLAY_OPEN` or
`HWC_OVERLAY_CLOSED`, never `HWC_OVERLAY_PREPARE_TO_CLOSE`; with a `NULL` list it is
`HWC_OVERLAY_CLOSED`. -/
theorem hwc_set_overlay_status (K : Hdr) (E : Env) (w : World) (m : private_hwc_module_t)
    (dpy sur : Bool) (list : Option hwc_layer_list_t) (hm : w.module = some m) :
    ((hwc_set K E w dpy sur list).2.1.ctx.hwcOverlayStatus = eHWCOverlayStatus.HWC_OVERLAY_OPEN
      ∨ (hwc_set K E w dpy sur list).2.1.ctx.hwcOverlayStatus
          = eHWCOverlayStatus.HWC_OVERLAY_CLOSED)
    ∧ (hwc_set K E w dpy sur list).2.1.ctx.hwcOverlayStatus
        ≠ eHWCOverlayStatus.HWC_OVERLAY_PREPARE_TO_CLOSE
    ∧ (list = none →
        (hwc_set K E w dpy sur list).2.1.ctx.hwcOverlayStatus
          = eHWCOverlayStatus.HWC_OVERLAY_CLOSED) := by
  rw [hwc_set_eq K E w m dpy sur list hm]
  dsimp only
  rw [unlockPreviousOverlayBuffer_status, hwc_closeOverlayChannels_status, setTail_status]
  refine ⟨?_, ?_, ?_⟩
  · split_ifs with h
    · exact Or.inr rfl
    · cases hs : (setDrawStage K E w list).1.ctx.hwcOverlayStatus
      · exact Or.inl rfl
      · exact absurd hs h
      · exact Or.inr rfl
  · split_ifs with h
    · exact fun e => by cases e
    · exact h
  · intro hl
    subst hl
    unfold setDrawStage
    dsimp only
    split_ifs with h1 h2 h3
    · rfl
    · exact absurd rfl h2
    · rfl
    · rw [modCtx_ctx] at h1 h3
      cases hs : w.ctx.hwcOverlayStatus
      · exact absurd hs h1
      · exact absurd hs h3
      · exact hs

/-- Witness of `hwc_set_overlay_status`: a suspended device whose overlay was open. -/
theorem hwc_set_overlay_status_witness :
    ((hwc_set refHdr okEnv (openOverlayWorld (uniformHeap 1 0x11 0)) true true
          none).2.1.ctx.hwcOverlayStatus = eHWCOverlayStatus.HWC_OVERLAY_OPEN
      ∨ (hwc_set refHdr okEnv (openOverlayWorld (uniformHeap 1 0x11 0)) true true
          none).2.1.ctx.hwcOverlayStatus = eHWCOverlayStatus.HWC_OVERLAY_CLOSED)
    ∧ (hwc_set refHdr okEnv (openOverlayWorld (uniformHeap 1 0x11 0)) true true
          none).2.1.ctx.hwcOverlayStatus ≠ eHWCOverlayStatus.HWC_OVERLAY_PREPARE_TO_CLOSE
    ∧ ((none : Option hwc_layer_list_t) = none →
        (hwc_set refHdr okEnv (openOverlayWorld (uniformHeap 1 0x11 0)) true true
          none).2.1.ctx.hwcOverlayStatus = eHWCOverlayStatus.HWC_OVERLAY_CLOSED) :=
  hwc_set_overlay_status refHdr okEnv (openOverlayWorld (uniformHeap 1 0x11 0)) refModule
    true true none rfl

/-! ## Eligibility for composition bypass -/

/-- C20. `isBypassDoable` returns true exactly when: bypass is enabled in the module, the
list has a layer, no external display is attached or pending, composition is not forced,
no layer has a transform bit of `FINAL_TRANSFORM_MASK`, no layer is flagged
`HWC_LAYER_ASYNCHRONOUS` while the swap interval (as read from the property on the way) is
positive, there is no video buffer, the overlay is closed, and the layers fit the pipes.
The fields `mHDMIEnabled` and `pendingHDMI` are written in the `HDMI_DUAL_DISPLAY` build
only, which is also the build that tests them: without the switch they keep the values
`hwc_device_open` gave them (hypothesis `hbuild`). -/
theorem isBypassDoable_iff (K : Hdr) (E : Env) (w : World) (m : private_hwc_module_t)
    (yuvCount : Int) (list : hwc_layer_list_t)
    (hbuild : K.HDMI_DUAL_DISPLAY = false →
      w.ctx.mHDMIEnabled = external_display_type.EXT_TYPE_NONE ∧ w.ctx.pendingHDMI = false) :
    (isBypassDoable K E w m yuvCount list).1 = true
      ↔ (m.isBypassEnabled = true
          ∧ 1 ≤ list.numHwLayers
          ∧ (w.ctx.mHDMIEnabled = external_display_type.EXT_TYPE_NONE
              ∧ w.ctx.pendingHDMI = false)
          ∧ w.ctx.forceComposition = false
          ∧ (∀ layer ∈ list.hwLayers, hasBits layer.transform K.FINAL_TRANSFORM_MASK = false)
          ∧ (∀ layer ∈ list.hwLayers,
              ¬(hasBits layer.flags K.HWC_LAYER_ASYNCHRONOUS = true
                ∧ (E.swapintervalProperty w.tick).getD w.ctx.swapInterval > 0))
          ∧ yuvCount = 0
          ∧ w.ctx.hwcOverlayStatus = eHWCOverlayStatus.HWC_OVERLAY_CLOSED
          ∧ list.numHwLayers ≤ MAX_BYPASS_LAYERS) := by
  have hsw : (match E.swapintervalProperty w.tick with
      | some v => (w.modCtx (fun c => { c with swapInterval := v })).next
      | none => w.next).ctx.swapInterval
      = (E.swapintervalProperty w.tick).getD w.ctx.swapInterval := by
    cases E.swapintervalProperty w.tick <;> rfl
  have hst : (match E.swapintervalProperty w.tick with
      | some v => (w.modCtx (fun c => { c with swapInterval := v })).next
      | none => w.next).ctx.hwcOverlayStatus = w.ctx.hwcOverlayStatus := by
    cases E.swapintervalProperty w.tick <;> rfl
  unfold isBypassDoable
  dsimp only
  split_ifs with h1 h2 h3 h4 h5
  · simp [h1]
  · simp only [Bool.false_eq_true, false_iff, not_and]
    intro _ h
    omega
  · simp only [Bool.false_eq_true, false_iff, not_and]
    intro _ _ h
    rcases h3.2 with h6 | h6
    · exact absurd h.1 h6
    · simp [h.2] at h6
  · simp [h4]
  · simp only [Bool.false_eq_true, false_iff, not_and]
    intro _ _ _ _ ht ha
    rw [List.any_eq_true] at h5
    obtain ⟨layer, hl, hc⟩ := h5
    rw [hsw] at hc
    simp only [Bool.or_eq_true, Bool.and_eq_true, decide_eq_true_eq] at hc
    rcases hc with hc | hc
    · rw [ht layer hl] at hc
      cases hc
    · exact absurd hc.2 (ha layer hl hc.1)
  · rw [hst]
    simp only [Bool.and_eq_true, decide_eq_true_eq]
    have h5b : ∀ layer ∈ list.hwLayers,
        hasBits layer.transform K.FINAL_TRANSFORM_MASK = false
        ∧ ¬(hasBits layer.flags K.HWC_LAYER_ASYNCHRONOUS = true
            ∧ (E.swapintervalProperty w.tick).getD w.ctx.swapInterval > 0) := by
      intro layer hl
      have hn : ¬((hasBits layer.transform K.FINAL_TRANSFORM_MASK
          || (hasBits layer.flags K.HWC_LAYER_ASYNCHRONOUS
              && decide ((match E.swapintervalProperty w.tick with
                | some v => (w.modCtx (fun c => { c with swapInterval := v })).next
                | none => w.next).ctx.swapInterval > 0))) = true) := by
        intro hc
        exact h5 (List.any_eq_true.mpr ⟨layer, hl, hc⟩)
      rw [hsw] at hn
      simp only [Bool.or_eq_true, Bool.and_eq_true, decide_eq_true_eq, not_or] at hn
      refine ⟨?_, hn.2⟩
      cases hb : hasBits layer.transform K.FINAL_TRANSFORM_MASK
      · rfl
      · exact absurd hb hn.1
    have hext : w.ctx.mHDMIEnabled = external_display_type.EXT_TYPE_NONE
        ∧ w.ctx.pendingHDMI = false := by
      cases hk : K.HDMI_DUAL_DISPLAY
      · exact hbuild hk
      · have h3b : ¬(w.ctx.mHDMIEnabled ≠ external_display_type.EXT_TYPE_NONE
            ∨ w.ctx.pendingHDMI = true) := fun h => h3 ⟨hk, h⟩
        simp only [not_or, ne_eq, not_not, Bool.not_eq_true] at h3b
        exact h3b
    have hen : m.isBypassEnabled = true := by
      cases hb : m.isBypassEnabled
      · exact absurd hb h1
      · rfl
    have hfc : w.ctx.forceComposition = false := by
      cases hb : w.ctx.forceComposition
      · rfl
      · exact absurd hb h4
    constructor
    · rintro ⟨⟨a, b⟩, c⟩
      exact ⟨hen, by omega, hext, hfc, fun l hl => (h5b l hl).1, fun l hl => (h5b l hl).2,
        a, b, c⟩
    · rintro ⟨_, _, _, _, _, _, a, b, c⟩
      exact ⟨⟨a, b⟩, c⟩

/-- Witness of `isBypassDoable_iff`: one UI layer on a fresh device. -/
theorem isBypassDoable_iff_witness :
    (isBypassDoable refHdr okEnv (hwc_device_open refModule (uniformHeap 0 1 0) true (some 1))
        refModule 0 { flags := 0, hwLayers := [mkLayer 7 0] }).1 = true :=
  (isBypassDoable_iff refHdr okEnv (hwc_device_open refModule (uniformHeap 0 1 0) true (some 1))
    refModule 0 { flags := 0, hwLayers := [mkLayer 7 0] } (fun _ => ⟨rfl, rfl⟩)).mpr
    (by decide)

/-! ## The code at failing inputs -/

/-- C12, the code at the failing input. After `hwc_device_open`, a frame of three UI layers
that goes through the bypass, and `hwc_prepare` on a next frame of one UI layer, the three
slots are bound to the layers 0, 1, 2 while the frame has one layer: three bound slots for
one layer, and the slots 1 and 2 hold indices outside the list. -/
theorem reachable_stale_layerindex :
    Reachable refHdr staleIndexWorld
    ∧ staleIndexWorld.ctx.numHwLayers = 1
    ∧ staleIndexWorld.ctx.layerindex = { s0 := 0, s1 := 1, s2 := 2 } :=
  ⟨Reachable.prepared okEnv bypassedWorld (some oneLayerList)
      (Reachable.drawn okEnv _ true true _
        (Reachable.prepared okEnv freshWorld (some threeLayerList)
          (Reachable.opened refModule (uniformHeap 0 1 0) true (some 1)))),
    by decide, by decide⟩

/-- C13, the code at the failing input. A frame of one video layer for which `setSource`
fails in `prepareOverlay`: on return from `hwc_prepare` the overlay state is still
`OV_2D_VIDEO_ON_PANEL`, and `setOverlayState(OV_CLOSED)` has not been applied. -/
theorem hwc_prepare_video_failure_keeps_state :
    Event.setSource eDest.OV_PIPE_ALL false true false
      ∈ (hwc_prepare refHdr failOvEnv
          (hwc_device_open refModule (uniformHeap 1 0x11 0) true (some 1))
          (some oneLayerList)).2.1.trace
    ∧ Event.setState eOverlayState.OV_CLOSED
      ∉ (hwc_prepare refHdr failOvEnv
          (hwc_device_open refModule (uniformHeap 1 0x11 0) true (some 1))
          (some oneLayerList)).2.1.trace
    ∧ (hwc_prepare refHdr failOvEnv
          (hwc_device_open refModule (uniformHeap 1 0x11 0) true (some 1))
          (some oneLayerList)).2.1.ovState = eOverlayState.OV_2D_VIDEO_ON_PANEL := by
  decide

/-- C17, the code at the failing input. A stereo UI layer that arrives classified
`HWC_USE_OVERLAY` and whose `prepareOverlay` fails, on a module without blit composition:
on return the layer is still `HWC_USE_OVERLAY`, not `HWC_FRAMEBUFFER`. -/
theorem hwc_prepare_stereo_failure_keeps_type :
    getLayerS3DFormat refHdr (hwc_device_open refModule stereoHeap true (some 1))
        (mkLayer 8 0) ≠ 0
    ∧ Event.setSource eDest.OV_PIPE_ALL false true false
      ∈ (hwc_prepare refHdr failOvEnv (hwc_device_open refModule stereoHeap true (some 1))
          (some stereoList)).2.1.trace
    ∧ (hwc_prepare refHdr failOvEnv (hwc_device_open refModule stereoHeap true (some 1))
          (some stereoList)).2.2.map (fun l => l.hwLayers.map hwc_layer_t.compositionType)
        = some [refHdr.HWC_USE_OVERLAY] := by
  decide

/-- C18, the code at the failing input. A frame of two video layers, the second flagged
`HWC_DO_NOT_USE_OVERLAY`: one video buffer is counted, both layers take the video branch,
`prepareOverlay` programs the pipes twice and both layers end `HWC_USE_OVERLAY`. -/
theorem hwc_prepare_two_video_layers_configured :
    (hwc_prepare refHdr okEnv (hwc_device_open refModule (uniformHeap 1 0x11 0) true (some 1))
        (some twoVideoList)).2.1.ctx.yuvBufferCount = 1
    ∧ ((hwc_prepare refHdr okEnv
          (hwc_device_open refModule (uniformHeap 1 0x11 0) true (some 1))
          (some twoVideoList)).2.1.trace.countP isSetSource) = 2
    ∧ (hwc_prepare refHdr okEnv (hwc_device_open refModule (uniformHeap 1 0x11 0) true (some 1))
          (some twoVideoList)).2.2.map (fun l => l.hwLayers.map hwc_layer_t.compositionType)
        = some [refHdr.HWC_USE_OVERLAY, refHdr.HWC_USE_OVERLAY] := by
  decide

/-- C21, the code at the failing input. A frame of one UI layer that goes through the
bypass: its pipe is the one of z-order 0 and the last one configured, and `setSource` gets
pipe arguments without the vsync wait and without the foreground flag. -/
theorem hwc_prepare_bypass_pipe_arguments :
    (hwc_prepare refHdr okEnv freshWorld (some oneLayerList)).2.1.ctx.bypassState
        = BypassState.BYPASS_ON
    ∧ (hwc_prepare refHdr okEnv freshWorld (some oneLayerList)).2.1.trace
        = [Event.setState eOverlayState.OV_BYPASS_1_LAYER,
           Event.setSource eDest.OV_PIPE0 false false true] := by
  decide

/-! ## Layers below a skip layer -/

theorem markForGPUComp_below (K : Hdr) (w : World) (list : hwc_layer_list_t)
    (limit j : Nat) (l : hwc_layer_t) (hl : list.hwLayers[j]? = some l) (hj : j < limit)
    (h3 : getLayerS3DFormat K w l = 0) :
    (markForGPUComp K w list limit).hwLayers[j]?
      = some { l with compositionType := K.HWC_FRAMEBUFFER,
                      hints := clearBits l.hints K.HWC_HINT_CLEAR_FB } := by
  unfold markForGPUComp
  dsimp only
  have hlen : j < list.hwLayers.length := by
    rcases Nat.lt_or_ge j list.hwLayers.length with h | h
    · exact h
    · rw [List.getElem?_eq_none h] at hl; cases hl
  rw [List.getElem?_append_left (by simp [hj, hlen])]
  rw [List.getElem?_map, List.getElem?_take_of_lt hj, hl]
  dsimp only [Option.map]
  rw [if_neg (by simp [h3])]

/-- The skip branch of the loop sends every layer below the skip layer that has no stereo
format to the framebuffer, with the clear hint off. -/
theorem classifyLayer_below_skip (K : Hdr) (E : Env) (m : private_hwc_module_t)
    (useCopybit s3d : Bool) (f : Frame) (i j : Nat) (layer lj : hwc_layer_t)
    (hl : f.list.hwLayers[i]? = some layer) (hs : isSkipLayer K layer = true)
    (hji : j < i) (hlj : f.list.hwLayers[j]? = some lj)
    (h3 : getLayerS3DFormat K f.w lj = 0) :
    ∃ l', (classifyLayer K E m useCopybit s3d f i).list.hwLayers[j]? = some l'
      ∧ l'.compositionType = K.HWC_FRAMEBUFFER
      ∧ hasBits l'.hints K.HWC_HINT_CLEAR_FB = false := by
  have hE : classifyLayer K E m useCopybit s3d f i = classifySkipLayer K s3d f i layer := by
    unfold classifyLayer
    rw [hl]
    dsimp only
    rw [if_pos hs]
  rw [hE]
  unfold classifySkipLayer
  dsimp only
  have hset : ∀ x, (f.list.setLayer i x).hwLayers[j]? = some lj := by
    intro x
    unfold hwc_layer_list_t.setLayer
    dsimp only
    rw [List.getElem?_set_ne (Nat.ne_of_gt hji)]
    exact hlj
  refine ⟨_, markForGPUComp_below K _ _ i j lj (hset _) hji ?_, rfl, hasBits_clearBits _ _⟩
  rw [← h3]
  apply getLayerS3DFormat_congr K _ rfl
  split_ifs <;> rfl

/-- The per-layer loop on a list whose layer `i` is flagged skip: a layer below it that has
no stereo format ends in the framebuffer with the clear hint off. -/
theorem classifyLoop_below_skip (K : Hdr) (E : Env) (m : private_hwc_module_t)
    (useCopybit s3d : Bool) (n : Nat) (f : Frame) (i j : Nat) (layer lj : hwc_layer_t)
    (hi : i < n) (hl : f.list.hwLayers[i]? = some layer) (hs : isSkipLayer K layer = true)
    (hji : j < i) (hlj : f.list.hwLayers[j]? = some lj)
    (h3 : getLayerS3DFormat K f.w lj = 0) :
    ∃ l', (classifyLoop K E m useCopybit s3d n f).list.hwLayers[j]? = some l'
      ∧ l'.compositionType = K.HWC_FRAMEBUFFER
      ∧ hasBits l'.hints K.HWC_HINT_CLEAR_FB = false := by
  have inv := foldl_range_inv (classifyLayer K E m useCopybit s3d)
    (fun k (g : Frame) =>
      g.list.hwLayers.map hwc_layer_t.input = f.list.hwLayers.map hwc_layer_t.input
      ∧ g.w.buffers = f.w.buffers
      ∧ (i < k → ∃ l', g.list.hwLayers[j]? = some l'
            ∧ l'.compositionType = K.HWC_FRAMEBUFFER
            ∧ hasBits l'.hints K.HWC_HINT_CLEAR_FB = false))
    n f ⟨rfl, rfl, fun h => absurd h (Nat.not_lt_zero i)⟩ ?_
  · exact inv.2.2 hi
  · intro k g _ ⟨hin, hbuf, hpost⟩
    refine ⟨(classifyLayer_input K E m _ _ g k).trans hin,
      (classifyLayer_buffers K E m _ _ g k).trans hbuf, fun hik => ?_⟩
    rcases Nat.lt_or_ge i k with hlt | hge
    · obtain ⟨l', hl', hc1, hc2⟩ := hpost hlt
      exact classifyLayer_keeps_framebuffer K E m _ _ g j k (by omega) l' hl' hc1 hc2
    · have hk : k = i := by omega
      subst hk
      obtain ⟨x', hx', hxi⟩ := getElem?_input_of_map hin k layer hl
      obtain ⟨y', hy', hyi⟩ := getElem?_input_of_map hin j lj hlj
      have hsx : isSkipLayer K x' = true := by
        rw [isSkipLayer_of_input K hxi]; exact hs
      refine classifyLayer_below_skip K E m useCopybit s3d g k j x' y' hx' hsx hji hy' ?_
      rw [getLayerS3DFormat_congr K hbuf hyi]
      exact h3

/-- C28. A call of `hwc_prepare` on a device with a valid module and on a list
with a layer flagged `HWC_SKIP_LAYER` at index `i`: every layer at an index `j < i` that
has no S3D input format has composition type `HWC_FRAMEBUFFER` and the hint
`HWC_HINT_CLEAR_FB` off on return, however the loop classified it first. -/
theorem hwc_prepare_below_skip_layer (K : Hdr) (E : Env) (w : World)
    (m : private_hwc_module_t) (list : hwc_layer_list_t) (i j : Nat) (layer lj : hwc_layer_t)
    (hm : w.module = some m)
    (hl : list.hwLayers[i]? = some layer) (hs : isSkipLayer K layer = true)
    (hji : j < i) (hlj : list.hwLayers[j]? = some lj)
    (h3 : getLayerS3DFormat K w lj = 0) :
    ∃ list' l', (hwc_prepare K E w (some list)).2.2 = some list'
      ∧ list'.hwLayers[j]? = some l'
      ∧ l'.compositionType = K.HWC_FRAMEBUFFER
      ∧ hasBits l'.hints K.HWC_HINT_CLEAR_FB = false := by
  have hlen := getElem?_lt_numHwLayers list i layer hl
  generalize hw0 : w.modCtx (fun c => { c with currentOverlayHandle := 0 }) = w0
  have hm0 : w0.module = some m := by rw [← hw0]; exact hm
  have hb0 : w0.buffers = w.buffers := by rw [← hw0]; rfl
  generalize hS : s3dCheck K E (prepareStats K m w0 list) = S
  have hSb : S.2.buffers = w.buffers := by
    rw [← hS]
    exact (buffers_of_heap ((s3dCheck_heap K E _).trans (prepareStats_heap K m w0 list))).trans hb0
  have hF : classifyLayers K E m w0 list
      = classifyLoop K E m (canUseCopybit m.fbDevice list) S.1 list.numHwLayers
          (Frame.init S.2 list) := by
    unfold classifyLayers
    dsimp only
    rw [hS]
  obtain ⟨p1, p2, _, _⟩ := classifyLoop_skip_layer K E m
    (canUseCopybit m.fbDevice list) S.1 list.numHwLayers (Frame.init S.2 list) i layer hlen hl hs
  obtain ⟨l1, hl1, hc1, hc2⟩ := classifyLoop_below_skip K E m
    (canUseCopybit m.fbDevice list) S.1 list.numHwLayers (Frame.init S.2 list) i j layer lj
    hlen hl hs hji hlj (by
      rw [← h3]
      exact getLayerS3DFormat_congr K hSb rfl)
  unfold hwc_prepare
  dsimp only
  rw [hw0, hm0]
  dsimp only
  rw [← hF] at p1 p2 hl1
  generalize classifyLayers K E m w0 list = F at p1 p2 hl1 ⊢
  rw [prepareBypassStage_not_used K E m F (Or.inr p1)]
  generalize isBypassDoable K E F.w m F.w.ctx.yuvBufferCount (markSkipComposition K F) = D
  have hfin : ∃ l', (bypassReset K D.2 (markSkipComposition K F)).2.hwLayers[j]? = some l'
      ∧ l'.compositionType = K.HWC_FRAMEBUFFER
      ∧ hasBits l'.hints K.HWC_HINT_CLEAR_FB = false := by
    rw [bypassReset_list, unsetBypassLayerFlags_getElem?, markSkipComposition_false K F p2]
    dsimp only
    rw [hl1]
    dsimp only [Option.map]
    split
    · exact ⟨_, rfl, hc1, hc2⟩
    · exact ⟨_, rfl, hc1, hc2⟩
  obtain ⟨l', a, b, c⟩ := hfin
  exact ⟨_, l', rfl, a, b, c⟩

/-- Witness of `hwc_prepare_below_skip_layer`: the video layer of a frame under a skip
layer is first configured on the overlay, then sent to the framebuffer; on return the
overlay status is still `HWC_OVERLAY_OPEN`, as the video branch set it. -/
theorem hwc_prepare_below_skip_layer_witness :
    (∃ list' l', (hwc_prepare refHdr okEnv
          (hwc_device_open refModule stereoHeap true (some 1))
          (some { flags := 0, hwLayers := [mkLayer 7 0, mkLayer 8 1] })).2.2 = some list'
        ∧ list'.hwLayers[0]? = some l'
        ∧ l'.compositionType = refHdr.HWC_FRAMEBUFFER
        ∧ hasBits l'.hints refHdr.HWC_HINT_CLEAR_FB = false)
    ∧ (hwc_prepare refHdr okEnv
          (hwc_device_open refModule stereoHeap true (some 1))
          (some { flags := 0, hwLayers := [mkLayer 7 0, mkLayer 8 1] })).2.1.ctx.hwcOverlayStatus
        = eHWCOverlayStatus.HWC_OVERLAY_OPEN :=
  ⟨hwc_prepare_below_skip_layer refHdr okEnv
      (hwc_device_open refModule stereoHeap true (some 1)) refModule
      { flags := 0, hwLayers := [mkLayer 7 0, mkLayer 8 1] } 1 0 (mkLayer 8 1) (mkLayer 7 0)
      rfl rfl (by decide) (by decide) rfl (by decide),
    by decide⟩

/-! ## The bypass state when bypass is not used -/

/-- A layer that is flagged skip, or that is neither a video buffer nor a stereo layer,
leaves the bypass state alone: `prepareOverlay` is not called for it. -/
theorem classifyLayer_bypassState (K : Hdr) (E : Env) (m : private_hwc_module_t)
    (useCopybit s3d : Bool) (f : Frame) (i : Nat)
    (hl : ∀ layer, f.list.hwLayers[i]? = some layer → isSkipLayer K layer = false →
      isYuvBuffer K f.w layer.handle = false ∧ getLayerS3DFormat K f.w layer = 0) :
    (classifyLayer K E m useCopybit s3d f i).w.ctx.bypassState = f.w.ctx.bypassState := by
  unfold classifyLayer
  split
  · rfl
  · rename_i layer hsome
    dsimp only
    split_ifs with h1 h2 h3
    · unfold classifySkipLayer
      dsimp only
      split_ifs <;> rfl
    · exfalso
      have := (hl layer hsome (by simpa using h1)).1
      unfold isYuvBuffer at this
      simp [h2.1, h2.2.1] at this
    · exact absurd (hl layer hsome (by simpa using h1)).2 h3
    all_goals rfl

theorem classifyLoop_bypassState (K : Hdr) (E : Env) (m : private_hwc_module_t)
    (useCopybit s3d : Bool) (n : Nat) (f : Frame)
    (hl : ∀ layer ∈ f.list.hwLayers, isSkipLayer K layer = false →
      isYuvBuffer K f.w layer.handle = false ∧ getLayerS3DFormat K f.w layer = 0) :
    (classifyLoop K E m useCopybit s3d n f).w.ctx.bypassState = f.w.ctx.bypassState := by
  have inv := foldl_inv (classifyLayer K E m useCopybit s3d)
    (fun (g : Frame) =>
      g.list.hwLayers.map hwc_layer_t.input = f.list.hwLayers.map hwc_layer_t.input
      ∧ g.w.buffers = f.w.buffers
      ∧ g.w.ctx.bypassState = f.w.ctx.bypassState)
    ?_ (List.range n) f ⟨rfl, rfl, rfl⟩
  · exact inv.2.2
  · intro g k ⟨hin, hbuf, hst⟩
    refine ⟨(classifyLayer_input K E m _ _ g k).trans hin,
      (classifyLayer_buffers K E m _ _ g k).trans hbuf, ?_⟩
    rw [classifyLayer_bypassState K E m _ _ g k, hst]
    intro x' hx' hsx'
    obtain ⟨x, hx, hxi⟩ := getElem?_input_of_map hin.symm k x' hx'
    have hsx : isSkipLayer K x = false := by
      rw [isSkipLayer_of_input K hxi]; exact hsx'
    obtain ⟨q1, q2⟩ := hl x (List.getElem?_mem hx) hsx
    refine ⟨?_, ?_⟩
    · rw [isYuvBuffer_congr K hbuf, ← input_handle hxi]; exact q1
    · rw [getLayerS3DFormat_congr K hbuf hxi.symm]; exact q2

theorem setupBypassLoop_bypassState (K : Hdr) (E : Env) (fuel : Nat) :
    ∀ (index nPA : Nat) (w : World) (list : hwc_layer_list_t),
      (setupBypassLoop K E fuel index nPA w list).2.1.ctx.bypassState
        = w.ctx.bypassState := by
  induction fuel with
  | zero => intro index nPA w list; rfl
  | succ fuel ih =>
    intro index nPA w list
    unfold setupBypassLoop
    split_ifs with h1
    · split
      · rfl
      · dsimp only
        split_ifs
        · rw [prepareBypass_ctx]
        · rw [ih]
          simp only [modCtx_ctx, prepareBypass_ctx]
    · rfl

theorem setupBypass_bypassState (K : Hdr) (E : Env) (w : World) (list : hwc_layer_list_t) :
    (setupBypass K E w list).2.1.ctx.bypassState = w.ctx.bypassState := by
  have key := setupBypassLoop_bypassState K E list.numHwLayers 0 MAX_BYPASS_LAYERS
    (setOverlayState (getOverlayState K E w list.numHwLayers 0).2
      (getOverlayState K E w list.numHwLayers 0).1) list
  simp only [setOverlayState_ctx, getOverlayState_ctx] at key
  unfold setupBypass
  dsimp only
  generalize setupBypassLoop K E list.numHwLayers 0 MAX_BYPASS_LAYERS
    (setOverlayState (getOverlayState K E w list.numHwLayers 0).2
      (getOverlayState K E w list.numHwLayers 0).1) list = r at key ⊢
  rcases r with ⟨a, b, c⟩
  cases a with
  | none => exact key
  | some k => exact key

theorem bypassReset_on (K : Hdr) (w : World) (list : hwc_layer_list_t)
    (h : w.ctx.bypassState = BypassState.BYPASS_ON) :
    (bypassReset K w list).1.ctx.bypassState = BypassState.BYPASS_OFF_PENDING := by
  unfold bypassReset
  dsimp only
  rw [if_pos (by simpa using h)]
  rfl

theorem isBypassDoable_true_pos (K : Hdr) (E : Env) (w : World) (m : private_hwc_module_t)
    (yuvCount : Int) (list : hwc_layer_list_t)
    (h : (isBypassDoable K E w m yuvCount list).1 = true) :
    1 ≤ list.numHwLayers := by
  unfold isBypassDoable at h
  dsimp only at h
  split_ifs at h with h1 h2 h3 h4 h5
  omega

/-- The bypass stage of `hwc_prepare`, entered with the bypass on: either bypass is doable,
no skip layer is present and `setupBypass` succeeds, and then the list is not empty, every
layer carries the bypass flag and the state stays `BYPASS_ON`; or one of the three fails,
and then the state becomes `BYPASS_OFF_PENDING` and no layer carries the flag. -/
theorem prepareBypassStage_state (K : Hdr) (E : Env) (m : private_hwc_module_t) (f : Frame)
    (hB : K.HWC_COMP_BYPASS ≠ 0) (hon : f.w.ctx.bypassState = BypassState.BYPASS_ON) :
    ((isBypassDoable K E f.w m f.w.ctx.yuvBufferCount (markSkipComposition K f)).1 = true
      ∧ f.isSkipLayerPresent = false
      ∧ (setupBypass K E
          (isBypassDoable K E f.w m f.w.ctx.yuvBufferCount (markSkipComposition K f)).2
          (markSkipComposition K f)).1 = true
      ∧ 1 ≤ (prepareBypassStage K E m f).2.numHwLayers
      ∧ (prepareBypassStage K E m f).1.ctx.bypassState = BypassState.BYPASS_ON
      ∧ ∀ l ∈ (prepareBypassStage K E m f).2.hwLayers,
          hasBits l.flags K.HWC_COMP_BYPASS = true)
    ∨ (((isBypassDoable K E f.w m f.w.ctx.yuvBufferCount (markSkipComposition K f)).1 = false
        ∨ f.isSkipLayerPresent = true
        ∨ (setupBypass K E
            (isBypassDoable K E f.w m f.w.ctx.yuvBufferCount (markSkipComposition K f)).2
            (markSkipComposition K f)).1 = false)
      ∧ (prepareBypassStage K E m f).1.ctx.bypassState = BypassState.BYPASS_OFF_PENDING
      ∧ ∀ l ∈ (prepareBypassStage K E m f).2.hwLayers,
          hasBits l.flags K.HWC_COMP_BYPASS = false) := by
  obtain ⟨sw, hsw⟩ := isBypassDoable_ctx K E f.w m f.w.ctx.yuvBufferCount
    (markSkipComposition K f)
  have hD : (isBypassDoable K E f.w m f.w.ctx.yuvBufferCount
      (markSkipComposition K f)).2.ctx.bypassState = BypassState.BYPASS_ON := by
    rw [hsw]
    exact hon
  have hn := isBypassDoable_true_le K E f.w m f.w.ctx.yuvBufferCount (markSkipComposition K f)
  have hp := isBypassDoable_true_pos K E f.w m f.w.ctx.yuvBufferCount (markSkipComposition K f)
  unfold prepareBypassStage
  dsimp only
  generalize isBypassDoable K E f.w m f.w.ctx.yuvBufferCount (markSkipComposition K f) = D
    at hD hn hp ⊢
  by_cases hc : (D.1 && !f.isSkipLayerPresent) = true
  · rw [if_pos hc]
    unfold bypassAttempt
    dsimp only
    simp only [Bool.and_eq_true, Bool.not_eq_true'] at hc
    have hS := setupBypass_bypassState K E D.2 (markSkipComposition K f)
    have hslots := setupBypass_slots K E D.2 (markSkipComposition K f)
    have hSn := numHwLayers_of_map_unflagged
      (setupBypass_unflagged K E D.2 (markSkipComposition K f))
    generalize setupBypass K E D.2 (markSkipComposition K f) = S at hS hslots hSn ⊢
    by_cases hs : S.1 = true
    · rw [if_pos hs]
      simp only [Bool.not_true, Bool.false_eq_true, if_false, modCtx_ctx]
      left
      obtain ⟨s1, s2⟩ := hslots hs (hn hc.1)
      obtain ⟨f1, f2⟩ := setBypassLayerFlags_all K S.2.1 S.2.2 hB
        (by rw [hSn]; exact hn hc.1) (fun t ht => s2 t (by rw [← hSn]; exact ht))
      refine ⟨hc.1, hc.2, hs, ?_, trivial, f2⟩
      rw [f1, hSn]
      exact hp hc.1
    · rw [if_neg hs]
      simp only [Bool.not_false, if_true]
      right
      refine ⟨Or.inr (Or.inr (by simpa using hs)), bypassReset_on K _ _ ?_,
        unsetBypassLayerFlags_no_bypass K _⟩
      rw [setOverlayState_ctx, hS, hD]
  · rw [if_neg hc]
    simp only [Bool.not_false, if_true]
    right
    refine ⟨?_, bypassReset_on K _ _ hD, unsetBypassLayerFlags_no_bypass K _⟩
    simp only [Bool.and_eq_true, Bool.not_eq_true', not_and, Bool.not_eq_false] at hc
    cases hd : D.1 with
    | false => exact Or.inl rfl
    | true => exact Or.inr (Or.inl (hc hd))

/-- C16, as amended. A call of `hwc_prepare` on a device with a valid module and on a
non-null list, entered with `bypassState == BYPASS_ON`, in which no layer goes through
`prepareOverlay` (every layer not flagged skip is neither a video buffer nor a stereo
layer). On return either the bypass is used (the list is not empty and every layer carries
`HWC_COMP_BYPASS`) and the state is `BYPASS_ON`, or the bypass is not used (no layer carries
the flag) and the state is `BYPASS_OFF_PENDING`. So when no layer carries the flag on
return, the empty list included, the state is `BYPASS_OFF_PENDING`; and so it is, with no
layer carrying the flag, when bypass is not doable, when a layer flagged skip is present,
and when `setupBypass` fails. -/
theorem hwc_prepare_bypass_off_pending (K : Hdr) (E : Env) (w : World)
    (m : private_hwc_module_t) (list : hwc_layer_list_t)
    (hB : K.HWC_COMP_BYPASS ≠ 0) (hm : w.module = some m)
    (hon : w.ctx.bypassState = BypassState.BYPASS_ON)
    (hno : ∀ layer ∈ list.hwLayers, isSkipLayer K layer = false →
      isYuvBuffer K w layer.handle = false ∧ getLayerS3DFormat K w layer = 0) :
    ∃ list', (hwc_prepare K E w (some list)).2.2 = some list'
      ∧ (((hwc_prepare K E w (some list)).2.1.ctx.bypassState = BypassState.BYPASS_ON
            ∧ 1 ≤ list'.numHwLayers
            ∧ ∀ l ∈ list'.hwLayers, hasBits l.flags K.HWC_COMP_BYPASS = true)
          ∨ ((hwc_prepare K E w (some list)).2.1.ctx.bypassState
                = BypassState.BYPASS_OFF_PENDING
            ∧ ∀ l ∈ list'.hwLayers, hasBits l.flags K.HWC_COMP_BYPASS = false))
      ∧ ((∀ l ∈ list'.hwLayers, hasBits l.flags K.HWC_COMP_BYPASS = false) →
          (hwc_prepare K E w (some list)).2.1.ctx.bypassState
            = BypassState.BYPASS_OFF_PENDING)
      ∧ (((isBypassDoable K E
              (classifyLayers K E m (w.modCtx (fun c => { c with currentOverlayHandle := 0 }))
                list).w m
              (classifyLayers K E m (w.modCtx (fun c => { c with currentOverlayHandle := 0 }))
                list).w.ctx.yuvBufferCount
              (markSkipComposition K
                (classifyLayers K E m
                  (w.modCtx (fun c => { c with currentOverlayHandle := 0 })) list))).1 = false
          ∨ (∃ layer ∈ list.hwLayers, isSkipLayer K layer = true)
          ∨ (setupBypass K E
              (isBypassDoable K E
                (classifyLayers K E m (w.modCtx (fun c => { c with currentOverlayHandle := 0 }))
                  list).w m
                (classifyLayers K E m (w.modCtx (fun c => { c with currentOverlayHandle := 0 }))
                  list).w.ctx.yuvBufferCount
                (markSkipComposition K
                  (classifyLayers K E m
                    (w.modCtx (fun c => { c with currentOverlayHandle := 0 })) list))).2
              (markSkipComposition K
                (classifyLayers K E m (w.modCtx (fun c => { c with currentOverlayHandle := 0 }))
                  list))).1 = false) →
          (hwc_prepare K E w (some list)).2.1.ctx.bypassState = BypassState.BYPASS_OFF_PENDING
          ∧ ∀ l ∈ list'.hwLayers, hasBits l.flags K.HWC_COMP_BYPASS = false) := by
  generalize hw0 : w.modCtx (fun c => { c with currentOverlayHandle := 0 }) = w0
  have hm0 : w0.module = some m := by rw [← hw0]; exact hm
  have hb0 : w0.buffers = w.buffers := by rw [← hw0]; rfl
  have hon0 : w0.ctx.bypassState = BypassState.BYPASS_ON := by rw [← hw0]; exact hon
  generalize hS : s3dCheck K E (prepareStats K m w0 list) = S
  have hSb : S.2.buffers = w.buffers := by
    rw [← hS]
    exact (buffers_of_heap ((s3dCheck_heap K E _).trans (prepareStats_heap K m w0 list))).trans hb0
  have hSon : S.2.ctx.bypassState = BypassState.BYPASS_ON := by
    rw [← hS, s3dCheck_ctx]
    obtain ⟨pl, st, h⟩ := prepareStats_eq K m w0 list
    rw [h]
    exact hon0
  have hF : classifyLayers K E m w0 list
      = classifyLoop K E m (canUseCopybit m.fbDevice list) S.1 list.numHwLayers
          (Frame.init S.2 list) := by
    unfold classifyLayers
    dsimp only
    rw [hS]
  have hFon : (classifyLayers K E m w0 list).w.ctx.bypassState = BypassState.BYPASS_ON := by
    rw [hF, classifyLoop_bypassState K E m _ _ _ (Frame.init S.2 list)]
    · exact hSon
    · intro layer hl hs
      obtain ⟨q1, q2⟩ := hno layer hl hs
      refine ⟨?_, ?_⟩
      · rw [← q1]
        exact isYuvBuffer_congr K hSb layer.handle
      · rw [← q2]
        exact getLayerS3DFormat_congr K hSb rfl
  have hFskip : (∃ layer ∈ list.hwLayers, isSkipLayer K layer = true) →
      (classifyLayers K E m w0 list).isSkipLayerPresent = true := by
    rintro ⟨layer, hl, hs⟩
    obtain ⟨i, hi, hget⟩ := List.getElem_of_mem hl
    rw [hF]
    exact (classifyLoop_skip_layer K E m (canUseCopybit m.fbDevice list) S.1 list.numHwLayers
      (Frame.init S.2 list) i layer hi
      (by
        show list.hwLayers[i]? = some layer
        rw [List.getElem?_eq_getElem hi, hget]) hs).1
  unfold hwc_prepare
  dsimp only
  rw [hw0, hm0]
  dsimp only
  generalize classifyLayers K E m w0 list = F at hFon hFskip ⊢
  have key := prepareBypassStage_state K E m F hB hFon
  refine ⟨_, rfl, ?_, ?_, ?_⟩
  · rcases key with ⟨_, _, _, k4, k5, k6⟩ | ⟨_, k2, k3⟩
    · exact Or.inl ⟨k5, k4, k6⟩
    · exact Or.inr ⟨k2, k3⟩
  · intro hnone
    rcases key with ⟨_, _, _, k4, _, k6⟩ | ⟨_, k2, _⟩
    · exfalso
      have hlen : 0 < (prepareBypassStage K E m F).2.hwLayers.length := k4
      have hmem := List.getElem_mem hlen
      have h1 := hnone _ hmem
      rw [k6 _ hmem] at h1
      exact Bool.noConfusion h1
    · exact k2
  · intro hcause
    rcases key with ⟨k1, k2, k3, _, _, _⟩ | ⟨_, k2, k3⟩
    · exfalso
      rcases hcause with h | h | h
      · rw [k1] at h; exact Bool.noConfusion h
      · rw [hFskip h] at k2; exact Bool.noConfusion k2
      · rw [k3] at h; exact Bool.noConfusion h
    · exact ⟨k2, k3⟩

/-- Witness of `hwc_prepare_bypass_off_pending`: a device with the bypass on gets a frame
with a layer flagged skip and leaves with `BYPASS_OFF_PENDING`. -/
theorem hwc_prepare_bypass_off_pending_witness :
    onePipeWorld.ctx.bypassState = BypassState.BYPASS_ON
    ∧ (hwc_prepare refHdr okEnv onePipeWorld
        (some { flags := 0, hwLayers := [mkLayer 7 1] })).2.1.ctx.bypassState
      = BypassState.BYPASS_OFF_PENDING := by
  obtain ⟨list', _, _, _, h⟩ := hwc_prepare_bypass_off_pending refHdr okEnv onePipeWorld
    refModule { flags := 0, hwLayers := [mkLayer 7 1] } (by decide) rfl rfl
    (fun layer hl hs => by
      simp only [List.mem_singleton] at hl
      subst hl
      exact absurd hs (by decide))
  exact ⟨rfl, (h (Or.inr (Or.inl ⟨mkLayer 7 1, List.mem_singleton.2 rfl, by decide⟩))).1⟩

/-- C16, counterexample. A device with the bypass on gets a frame of one video layer:
bypass is not used (a video buffer is present), `prepareOverlay` closes the bypass pipes at
once, and the bypass state is `BYPASS_OFF` on return, not `BYPASS_OFF_PENDING`. -/
theorem hwc_prepare_bypass_off_at_once :
    ((secondFrameWorld refModule (uniformHeap 1 0x11 0) false).modCtx (fun c =>
        { c with nPipesUsed := 1, bypassState := BypassState.BYPASS_ON })).ctx.bypassState
      = BypassState.BYPASS_ON
    ∧ (hwc_prepare refHdr okEnv
        ((secondFrameWorld refModule (uniformHeap 1 0x11 0) false).modCtx (fun c =>
          { c with nPipesUsed := 1, bypassState := BypassState.BYPASS_ON }))
        (some oneLayerList)).2.1.ctx.bypassState = BypassState.BYPASS_OFF
    ∧ (hwc_prepare refHdr okEnv
        ((secondFrameWorld refModule (uniformHeap 1 0x11 0) false).modCtx (fun c =>
          { c with nPipesUsed := 1, bypassState := BypassState.BYPASS_ON }))
        (some oneLayerList)).2.2.map
          (fun l => l.hwLayers.map (fun x => hasBits x.flags refHdr.HWC_COMP_BYPASS))
        = some [false] := by
  decide

/-! ## Destinations outside the framebuffer -/

/-- A rectangle that lies entirely outside the framebuffer is not a valid destination. -/
theorem isValidDestination_outside (fbDev : Option framebuffer_device_t) (rect : hwc_rect_t)
    (hout : ∀ fb, fbDev = some fb →
      rect.right ≤ 0 ∨ fb.width ≤ rect.left ∨ rect.bottom ≤ 0 ∨ fb.height ≤ rect.top) :
    isValidDestination fbDev rect = false := by
  unfold isValidDestination
  cases fbDev with
  | none => rfl
  | some fb =>
    dsimp only
    have h := hout fb rfl
    split_ifs with h1 h2
    · rfl
    · rfl
    · exfalso
      omega

theorem input_displayFrame {l l' : hwc_layer_t} (h : l'.input = l.input) :
    l'.displayFrame = l.displayFrame := by
  have := congrArg hwc_layer_t.displayFrame h
  exact this

/-- The video branch of the loop on a destination that is not valid: the layer goes to the
framebuffer with the clear hint off. -/
theorem classifyLayer_invalid_video (K : Hdr) (E : Env) (m : private_hwc_module_t)
    (useCopybit s3d : Bool) (f : Frame) (i : Nat) (layer : hwc_layer_t)
    (hl : f.list.hwLayers[i]? = some layer) (hs : isSkipLayer K layer = false)
    (hh : layer.handle ≠ 0)
    (hv : (f.w.heap layer.handle).bufferType = K.BUFFER_TYPE_VIDEO)
    (hy : f.w.ctx.yuvBufferCount = 1)
    (hd : isValidDestination m.fbDevice layer.displayFrame = false) :
    ∃ l', (classifyLayer K E m useCopybit s3d f i).list.hwLayers[i]? = some l'
      ∧ l'.compositionType = K.HWC_FRAMEBUFFER
      ∧ hasBits l'.hints K.HWC_HINT_CLEAR_FB = false := by
  have hlen := getElem?_lt_numHwLayers f.list i layer hl
  unfold classifyLayer
  rw [hl]
  dsimp only
  rw [if_neg (by simp [hs]), if_pos ⟨hh, hv, hy⟩]
  unfold classifyVideoLayer classifyVideoChoice
  dsimp only
  simp only [hd, Bool.not_false, if_true]
  exact ⟨_, setLayer_getElem?_self _ _ _ hlen, rfl, hasBits_clearBits _ _⟩

theorem classifyLoop_invalid_video (K : Hdr) (E : Env) (m : private_hwc_module_t)
    (useCopybit s3d : Bool) (n : Nat) (f : Frame) (i : Nat) (layer : hwc_layer_t)
    (hi : i < n) (hl : f.list.hwLayers[i]? = some layer) (hs : isSkipLayer K layer = false)
    (hh : layer.handle ≠ 0)
    (hv : (f.w.heap layer.handle).bufferType = K.BUFFER_TYPE_VIDEO)
    (hy : f.w.ctx.yuvBufferCount = 1)
    (hd : isValidDestination m.fbDevice layer.displayFrame = false) :
    ∃ l', (classifyLoop K E m useCopybit s3d n f).list.hwLayers[i]? = some l'
      ∧ l'.compositionType = K.HWC_FRAMEBUFFER
      ∧ hasBits l'.hints K.HWC_HINT_CLEAR_FB = false := by
  have inv := foldl_range_inv (classifyLayer K E m useCopybit s3d)
    (fun k (g : Frame) =>
      g.list.hwLayers.map hwc_layer_t.input = f.list.hwLayers.map hwc_layer_t.input
      ∧ g.w.buffers = f.w.buffers
      ∧ g.w.ctx.fixedPart = f.w.ctx.fixedPart
      ∧ (i < k → ∃ l', g.list.hwLayers[i]? = some l'
            ∧ l'.compositionType = K.HWC_FRAMEBUFFER
            ∧ hasBits l'.hints K.HWC_HINT_CLEAR_FB = false))
    n f ⟨rfl, rfl, rfl, fun h => absurd h (Nat.not_lt_zero i)⟩ ?_
  · exact inv.2.2.2 hi
  · intro k g _ ⟨hin, hbuf, hfix, hpost⟩
    refine ⟨(classifyLayer_input K E m _ _ g k).trans hin,
      (classifyLayer_buffers K E m _ _ g k).trans hbuf,
      (classifyLayer_fixedPart K E m _ _ g k).trans hfix, fun hik => ?_⟩
    rcases Nat.lt_or_ge i k with hlt | hge
    · obtain ⟨l', hl', hc1, hc2⟩ := hpost hlt
      exact classifyLayer_keeps_framebuffer K E m _ _ g i k (by omega) l' hl' hc1 hc2
    · have hk : k = i := by omega
      subst hk
      obtain ⟨x', hx', hxi⟩ := getElem?_input_of_map hin k layer hl
      refine classifyLayer_invalid_video K E m useCopybit s3d g k x' hx' ?_ ?_ ?_ ?_ ?_
      · rw [isSkipLayer_of_input K hxi]; exact hs
      · rw [input_handle hxi]; exact hh
      · rw [input_handle hxi, buffers_bufferType hbuf]; exact hv
      · rw [fixedPart_yuvBufferCount hfix]; exact hy
      · rw [input_displayFrame hxi]; exact hd

theorem clampLeft_extent (F : CropArith) (s : CropState) :
    (clampLeft F s).dst_w = (if s.dst.left < 0 then s.dst.right else s.dst_w)
    ∧ (clampLeft F s).dst_h = s.dst_h := by
  unfold clampLeft
  split_ifs <;> simp

theorem clampRight_extent (F : CropArith) (hw_w : Int) (s : CropState) :
    (clampRight F hw_w s).dst_w = (if s.dst.right > hw_w then hw_w - s.dst.left else s.dst_w)
    ∧ (clampRight F hw_w s).dst_h = s.dst_h := by
  unfold clampRight
  split_ifs <;> simp

theorem clampTop_extent (F : CropArith) (s : CropState) :
    (clampTop F s).dst_w = s.dst_w
    ∧ (clampTop F s).dst_h = (if s.dst.top < 0 then s.dst.bottom else s.dst_h) := by
  unfold clampTop
  split_ifs <;> simp

/-- On a framebuffer of non-negative size, `calculate_crop_rects` divides by no zero extent
when the destination it is given has a width and a height other than zero. -/
theorem cropDivisors_nonzero (F : CropArith) (crop dst : hwc_rect_t) (hw_w hw_h : Int)
    (hw : dst.right - dst.left ≠ 0) (hh : dst.bottom - dst.top ≠ 0)
    (h0 : 0 ≤ hw_w) (h1 : 0 ≤ hw_h) : 0 ∉ cropDivisors F crop dst hw_w hw_h := by
  obtain ⟨s0, hd, hw0, hh0, he⟩ : ∃ s0 : CropState, s0.dst = dst
      ∧ s0.dst_w = dst.right - dst.left ∧ s0.dst_h = dst.bottom - dst.top
      ∧ cropDivisors F crop dst hw_w hw_h
        = (if s0.dst.left < 0 then [s0.dst_w] else [])
          ++ (if (clampLeft F s0).dst.right > hw_w then [(clampLeft F s0).dst_w] else [])
          ++ (if (clampRight F hw_w (clampLeft F s0)).dst.top < 0
                then [(clampRight F hw_w (clampLeft F s0)).dst_h] else [])
          ++ (if (clampTop F (clampRight F hw_w (clampLeft F s0))).dst.bottom > hw_h
                then [(clampTop F (clampRight F hw_w (clampLeft F s0))).dst_h] else []) :=
    ⟨_, rfl, rfl, rfl, rfl⟩
  rw [he]
  obtain ⟨a1, a2, a3, a4, _⟩ := clampLeft_spec F s0
  obtain ⟨b1, b2, b3, b4, _⟩ := clampRight_spec F hw_w (clampLeft F s0)
  obtain ⟨c1, c2, c3, c4, _⟩ := clampTop_spec F (clampRight F hw_w (clampLeft F s0))
  obtain ⟨x1, x2⟩ := clampLeft_extent F s0
  obtain ⟨y1, y2⟩ := clampRight_extent F hw_w (clampLeft F s0)
  obtain ⟨z1, z2⟩ := clampTop_extent F (clampRight F hw_w (clampLeft F s0))
  rw [c4, z2, b4, b2, y2, a4, a2, a3, x1, x2, hw0, hh0, hd]
  simp only [List.mem_append, not_or]
  refine ⟨⟨⟨?_, ?_⟩, ?_⟩, ?_⟩
  all_goals split_ifs <;> simp <;> omega

theorem and_or_right (a b c : Nat) : (a ||| b) &&& c = (a &&& c) ||| (b &&& c) := by
  apply Nat.eq_of_testBit_eq
  intro i
  simp only [Nat.testBit_and, Nat.testBit_or]
  cases a.testBit i <;> cases b.testBit i <;> cases c.testBit i <;> rfl

theorem clearBits_and (word mask : Nat) : clearBits word mask &&& mask = 0 := by
  unfold clearBits
  apply Nat.eq_of_testBit_eq
  intro i
  simp only [Nat.testBit_and, Nat.testBit_xor, Nat.zero_testBit]
  cases word.testBit i <;> cases mask.testBit i <;> rfl

/-- The index field of the flags of a layer after `setLayerbypassIndex`. -/
theorem setLayerbypassIndex_field (K : Hdr) (layer : hwc_layer_t) (s : Nat)
    (hmask : K.HWC_BYPASS_INDEX_MASK = 3 <<< BYPASS_INDEX_OFFSET) (hs : s < 3) :
    ((setLayerbypassIndex K layer s).flags &&& K.HWC_BYPASS_INDEX_MASK) >>> BYPASS_INDEX_OFFSET
      = s := by
  unfold setLayerbypassIndex
  dsimp only
  rw [and_or_right, clearBits_and, hmask]
  interval_cases s <;> decide

/-- When the loop of `setupBypass` runs to its end, the layers below its start are as they
were and every layer from its start on carries the index of its pipe in its flags. -/
theorem setupBypassLoop_fields (K : Hdr) (E : Env)
    (hmask : K.HWC_BYPASS_INDEX_MASK = 3 <<< BYPASS_INDEX_OFFSET) (fuel : Nat) :
    ∀ (index nPA : Nat) (w : World) (list : hwc_layer_list_t) (k : Nat),
      (setupBypassLoop K E fuel index nPA w list).1 = some k →
      list.numHwLayers ≤ index + fuel → list.numHwLayers ≤ index + nPA →
      nPA ≤ 3 → index ≤ list.numHwLayers →
      (∀ (t : Nat) (l : hwc_layer_t), t < index → list.hwLayers[t]? = some l →
          (setupBypassLoop K E fuel index nPA w list).2.2.hwLayers[t]? = some l)
      ∧ (∀ t, index ≤ t → t < list.numHwLayers →
          ∃ l, (setupBypassLoop K E fuel index nPA w list).2.2.hwLayers[t]? = some l
            ∧ (l.flags &&& K.HWC_BYPASS_INDEX_MASK) >>> BYPASS_INDEX_OFFSET
                = 3 - nPA + (t - index)) := by
  induction fuel with
  | zero =>
    intro index nPA w list k h hf _ _ hi
    exact ⟨fun t l _ hl => hl, fun t h1 h2 => by omega⟩
  | succ fuel ih =>
    intro index nPA w list k h hf hp h3 hi
    by_cases h1 : index < list.numHwLayers ∧ nPA ≠ 0
    · unfold setupBypassLoop at h ⊢
      rw [if_pos h1] at h ⊢
      have hlt : index < list.hwLayers.length := h1.1
      rw [List.getElem?_eq_getElem hlt] at h ⊢
      dsimp only at h ⊢
      generalize hlayer : list.hwLayers[index] = layer at h ⊢
      generalize hr : prepareBypass K E w
        { layer with flags := clearBits layer.flags K.HWC_COMP_BYPASS
                                ||| K.HWC_BYPASS_INDEX_MASK }
        (MAX_BYPASS_LAYERS - nPA)
        (decide (((MAX_BYPASS_LAYERS - nPA : Nat) : Int) = (list.numHwLayers : Int) - 1))
        (decide (index = 0)) = r at h ⊢
      by_cases h2 : r.1 ≠ 0
      · rw [if_pos h2] at h
        cases h
      · rw [if_neg h2] at h ⊢
        obtain ⟨e1, e2⟩ := ih (index + 1) (nPA - 1) _ _ k h
          (by simp only [setLayer_numHwLayers]; omega)
          (by simp only [setLayer_numHwLayers]; omega) (by omega)
          (by simp only [setLayer_numHwLayers]; omega)
        simp only [setLayer_numHwLayers] at e2
        have hnp : nPA ≠ 0 := h1.2
        have hn1 : (list.setLayer index
            { layer with flags := clearBits layer.flags K.HWC_COMP_BYPASS
                                    ||| K.HWC_BYPASS_INDEX_MASK }).numHwLayers
            = list.numHwLayers := setLayer_numHwLayers _ _ _
        refine ⟨fun t l ht hl => ?_, fun t ht1 ht2 => ?_⟩
        · apply e1 t l (by omega)
          rw [setLayer_getElem?_ne _ _ _ _ (by omega), setLayer_getElem?_ne _ _ _ _ (by omega)]
          exact hl
        · rcases Nat.eq_or_lt_of_le ht1 with heq | hlt2
          · subst heq
            refine ⟨_, e1 index _ (by omega)
              (setLayer_getElem?_self _ _ _ (by rw [hn1]; exact h1.1)), ?_⟩
            have hz : 3 - nPA + (index - index) = 3 - nPA := by omega
            rw [hz]
            exact setLayerbypassIndex_field K _ _ hmask (by simp only [MAX_BYPASS_LAYERS]; omega)
          · obtain ⟨l, q1, q2⟩ := e2 t hlt2 ht2
            refine ⟨l, q1, ?_⟩
            rw [q2]
            omega
    · unfold setupBypassLoop
      rw [if_neg h1]
      have hin : index = list.numHwLayers := by
        by_contra hne
        apply h1
        constructor
        · omega
        · intro h0; omega
      exact ⟨fun t l _ hl => hl, fun t ht1 ht2 => by omega⟩

/-- When `setupBypass` succeeds on a list of at most three layers, layer `t` carries the
pipe index `t` in its flags. -/
theorem setupBypass_fields (K : Hdr) (E : Env) (w : World) (list : hwc_layer_list_t)
    (hmask : K.HWC_BYPASS_INDEX_MASK = 3 <<< BYPASS_INDEX_OFFSET)
    (h : (setupBypass K E w list).1 = true) (hn : list.numHwLayers ≤ MAX_BYPASS_LAYERS) :
    ∀ t, t < list.numHwLayers →
      ∃ l, (setupBypass K E w list).2.2.hwLayers[t]? = some l
        ∧ (l.flags &&& K.HWC_BYPASS_INDEX_MASK) >>> BYPASS_INDEX_OFFSET = t := by
  have key := setupBypassLoop_fields K E hmask list.numHwLayers 0 MAX_BYPASS_LAYERS
    (setOverlayState (getOverlayState K E w list.numHwLayers 0).2
      (getOverlayState K E w list.numHwLayers 0).1) list
  unfold setupBypass at h ⊢
  dsimp only at h ⊢
  generalize setupBypassLoop K E list.numHwLayers 0 MAX_BYPASS_LAYERS
    (setOverlayState (getOverlayState K E w list.numHwLayers 0).2
      (getOverlayState K E w list.numHwLayers 0).1) list = r at key h ⊢
  rcases r with ⟨a, b, c⟩
  cases a with
  | none => cases h
  | some k =>
    simp only [MAX_BYPASS_LAYERS] at hn key ⊢
    obtain ⟨_, e2⟩ := key k rfl (by omega) (by omega) (Nat.le_refl 3) (Nat.zero_le _)
    intro t ht
    obtain ⟨l, q1, q2⟩ := e2 t (Nat.zero_le t) ht
    exact ⟨l, q1, by simpa using q2⟩
/-- One slot of `setBypassLayerFlags` keeps the index field of every layer and every
composition type `HWC_USE_OVERLAY`. -/
theorem setBypassLayerFlag_keeps_field (K : Hdr) (w : World) (list : hwc_layer_list_t)
    (index : Nat) (hdisj : K.HWC_COMP_BYPASS &&& K.HWC_BYPASS_INDEX_MASK = 0) :
    ∀ (j : Nat) (l : hwc_layer_t), list.hwLayers[j]? = some l →
      ∃ l', (setBypassLayerFlag K w list index).hwLayers[j]? = some l'
        ∧ l'.flags &&& K.HWC_BYPASS_INDEX_MASK = l.flags &&& K.HWC_BYPASS_INDEX_MASK
        ∧ (l.compositionType = K.HWC_USE_OVERLAY → l'.compositionType = K.HWC_USE_OVERLAY) := by
  intro j l hl
  unfold setBypassLayerFlag
  dsimp only
  split_ifs with h1
  · split
    · exact ⟨l, hl, rfl, fun h => h⟩
    · rename_i layer hlayer
      by_cases hj : (w.ctx.layerindex.get index).toNat = j
      · subst hj
        rw [hlayer] at hl
        cases hl
        refine ⟨_, setLayer_getElem?_self _ _ _ (getElem?_lt_numHwLayers _ _ _ hlayer), ?_,
          fun _ => rfl⟩
        dsimp only
        rw [and_or_right, hdisj, Nat.or_zero]
      · exact ⟨l, (setLayer_getElem?_ne _ _ _ _ hj).trans hl, rfl, fun h => h⟩
  · exact ⟨l, hl, rfl, fun h => h⟩

/-- A slot of `setBypassLayerFlags` bound to a layer of the list makes it an overlay
layer. -/
theorem setBypassLayerFlag_sets_type (K : Hdr) (w : World) (list : hwc_layer_list_t)
    (index : Nat) (hidx : w.ctx.layerindex.get index = (index : Int))
    (hlt : index < list.numHwLayers) :
    ∃ l', (setBypassLayerFlag K w list index).hwLayers[index]? = some l'
      ∧ l'.compositionType = K.HWC_USE_OVERLAY := by
  unfold setBypassLayerFlag
  dsimp only
  rw [hidx, if_pos (by omega)]
  have hl : index < list.hwLayers.length := hlt
  simp only [Int.toNat_ofNat]
  rw [List.getElem?_eq_getElem hl]
  dsimp only
  exact ⟨_, setLayer_getElem?_self _ _ _ hlt, rfl⟩

/-- When every slot below the number of layers is bound to its layer, `setBypassLayerFlags`
makes every layer of a list of at most three layers an overlay layer and keeps its index
field. -/
theorem setBypassLayerFlags_fields (K : Hdr) (w : World) (list : hwc_layer_list_t)
    (hdisj : K.HWC_COMP_BYPASS &&& K.HWC_BYPASS_INDEX_MASK = 0)
    (hn : list.numHwLayers ≤ MAX_BYPASS_LAYERS)
    (hidx : ∀ t, t < list.numHwLayers → w.ctx.layerindex.get t = (t : Int)) :
    ∀ (j : Nat) (l : hwc_layer_t), list.hwLayers[j]? = some l →
      ∃ l', (setBypassLayerFlags K w list).hwLayers[j]? = some l'
        ∧ l'.flags &&& K.HWC_BYPASS_INDEX_MASK = l.flags &&& K.HWC_BYPASS_INDEX_MASK
        ∧ l'.compositionType = K.HWC_USE_OVERLAY := by
  have inv := foldl_range_inv (setBypassLayerFlag K w)
    (fun t (L : hwc_layer_list_t) =>
      L.numHwLayers = list.numHwLayers
      ∧ ∀ (j : Nat) (l : hwc_layer_t), list.hwLayers[j]? = some l →
          ∃ l', L.hwLayers[j]? = some l'
            ∧ l'.flags &&& K.HWC_BYPASS_INDEX_MASK = l.flags &&& K.HWC_BYPASS_INDEX_MASK
            ∧ (j < t → l'.compositionType = K.HWC_USE_OVERLAY))
    MAX_BYPASS_LAYERS list
    ⟨rfl, fun j l hl => ⟨l, hl, rfl, fun hj => absurd hj (Nat.not_lt_zero j)⟩⟩ ?_
  · obtain ⟨_, hall⟩ := inv
    intro j l hl
    obtain ⟨l', q1, q2, q3⟩ := hall j l hl
    have hj : j < list.numHwLayers := getElem?_lt_numHwLayers list j l hl
    refine ⟨l', ?_, q2, q3 (by omega)⟩
    unfold setBypassLayerFlags
    dsimp only
    split <;> exact q1
  · intro t L ht ⟨hlen, hall⟩
    refine ⟨(setBypassLayerFlag_keeps K w L t).1.trans hlen, fun j l hl => ?_⟩
    obtain ⟨l1, q1, q2, q3⟩ := hall j l hl
    obtain ⟨l2, r1, r2, r3⟩ := setBypassLayerFlag_keeps_field K w L t hdisj j l1 q1
    refine ⟨l2, r1, r2.trans q2, fun hjt => ?_⟩
    rcases Nat.lt_or_ge j t with hlt | hge
    · exact r3 (q3 hlt)
    · have hjt2 : j = t := by omega
      subst hjt2
      have hj : j < list.numHwLayers := getElem?_lt_numHwLayers list j l hl
      obtain ⟨l3, s1, s2⟩ := setBypassLayerFlag_sets_type K w L j (hidx j hj)
        (by rw [hlen]; exact hj)
      rw [r1] at s1
      cases s1
      exact s2

/-- The list flag `HWC_SKIP_COMPOSITION` after `setBypassLayerFlags`: set exactly when there
are no more layers than pipes in use. -/
theorem setBypassLayerFlags_skip (K : Hdr) (w : World) (list : hwc_layer_list_t)
    (hS : K.HWC_SKIP_COMPOSITION ≠ 0) :
    hasBits (setBypassLayerFlags K w list).flags K.HWC_SKIP_COMPOSITION
      = decide (list.numHwLayers ≤ w.ctx.nPipesUsed) := by
  have hlen : ((List.range MAX_BYPASS_LAYERS).foldl (setBypassLayerFlag K w) list).numHwLayers
      = list.numHwLayers :=
    foldl_inv (setBypassLayerFlag K w) (fun L => L.numHwLayers = list.numHwLayers)
      (fun L t h => (setBypassLayerFlag_keeps K w L t).1.trans h) _ list rfl
  unfold setBypassLayerFlags
  dsimp only
  rw [hlen]
  split_ifs with h
  · rw [show decide (list.numHwLayers ≤ w.ctx.nPipesUsed) = false from by
      simp only [decide_eq_false_iff_not]; omega]
    exact hasBits_clearBits _ _
  · rw [show decide (list.numHwLayers ≤ w.ctx.nPipesUsed) = true from by
      simp only [decide_eq_true_eq]; omega]
    exact hasBits_or_self _ _ hS

theorem getLayerbypassIndex_of_field (K : Hdr) (l : hwc_layer_t) (t : Nat)
    (hb : hasBits l.flags K.HWC_COMP_BYPASS = true)
    (hf : (l.flags &&& K.HWC_BYPASS_INDEX_MASK) >>> BYPASS_INDEX_OFFSET = t)
    (ht : t < MAX_BYPASS_LAYERS) : getLayerbypassIndex K l = (t : Int) := by
  unfold getLayerbypassIndex
  rw [if_pos hb]
  dsimp only
  rw [hf, if_pos ht]

/-- C15. A call of `hwc_prepare` on a device with a valid module after which the bypass
state is `BYPASS_ON` (the bypass setup succeeded): `nPipesUsed` is the number of layers,
every layer `i` carries `HWC_COMP_BYPASS`, has composition type `HWC_USE_OVERLAY` and the
slot back-reference `getLayerbypassIndex(layer i) == i`, `layerindex[i] == i`, and
`HWC_SKIP_COMPOSITION` is set on the list exactly when `numHwLayers <= nPipesUsed`, which
is the case. The header values are such that the index mask is the two bits above
`BYPASS_INDEX_OFFSET` and the flags `HWC_COMP_BYPASS`, `HWC_SKIP_COMPOSITION` are bits
outside it. -/
theorem hwc_prepare_bypass_on (K : Hdr) (E : Env) (w : World) (m : private_hwc_module_t)
    (list : hwc_layer_list_t)
    (hB : K.HWC_COMP_BYPASS ≠ 0) (hS : K.HWC_SKIP_COMPOSITION ≠ 0)
    (hmask : K.HWC_BYPASS_INDEX_MASK = 3 <<< BYPASS_INDEX_OFFSET)
    (hdisj : K.HWC_COMP_BYPASS &&& K.HWC_BYPASS_INDEX_MASK = 0)
    (hm : w.module = some m)
    (hon : (hwc_prepare K E w (some list)).2.1.ctx.bypassState = BypassState.BYPASS_ON) :
    ∃ list', (hwc_prepare K E w (some list)).2.2 = some list'
      ∧ list'.numHwLayers = list.numHwLayers
      ∧ (hwc_prepare K E w (some list)).2.1.ctx.nPipesUsed = list.numHwLayers
      ∧ (∀ (i : Nat) (l : hwc_layer_t), list'.hwLayers[i]? = some l →
          hasBits l.flags K.HWC_COMP_BYPASS = true
          ∧ l.compositionType = K.HWC_USE_OVERLAY
          ∧ getLayerbypassIndex K l = (i : Int)
          ∧ (hwc_prepare K E w (some list)).2.1.ctx.layerindex.get i = (i : Int))
      ∧ hasBits list'.flags K.HWC_SKIP_COMPOSITION
          = decide (list'.numHwLayers ≤ (hwc_prepare K E w (some list)).2.1.ctx.nPipesUsed)
      ∧ hasBits list'.flags K.HWC_SKIP_COMPOSITION = true := by
  unfold hwc_prepare at hon ⊢
  dsimp only at hon ⊢
  generalize hw0 : w.modCtx (fun c => { c with currentOverlayHandle := 0 }) = w0 at hon ⊢
  have hm0 : w0.module = some m := by rw [← hw0]; exact hm
  rw [hm0] at hon ⊢
  dsimp only at hon ⊢
  have hFn := classifyLayers_numHwLayers K E m w0 list
  generalize classifyLayers K E m w0 list = F at hFn hon ⊢
  have hMn := markSkipComposition_numHwLayers K F
  rcases prepareBypassStage_cases K E m F with ⟨w1, list1, he, _⟩ | ⟨hd, _, hs, he⟩
  · rw [he] at hon
    exact absurd hon (bypassReset_bypassState K w1 list1)
  · rw [he]
    have hn := isBypassDoable_true_le K E F.w m _ _ hd
    obtain ⟨s1, s2⟩ := setupBypass_slots K E _ _ hs hn
    have hfld := setupBypass_fields K E _ _ hmask hs hn
    have hSn := numHwLayers_of_map_unflagged (setupBypass_unflagged K E
      (isBypassDoable K E F.w m F.w.ctx.yuvBufferCount (markSkipComposition K F)).2
      (markSkipComposition K F))
    generalize setupBypass K E
      (isBypassDoable K E F.w m F.w.ctx.yuvBufferCount (markSkipComposition K F)).2
      (markSkipComposition K F) = S at hs s1 s2 hfld hSn ⊢
    have hn2 : S.2.2.numHwLayers ≤ MAX_BYPASS_LAYERS := by rw [hSn]; exact hn
    have hidx : ∀ t, t < S.2.2.numHwLayers → S.2.1.ctx.layerindex.get t = (t : Int) :=
      fun t ht => s2 t (by rw [← hSn]; exact ht)
    obtain ⟨f1, f2⟩ := setBypassLayerFlags_all K S.2.1 S.2.2 hB hn2 hidx
    have f3 := setBypassLayerFlags_fields K S.2.1 S.2.2 hdisj hn2 hidx
    have f4 := setBypassLayerFlags_skip K S.2.1 S.2.2 hS
    have hnum : (setBypassLayerFlags K S.2.1 S.2.2).numHwLayers = list.numHwLayers := by
      rw [f1, hSn, hMn, hFn]
    have hpipes : S.2.1.ctx.nPipesUsed = list.numHwLayers := by rw [s1, hMn, hFn]
    refine ⟨_, rfl, hnum, hpipes, fun i l hl => ?_, ?_, ?_⟩
    · have hi : i < (setBypassLayerFlags K S.2.1 S.2.2).numHwLayers :=
        getElem?_lt_numHwLayers _ i l hl
      have hi2 : i < (markSkipComposition K F).numHwLayers := by
        rw [f1, hSn] at hi
        exact hi
      obtain ⟨l0, q1, q2⟩ := hfld i hi2
      obtain ⟨l', r1, r2, r3⟩ := f3 i l0 q1
      have hll : l' = l := by
        rw [hl] at r1
        cases r1
        rfl
      subst hll
      have hb := f2 l' (List.getElem?_mem hl)
      refine ⟨hb, r3, ?_, s2 i hi2⟩
      apply getLayerbypassIndex_of_field K l' i hb _ (by omega)
      rw [r2]
      exact q2
    · show hasBits (setBypassLayerFlags K S.2.1 S.2.2).flags K.HWC_SKIP_COMPOSITION
        = decide ((setBypassLayerFlags K S.2.1 S.2.2).numHwLayers ≤ S.2.1.ctx.nPipesUsed)
      rw [f4, f1]
    · show hasBits (setBypassLayerFlags K S.2.1 S.2.2).flags K.HWC_SKIP_COMPOSITION = true
      rw [f4, hpipes, hSn, hMn, hFn]
      simp

/-- Witness of `hwc_prepare_bypass_on`: two UI layers on a closed overlay. -/
theorem hwc_prepare_bypass_on_witness :
    ∃ list', (hwc_prepare refHdr okEnv freshWorld
        (some { flags := 0, hwLayers := [mkLayer 7 0, mkLayer 8 0] })).2.2 = some list'
      ∧ list'.numHwLayers = 2
      ∧ (hwc_prepare refHdr okEnv freshWorld
          (some { flags := 0, hwLayers := [mkLayer 7 0, mkLayer 8 0] })).2.1.ctx.nPipesUsed = 2
      ∧ hasBits list'.flags refHdr.HWC_SKIP_COMPOSITION = true := by
  obtain ⟨list', h1, h2, h3, _, _, h6⟩ := hwc_prepare_bypass_on refHdr okEnv freshWorld refModule
    { flags := 0, hwLayers := [mkLayer 7 0, mkLayer 8 0] }
    (by decide) (by decide) (by decide) (by decide) rfl (by decide)
  exact ⟨list', h1, h2, h3, h6⟩

/-! ## The calls of a frame -/

theorem since_of_eq {w w' : World} (l : List Event) (h : w'.trace = w.trace ++ l) :
    w.since w' = l := by
  unfold World.since
  rw [h]
  simp

theorem noSwapSince_of_eq {w w' : World} (l : List Event) (h : w'.trace = w.trace ++ l)
    (hl : ∀ e ∈ l, isSwapEvent e = false) : w.noSwapSince w' := by
  unfold World.noSwapSince
  rw [since_of_eq l h]
  exact ⟨h, hl⟩

theorem noSwapSince_refl (w : World) : w.noSwapSince w :=
  noSwapSince_of_eq [] (by simp) (by simp)

theorem since_trans {w1 w2 w3 : World} (h1 : w1.noSwapSince w2) (h2 : w2.noSwapSince w3) :
    w1.since w3 = w1.since w2 ++ w2.since w3 :=
  since_of_eq _ (by rw [h2.1, h1.1, List.append_assoc])

theorem noSwapSince_trans {w1 w2 w3 : World} (h1 : w1.noSwapSince w2)
    (h2 : w2.noSwapSince w3) : w1.noSwapSince w3 :=
  noSwapSince_of_eq (w1.since w2 ++ w2.since w3)
    (by rw [h2.1, h1.1, List.append_assoc])
    (by
      intro e he
      rcases List.mem_append.mp he with h | h
      · exact h1.2 e h
      · exact h2.2 e h)

/-- A call logged since `w1` stays logged since `w1` when more calls follow. -/
theorem mem_since_trans {w1 w2 w3 : World} (e : Event) (h1 : w1.noSwapSince w2)
    (h2 : w2.noSwapSince w3) (he : e ∈ w1.since w2) : e ∈ w1.since w3 := by
  rw [since_trans h1 h2]
  exact List.mem_append_left _ he

theorem mem_since_later {w1 w2 w3 : World} (e : Event) (h1 : w1.noSwapSince w2)
    (h2 : w2.noSwapSince w3) (he : e ∈ w2.since w3) : e ∈ w1.since w3 := by
  rw [since_trans h1 h2]
  exact List.mem_append_right _ he

theorem drawLayerUsingOverlay_since (K : Hdr) (E : Env) (w : World) (layer : hwc_layer_t) :
    w.noSwapSince (drawLayerUsingOverlay K E w layer).2
    ∧ (∀ m, w.module = some m →
        Event.genlock_lock layer.handle (E.genlock_lock_buffer w.tick)
          ∈ w.since (drawLayerUsingOverlay K E w layer).2) := by
  unfold drawLayerUsingOverlay overlayQueue genlock_lock_buffer genlock_unlock_buffer
    ov_queueBuffer ovCall
  dsimp only
  split
  · rename_i hnone
    exact ⟨noSwapSince_refl w, fun m hm => by rw [hnone] at hm; cases hm⟩
  · split_ifs
    all_goals simp [World.noSwapSince, World.since, isSwapEvent]

theorem markForSleep_since (w : World) :
    w.noSwapSince (markForSleep w) ∧ (markForSleep w).tick = w.tick
    ∧ (markForSleep w).ctx = w.ctx := by
  unfold markForSleep
  split_ifs
  all_goals simp [World.noSwapSince, World.since, isSwapEvent]

theorem drawLayerUsingBypassQueue_since (E : Env) (w : World) (index hnd : Nat) :
    w.noSwapSince (drawLayerUsingBypassQueue E w index hnd).2 := by
  unfold drawLayerUsingBypassQueue World.setLockState genlock_unlock_buffer ov_queueBuffer
  dsimp only
  split_ifs
  all_goals simp [World.noSwapSince, World.since, isSwapEvent]

theorem drawLayerUsingBypass_since (K : Hdr) (E : Env) (w : World) (layer : hwc_layer_t) :
    w.noSwapSince (drawLayerUsingBypass K E w layer).2
    ∧ (0 ≤ getLayerbypassIndex K layer → layer.handle ≠ 0 → w.ctx.swapInterval > 0 →
        Event.genlock_lock layer.handle (E.genlock_lock_buffer w.tick)
          ∈ w.since (drawLayerUsingBypass K E w layer).2) := by
  unfold drawLayerUsingBypass
  dsimp only
  split_ifs with h1 h2 h3 h4
  · exact ⟨noSwapSince_refl w, fun h _ _ => by omega⟩
  · exact ⟨noSwapSince_refl w, fun _ h _ => absurd h2 h⟩
  · simp [World.noSwapSince, World.since, isSwapEvent, genlock_lock_buffer,
      World.setLockState]
  · have hlock : w.noSwapSince
        ((genlock_lock_buffer E (w.setLockState (getLayerbypassIndex K layer).toNat
            BypassBufferLockState.BYPASS_BUFFER_UNLOCKED) layer.handle).2.setLockState
          (getLayerbypassIndex K layer).toNat BypassBufferLockState.BYPASS_BUFFER_LOCKED)
        ∧ Event.genlock_lock layer.handle (E.genlock_lock_buffer w.tick)
          ∈ w.since ((genlock_lock_buffer E (w.setLockState (getLayerbypassIndex K layer).toNat
            BypassBufferLockState.BYPASS_BUFFER_UNLOCKED) layer.handle).2.setLockState
          (getLayerbypassIndex K layer).toNat BypassBufferLockState.BYPASS_BUFFER_LOCKED) := by
      simp [World.noSwapSince, World.since, isSwapEvent, genlock_lock_buffer,
        World.setLockState]
    have hq := drawLayerUsingBypassQueue_since E
      ((genlock_lock_buffer E (w.setLockState (getLayerbypassIndex K layer).toNat
            BypassBufferLockState.BYPASS_BUFFER_UNLOCKED) layer.handle).2.setLockState
          (getLayerbypassIndex K layer).toNat BypassBufferLockState.BYPASS_BUFFER_LOCKED)
      (getLayerbypassIndex K layer).toNat layer.handle
    exact ⟨noSwapSince_trans hlock.1 hq, fun _ _ _ => mem_since_trans _ hlock.1 hq hlock.2⟩
  · have hs : w.noSwapSince (w.setLockState (getLayerbypassIndex K layer).toNat
        BypassBufferLockState.BYPASS_BUFFER_UNLOCKED) := noSwapSince_of_eq [] (by simp [World.setLockState]) (by simp)
    refine ⟨noSwapSince_trans hs (drawLayerUsingBypassQueue_since E _ _ _), fun _ _ h => ?_⟩
    exact absurd h h3

theorem drawLayerUsingCopybit_since (K : Hdr) (E : Env) (w : World) (layer : hwc_layer_t) :
    w.noSwapSince (drawLayerUsingCopybit K E w layer).2.1
    ∧ (∀ m, w.module = some m → layer.handle ≠ 0 →
        Event.genlock_lock layer.handle (E.genlock_lock_buffer w.tick)
          ∈ w.since (drawLayerUsingCopybit K E w layer).2.1) := by
  unfold drawLayerUsingCopybit
  split
  · rename_i hnone
    exact ⟨noSwapSince_refl w, fun m hm => by rw [hnone] at hm; cases hm⟩
  · dsimp only
    split_ifs with h1 h2
    · exact ⟨noSwapSince_refl w, fun _ _ hh => absurd h1 hh⟩
    · simp [World.noSwapSince, World.since, isSwapEvent, genlock_lock_buffer]
    · split
      · simp [World.noSwapSince, World.since, isSwapEvent, genlock_lock_buffer,
          genlock_unlock_buffer]
      · split_ifs
        · simp [World.noSwapSince, World.since, isSwapEvent, genlock_lock_buffer,
            genlock_unlock_buffer]
        · unfold copybitBlit copybitStretch
          dsimp only
          split_ifs
          all_goals simp [World.noSwapSince, World.since, isSwapEvent, genlock_lock_buffer,
            genlock_unlock_buffer]

/-- One step of the loop of `hwc_set`: no `eglSwapBuffers`, and a lock attempt on the
buffer of the layer when the layer is one that takes a lock. -/
theorem drawLayer_since (K : Hdr) (E : Env) (f : World × hwc_layer_list_t) (i : Nat) :
    f.1.noSwapSince (drawLayer K E f i).1
    ∧ (∀ (m : private_hwc_module_t) (layer : hwc_layer_t), f.1.module = some m →
        f.2.hwLayers[i]? = some layer →
        drawLocksBuffer K f.2 f.1.ctx.swapInterval layer = true →
        ∃ r, Event.genlock_lock layer.handle r ∈ f.1.since (drawLayer K E f i).1) := by
  unfold drawLayer
  split
  · rename_i hnone
    exact ⟨noSwapSince_refl _, fun m layer _ hl => by rw [hnone] at hl; cases hl⟩
  · rename_i layer0 hsome
    split_ifs with h1 h2 h3 h4 h5
    · refine ⟨noSwapSince_refl _, fun m layer _ hl hd => ?_⟩
      rw [hsome] at hl
      cases hl
      exfalso
      simp [drawLocksBuffer, drawsWithOverlay, drawsWithBypass, h1] at hd
    · obtain ⟨s1, s2, s3⟩ := markForSleep_since f.1
      obtain ⟨b1, b2⟩ := drawLayerUsingBypass_since K E (markForSleep f.1) layer0
      refine ⟨noSwapSince_trans s1 b1, fun m layer _ hl hd => ?_⟩
      rw [hsome] at hl
      cases hl
      simp only [drawLocksBuffer, drawsWithOverlay, drawsWithBypass, h1, h2, Bool.not_true,
        Bool.not_false, Bool.true_and, Bool.false_and, Bool.and_false, Bool.false_or,
        Bool.or_false, Bool.and_eq_true, decide_eq_true_eq, Bool.and_true] at hd
      refine ⟨_, mem_since_later _ s1 b1 (b2 hd.1.1 hd.1.2 ?_)⟩
      rw [s3]
      exact hd.2
    · obtain ⟨o1, o2⟩ := drawLayerUsingOverlay_since K E f.1 layer0
      refine ⟨o1, fun m layer hm hl _ => ?_⟩
      rw [hsome] at hl
      cases hl
      exact ⟨_, o2 m hm⟩
    · refine ⟨noSwapSince_refl _, fun m layer _ hl hd => ?_⟩
      rw [hsome] at hl
      cases hl
      exfalso
      simp [drawLocksBuffer, drawsWithOverlay, drawsWithBypass, h1, h2, h3, h4] at hd
    · obtain ⟨c1, c2⟩ := drawLayerUsingCopybit_since K E f.1 layer0
      refine ⟨c1, fun m layer hm hl hd => ?_⟩
      rw [hsome] at hl
      cases hl
      refine ⟨_, c2 m hm ?_⟩
      intro hz
      simp [drawLocksBuffer, drawsWithOverlay, drawsWithBypass, h2, h3, hz] at hd
    · refine ⟨noSwapSince_refl _, fun m layer _ hl hd => ?_⟩
      rw [hsome] at hl
      cases hl
      exfalso
      simp [drawLocksBuffer, drawsWithOverlay, drawsWithBypass, h1, h2, h3, h4, h5] at hd

theorem drawLocksBuffer_congr (K : Hdr) {list list' : hwc_layer_list_t} {sw sw' : Int}
    {l l' : hwc_layer_t} (hf : list'.flags = list.flags) (hs : sw' = sw)
    (h : l'.untransformed = l.untransformed) :
    drawLocksBuffer K list' sw' l' = drawLocksBuffer K list sw l := by
  unfold drawLocksBuffer
  rw [drawsWithOverlay_congr K h, drawsWithBypass_congr K h, getLayerbypassIndex_congr K h,
    untransformed_flags h, untransformed_handle h, untransformed_compositionType h, hf, hs]

/-- The loop of `hwc_set` over the layers: no `eglSwapBuffers`, and a lock attempt on the
buffer of every layer that takes a lock, whatever the calls before it returned. -/
theorem drawLoop_since (K : Hdr) (E : Env) (n : Nat) (f : World × hwc_layer_list_t) :
    f.1.noSwapSince ((List.range n).foldl (drawLayer K E) f).1
    ∧ (∀ (m : private_hwc_module_t) (i : Nat) (layer : hwc_layer_t), f.1.module = some m →
        i < n → f.2.hwLayers[i]? = some layer →
        drawLocksBuffer K f.2 f.1.ctx.swapInterval layer = true →
        ∃ r, Event.genlock_lock layer.handle r
          ∈ f.1.since ((List.range n).foldl (drawLayer K E) f).1) := by
  have inv := foldl_range_inv (drawLayer K E)
    (fun k (s : World × hwc_layer_list_t) =>
      s.1.module = f.1.module
      ∧ s.1.ctx.drawFixed = f.1.ctx.drawFixed
      ∧ s.2.flags = f.2.flags
      ∧ s.2.hwLayers.map hwc_layer_t.untransformed = f.2.hwLayers.map hwc_layer_t.untransformed
      ∧ f.1.noSwapSince s.1
      ∧ (∀ (m : private_hwc_module_t) (i : Nat) (layer : hwc_layer_t), f.1.module = some m →
          i < k → f.2.hwLayers[i]? = some layer →
          drawLocksBuffer K f.2 f.1.ctx.swapInterval layer = true →
          ∃ r, Event.genlock_lock layer.handle r ∈ f.1.since s.1))
    n f ⟨rfl, rfl, rfl, rfl, noSwapSince_refl _,
      fun m i layer _ hi => absurd hi (Nat.not_lt_zero i)⟩ ?_
  · exact ⟨inv.2.2.2.2.1, inv.2.2.2.2.2⟩
  · intro k s _ ⟨a, b, c, d, e, g⟩
    obtain ⟨n1, n2⟩ := drawLayer_since K E s k
    refine ⟨(drawLayer_frame K E s k).1.trans a, (drawLayer_frame K E s k).2.1.trans b,
      (drawLayer_frame K E s k).2.2.1.trans c, (drawLayer_frame K E s k).2.2.2.trans d,
      noSwapSince_trans e n1, fun m i layer hm hik hl hd => ?_⟩
    rcases Nat.lt_or_ge i k with hlt | hge
    · obtain ⟨r, hr⟩ := g m i layer hm hlt hl hd
      exact ⟨r, mem_since_trans _ e n1 hr⟩
    · have hk : i = k := by omega
      subst hk
      obtain ⟨x', hx', hxu⟩ := getElem?_untransformed_of_map d i layer hl
      obtain ⟨r, hr⟩ := n2 m x' (a.trans hm) hx' (by
        rw [drawLocksBuffer_congr K c (drawFixed_swapInterval b) hxu]
        exact hd)
      rw [untransformed_handle hxu] at hr
      exact ⟨r, mem_since_later _ e n1 hr⟩

theorem unlockPreviousBypassBuffers_since (K : Hdr) (E : Env) (w : World) :
    w.noSwapSince (unlockPreviousBypassBuffers K E w) := by
  obtain ⟨_, ⟨l, h1, h2⟩, _⟩ := unlockPreviousBypassBuffers_run K E w
  refine noSwapSince_of_eq l h1 (fun e he => ?_)
  obtain ⟨i, _, _, r, hr⟩ := h2 e he
  rw [hr]
  rfl

theorem storeLockedBypassHandle_trace (K : Hdr) (E : Env) (list : Option hwc_layer_list_t)
    (w : World) : (storeLockedBypassHandle K E list w).trace = w.trace := by
  unfold storeLockedBypassHandle
  split
  · rfl
  · rename_i l
    refine foldl_inv (storeLockedBypassHandle1 K E l) (fun s => s.trace = w.trace)
      (fun s j h => ?_) _ w rfl
    rw [← h]
    unfold storeLockedBypassHandle1
    dsimp only
    split_ifs <;> rfl

theorem setBypassStored_since (K : Hdr) (E : Env) (w : World)
    (list : Option hwc_layer_list_t) : w.noSwapSince (setBypassStored K E w list) := by
  refine noSwapSince_trans (unlockPreviousBypassBuffers_since K E w)
    (noSwapSince_of_eq [] ?_ (by simp))
  unfold setBypassStored unsetBypassBufferLockState
  rw [modCtx_trace, storeLockedBypassHandle_trace]
  simp

theorem closeExtraPipe_since (K : Hdr) (E : Env) (w : World) (i : Nat) :
    w.noSwapSince (closeExtraPipe K E w i) := by
  unfold closeExtraPipe validate genlock_unlock_buffer
  dsimp only
  split_ifs
  all_goals simp [World.noSwapSince, World.since, isSwapEvent]

theorem closeExtraPipes_since (K : Hdr) (E : Env) (w : World) :
    w.noSwapSince (closeExtraPipes K E w) := by
  unfold closeExtraPipes
  exact foldl_inv (closeExtraPipe K E) (fun s => w.noSwapSince s)
    (fun s i h => noSwapSince_trans h (closeExtraPipe_since K E s i)) _ w (noSwapSince_refl w)

theorem setHDMIStage_since (K : Hdr) (w : World) : w.noSwapSince (setHDMIStage K w) := by
  unfold setHDMIStage handleHDMIStateChange
  dsimp only
  repeat' split
  all_goals simp [World.noSwapSince, World.since, isSwapEvent]

theorem hwc_closeOverlayChannels_since (K : Hdr) (w : World) :
    w.noSwapSince (hwc_closeOverlayChannels K w) := by
  unfold hwc_closeOverlayChannels setVideoOverlayStatusInGralloc setOverlayState ovMgr_setState
  dsimp only
  repeat' split
  all_goals simp [World.noSwapSince, World.since, isSwapEvent]

theorem unlockPreviousOverlayBuffer_since (K : Hdr) (E : Env) (w : World) :
    w.noSwapSince (unlockPreviousOverlayBuffer K E w) := by
  unfold unlockPreviousOverlayBuffer validate genlock_unlock_buffer
  dsimp only
  repeat' split
  all_goals simp [World.noSwapSince, World.since, isSwapEvent]

theorem setDrawStage_since (K : Hdr) (E : Env) (w : World) (list : Option hwc_layer_list_t) :
    w.noSwapSince (setDrawStage K E w list).1
    ∧ listCanSkip K (setDrawStage K E w list).2 = listCanSkip K list
    ∧ (∀ (m : private_hwc_module_t) (list0 : hwc_layer_list_t) (i : Nat) (layer : hwc_layer_t),
        w.module = some m → list = some list0 → list0.hwLayers[i]? = some layer →
        drawLocksBuffer K list0 w.ctx.swapInterval layer = true →
        ∃ r, Event.genlock_lock layer.handle r ∈ w.since (setDrawStage K E w list).1) := by
  unfold setDrawStage
  split
  · rename_i l
    obtain ⟨a, b⟩ := drawLoop_since K E l.numHwLayers (w, l)
    refine ⟨a, ?_, fun m list0 i layer hm hl hi hd => ?_⟩
    · unfold listCanSkip
      dsimp only
      rw [(drawLoop_frame K E l.numHwLayers (w, l)).2.2.1]
    · cases hl
      exact b m i layer hm (getElem?_lt_numHwLayers _ i layer hi) hi hd
  · refine ⟨?_, rfl, fun m list0 i layer _ hl => by cases hl⟩
    dsimp only
    split_ifs
    all_goals simp [World.noSwapSince, World.since, isSwapEvent]

/-- The calls logged over three stretches: before the swap, the swap, after the swap. -/
theorem since_three {A B C D : World} (sl : List Event) (hAB : A.noSwapSince B)
    (hC : C.trace = B.trace ++ sl) (hCD : C.noSwapSince D) :
    A.since D = A.since B ++ (sl ++ C.since D) :=
  since_of_eq _ (by rw [hCD.1, hC, hAB.1, List.append_assoc, List.append_assoc])

theorem swap_mem_iff {A B C D : World} (sl : List Event) (hAB : A.noSwapSince B)
    (hC : C.trace = B.trace ++ sl) (hCD : C.noSwapSince D) (r : Bool) :
    Event.eglSwapBuffers r ∈ A.since D ↔ Event.eglSwapBuffers r ∈ sl := by
  rw [since_three sl hAB hC hCD]
  simp only [List.mem_append]
  constructor
  · rintro (h | h | h)
    · have := hAB.2 _ h
      cases this
    · exact h
    · have := hCD.2 _ h
      cases this
  · intro h
    exact Or.inr (Or.inl h)

theorem noFaultSince_of_eq {w w' : World} (l : List Event) (h : w'.trace = w.trace ++ l)
    (hmod : w'.module = w.module) (hl : Event.nullDereference ∉ l) : w.noFaultSince w' := by
  unfold World.noFaultSince
  rw [since_of_eq l h]
  exact ⟨h, hmod, hl⟩

theorem noFaultSince_refl (w : World) : w.noFaultSince w :=
  noFaultSince_of_eq [] (by simp) rfl (by simp)

theorem noFaultSince_trans {w1 w2 w3 : World} (h1 : w1.noFaultSince w2)
    (h2 : w2.noFaultSince w3) : w1.noFaultSince w3 :=
  noFaultSince_of_eq (w1.since w2 ++ w2.since w3)
    (by rw [h2.1, h1.1, List.append_assoc])
    (h2.2.1.trans h1.2.1)
    (by
      intro he
      rcases List.mem_append.mp he with h | h
      · exact h1.2.2 h
      · exact h2.2.2 h)

theorem drawLayerUsingOverlay_noFault (K : Hdr) (E : Env) (w : World) (layer : hwc_layer_t) :
    w.noFaultSince (drawLayerUsingOverlay K E w layer).2 := by
  unfold drawLayerUsingOverlay overlayQueue genlock_lock_buffer genlock_unlock_buffer
    ov_queueBuffer ovCall
  dsimp only
  split
  · exact noFaultSince_refl w
  · split_ifs
    all_goals simp [World.noFaultSince, World.since]

theorem markForSleep_noFault (w : World) : w.noFaultSince (markForSleep w) := by
  unfold markForSleep
  split_ifs
  all_goals simp [World.noFaultSince, World.since]

theorem drawLayerUsingBypassQueue_noFault (E : Env) (w : World) (index hnd : Nat) :
    w.noFaultSince (drawLayerUsingBypassQueue E w index hnd).2 := by
  unfold drawLayerUsingBypassQueue World.setLockState genlock_unlock_buffer ov_queueBuffer
  dsimp only
  split_ifs
  all_goals simp [World.noFaultSince, World.since]

theorem drawLayerUsingBypass_noFault (K : Hdr) (E : Env) (w : World) (layer : hwc_layer_t) :
    w.noFaultSince (drawLayerUsingBypass K E w layer).2 := by
  unfold drawLayerUsingBypass
  dsimp only
  split_ifs with h1 h2 h3 h4
  · exact noFaultSince_refl w
  · exact noFaultSince_refl w
  · simp [World.noFaultSince, World.since, genlock_lock_buffer, World.setLockState]
  · have hlock : w.noFaultSince
        ((genlock_lock_buffer E (w.setLockState (getLayerbypassIndex K layer).toNat
            BypassBufferLockState.BYPASS_BUFFER_UNLOCKED) layer.handle).2.setLockState
          (getLayerbypassIndex K layer).toNat BypassBufferLockState.BYPASS_BUFFER_LOCKED) := by
      simp [World.noFaultSince, World.since, genlock_lock_buffer, World.setLockState]
    exact noFaultSince_trans hlock (drawLayerUsingBypassQueue_noFault E _ _ _)
  · have hs : w.noFaultSince (w.setLockState (getLayerbypassIndex K layer).toNat
        BypassBufferLockState.BYPASS_BUFFER_UNLOCKED) :=
      noFaultSince_of_eq [] (by simp [World.setLockState]) rfl (by simp)
    exact noFaultSince_trans hs (drawLayerUsingBypassQueue_noFault E _ _ _)

/-- On a module with a copybit engine the blit meets no `NULL` pointer. -/
theorem drawLayerUsingCopybit_noFault (K : Hdr) (E : Env) (w : World) (layer : hwc_layer_t)
    (m : private_hwc_module_t) (hm : w.module = some m) (he : m.copybitEngine = true) :
    w.noFaultSince (drawLayerUsingCopybit K E w layer).2.1 := by
  unfold drawLayerUsingCopybit
  rw [hm]
  dsimp only
  split_ifs with h1 h2
  · exact noFaultSince_refl w
  · simp [World.noFaultSince, World.since, genlock_lock_buffer]
  · split
    · simp [World.noFaultSince, World.since, genlock_lock_buffer, genlock_unlock_buffer]
    · split_ifs
      · simp [World.noFaultSince, World.since, genlock_lock_buffer, genlock_unlock_buffer]
      · unfold copybitBlit copybitStretch
        dsimp only
        simp only [he, Bool.not_true, Bool.false_eq_true, if_false]
        split_ifs
        all_goals simp [World.noFaultSince, World.since, genlock_lock_buffer,
          genlock_unlock_buffer]

theorem drawLayer_noFault (K : Hdr) (E : Env) (f : World × hwc_layer_list_t) (i : Nat)
    (m : private_hwc_module_t) (hm : f.1.module = some m) (he : m.copybitEngine = true) :
    f.1.noFaultSince (drawLayer K E f i).1 := by
  unfold drawLayer
  split
  · exact noFaultSince_refl _
  · rename_i layer0 hsome
    split_ifs
    · exact noFaultSince_refl _
    · exact noFaultSince_trans (markForSleep_noFault f.1)
        (drawLayerUsingBypass_noFault K E _ layer0)
    · exact drawLayerUsingOverlay_noFault K E f.1 layer0
    · exact noFaultSince_refl _
    · exact drawLayerUsingCopybit_noFault K E f.1 layer0 m hm he
    · exact noFaultSince_refl _

theorem setDrawStage_noFault (K : Hdr) (E : Env) (w : World) (list : Option hwc_layer_list_t)
    (m : private_hwc_module_t) (hm : w.module = some m) (he : m.copybitEngine = true) :
    w.noFaultSince (setDrawStage K E w list).1 := by
  unfold setDrawStage
  split
  · rename_i l
    exact foldl_inv (drawLayer K E) (fun s => w.noFaultSince s.1)
      (fun s j h => noFaultSince_trans h
        (drawLayer_noFault K E s j m (h.2.1.trans hm) he)) _ (w, l) (noFaultSince_refl w)
  · dsimp only
    split_ifs
    all_goals simp [World.noFaultSince, World.since]

theorem unlockPreviousBypassBuffer_noFault (K : Hdr) (E : Env) (w : World) (i : Nat) :
    w.noFaultSince (unlockPreviousBypassBuffer K E w i) := by
  unfold unlockPreviousBypassBuffer validate genlock_unlock_buffer
  dsimp only
  split_ifs
  all_goals simp [World.noFaultSince, World.since]

theorem storeLockedBypassHandle_module (K : Hdr) (E : Env) (list : Option hwc_layer_list_t)
    (w : World) : (storeLockedBypassHandle K E list w).module = w.module := by
  unfold storeLockedBypassHandle
  split
  · rfl
  · rename_i l
    refine foldl_inv (storeLockedBypassHandle1 K E l) (fun s => s.module = w.module)
      (fun s j h => ?_) _ w rfl
    rw [← h]
    unfold storeLockedBypassHandle1
    dsimp only
    split_ifs <;> rfl

theorem setBypassStored_noFault (K : Hdr) (E : Env) (w : World)
    (list : Option hwc_layer_list_t) : w.noFaultSince (setBypassStored K E w list) := by
  have hrun : unlockPreviousBypassBuffers K E w
      = unlockPreviousBypassBuffer K E
          (unlockPreviousBypassBuffer K E (unlockPreviousBypassBuffer K E w 0) 1) 2 := rfl
  have hu : w.noFaultSince (unlockPreviousBypassBuffers K E w) := by
    rw [hrun]
    exact noFaultSince_trans (noFaultSince_trans (unlockPreviousBypassBuffer_noFault K E w 0)
      (unlockPreviousBypassBuffer_noFault K E _ 1)) (unlockPreviousBypassBuffer_noFault K E _ 2)
  refine noFaultSince_trans hu (noFaultSince_of_eq [] ?_ ?_ (by simp))
  · unfold setBypassStored unsetBypassBufferLockState
    rw [modCtx_trace, storeLockedBypassHandle_trace]
    simp
  · unfold setBypassStored unsetBypassBufferLockState
    rw [modCtx_module, storeLockedBypassHandle_module]

theorem closeExtraPipe_noFault (K : Hdr) (E : Env) (w : World) (i : Nat) :
    w.noFaultSince (closeExtraPipe K E w i) := by
  unfold closeExtraPipe validate genlock_unlock_buffer
  dsimp only
  split_ifs
  all_goals simp [World.noFaultSince, World.since]

theorem closeExtraPipes_noFault (K : Hdr) (E : Env) (w : World) :
    w.noFaultSince (closeExtraPipes K E w) := by
  unfold closeExtraPipes
  exact foldl_inv (closeExtraPipe K E) (fun s => w.noFaultSince s)
    (fun s i h => noFaultSince_trans h (closeExtraPipe_noFault K E s i)) _ w
    (noFaultSince_refl w)

theorem setHDMIStage_noFault (K : Hdr) (w : World) : w.noFaultSince (setHDMIStage K w) := by
  unfold setHDMIStage handleHDMIStateChange
  dsimp only
  repeat' split
  all_goals simp [World.noFaultSince, World.since]

theorem hwc_closeOverlayChannels_noFault (K : Hdr) (w : World) :
    w.noFaultSince (hwc_closeOverlayChannels K w) := by
  unfold hwc_closeOverlayChannels setVideoOverlayStatusInGralloc setOverlayState ovMgr_setState
  dsimp only
  repeat' split
  all_goals simp [World.noFaultSince, World.since]

theorem unlockPreviousOverlayBuffer_noFault (K : Hdr) (E : Env) (w : World) :
    w.noFaultSince (unlockPreviousOverlayBuffer K E w) := by
  unfold unlockPreviousOverlayBuffer validate genlock_unlock_buffer
  dsimp only
  repeat' split
  all_goals simp [World.noFaultSince, World.since]

/-- The swap stage of `hwc_set`: the calls it logs, its status, and when it stops at the
`NULL` framebuffer device. -/
theorem setSwapStage_trace (K : Hdr) (E : Env) (w : World) (dpy sur skip : Bool) :
    (setSwapStage K E w dpy sur skip).2.trace
      = w.trace ++ w.since (setSwapStage K E w dpy sur skip).2
    ∧ (setSwapStage K E w dpy sur skip).2.module = w.module
    ∧ (∀ r, Event.eglSwapBuffers r ∈ w.since (setSwapStage K E w dpy sur skip).2
        ↔ ((dpy && sur && !skip) = true
            ∧ Event.nullDereference ∉ w.since (setSwapStage K E w dpy sur skip).2
            ∧ r = E.eglSwapBuffers w.tick))
    ∧ (setSwapStage K E w dpy sur skip).1
      = (if (dpy && sur && !skip) = true
            ∧ Event.nullDereference ∉ w.since (setSwapStage K E w dpy sur skip).2
            ∧ E.eglSwapBuffers w.tick = false
          then K.HWC_EGL_ERROR else 0)
    ∧ (∀ m, w.module = some m → m.fbDevice ≠ none →
        Event.nullDereference ∉ w.since (setSwapStage K E w dpy sur skip).2) := by
  unfold setSwapStage
  dsimp only
  by_cases hc : (dpy && sur && !skip) = true
  · rw [if_pos hc]
    by_cases hf : (decide (w.ctx.hwcOverlayStatus ≠ eHWCOverlayStatus.HWC_OVERLAY_CLOSED)
        && (match w.module with
            | some hwcModule => hwcModule.fbDevice
            | none => none).isNone) = true
    · rw [if_pos hf]
      refine ⟨by simp [World.since], rfl, fun r => by simp [World.since],
        by simp [World.since], fun m hm hfb => ?_⟩
      exfalso
      rw [hm] at hf
      simp only [Bool.and_eq_true, Option.isNone_iff_eq_none] at hf
      exact hfb hf.2
    · rw [if_neg hf]
      by_cases hw : w.ctx.hwcOverlayStatus = eHWCOverlayStatus.HWC_OVERLAY_CLOSED
      · cases hr : E.eglSwapBuffers w.tick
        · simp [World.since, hc, hw, hr]
        · simp [World.since, hc, hw, hr]
      · cases hr : E.eglSwapBuffers w.tick
        · simp [World.since, hc, hw, hr]
        · simp [World.since, hc, hw, hr]
  · rw [if_neg hc]
    simp [World.since, hc]

/-- A frame of two blit layers on a module without a copybit engine: the buffer of the
first layer is locked and the call stops at the dereference of the engine. -/
theorem hwc_set_null_engine :
    (hwc_set refHdr okEnv
        (hwc_device_open { c2dModule with copybitEngine := false } (uniformHeap 0 1 0) true
          (some 1)) true true
        (some { flags := 0,
                hwLayers := [{ mkLayer 7 0 with compositionType := refHdr.HWC_USE_COPYBIT },
                             { mkLayer 8 0 with compositionType := refHdr.HWC_USE_COPYBIT }]
              })).2.1.trace.take 2
      = [Event.genlock_lock 7 genlock_status_t.GENLOCK_NO_ERROR, Event.nullDereference] := by
  decide

end Hwc
